import Mathlib

/-!
# CalcMySky: precomputation of atmosphere textures

A shallow embedding of `CalcMySky/main.cpp` and of the helpers it uses.
Floating-point numbers are modelled by exact rationals, textures by values of an
additive commutative monoid, and the OpenGL context by an explicit state record
that the translated functions pass along.
-/

namespace CalcMySky

/-! ## Vectors and matrices (glm) -/

/-- A `glm::vec4`: four components indexed `0..3`. -/
abbrev Vec4 := Fin 4 → ℚ

/-- A `glm::mat4`; entry `M i j` is row `i` of column `j`. -/
abbrev Mat4 := Matrix (Fin 4) (Fin 4) ℚ

/-- The lambda `diag` of `radianceToLuminance`: the diagonal matrix with the given diagonal. -/
def diag (x y z w : ℚ) : Mat4 := Matrix.diagonal ![x, y, z, w]

/-- The constructor `mat4(c0, c1, c2, c3)` of glm, which takes the four columns. -/
def mat4OfColumns (c0 c1 c2 c3 : Vec4) : Mat4 := Matrix.of fun i j => (![c0, c1, c2, c3] j) i

/-! ## Atmosphere parameters -/

/-- The enumeration `PhaseFunctionType`. -/
inductive PhaseFunctionType where
  | General
  | Achromatic
  | Smooth
  deriving DecidableEq, Repr

/-- The structure `AtmosphereParameters::Scatterer`. -/
structure Scatterer where
  crossSectionAt1um : ℚ
  angstromExponent : ℚ
  numberDensity : String
  phaseFunction : String
  phaseFunctionType : PhaseFunctionType
  name : String
  deriving DecidableEq

/-- The fields of `AtmosphereParameters` that the translated functions read. -/
structure AtmosphereParameters where
  allWavelengths : List Vec4
  textureOutputDir : String
  scatteringOrdersToCompute : Nat
  earthRadius : ℚ
  atmosphereHeight : ℚ
  lengthOfHorizRayFromGroundToBorderOfAtmo : ℚ
  scatterers : List Scatterer

/-! ## `radianceToLuminance` -/

/-- The local `wlCount` of `radianceToLuminance`: `4*atmo.allWavelengths.size()`, a `size_t`. -/
def wlCount (allWavelengths : List Vec4) : Nat := (4 * allWavelengths.length) % 2 ^ 64

/-- The local `weights` of `radianceToLuminance`: the weights of the trapezoidal quadrature
rule. `texIndex` is an `unsigned`, so `texIndex+1` is computed modulo `2^32`. -/
def weights (allWavelengths : List Vec4) (texIndex : Nat) : Mat4 :=
  if wlCount allWavelengths = 4 then diag (1/2) 1 1 (1/2)
  else if texIndex = 0 then diag (1/2) 1 1 1
  else if (texIndex + 1) % 2 ^ 32 = wlCount allWavelengths / 4 then diag 1 1 1 (1/2)
  else diag 1 1 1 1

/-- The local `dlambda` of `radianceToLuminance`. `back()` and `front()` of an empty list are
undefined in the source; here they read as the zero vector. -/
def dlambda (allWavelengths : List Vec4) (texIndex : Nat) : Mat4 :=
  (((wlCount allWavelengths : ℚ) - 1)⁻¹ *
      |(allWavelengths.getLastD 0) 3 - (allWavelengths.headD 0) 0|) •
    weights allWavelengths texIndex

/-- The local `maxLuminousEfficacy` of `radianceToLuminance`, in lm/W. -/
def maxLuminousEfficacy : Mat4 := diag (683002/1000) (683002/1000) (683002/1000) (170013/100)

/-- The function `radianceToLuminance`. The colour-matching function `wavelengthToXYZW` is
declared in `cie-xyzw-functions.hpp` and is a parameter here. -/
def radianceToLuminance (wavelengthToXYZW : ℚ → Vec4) (allWavelengths : List Vec4)
    (texIndex : Nat) : Mat4 :=
  maxLuminousEfficacy *
    mat4OfColumns (wavelengthToXYZW ((allWavelengths.getD texIndex 0) 0))
                  (wavelengthToXYZW ((allWavelengths.getD texIndex 0) 1))
                  (wavelengthToXYZW ((allWavelengths.getD texIndex 0) 2))
                  (wavelengthToXYZW ((allWavelengths.getD texIndex 0) 3)) *
    dlambda allWavelengths texIndex

/-! ## `unitRangeTexCoordToCosSZA` -/

/-- Modelled from the spec: `sqr` is declared in `util.hpp`, which is not among the sources;
the spec reads `sqr(x)` as the square of `x`. -/
def sqr (x : ℚ) : ℚ := x * x

/-- Modelled from the spec: `clampCosine` is declared in `util.hpp`, which is not among the
sources; the spec says that all cosine results are clamped to `[-1, 1]`. -/
def clampCosine (x : ℚ) : ℚ := if x < -1 then -1 else if 1 < x then 1 else x

/-- The local `distFromGroundToTopAtmoBorder` of `unitRangeTexCoordToCosSZA` in exact
arithmetic, for a geometry and a texture coordinate with which no divisor is zero. The
function on the values of a `float`, with its quotients by zero, is
`Ieee.distFromGroundToTopAtmoBorder`. -/
def distFromGroundToTopAtmoBorder (atmo : AtmosphereParameters) (texCoord : ℚ) : ℚ :=
  let distMin := atmo.atmosphereHeight
  let distMax := atmo.lengthOfHorizRayFromGroundToBorderOfAtmo
  let A := atmo.earthRadius / (distMax - distMin)
  let a := (A - A * texCoord) / (1 + A * texCoord)
  distMin + min a A * (distMax - distMin)

/-- The quotient that `unitRangeTexCoordToCosSZA` passes to `clampCosine`. -/
def cosSZAQuotient (atmo : AtmosphereParameters) (texCoord : ℚ) : ℚ :=
  (sqr atmo.lengthOfHorizRayFromGroundToBorderOfAtmo -
      sqr (distFromGroundToTopAtmoBorder atmo texCoord)) /
    (2 * atmo.earthRadius * distFromGroundToTopAtmoBorder atmo texCoord)

/-- The function `unitRangeTexCoordToCosSZA` in exact arithmetic, for a geometry and a
texture coordinate with which no divisor is zero. The function on the values of a `float`,
with NaN and the infinities, is `Ieee.unitRangeTexCoordToCosSZA`; the two agree when no
divisor is zero (`Ieee.unitRangeTexCoordToCosSZA_exact`). -/
def unitRangeTexCoordToCosSZA (atmo : AtmosphereParameters) (texCoord : ℚ) : ℚ :=
  if distFromGroundToTopAtmoBorder atmo texCoord = 0 then 1
  else clampCosine (cosSZAQuotient atmo texCoord)

/-- The geometry of an atmosphere is well formed when the planet radius and the atmosphere
height are positive and `lengthOfHorizRayFromGroundToBorderOfAtmo` is the length of the
horizontal ray from the ground to the atmosphere border, the non-negative `L` with
`L^2 = H^2 + 2RH`. -/
def GeometryOK (atmo : AtmosphereParameters) : Prop :=
  0 < atmo.earthRadius ∧ 0 < atmo.atmosphereHeight ∧
    0 ≤ atmo.lengthOfHorizRayFromGroundToBorderOfAtmo ∧
    atmo.lengthOfHorizRayFromGroundToBorderOfAtmo ^ 2 =
      atmo.atmosphereHeight ^ 2 + 2 * atmo.earthRadius * atmo.atmosphereHeight

/-! ## The OpenGL context and the globals of `main.cpp` -/

/-- The fixed textures, `textures[TEX_...]`. -/
inductive TextureId where
  | TEX_TRANSMITTANCE
  | TEX_DELTA_IRRADIANCE
  | TEX_IRRADIANCE
  | TEX_DELTA_SCATTERING
  | TEX_DELTA_SCATTERING_DENSITY
  | TEX_MULTIPLE_SCATTERING
  | TEX_ECLIPSED_DOUBLE_SCATTERING
  deriving DecidableEq, Repr

/-- The framebuffer objects, `fbos[FBO_...]`. -/
inductive FboId where
  | FBO_TRANSMITTANCE
  | FBO_IRRADIANCE
  | FBO_DELTA_SCATTERING
  | FBO_SINGLE_SCATTERING
  | FBO_MULTIPLE_SCATTERING
  | FBO_ECLIPSED_DOUBLE_SCATTERING
  deriving DecidableEq, Repr

/-- A texture object: one of the fixed textures, or the texture that the map
`accumulatedSingleScatteringTextures` holds for a scatterer name. -/
inductive Texture where
  | fixed (id : TextureId)
  | accumulated (name : String)
  deriving DecidableEq, Repr

/-- The blend factors that occur: `GL_ONE, GL_ZERO` is the initial blend function of a
context and `GL_ONE, GL_ONE` the only one that the source sets. -/
inductive BlendFactor where
  | GL_ZERO
  | GL_ONE
  deriving DecidableEq, Repr

/-- The command-line options `opts` (declared in `cmdline.hpp`) that `main.cpp` reads. -/
structure Options where
  saveResultAsRadiance : Bool
  dbgNoSaveTextures : Bool
  dbgNoEDSTextures : Bool
  dbgSaveGroundIrradiance : Bool
  dbgSaveScatDensity : Bool
  dbgSaveScatDensityOrder2FromGround : Bool
  dbgSaveAccumScattering : Bool
  dbgSaveDeltaScattering : Bool

/-- The render passes of the precomputation, each named after the function that issues it and
the arguments that select its shader program. -/
inductive Pass where
  | computeTransmittance (texIndex : Nat)
  | computeDirectGroundIrradiance (texIndex : Nat)
  | computeSingleScattering (texIndex : Nat) (scatterer : Scatterer)
  | accumulateSingleScattering (texIndex : Nat) (scatterer : Scatterer)
  | scatteringDensityFromGround (texIndex : Nat)
  | scatteringDensityOrder2 (texIndex : Nat) (scatterer : Scatterer)
  | computeScatteringDensity (scatteringOrder texIndex : Nat)
  | computeIndirectIrradianceOrder1 (texIndex : Nat) (scatterer : Scatterer)
  | computeIndirectIrradiance (scatteringOrder texIndex : Nat)
  | computeMultipleScatteringFromDensity (scatteringOrder texIndex : Nat)
  | accumulateMultipleScattering (scatteringOrder texIndex : Nat)
  | mergeSmoothSingleScatteringTexture (scatterer : Scatterer)
  | computeEclipsedDoubleScattering (texIndex : Nat)
  deriving DecidableEq

/-- What a run leaves behind, in the order in which it happens. A `draw` records the pass, the
texture attached as colour attachment 0 of the bound framebuffer, whether `GL_BLEND` was
enabled for draw buffer 0, and the blend function. -/
inductive Event where
  | genTexture (name : String)
  | framebufferTexture (fbo : Option FboId) (attachment : Nat) (texture : Texture)
  | checkFramebufferStatus (fbo : Option FboId)
  | draw (pass : Pass) (target : Option Texture) (blend : Bool) (src dst : BlendFactor)
  | saveTexture (path : String)
  | writeFile (path : String)
  deriving DecidableEq

/-- The GLSL programs are not translated: what a pass computes is a parameter. The two
programs that copy a texture are functions of the texture they read:
`copy-scattering-texture.frag` with the value of its uniform `radianceToLuminance` (`none`
when the uniform is not set), and `merge-smooth-single-scattering-texture.frag` with the
scatterer whose phase function it applies. -/
structure Shaders (T : Type) where
  compute : Pass → T
  copyScatteringTexture : Option Mat4 → T → T
  mergeSmoothSingleScatteringTexture : Scatterer → T → T
  wavelengthToXYZW : ℚ → Vec4

/-- The state that the translated functions pass along: the part of the OpenGL context that
they use, the contents of the textures, the keys of the global map
`accumulatedSingleScatteringTextures`, the texture files written, and the trace of events. -/
structure State (T : Type) where
  blend0 : Bool
  blend1 : Bool
  blendSrc : BlendFactor
  blendDst : BlendFactor
  framebuffer : Option FboId
  attachment0 : FboId → Option Texture
  attachment1 : FboId → Option Texture
  drawBuffer1 : FboId → Bool
  image : Texture → T
  accumulatedSingleScatteringTextures : List String
  files : List (String × T)
  log : List Event

/-- A fresh context: blending disabled, blend function `GL_ONE, GL_ZERO`, the default
framebuffer bound, nothing attached, and textures with arbitrary contents. -/
def initialState {T : Type} (image : Texture → T) : State T where
  blend0 := false
  blend1 := false
  blendSrc := BlendFactor.GL_ONE
  blendDst := BlendFactor.GL_ZERO
  framebuffer := none
  attachment0 := fun _ => none
  attachment1 := fun _ => none
  drawBuffer1 := fun _ => false
  image := image
  accumulatedSingleScatteringTextures := []
  files := []
  log := []

/-- A colour times a blend factor. -/
def BlendFactor.apply {T : Type} [AddCommMonoid T] (f : BlendFactor) (x : T) : T :=
  match f with
  | BlendFactor.GL_ZERO => 0
  | BlendFactor.GL_ONE => x

/-- The colour that a draw leaves in a texel: the fragment colour when blending is disabled,
and `src * srcFactor + dst * dstFactor` when it is enabled. -/
def blendResult {T : Type} [AddCommMonoid T] (enabled : Bool) (srcFactor dstFactor : BlendFactor)
    (src dst : T) : T :=
  if enabled then srcFactor.apply src + dstFactor.apply dst else src

/-- The call `glBlendFunc(src, dst)`. -/
def glBlendFunc {T : Type} (src dst : BlendFactor) (s : State T) : State T :=
  { s with blendSrc := src, blendDst := dst }

/-- The call `glEnable(GL_BLEND)`: enables blending for all draw buffers. -/
def glEnableBlend {T : Type} (s : State T) : State T :=
  { s with blend0 := true, blend1 := true }

/-- The call `glDisable(GL_BLEND)`: disables blending for all draw buffers. -/
def glDisableBlend {T : Type} (s : State T) : State T :=
  { s with blend0 := false, blend1 := false }

/-- The call `glEnablei(GL_BLEND, i)` for draw buffer `i` (0 or 1). -/
def glEnableiBlend {T : Type} (i : Nat) (s : State T) : State T :=
  if i = 0 then { s with blend0 := true } else { s with blend1 := true }

/-- The call `glDisablei(GL_BLEND, i)` for draw buffer `i` (0 or 1). -/
def glDisableiBlend {T : Type} (i : Nat) (s : State T) : State T :=
  if i = 0 then { s with blend0 := false } else { s with blend1 := false }

/-- The call `glBindFramebuffer(GL_FRAMEBUFFER, fbo)`; `none` is framebuffer 0. -/
def glBindFramebuffer {T : Type} (fbo : Option FboId) (s : State T) : State T :=
  { s with framebuffer := fbo }

/-- The call `glFramebufferTexture(GL_FRAMEBUFFER, GL_COLOR_ATTACHMENTi, texture, 0)`: attaches
the texture to the bound framebuffer object. -/
def glFramebufferTexture {T : Type} (i : Nat) (texture : Texture) (s : State T) : State T :=
  let s' : State T := { s with log := s.log ++ [Event.framebufferTexture s.framebuffer i texture] }
  match s.framebuffer with
  | none => s'
  | some fbo =>
    if i = 0 then { s' with attachment0 := Function.update s.attachment0 fbo (some texture) }
    else { s' with attachment1 := Function.update s.attachment1 fbo (some texture) }

/-- The call `setDrawBuffers({GL_COLOR_ATTACHMENT0, GL_COLOR_ATTACHMENT1})` on the bound
framebuffer object. -/
def setDrawBuffers01 {T : Type} (s : State T) : State T :=
  match s.framebuffer with
  | none => s
  | some fbo => { s with drawBuffer1 := Function.update s.drawBuffer1 fbo true }

/-- The function `checkFramebufferStatus` on a run that goes on: it returns normally when the
framebuffer is complete, and the run ends otherwise. -/
def checkFramebufferStatus {T : Type} (s : State T) : State T :=
  { s with log := s.log ++ [Event.checkFramebufferStatus s.framebuffer] }

/-- The effect of a draw on one colour attachment. -/
def writeAttachment {T : Type} [AddCommMonoid T] (enabled : Bool) (target : Option Texture)
    (out : T) (s : State T) : State T :=
  match target with
  | none => s
  | some t =>
    let colour := blendResult enabled s.blendSrc s.blendDst out (s.image t)
    { s with image := Function.update s.image t colour }

/-- The function `renderQuad` (followed by `glFinish`) with the program of `pass` bound: every
fragment of the draw buffers of the bound framebuffer receives the colour `out`. Draw buffer 0
is colour attachment 0; colour attachment 1 is a draw buffer after `setDrawBuffers01`. -/
def renderQuad {T : Type} [AddCommMonoid T] (pass : Pass) (out : T) (s : State T) : State T :=
  match s.framebuffer with
  | none => { s with log := s.log ++ [Event.draw pass none s.blend0 s.blendSrc s.blendDst] }
  | some fbo =>
    let s1 := writeAttachment s.blend0 (s.attachment0 fbo) out s
    let s2 := if s.drawBuffer1 fbo then writeAttachment s.blend1 (s.attachment1 fbo) out s1
              else s1
    let event := Event.draw pass (s.attachment0 fbo) s.blend0 s.blendSrc s.blendDst
    { s2 with log := s.log ++ [event] }

/-- The function `render3DTexLayers`. It returns at once under `dbgNoSaveTextures`; otherwise
its loop draws every layer of the attached 3D texture once, which for a texture modelled as
one value is one draw. -/
def render3DTexLayers {T : Type} [AddCommMonoid T] (opts : Options) (pass : Pass) (out : T)
    (s : State T) : State T :=
  if opts.dbgNoSaveTextures then s else renderQuad pass out s

/-- The function `saveTexture`: the pixels of the texture go to the file at `path`. -/
def saveTexture {T : Type} (texture : Texture) (path : String) (s : State T) : State T :=
  { s with files := s.files ++ [(path, s.image texture)],
           log := s.log ++ [Event.saveTexture path] }

/-- The calls `glGenTextures` and `setupTexture` of `accumulateSingleScattering`: the map
entry for `name` receives a new texture, whose contents are undefined. -/
def glGenTextures {T : Type} (name : String) (s : State T) : State T :=
  { s with accumulatedSingleScatteringTextures := s.accumulatedSingleScatteringTextures ++ [name],
           log := s.log ++ [Event.genTexture name] }

/-! ## The precomputation pipeline of `main.cpp`

Compiling a shader program, binding it, setting its uniforms and the viewport, and writing
shader sources to files do not touch the state modelled here; these calls are left out. A
run that goes on is modelled: no OpenGL error, no file error. -/

open TextureId FboId BlendFactor

/-- The function `saveIrradiance`. -/
def saveIrradiance {T : Type} (opts : Options) (atmo : AtmosphereParameters)
    (scatteringOrder texIndex : Nat) (s : State T) : State T :=
  let s := if scatteringOrder = atmo.scatteringOrdersToCompute then
      saveTexture (Texture.fixed TEX_IRRADIANCE)
        (atmo.textureOutputDir ++ "/irradiance-wlset" ++ toString texIndex ++ ".f32") s
    else s
  if opts.dbgSaveGroundIrradiance = false then s
  else
    let s := saveTexture (Texture.fixed TEX_DELTA_IRRADIANCE)
      (atmo.textureOutputDir ++ "/irradiance-delta-order" ++ toString (scatteringOrder - 1) ++
        "-wlset" ++ toString texIndex ++ ".f32") s
    saveTexture (Texture.fixed TEX_IRRADIANCE)
      (atmo.textureOutputDir ++ "/irradiance-accum-order" ++ toString (scatteringOrder - 1) ++
        "-wlset" ++ toString texIndex ++ ".f32") s

/-- The function `saveScatteringDensity`. -/
def saveScatteringDensity {T : Type} (opts : Options) (atmo : AtmosphereParameters)
    (scatteringOrder texIndex : Nat) (s : State T) : State T :=
  if opts.dbgSaveScatDensity = false then s
  else saveTexture (Texture.fixed TEX_DELTA_SCATTERING_DENSITY)
    (atmo.textureOutputDir ++ "/scattering-density" ++ toString scatteringOrder ++ "-wlset" ++
      toString texIndex ++ ".f32") s

/-- The function `computeTransmittance`. -/
def computeTransmittance {T : Type} [AddCommMonoid T] (sh : Shaders T)
    (atmo : AtmosphereParameters) (texIndex : Nat) (s : State T) : State T :=
  let s := glBindFramebuffer (some FBO_TRANSMITTANCE) s
  let s := glFramebufferTexture 0 (Texture.fixed TEX_TRANSMITTANCE) s
  let s := checkFramebufferStatus s
  let s := renderQuad (Pass.computeTransmittance texIndex)
    (sh.compute (Pass.computeTransmittance texIndex)) s
  let s := saveTexture (Texture.fixed TEX_TRANSMITTANCE)
    (atmo.textureOutputDir ++ "/transmittance-wlset" ++ toString texIndex ++ ".f32") s
  glBindFramebuffer none s

/-- The function `computeDirectGroundIrradiance`. -/
def computeDirectGroundIrradiance {T : Type} [AddCommMonoid T] (sh : Shaders T) (opts : Options)
    (atmo : AtmosphereParameters) (texIndex : Nat) (s : State T) : State T :=
  let s := glBindFramebuffer (some FBO_IRRADIANCE) s
  let s := glFramebufferTexture 0 (Texture.fixed TEX_DELTA_IRRADIANCE) s
  let s := glFramebufferTexture 1 (Texture.fixed TEX_IRRADIANCE) s
  let s := checkFramebufferStatus s
  let s := setDrawBuffers01 s
  let s := renderQuad (Pass.computeDirectGroundIrradiance texIndex)
    (sh.compute (Pass.computeDirectGroundIrradiance texIndex)) s
  let s := saveIrradiance opts atmo 1 texIndex s
  glBindFramebuffer none s

/-- The function `accumulateSingleScattering`. `texIndex` is an `unsigned`, so `texIndex+1` is
computed modulo `2^32`. -/
def accumulateSingleScattering {T : Type} [AddCommMonoid T] (sh : Shaders T) (opts : Options)
    (atmo : AtmosphereParameters) (texIndex : Nat) (scatterer : Scatterer) (s : State T) :
    State T :=
  let s := glBlendFunc GL_ONE GL_ONE s
  let s := glEnableBlend s
  let targetTexture := Texture.accumulated scatterer.name
  let s := if scatterer.name ∈ s.accumulatedSingleScatteringTextures then s
    else glDisableBlend (glGenTextures scatterer.name s)
  let s := glBindFramebuffer (some FBO_SINGLE_SCATTERING) s
  let s := glFramebufferTexture 0 targetTexture s
  let s := checkFramebufferStatus s
  let s := render3DTexLayers opts (Pass.accumulateSingleScattering texIndex scatterer)
    (sh.copyScatteringTexture
      (some (radianceToLuminance sh.wavelengthToXYZW atmo.allWavelengths texIndex))
      (s.image (Texture.fixed TEX_DELTA_SCATTERING))) s
  let s := glDisableBlend s
  let s := glBindFramebuffer none s
  if (texIndex + 1) % 2 ^ 32 = atmo.allWavelengths.length ∧
      scatterer.phaseFunctionType ≠ PhaseFunctionType.Smooth then
    saveTexture targetTexture
      (atmo.textureOutputDir ++ "/single-scattering/" ++ scatterer.name ++ "-xyzw.f32") s
  else s

/-- The function `computeSingleScattering`. -/
def computeSingleScattering {T : Type} [AddCommMonoid T] (sh : Shaders T) (opts : Options)
    (atmo : AtmosphereParameters) (texIndex : Nat) (scatterer : Scatterer) (s : State T) :
    State T :=
  let s := glBindFramebuffer (some FBO_DELTA_SCATTERING) s
  let s := glFramebufferTexture 0 (Texture.fixed TEX_DELTA_SCATTERING) s
  let s := checkFramebufferStatus s
  let s := render3DTexLayers opts (Pass.computeSingleScattering texIndex scatterer)
    (sh.compute (Pass.computeSingleScattering texIndex scatterer)) s
  let s := glBindFramebuffer none s
  match scatterer.phaseFunctionType with
  | PhaseFunctionType.General =>
    saveTexture (Texture.fixed TEX_DELTA_SCATTERING)
      (atmo.textureOutputDir ++ "/single-scattering/" ++ toString texIndex ++ "/" ++
        scatterer.name ++ ".f32") s
  | PhaseFunctionType.Achromatic => accumulateSingleScattering sh opts atmo texIndex scatterer s
  | PhaseFunctionType.Smooth => accumulateSingleScattering sh opts atmo texIndex scatterer s

/-- The function `computeIndirectIrradianceOrder1`. Reading `atmo.scatterers[scattererIndex]`
past the end is undefined in the source; here the function then stops. -/
def computeIndirectIrradianceOrder1 {T : Type} [AddCommMonoid T] (sh : Shaders T)
    (opts : Options) (atmo : AtmosphereParameters) (texIndex scattererIndex : Nat)
    (s : State T) : State T :=
  let s := glBindFramebuffer (some FBO_IRRADIANCE) s
  let s := glBlendFunc GL_ONE GL_ONE s
  let s := if scattererIndex = 0 then glDisableiBlend 0 s else glEnableiBlend 0 s
  let s := glEnableiBlend 1 s
  match atmo.scatterers[scattererIndex]? with
  | none => s
  | some scatterer =>
    let s := renderQuad (Pass.computeIndirectIrradianceOrder1 texIndex scatterer)
      (sh.compute (Pass.computeIndirectIrradianceOrder1 texIndex scatterer)) s
    let s := glDisableBlend s
    let s := saveIrradiance opts atmo 2 texIndex s
    glBindFramebuffer none s

/-- The body of the loop over the scatterers in `computeScatteringDensityOrder2`. -/
def order2Scatterer {T : Type} [AddCommMonoid T] (sh : Shaders T) (opts : Options)
    (atmo : AtmosphereParameters) (texIndex : Nat) (s : State T) (scattererIndex : Nat) :
    State T :=
  match atmo.scatterers[scattererIndex]? with
  | none => s
  | some scatterer =>
    let s := computeSingleScattering sh opts atmo texIndex scatterer s
    let s := glBindFramebuffer (some FBO_MULTIPLE_SCATTERING) s
    let s := glEnableBlend s
    let s := render3DTexLayers opts (Pass.scatteringDensityOrder2 texIndex scatterer)
      (sh.compute (Pass.scatteringDensityOrder2 texIndex scatterer)) s
    computeIndirectIrradianceOrder1 sh opts atmo texIndex scattererIndex s

/-- The part of `computeScatteringDensityOrder2` before its loop over the scatterers: the
scattering density of the radiation from the ground. -/
def order2FromGround {T : Type} [AddCommMonoid T] (sh : Shaders T)
    (opts : Options) (atmo : AtmosphereParameters) (texIndex : Nat) (s : State T) : State T :=
  let s := glBindFramebuffer (some FBO_MULTIPLE_SCATTERING) s
  let s := glFramebufferTexture 0 (Texture.fixed TEX_DELTA_SCATTERING_DENSITY) s
  let s := checkFramebufferStatus s
  let s := render3DTexLayers opts (Pass.scatteringDensityFromGround texIndex)
    (sh.compute (Pass.scatteringDensityFromGround texIndex)) s
  let s := if opts.dbgSaveScatDensityOrder2FromGround then
      saveTexture (Texture.fixed TEX_DELTA_SCATTERING_DENSITY)
        (atmo.textureOutputDir ++ "/scattering-density2-from-ground-wlset" ++
          toString texIndex ++ ".f32") s
    else s
  glBlendFunc GL_ONE GL_ONE s

/-- The function `computeScatteringDensityOrder2`. -/
def computeScatteringDensityOrder2 {T : Type} [AddCommMonoid T] (sh : Shaders T)
    (opts : Options) (atmo : AtmosphereParameters) (texIndex : Nat) (s : State T) : State T :=
  let s := order2FromGround sh opts atmo texIndex s
  let s := (List.range atmo.scatterers.length).foldl (order2Scatterer sh opts atmo texIndex) s
  let s := glDisableBlend s
  let s := saveScatteringDensity opts atmo 2 texIndex s
  glBindFramebuffer none s

/-- The function `computeScatteringDensity`, for a scattering order above 2. -/
def computeScatteringDensity {T : Type} [AddCommMonoid T] (sh : Shaders T) (opts : Options)
    (atmo : AtmosphereParameters) (scatteringOrder texIndex : Nat) (s : State T) : State T :=
  let s := glBindFramebuffer (some FBO_MULTIPLE_SCATTERING) s
  let s := glFramebufferTexture 0 (Texture.fixed TEX_DELTA_SCATTERING_DENSITY) s
  let s := render3DTexLayers opts (Pass.computeScatteringDensity scatteringOrder texIndex)
    (sh.compute (Pass.computeScatteringDensity scatteringOrder texIndex)) s
  let s := saveScatteringDensity opts atmo scatteringOrder texIndex s
  glBindFramebuffer none s

/-- The function `computeIndirectIrradiance`, for a scattering order above 2. -/
def computeIndirectIrradiance {T : Type} [AddCommMonoid T] (sh : Shaders T) (opts : Options)
    (atmo : AtmosphereParameters) (scatteringOrder texIndex : Nat) (s : State T) : State T :=
  let s := glBindFramebuffer (some FBO_IRRADIANCE) s
  let s := glBlendFunc GL_ONE GL_ONE s
  let s := glDisableiBlend 0 s
  let s := glEnableiBlend 1 s
  let s := renderQuad (Pass.computeIndirectIrradiance scatteringOrder texIndex)
    (sh.compute (Pass.computeIndirectIrradiance scatteringOrder texIndex)) s
  let s := glDisableBlend s
  let s := saveIrradiance opts atmo scatteringOrder texIndex s
  glBindFramebuffer none s

/-- The body of the loop over the scatterers in `mergeSmoothSingleScatteringTexture`. -/
def mergeSmoothScatterer {T : Type} [AddCommMonoid T] (sh : Shaders T) (opts : Options)
    (s : State T) (scatterer : Scatterer) : State T :=
  if scatterer.phaseFunctionType ≠ PhaseFunctionType.Smooth then s
  else
    let s := glBlendFunc GL_ONE GL_ONE s
    let s := glEnableBlend s
    render3DTexLayers opts (Pass.mergeSmoothSingleScatteringTexture scatterer)
      (sh.mergeSmoothSingleScatteringTexture scatterer
        (s.image (Texture.accumulated scatterer.name))) s

/-- The function `mergeSmoothSingleScatteringTexture`. -/
def mergeSmoothSingleScatteringTexture {T : Type} [AddCommMonoid T] (sh : Shaders T)
    (opts : Options) (atmo : AtmosphereParameters) (s : State T) : State T :=
  let s := glBindFramebuffer (some FBO_MULTIPLE_SCATTERING) s
  let s := atmo.scatterers.foldl (mergeSmoothScatterer sh opts) s
  let s := glDisableBlend s
  glBindFramebuffer none s

/-- The function `accumulateMultipleScattering`. `texIndex` is an `unsigned`, so `texIndex+1`
is computed modulo `2^32`. -/
def accumulateMultipleScattering {T : Type} [AddCommMonoid T] (sh : Shaders T) (opts : Options)
    (atmo : AtmosphereParameters) (scatteringOrder texIndex : Nat) (s : State T) : State T :=
  let s := glBlendFunc GL_ONE GL_ONE s
  let s := if scatteringOrder > 2 ∨ (texIndex > 0 ∧ opts.saveResultAsRadiance = false) then
      glEnableBlend s
    else glDisableBlend s
  let s := glBindFramebuffer (some FBO_MULTIPLE_SCATTERING) s
  let s := glFramebufferTexture 0 (Texture.fixed TEX_MULTIPLE_SCATTERING) s
  let s := checkFramebufferStatus s
  let s := render3DTexLayers opts (Pass.accumulateMultipleScattering scatteringOrder texIndex)
    (sh.copyScatteringTexture
      (if opts.saveResultAsRadiance = false then
        some (radianceToLuminance sh.wavelengthToXYZW atmo.allWavelengths texIndex)
       else none)
      (s.image (Texture.fixed TEX_DELTA_SCATTERING))) s
  let s := glDisableBlend s
  let s := glBindFramebuffer none s
  let s := if opts.dbgSaveAccumScattering then
      saveTexture (Texture.fixed TEX_MULTIPLE_SCATTERING)
        (atmo.textureOutputDir ++ "/multiple-scattering-to-order" ++ toString scatteringOrder ++
          "-wlset" ++ toString texIndex ++ ".f32") s
    else s
  if scatteringOrder = atmo.scatteringOrdersToCompute ∧
      ((texIndex + 1) % 2 ^ 32 = atmo.allWavelengths.length ∨ opts.saveResultAsRadiance) then
    let s := mergeSmoothSingleScatteringTexture sh opts atmo s
    saveTexture (Texture.fixed TEX_MULTIPLE_SCATTERING)
      (if opts.saveResultAsRadiance then
        atmo.textureOutputDir ++ "/multiple-scattering-wlset" ++ toString texIndex ++ ".f32"
       else atmo.textureOutputDir ++ "/multiple-scattering-xyzw.f32") s
  else s

/-- The function `computeMultipleScatteringFromDensity`. -/
def computeMultipleScatteringFromDensity {T : Type} [AddCommMonoid T] (sh : Shaders T)
    (opts : Options) (atmo : AtmosphereParameters) (scatteringOrder texIndex : Nat)
    (s : State T) : State T :=
  let s := glBindFramebuffer (some FBO_MULTIPLE_SCATTERING) s
  let s := glFramebufferTexture 0 (Texture.fixed TEX_DELTA_SCATTERING) s
  let s := checkFramebufferStatus s
  let s := render3DTexLayers opts
    (Pass.computeMultipleScatteringFromDensity scatteringOrder texIndex)
    (sh.compute (Pass.computeMultipleScatteringFromDensity scatteringOrder texIndex)) s
  let s := if opts.dbgSaveDeltaScattering then
      saveTexture (Texture.fixed TEX_DELTA_SCATTERING)
        (atmo.textureOutputDir ++ "/delta-scattering-order" ++ toString scatteringOrder ++
          "-wlset" ++ toString texIndex ++ ".f32") s
    else s
  let s := glBindFramebuffer none s
  accumulateMultipleScattering sh opts atmo scatteringOrder texIndex s

/-- The body of the loop over the scattering orders above 2 in `computeMultipleScattering`. -/
def higherOrder {T : Type} [AddCommMonoid T] (sh : Shaders T) (opts : Options)
    (atmo : AtmosphereParameters) (texIndex : Nat) (s : State T) (scatteringOrder : Nat) :
    State T :=
  let s := computeScatteringDensity sh opts atmo scatteringOrder texIndex s
  let s := computeIndirectIrradiance sh opts atmo scatteringOrder texIndex s
  computeMultipleScatteringFromDensity sh opts atmo scatteringOrder texIndex s

/-- The function `computeMultipleScattering`: order 2, then the orders
`3, ..., scatteringOrdersToCompute`. -/
def computeMultipleScattering {T : Type} [AddCommMonoid T] (sh : Shaders T) (opts : Options)
    (atmo : AtmosphereParameters) (texIndex : Nat) (s : State T) : State T :=
  let s := computeScatteringDensityOrder2 sh opts atmo texIndex s
  let s := computeMultipleScatteringFromDensity sh opts atmo 2 texIndex s
  (List.range' 3 (atmo.scatteringOrdersToCompute - 2)).foldl (higherOrder sh opts atmo texIndex) s

/-- Modelled from the spec: the class `EclipsedDoubleScatteringPrecomputer` is not among the
sources. The spec has it sample the double-scattering radiance over its 4D grid into the array
that is then serialized; its draws go to the texture it is given and leave the blending state
and the other textures as they are. -/
def precomputerCompute {T : Type} [AddCommMonoid T] (sh : Shaders T) (texIndex : Nat)
    (s : State T) : State T :=
  let radiance := sh.compute (Pass.computeEclipsedDoubleScattering texIndex)
  { s with image :=
      Function.update s.image (Texture.fixed TEX_ECLIPSED_DOUBLE_SCATTERING) radiance }

/-- The function `computeEclipsedDoubleScattering`. -/
def computeEclipsedDoubleScattering {T : Type} [AddCommMonoid T] (sh : Shaders T)
    (opts : Options) (atmo : AtmosphereParameters) (texIndex : Nat) (s : State T) : State T :=
  if opts.dbgNoEDSTextures then s
  else
    let s := glBindFramebuffer (some FBO_ECLIPSED_DOUBLE_SCATTERING) s
    let s := glFramebufferTexture 0 (Texture.fixed TEX_ECLIPSED_DOUBLE_SCATTERING) s
    let s := checkFramebufferStatus s
    let s := precomputerCompute sh texIndex s
    let path := atmo.textureOutputDir ++ "/eclipsed-double-scattering-wlset" ++
      toString texIndex ++ ".f32"
    { s with log := s.log ++ [Event.writeFile path] }

/-- The body of the loop over the wavelength subsets in `main`. -/
def mainLoopBody {T : Type} [AddCommMonoid T] (sh : Shaders T) (opts : Options)
    (atmo : AtmosphereParameters) (s : State T) (texIndex : Nat) : State T :=
  let s := computeTransmittance sh atmo texIndex s
  let s := computeDirectGroundIrradiance sh opts atmo texIndex s
  let s := computeMultipleScattering sh opts atmo texIndex s
  computeEclipsedDoubleScattering sh opts atmo texIndex s

/-- The start of `main`: with `saveResultAsRadiance` every scatterer becomes `General`, and a
trailing slash of `textureOutputDir` is removed. -/
def startup (opts : Options) (atmo : AtmosphereParameters) : AtmosphereParameters :=
  let scatterers := if opts.saveResultAsRadiance then
      atmo.scatterers.map fun scatterer =>
        { scatterer with phaseFunctionType := PhaseFunctionType.General }
    else atmo.scatterers
  let textureOutputDir :=
    if atmo.textureOutputDir.length ≠ 0 ∧ atmo.textureOutputDir.back = '/' then
      atmo.textureOutputDir.dropRight 1
    else atmo.textureOutputDir
  { atmo with scatterers := scatterers, textureOutputDir := textureOutputDir }

/-- The precomputation of `main`: the start, then the loop over the wavelength subsets, from a
fresh context whose textures hold `image`. The loop counter is an `unsigned`; it visits the
subsets `0, ..., size-1` in turn when there are fewer than `2^32` of them. -/
def main {T : Type} [AddCommMonoid T] (sh : Shaders T) (opts : Options)
    (atmo : AtmosphereParameters) (image : Texture → T) : State T :=
  (List.range (startup opts atmo).allWavelengths.length).foldl
    (mainLoopBody sh opts (startup opts atmo)) (initialState image)

/-! ## Conditions on the state -/

/-- The framebuffer objects as `computeDirectGroundIrradiance` leaves them in a run: the
irradiance framebuffer has the delta-irradiance texture as colour attachment 0 and the
accumulated-irradiance texture as colour attachment 1, both are draw buffers, and no other
framebuffer object has a colour attachment 1. -/
def IrradianceFramebufferReady {T : Type} (s : State T) : Prop :=
  s.attachment0 FBO_IRRADIANCE = some (Texture.fixed TEX_DELTA_IRRADIANCE) ∧
  s.attachment1 FBO_IRRADIANCE = some (Texture.fixed TEX_IRRADIANCE) ∧
  s.drawBuffer1 FBO_IRRADIANCE = true ∧
  ∀ f, f ≠ FBO_IRRADIANCE → s.attachment1 f = none

/-- The events of the accumulation passes: the creation of a per-scatterer accumulator
texture, and the draws of `accumulateSingleScattering`, `accumulateMultipleScattering` and
`mergeSmoothSingleScatteringTexture`. -/
def Event.tracked : Event → Bool
  | Event.genTexture _ => true
  | Event.draw (Pass.accumulateSingleScattering _ _) _ _ _ _ => true
  | Event.draw (Pass.accumulateMultipleScattering _ _) _ _ _ _ => true
  | Event.draw (Pass.mergeSmoothSingleScatteringTexture _) _ _ _ _ => true
  | _ => false

/-- The draws into the multiple-scattering accumulator: those of
`accumulateMultipleScattering` and of `mergeSmoothSingleScatteringTexture`. -/
def Event.multiple : Event → Bool
  | Event.draw (Pass.accumulateMultipleScattering _ _) _ _ _ _ => true
  | Event.draw (Pass.mergeSmoothSingleScatteringTexture _) _ _ _ _ => true
  | _ => false

/-- The events of the per-scatterer accumulator texture of the scatterers named `name`: its
creation and the draws of `accumulateSingleScattering` into it. -/
def Event.single (name : String) : Event → Bool
  | Event.genTexture created => decide (created = name)
  | Event.draw (Pass.accumulateSingleScattering _ scatterer) _ _ _ _ =>
    decide (scatterer.name = name)
  | _ => false

/-- The events of the accumulation passes in the trace of a state, in order. -/
def State.trace {T : Type} (s : State T) : List Event := s.log.filter Event.tracked

/-- The colour attachments in a run: only the irradiance framebuffer has a colour
attachment 1, and a per-scatterer accumulator texture is attached to no framebuffer object
but `FBO_SINGLE_SCATTERING`. -/
def AttachmentsOK {T : Type} (s : State T) : Prop :=
  (∀ f, f ≠ FBO_IRRADIANCE → s.attachment1 f = none) ∧
  (∀ name, s.attachment1 FBO_IRRADIANCE ≠ some (Texture.accumulated name)) ∧
  (∀ f, f ≠ FBO_SINGLE_SCATTERING → ∀ name, s.attachment0 f ≠ some (Texture.accumulated name))

/-- What holds between the stages of a run: blending is disabled and the colour attachments
are in order. -/
def BetweenStages {T : Type} (s : State T) : Prop :=
  s.blend0 = false ∧ AttachmentsOK s

/-- A stage that leaves the per-scatterer accumulator textures, their map and the events of
the accumulation passes as they are. -/
def SameAccumulation {T : Type} (s s' : State T) : Prop :=
  s'.accumulatedSingleScatteringTextures = s.accumulatedSingleScatteringTextures ∧
  (∀ name, s'.image (Texture.accumulated name) = s.image (Texture.accumulated name)) ∧
  s'.trace = s.trace

/-- The state in which `accumulateMultipleScattering` calls
`mergeSmoothSingleScatteringTexture`, and which the merge loop keeps: the multiple-scattering
accumulator is colour attachment 0 of `FBO_MULTIPLE_SCATTERING`, and the colour attachments are
in order. -/
def MergeReady {T : Type} (s : State T) : Prop :=
  s.attachment0 FBO_MULTIPLE_SCATTERING = some (Texture.fixed TEX_MULTIPLE_SCATTERING) ∧
  AttachmentsOK s

/-- The draws of the merge passes for the Smooth scatterers of a list, in order. -/
def mergeDraws (scatterers : List Scatterer) : List Event :=
  (scatterers.filter fun scatterer =>
      decide (scatterer.phaseFunctionType = PhaseFunctionType.Smooth)).map fun scatterer =>
    Event.draw (Pass.mergeSmoothSingleScatteringTexture scatterer)
      (some (Texture.fixed TEX_MULTIPLE_SCATTERING)) true GL_ONE GL_ONE

/-- What the merge passes for the Smooth scatterers of a list add to the accumulator, given the
contents of the textures that they read. -/
def mergedLight {T : Type} [AddCommMonoid T] (sh : Shaders T) (scatterers : List Scatterer)
    (image : Texture → T) : T :=
  ((scatterers.filter fun scatterer =>
      decide (scatterer.phaseFunctionType = PhaseFunctionType.Smooth)).map fun scatterer =>
    sh.mergeSmoothSingleScatteringTexture scatterer
      (image (Texture.accumulated scatterer.name))).sum

/-- The draws into the multiple-scattering accumulator in one call of
`accumulateMultipleScattering`: none under `dbgNoSaveTextures`; otherwise the draw that blends
the delta scattering texture into the accumulator, followed, when the function goes on to save
the accumulator, by the merge passes. -/
def multipleScatteringEvents (opts : Options) (atmo : AtmosphereParameters)
    (scatteringOrder texIndex : Nat) : List Event :=
  if opts.dbgNoSaveTextures then []
  else Event.draw (Pass.accumulateMultipleScattering scatteringOrder texIndex)
      (some (Texture.fixed TEX_MULTIPLE_SCATTERING))
      (decide (scatteringOrder > 2 ∨ (texIndex > 0 ∧ opts.saveResultAsRadiance = false)))
      GL_ONE GL_ONE ::
    (if scatteringOrder = atmo.scatteringOrdersToCompute ∧
        ((texIndex + 1) % 2 ^ 32 = atmo.allWavelengths.length ∨ opts.saveResultAsRadiance)
     then mergeDraws atmo.scatterers else [])

/-- The draws of `accumulateMultipleScattering`. -/
def Event.accumulates : Event → Bool
  | Event.draw (Pass.accumulateMultipleScattering _ _) _ _ _ _ => true
  | _ => false

/-- The draws of `mergeSmoothSingleScatteringTexture`. -/
def Event.merges : Event → Bool
  | Event.draw (Pass.mergeSmoothSingleScatteringTexture _) _ _ _ _ => true
  | _ => false

/-- A stage that leaves the per-scatterer accumulator texture named `name` as it is: whether
it exists, what it holds, and the events of its creation and of the draws into it. -/
def SameAccumulator {T : Type} (name : String) (s s' : State T) : Prop :=
  (name ∈ s'.accumulatedSingleScatteringTextures ↔
    name ∈ s.accumulatedSingleScatteringTextures) ∧
  s'.image (Texture.accumulated name) = s.image (Texture.accumulated name) ∧
  s'.log.filter (Event.single name) = s.log.filter (Event.single name)

/-- A stage in which `accumulateSingleScattering` has run once for `scatterer` and the subset
`texIndex`, and nothing else has touched the accumulator texture of `scatterer`: the texture
exists afterwards; it was created if it did not exist, and then drawn into with blending
disabled; otherwise it was drawn into with blending enabled and the blend function
`GL_ONE, GL_ONE`; the colour drawn is what `copy-scattering-texture.frag` makes of the single
scattering of `scatterer` with the matrix `radianceToLuminance(texIndex)`. -/
def AccumulatedOnce {T : Type} [AddCommMonoid T] (sh : Shaders T) (atmo : AtmosphereParameters)
    (texIndex : Nat) (scatterer : Scatterer) (s s' : State T) : Prop :=
  scatterer.name ∈ s'.accumulatedSingleScatteringTextures ∧
  s'.image (Texture.accumulated scatterer.name) =
    blendResult (decide (scatterer.name ∈ s.accumulatedSingleScatteringTextures)) GL_ONE GL_ONE
      (sh.copyScatteringTexture
        (some (radianceToLuminance sh.wavelengthToXYZW atmo.allWavelengths texIndex))
        (sh.compute (Pass.computeSingleScattering texIndex scatterer)))
      (s.image (Texture.accumulated scatterer.name)) ∧
  s'.log.filter (Event.single scatterer.name) =
    s.log.filter (Event.single scatterer.name) ++
      (if scatterer.name ∈ s.accumulatedSingleScatteringTextures then []
       else [Event.genTexture scatterer.name]) ++
      [Event.draw (Pass.accumulateSingleScattering texIndex scatterer)
        (some (Texture.accumulated scatterer.name))
        (decide (scatterer.name ∈ s.accumulatedSingleScatteringTextures)) GL_ONE GL_ONE]

/-- A draw of which only the pass is kept. -/
def drawn (pass : Pass) : Event := Event.draw pass none false GL_ZERO GL_ZERO

/-- An event without what depends on the state in which it happens: of a draw only the pass
remains, and the creation of a per-scatterer accumulator texture is left out. -/
def Event.outline : Event → Option Event
  | Event.genTexture _ => none
  | Event.draw pass _ _ _ _ => some (drawn pass)
  | event => some event

/-- The events of a state in outline, in order. -/
def State.outline {T : Type} (s : State T) : List Event := s.log.filterMap Event.outline

/-- The outline of what `render3DTexLayers` draws: nothing under `dbgNoSaveTextures`. -/
def rendered (opts : Options) (pass : Pass) : List Event :=
  if opts.dbgNoSaveTextures then [] else [drawn pass]

/-- The events of `saveIrradiance`. -/
def saveIrradianceEvents (opts : Options) (atmo : AtmosphereParameters)
    (scatteringOrder texIndex : Nat) : List Event :=
  (if scatteringOrder = atmo.scatteringOrdersToCompute then
    [Event.saveTexture
      (atmo.textureOutputDir ++ "/irradiance-wlset" ++ toString texIndex ++ ".f32")]
   else []) ++
  (if opts.dbgSaveGroundIrradiance = false then []
   else
    [Event.saveTexture
      (atmo.textureOutputDir ++ "/irradiance-delta-order" ++ toString (scatteringOrder - 1) ++
        "-wlset" ++ toString texIndex ++ ".f32"),
     Event.saveTexture
      (atmo.textureOutputDir ++ "/irradiance-accum-order" ++ toString (scatteringOrder - 1) ++
        "-wlset" ++ toString texIndex ++ ".f32")])

/-- The events of `saveScatteringDensity`. -/
def saveScatteringDensityEvents (opts : Options) (atmo : AtmosphereParameters)
    (scatteringOrder texIndex : Nat) : List Event :=
  if opts.dbgSaveScatDensity = false then []
  else [Event.saveTexture
    (atmo.textureOutputDir ++ "/scattering-density" ++ toString scatteringOrder ++ "-wlset" ++
      toString texIndex ++ ".f32")]

/-- The events of `computeTransmittance` in outline. -/
def computeTransmittanceEvents (atmo : AtmosphereParameters) (texIndex : Nat) : List Event :=
  [Event.framebufferTexture (some FBO_TRANSMITTANCE) 0 (Texture.fixed TEX_TRANSMITTANCE),
   Event.checkFramebufferStatus (some FBO_TRANSMITTANCE),
   drawn (Pass.computeTransmittance texIndex),
   Event.saveTexture
    (atmo.textureOutputDir ++ "/transmittance-wlset" ++ toString texIndex ++ ".f32")]

/-- The events of `computeDirectGroundIrradiance` in outline. -/
def computeDirectGroundIrradianceEvents (opts : Options) (atmo : AtmosphereParameters)
    (texIndex : Nat) : List Event :=
  [Event.framebufferTexture (some FBO_IRRADIANCE) 0 (Texture.fixed TEX_DELTA_IRRADIANCE),
   Event.framebufferTexture (some FBO_IRRADIANCE) 1 (Texture.fixed TEX_IRRADIANCE),
   Event.checkFramebufferStatus (some FBO_IRRADIANCE),
   drawn (Pass.computeDirectGroundIrradiance texIndex)] ++
  saveIrradianceEvents opts atmo 1 texIndex

/-- The events of `accumulateSingleScattering` in outline. -/
def accumulateSingleScatteringEvents (opts : Options) (atmo : AtmosphereParameters)
    (texIndex : Nat) (scatterer : Scatterer) : List Event :=
  [Event.framebufferTexture (some FBO_SINGLE_SCATTERING) 0
      (Texture.accumulated scatterer.name),
   Event.checkFramebufferStatus (some FBO_SINGLE_SCATTERING)] ++
  rendered opts (Pass.accumulateSingleScattering texIndex scatterer) ++
  (if (texIndex + 1) % 2 ^ 32 = atmo.allWavelengths.length ∧
      scatterer.phaseFunctionType ≠ PhaseFunctionType.Smooth then
    [Event.saveTexture
      (atmo.textureOutputDir ++ "/single-scattering/" ++ scatterer.name ++ "-xyzw.f32")]
   else [])

/-- The events of `computeSingleScattering` in outline. -/
def computeSingleScatteringEvents (opts : Options) (atmo : AtmosphereParameters)
    (texIndex : Nat) (scatterer : Scatterer) : List Event :=
  [Event.framebufferTexture (some FBO_DELTA_SCATTERING) 0 (Texture.fixed TEX_DELTA_SCATTERING),
   Event.checkFramebufferStatus (some FBO_DELTA_SCATTERING)] ++
  rendered opts (Pass.computeSingleScattering texIndex scatterer) ++
  (match scatterer.phaseFunctionType with
   | PhaseFunctionType.General =>
     [Event.saveTexture
      (atmo.textureOutputDir ++ "/single-scattering/" ++ toString texIndex ++ "/" ++
        scatterer.name ++ ".f32")]
   | PhaseFunctionType.Achromatic => accumulateSingleScatteringEvents opts atmo texIndex scatterer
   | PhaseFunctionType.Smooth => accumulateSingleScatteringEvents opts atmo texIndex scatterer)

/-- The events of `computeIndirectIrradianceOrder1` for a scatterer of the list, in outline. -/
def computeIndirectIrradianceOrder1Events (opts : Options) (atmo : AtmosphereParameters)
    (texIndex : Nat) (scatterer : Scatterer) : List Event :=
  drawn (Pass.computeIndirectIrradianceOrder1 texIndex scatterer) ::
    saveIrradianceEvents opts atmo 2 texIndex

/-- The events of one turn of the loop over the scatterers in
`computeScatteringDensityOrder2`, in outline. -/
def order2ScattererEvents (opts : Options) (atmo : AtmosphereParameters) (texIndex : Nat)
    (scatterer : Scatterer) : List Event :=
  computeSingleScatteringEvents opts atmo texIndex scatterer ++
  rendered opts (Pass.scatteringDensityOrder2 texIndex scatterer) ++
  computeIndirectIrradianceOrder1Events opts atmo texIndex scatterer

/-- The events of `computeScatteringDensityOrder2` before its loop, in outline. -/
def order2FromGroundEvents (opts : Options) (atmo : AtmosphereParameters) (texIndex : Nat) :
    List Event :=
  [Event.framebufferTexture (some FBO_MULTIPLE_SCATTERING) 0
      (Texture.fixed TEX_DELTA_SCATTERING_DENSITY),
   Event.checkFramebufferStatus (some FBO_MULTIPLE_SCATTERING)] ++
  rendered opts (Pass.scatteringDensityFromGround texIndex) ++
  (if opts.dbgSaveScatDensityOrder2FromGround then
    [Event.saveTexture
      (atmo.textureOutputDir ++ "/scattering-density2-from-ground-wlset" ++
        toString texIndex ++ ".f32")]
   else [])

/-- The events of `computeScatteringDensityOrder2` in outline. -/
def computeScatteringDensityOrder2Events (opts : Options) (atmo : AtmosphereParameters)
    (texIndex : Nat) : List Event :=
  order2FromGroundEvents opts atmo texIndex ++
  atmo.scatterers.flatMap (order2ScattererEvents opts atmo texIndex) ++
  saveScatteringDensityEvents opts atmo 2 texIndex

/-- The events of `computeScatteringDensity` in outline: the texture is attached and the
layers are drawn, with no call of `checkFramebufferStatus` between. -/
def computeScatteringDensityEvents (opts : Options) (atmo : AtmosphereParameters)
    (scatteringOrder texIndex : Nat) : List Event :=
  [Event.framebufferTexture (some FBO_MULTIPLE_SCATTERING) 0
      (Texture.fixed TEX_DELTA_SCATTERING_DENSITY)] ++
  rendered opts (Pass.computeScatteringDensity scatteringOrder texIndex) ++
  saveScatteringDensityEvents opts atmo scatteringOrder texIndex

/-- The events of `computeIndirectIrradiance` in outline. -/
def computeIndirectIrradianceEvents (opts : Options) (atmo : AtmosphereParameters)
    (scatteringOrder texIndex : Nat) : List Event :=
  drawn (Pass.computeIndirectIrradiance scatteringOrder texIndex) ::
    saveIrradianceEvents opts atmo scatteringOrder texIndex

/-- The events of `mergeSmoothSingleScatteringTexture` in outline. -/
def mergeSmoothSingleScatteringTextureEvents (opts : Options) (atmo : AtmosphereParameters) :
    List Event :=
  atmo.scatterers.flatMap fun scatterer =>
    if scatterer.phaseFunctionType ≠ PhaseFunctionType.Smooth then []
    else rendered opts (Pass.mergeSmoothSingleScatteringTexture scatterer)

/-- The events of `accumulateMultipleScattering` in outline. -/
def accumulateMultipleScatteringEvents (opts : Options) (atmo : AtmosphereParameters)
    (scatteringOrder texIndex : Nat) : List Event :=
  [Event.framebufferTexture (some FBO_MULTIPLE_SCATTERING) 0
      (Texture.fixed TEX_MULTIPLE_SCATTERING),
   Event.checkFramebufferStatus (some FBO_MULTIPLE_SCATTERING)] ++
  rendered opts (Pass.accumulateMultipleScattering scatteringOrder texIndex) ++
  (if opts.dbgSaveAccumScattering then
    [Event.saveTexture
      (atmo.textureOutputDir ++ "/multiple-scattering-to-order" ++ toString scatteringOrder ++
        "-wlset" ++ toString texIndex ++ ".f32")]
   else []) ++
  (if scatteringOrder = atmo.scatteringOrdersToCompute ∧
      ((texIndex + 1) % 2 ^ 32 = atmo.allWavelengths.length ∨ opts.saveResultAsRadiance) then
    mergeSmoothSingleScatteringTextureEvents opts atmo ++
    [Event.saveTexture
      (if opts.saveResultAsRadiance then
        atmo.textureOutputDir ++ "/multiple-scattering-wlset" ++ toString texIndex ++ ".f32"
       else atmo.textureOutputDir ++ "/multiple-scattering-xyzw.f32")]
   else [])

/-- The events of `computeMultipleScatteringFromDensity` in outline. -/
def computeMultipleScatteringFromDensityEvents (opts : Options) (atmo : AtmosphereParameters)
    (scatteringOrder texIndex : Nat) : List Event :=
  [Event.framebufferTexture (some FBO_MULTIPLE_SCATTERING) 0
      (Texture.fixed TEX_DELTA_SCATTERING),
   Event.checkFramebufferStatus (some FBO_MULTIPLE_SCATTERING)] ++
  rendered opts (Pass.computeMultipleScatteringFromDensity scatteringOrder texIndex) ++
  (if opts.dbgSaveDeltaScattering then
    [Event.saveTexture
      (atmo.textureOutputDir ++ "/delta-scattering-order" ++ toString scatteringOrder ++
        "-wlset" ++ toString texIndex ++ ".f32")]
   else []) ++
  accumulateMultipleScatteringEvents opts atmo scatteringOrder texIndex

/-- The events of one turn of the loop over the orders above 2, in outline. -/
def higherOrderEvents (opts : Options) (atmo : AtmosphereParameters)
    (texIndex scatteringOrder : Nat) : List Event :=
  computeScatteringDensityEvents opts atmo scatteringOrder texIndex ++
  computeIndirectIrradianceEvents opts atmo scatteringOrder texIndex ++
  computeMultipleScatteringFromDensityEvents opts atmo scatteringOrder texIndex

/-- The events of `computeMultipleScattering` in outline. -/
def computeMultipleScatteringEvents (opts : Options) (atmo : AtmosphereParameters)
    (texIndex : Nat) : List Event :=
  computeScatteringDensityOrder2Events opts atmo texIndex ++
  computeMultipleScatteringFromDensityEvents opts atmo 2 texIndex ++
  (List.range' 3 (atmo.scatteringOrdersToCompute - 2)).flatMap
    (higherOrderEvents opts atmo texIndex)

/-- The events of `computeEclipsedDoubleScattering` in outline. -/
def computeEclipsedDoubleScatteringEvents (opts : Options) (atmo : AtmosphereParameters)
    (texIndex : Nat) : List Event :=
  if opts.dbgNoEDSTextures then []
  else
    [Event.framebufferTexture (some FBO_ECLIPSED_DOUBLE_SCATTERING) 0
        (Texture.fixed TEX_ECLIPSED_DOUBLE_SCATTERING),
     Event.checkFramebufferStatus (some FBO_ECLIPSED_DOUBLE_SCATTERING),
     Event.writeFile
      (atmo.textureOutputDir ++ "/eclipsed-double-scattering-wlset" ++ toString texIndex ++
        ".f32")]

/-- The events of one turn of the loop over the wavelength subsets in `main`, in outline. -/
def mainLoopBodyEvents (opts : Options) (atmo : AtmosphereParameters) (texIndex : Nat) :
    List Event :=
  computeTransmittanceEvents atmo texIndex ++
  computeDirectGroundIrradianceEvents opts atmo texIndex ++
  computeMultipleScatteringEvents opts atmo texIndex ++
  computeEclipsedDoubleScatteringEvents opts atmo texIndex

/-- The events of the loop of `main` over the wavelength subsets, in outline. -/
def mainEvents (opts : Options) (atmo : AtmosphereParameters) : List Event :=
  (List.range atmo.allWavelengths.length).flatMap (mainLoopBodyEvents opts atmo)

/-- The events that save a texture to a file whose path starts with `path`. -/
def Event.savesUnder (path : String) : Event → Bool
  | Event.saveTexture saved => decide (path.data <+: saved.data)
  | _ => false

/-- The single-scattering texture file that `computeSingleScattering` saves for a scatterer
and a wavelength subset: for a General scatterer the file of that subset; for an Achromatic
scatterer the file of its accumulator, when `texIndex+1` is the number of subsets; for a
Smooth scatterer none. -/
def singleScatteringSaves (atmo : AtmosphereParameters) (texIndex : Nat)
    (scatterer : Scatterer) : List Event :=
  match scatterer.phaseFunctionType with
  | PhaseFunctionType.General =>
    [Event.saveTexture
      (atmo.textureOutputDir ++ "/single-scattering/" ++ toString texIndex ++ "/" ++
        scatterer.name ++ ".f32")]
  | PhaseFunctionType.Achromatic =>
    if (texIndex + 1) % 2 ^ 32 = atmo.allWavelengths.length then
      [Event.saveTexture
        (atmo.textureOutputDir ++ "/single-scattering/" ++ scatterer.name ++ "-xyzw.f32")]
    else []
  | PhaseFunctionType.Smooth => []

/-- The draws of `accumulateMultipleScattering` and the saves of the multiple-scattering
accumulator to `multiple-scattering-wlset{i}.f32` or `multiple-scattering-xyzw.f32` in the
directory `dir`. -/
def Event.accumulatesOrSaves (dir : String) (event : Event) : Bool :=
  event.accumulates || event.savesUnder (dir ++ "/multiple-scattering-wlset") ||
    event.savesUnder (dir ++ "/multiple-scattering-xyzw.f32")

/-- The events that only `accumulateSingleScattering` leaves: an attachment to or a status
check of the framebuffer `FBO_SINGLE_SCATTERING`, which no other function binds, and the draw
of its pass. -/
def Event.accumulatesSingle : Event → Bool
  | Event.framebufferTexture (some FBO_SINGLE_SCATTERING) _ _ => true
  | Event.checkFramebufferStatus (some FBO_SINGLE_SCATTERING) => true
  | Event.draw (Pass.accumulateSingleScattering _ _) _ _ _ _ => true
  | _ => false

/-- The events of `accumulateSingleScattering` and the draws of
`mergeSmoothSingleScatteringTexture`. -/
def Event.accumulatesSingleOrMerges (event : Event) : Bool :=
  event.accumulatesSingle || event.merges

/-! ## Texture files -/

/-- The texture sizes of `AtmosphereParameters`, each a `GLint` or a component of a
`glm::ivec4`. -/
structure TextureSizes where
  transmittanceTexW : Int
  transmittanceTexH : Int
  irradianceTexW : Int
  irradianceTexH : Int
  scatteringTextureSize : Fin 4 → Int
  eclipsedDoubleScatteringTextureSize : Fin 4 → Int

namespace Util

/-- A byte of a file or of memory. -/
abbrev Byte := Fin 256

/-- A `GLfloat` as the four bytes of its object representation: the functions here copy
floats and never compute with them. -/
structure GLfloat where
  byte0 : Byte
  byte1 : Byte
  byte2 : Byte
  byte3 : Byte
  deriving DecidableEq

/-- The bytes of a `GLfloat` as `write` takes them from memory. -/
def GLfloat.bytes (x : GLfloat) : List Byte := [x.byte0, x.byte1, x.byte2, x.byte3]

/-- The floats that `read` stores from bytes; trailing bytes that do not fill a float are left
out. -/
def floatsOfBytes : List Byte → List GLfloat
  | a :: b :: c :: d :: rest => ⟨a, b, c, d⟩ :: floatsOfBytes rest
  | _ => []

/-- The two bytes of a `uint16_t` in memory, on a little-endian host. -/
def bytes16 (x : Nat) : List Byte := [Fin.ofNat x, Fin.ofNat (x / 256)]

/-- The `uint16_t` number `i` of an array read from bytes, on a little-endian host. -/
def uint16At (bytes : List Byte) (i : Nat) : Nat :=
  (bytes.getD (2 * i) 0).val + 256 * (bytes.getD (2 * i + 1) 0).val

/-- The conversion of a `float` to `uint16_t`: the value is truncated, and the conversion is
undefined when the truncated value is not in range. -/
def toUint16 (x : ℚ) : Option Nat :=
  if -1 < x ∧ x < 65536 then some ⌊x⌋.toNat else none

/-- The values of the loop `for(const uint16_t s : sizes)` of `saveTexture`. -/
def sizesHeader : List ℚ → Option (List Nat)
  | [] => some []
  | x :: rest => (toUint16 x).bind fun s => (sizesHeader rest).map fun header => s :: header

/-- The product of two `int`s, undefined when it overflows. -/
def intMul (a b : Int) : Option Int :=
  if -2 ^ 31 ≤ a * b ∧ a * b < 2 ^ 31 then some (a * b) else none

/-- The function `scatTexWidth` of `AtmosphereParameters`. -/
def scatTexWidth (sizes : TextureSizes) : Int := sizes.scatteringTextureSize 0

/-- The function `scatTexHeight` of `AtmosphereParameters`. -/
def scatTexHeight (sizes : TextureSizes) : Option Int :=
  intMul (sizes.scatteringTextureSize 1) (sizes.scatteringTextureSize 2)

/-- The function `scatTexDepth` of `AtmosphereParameters`. -/
def scatTexDepth (sizes : TextureSizes) : Int := sizes.scatteringTextureSize 3

/-- The number of floats of the buffer that `pixelsToSaveOrLoad` allocates, once:
`std::size_t(scatTexWidth()*scatTexHeight()*scatTexDepth()*4)`, the product being one of
`int`s. -/
def pixelsToSaveOrLoad (sizes : TextureSizes) : Option Nat :=
  (scatTexHeight sizes).bind fun height =>
  (intMul (scatTexWidth sizes) height).bind fun area =>
  (intMul area (scatTexDepth sizes)).bind fun volume =>
  (intMul volume 4).map fun count => (count % 2 ^ 64).toNat

/-- The texture targets that `saveTexture` tells apart; `GL_TEXTURE_1D` stands for every
target that is neither of the other two. -/
inductive TextureTarget where
  | GL_TEXTURE_1D
  | GL_TEXTURE_2D
  | GL_TEXTURE_3D
  deriving DecidableEq

/-- Level 0 of a texture as OpenGL holds it: the sizes that `glGetTexLevelParameteriv`
reports, and the floats that `glGetTexImage` returns for the format `GL_RGBA` and the type
`GL_FLOAT`. -/
structure TextureImage where
  width : Nat
  height : Nat
  depth : Nat
  pixels : List GLfloat

/-- The local `w` of `saveTexture`. -/
def texWidth (texture : TextureImage) : Nat := texture.width

/-- The local `h` of `saveTexture`: queried for a 2D or 3D target only. -/
def texHeight (target : TextureTarget) (texture : TextureImage) : Nat :=
  if target = TextureTarget.GL_TEXTURE_2D ∨ target = TextureTarget.GL_TEXTURE_3D then
    texture.height
  else 1

/-- The local `d` of `saveTexture`: queried for a 3D target only. -/
def texDepth (target : TextureTarget) (texture : TextureImage) : Nat :=
  if target = TextureTarget.GL_TEXTURE_3D then texture.depth else 1

/-- The function `saveTexture`: the bytes of the file that it writes, given the contents of
the buffer of `pixelsToSaveOrLoad`. `glGetTexImage` stores the floats of the texture at the
start of the buffer, and `elemCount*sizeof pixels[0]` bytes of the buffer follow the header
in the file; storing or reading past the end of the buffer is undefined. `elemCount` and the
number of bytes are `size_t`s. -/
def saveTexture (target : TextureTarget) (texture : TextureImage) (sizes : List ℚ)
    (buffer : List GLfloat) : Option (List Byte) :=
  let w := texWidth texture
  let h := texHeight target texture
  let d := texDepth target texture
  let elemCount := 4 * w * h * d % 2 ^ 64
  if texture.pixels.length ≤ buffer.length then
    let pixels := texture.pixels ++ buffer.drop texture.pixels.length
    (sizesHeader sizes).bind fun header =>
      if elemCount * 4 % 2 ^ 64 ≤ 4 * pixels.length then
        some (header.flatMap bytes16 ++
          (pixels.flatMap GLfloat.bytes).take (elemCount * 4 % 2 ^ 64))
      else none
  else none

/-- How a call of `loadTexture` ends: with the call of `glTexImage3D`, with the
`std::runtime_error` that it throws, or with the `std::ios_base::failure` of a stream with
`exceptions(failbit)`. -/
inductive LoadOutcome where
  | uploaded (width height depth : Nat) (pixels : List GLfloat)
  | runtimeError (what : String)
  | readFailure
  deriving DecidableEq

/-- What a call of `loadTexture` leaves: how it ended, the number of bytes read from the file,
and the contents of the buffer of `pixelsToSaveOrLoad`. -/
structure LoadResult where
  outcome : LoadOutcome
  bytesRead : Nat
  buffer : List GLfloat
  deriving DecidableEq

/-- The function `loadTexture` on a file with the given bytes, `none` for a file that cannot
be opened. `width`, `height` and `depth` are `unsigned`; `elemCount` and the products compared
are computed modulo `2^64`. The bytes read go to the start of the buffer, and `glTexImage3D`
takes `4*width*height*depth` floats from it; storing or reading past the end of the buffer
is undefined. -/
def loadTexture (path : String) (file : Option (List Byte)) (width height depth : Nat)
    (buffer : List GLfloat) : Option LoadResult :=
  let elemCount := 4 * width * height * depth % 2 ^ 64
  match file with
  | none => some ⟨LoadOutcome.readFailure, 0, buffer⟩
  | some bytes =>
    if bytes.length < 8 then some ⟨LoadOutcome.readFailure, bytes.length, buffer⟩
    else if uint16At bytes 0 * uint16At bytes 1 * uint16At bytes 2 * uint16At bytes 3 % 2 ^ 64 ≠
        width * height * depth % 2 ^ 64 then
      some ⟨LoadOutcome.runtimeError ("Bad texture size in file " ++ path), 8, buffer⟩
    else
      let data := (bytes.drop 8).take (elemCount * 4 % 2 ^ 64)
      if 4 * buffer.length < data.length then none
      else
        let pixels := floatsOfBytes (data ++ (buffer.flatMap GLfloat.bytes).drop data.length)
        if data.length < elemCount * 4 % 2 ^ 64 then
          some ⟨LoadOutcome.readFailure, 8 + data.length, pixels⟩
        else if 4 * width * height * depth ≤ pixels.length then
          some ⟨LoadOutcome.uploaded width height depth
            (pixels.take (4 * width * height * depth)), 8 + data.length, pixels⟩
        else none

end Util

/-- Modelled from the spec: the code that allocates the textures is not among the sources.
The spec has the images allocated at known dimensions before the pipeline starts, and one
header entry per axis in a file; so the transmittance texture has the `transmittanceTexW` by
`transmittanceTexH` texels that `computeTransmittance` renders and names in the header. -/
def transmittanceTexture (sizes : TextureSizes) (pixels : List Util.GLfloat) :
    Util.TextureImage :=
  ⟨sizes.transmittanceTexW.toNat, sizes.transmittanceTexH.toNat, 1, pixels⟩

/-- The passes of a trace that are drawn after a change of a framebuffer attachment with no
call of `checkFramebufferStatus` in between; `unchecked` tells whether the trace starts after
such a change. -/
def uncheckedDraws : Bool → List Event → List Pass
  | _, [] => []
  | _, Event.framebufferTexture _ _ _ :: rest => uncheckedDraws true rest
  | _, Event.checkFramebufferStatus _ :: rest => uncheckedDraws false rest
  | unchecked, Event.draw pass _ _ _ _ :: rest =>
    (if unchecked then [pass] else []) ++ uncheckedDraws unchecked rest
  | unchecked, Event.genTexture _ :: rest => uncheckedDraws unchecked rest
  | unchecked, Event.saveTexture _ :: rest => uncheckedDraws unchecked rest
  | unchecked, Event.writeFile _ :: rest => uncheckedDraws unchecked rest

/-! ## `QString::arg` -/

/-- What the model of `QString::arg` takes from Qt and from the settings of the user: the
value of `QChar::digitValue` for the characters outside ASCII that have one, and the text of
a number in the default locale, which is what a place marker with `L` is replaced by. -/
structure Qt where
  digitValue : Char → Option (Fin 10)
  localeNumber : Nat → String

namespace QString

/-- The function `QChar::digitValue`, with `none` for -1. A `QString` holds UTF-16 code
units, so that a character outside the basic plane is two code units without a digit
value. -/
def digitValue (qt : Qt) (c : Char) : Option Nat :=
  if c.toNat < 128 then (if c.isDigit then some (c.toNat - 48) else none)
  else if c.toNat < 65536 then (qt.digitValue c).map Fin.val
  else none

/-- A piece of a string as `QString::arg` reads it: a character, or a place marker with its
number, whether it has the `L` of a localised marker, and its text. -/
inductive Piece where
  | text (c : Char)
  | marker (number : Nat) (locale : Bool) (raw : List Char)
  deriving DecidableEq

/-- The number of a place marker whose digits start the string: one digit, or two when a
second one follows. `start` is the text of the marker before its digits. -/
def escapeAt (qt : Qt) (locale : Bool) (start : List Char) : List Char → Option Piece
  | [] => none
  | c :: rest =>
    match digitValue qt c with
    | none => none
    | some escape =>
      match rest with
      | [] => some (Piece.marker escape locale (start ++ [c]))
      | next :: _ =>
        match digitValue qt next with
        | none => some (Piece.marker escape locale (start ++ [c]))
        | some nextEscape =>
          some (Piece.marker (10 * escape + nextEscape) locale (start ++ [c, next]))

/-- The place marker that starts the string, if one does, as the scans of `findArgEscapes`
and `replaceArgEscapes` of `qstring.cpp` read it: `%`, an optional `L`, and one or two
digits. -/
def markerAt (qt : Qt) : List Char → Option Piece
  | [] => none
  | c :: rest =>
    if c = '%' then
      match rest with
      | [] => none
      | c1 :: rest1 =>
        if c1 = 'L' then escapeAt qt true [c, c1] rest1 else escapeAt qt false [c] rest
    else none

/-- The number of characters of a piece. -/
def Piece.length : Piece → Nat
  | Piece.text _ => 1
  | Piece.marker _ _ raw => raw.length

/-- The pieces of a string from a position on, `skip` characters after it being part of a
marker already found. After a `%` that starts no marker the scan goes on at the next
character. -/
def piecesFrom (qt : Qt) : Nat → List Char → List Piece
  | _, [] => []
  | skip + 1, _ :: rest => piecesFrom qt skip rest
  | 0, c :: rest =>
    match markerAt qt (c :: rest) with
    | some marker => marker :: piecesFrom qt (marker.length - 1) rest
    | none => Piece.text c :: piecesFrom qt 0 rest

/-- The pieces of a string: its place markers, and the characters between them. -/
def pieces (qt : Qt) (s : List Char) : List Piece := piecesFrom qt 0 s

/-- The field `min_escape` that `findArgEscapes` returns: the lowest number of a place
marker, `none` when there is no marker (`occurrences == 0`). -/
def findArgEscapes : List Piece → Option Nat
  | [] => none
  | Piece.text _ :: rest => findArgEscapes rest
  | Piece.marker number _ _ :: rest =>
    match findArgEscapes rest with
    | none => some number
    | some lowest => some (min number lowest)

/-- The function `replaceArgEscapes` for a field width of 0: every marker with the lowest
number is replaced, by `larg` when it has the `L` and by `arg` otherwise, and everything else
is copied. -/
def replaceArgEscapes (escape : Nat) (arg larg : List Char) : List Piece → List Char
  | [] => []
  | Piece.text c :: rest => c :: replaceArgEscapes escape arg larg rest
  | Piece.marker number locale raw :: rest =>
    (if number = escape then (if locale then larg else arg) else raw) ++
      replaceArgEscapes escape arg larg rest

/-- The function `QString::arg(const QString&)` with the default field width: a string
without a place marker is returned as it is (with a warning). -/
def arg (qt : Qt) (s a : String) : String :=
  match findArgEscapes (pieces qt s.data) with
  | none => s
  | some escape => ⟨replaceArgEscapes escape a.data a.data (pieces qt s.data)⟩

/-- The function `QString::arg(uint)` with the default field width and base: the number is
written in decimal, and as the default locale writes it for a marker with `L`. -/
def argNumber (qt : Qt) (s : String) (a : Nat) : String :=
  match findArgEscapes (pieces qt s.data) with
  | none => s
  | some escape =>
    ⟨replaceArgEscapes escape (toString a).data (qt.localeNumber a).data (pieces qt s.data)⟩

end QString

/-! ## The files and samples of `computeEclipsedDoubleScattering` -/

namespace Eclipsed

/-- The function `glm::clamp`. -/
def clamp (x minVal maxVal : ℚ) : ℚ := min (max x minVal) maxVal

/-- The constant `viewDirFuncFileName`. -/
def viewDirFuncFileName : String := "calc-view-dir.frag"

/-- The local `distToHorizon` of `computeEclipsedDoubleScattering`. `texSizeByAltitude` is an
`unsigned`, and so is `texSizeByAltitude-1`. -/
def distToHorizon (atmo : AtmosphereParameters) (texSizeByAltitude altIndex : Nat) : ℚ :=
  (altIndex : ℚ) / (((texSizeByAltitude + (2 ^ 32 - 1)) % 2 ^ 32 : Nat) : ℚ) *
    atmo.lengthOfHorizRayFromGroundToBorderOfAtmo

/-- The local `cameraAltitude` of `computeEclipsedDoubleScattering`. The floats are rationals,
and `sqrt` is a parameter. -/
def cameraAltitude (sqrt : ℚ → ℚ) (atmo : AtmosphereParameters)
    (texSizeByAltitude altIndex : Nat) : ℚ :=
  clamp (sqrt (sqr (distToHorizon atmo texSizeByAltitude altIndex) + sqr atmo.earthRadius) -
    atmo.earthRadius) 1 (atmo.atmosphereHeight - 1)

/-- The local `sunZenithAngle` of `computeEclipsedDoubleScattering`, with `acos` a
parameter, in exact arithmetic and for a `texSizeBySZA` of at least 2: for the size 1 the
texture coordinate of the source is the NaN `0.f/0`, for which
`Ieee.unitRangeTexCoordToCosSZA` gives NaN. -/
def sunZenithAngle (acos : ℚ → ℚ) (atmo : AtmosphereParameters) (texSizeBySZA szaIndex : Nat) :
    ℚ :=
  acos (unitRangeTexCoordToCosSZA atmo
    ((szaIndex : ℚ) / (((texSizeBySZA + (2 ^ 32 - 1)) % 2 ^ 32 : Nat) : ℚ)))

/-- The arguments of a call of `EclipsedDoubleScatteringPrecomputer::compute`. -/
structure Sample where
  altIndex : Nat
  szaIndex : Nat
  cameraAltitude : ℚ
  sunZenithAngle : ℚ
  moonZenithAngle : ℚ
  moonAzimuth : ℚ
  deriving DecidableEq

/-- What is written to a file: the text of a shader, or bytes. -/
inductive FileContents where
  | text (src : String)
  | binary (bytes : List Util.Byte)
  deriving DecidableEq

/-- What a call of `computeEclipsedDoubleScattering` leaves: the files written, in order, and
the calls of the precomputer, in order. -/
structure Output where
  files : List (String × FileContents)
  samples : List Sample

/-- The files that `saveEclipsedDoubleScatteringComputationShader` writes, on a run that goes
on: one for each source that `compileShaderProgram` has captured in `sourcesToSave`, except
`viewDirFuncFileName`. The path is the pattern with the calls of `arg` for the output
directory, `texIndex` and the file name, in this order. -/
def saveEclipsedDoubleScatteringComputationShader (qt : Qt) (atmo : AtmosphereParameters)
    (sourcesToSave : List (String × String)) (texIndex : Nat) : List (String × FileContents) :=
  (sourcesToSave.filter fun source => source.1 ≠ viewDirFuncFileName).map fun source =>
    (QString.arg qt
      (QString.argNumber qt
        (QString.arg qt "%1/shaders/double-scattering-eclipsed/precomputation/%2/%3"
          atmo.textureOutputDir)
        texIndex)
      source.1, FileContents.text source.2)

/-- The conversion of an `int` to `unsigned`. -/
def toUnsigned (x : Int) : Nat := (x % 2 ^ 32).toNat

/-- The conversion of an `int` to `uint16_t`. -/
def intToUint16 (x : Int) : Nat := (x % 2 ^ 16).toNat

/-- The calls of the precomputer in the loops of `computeEclipsedDoubleScattering`. -/
def samples (sqrt acos : ℚ → ℚ) (atmo : AtmosphereParameters)
    (texSizeBySZA texSizeByAltitude : Nat) : List Sample :=
  (List.range texSizeBySZA).flatMap fun szaIndex =>
    (List.range texSizeByAltitude).map fun altIndex =>
      { altIndex := altIndex
        szaIndex := szaIndex
        cameraAltitude := cameraAltitude sqrt atmo texSizeByAltitude altIndex
        sunZenithAngle := sunZenithAngle acos atmo texSizeBySZA szaIndex
        moonZenithAngle := sunZenithAngle acos atmo texSizeBySZA szaIndex
        moonAzimuth := 0 }

/-- The function `computeEclipsedDoubleScattering` on a run that goes on, as to the files
that it writes and the calls of the precomputer. The class
`EclipsedDoubleScatteringPrecomputer` is not among the sources: the data that its function
`texture` returns after the calls is the parameter `precomputerTexture`. -/
def computeEclipsedDoubleScattering (qt : Qt) (sqrt acos : ℚ → ℚ) (opts : Options)
    (atmo : AtmosphereParameters) (sizes : TextureSizes)
    (sourcesToSave : List (String × String))
    (precomputerTexture : List Sample → List Util.GLfloat) (texIndex : Nat) : Output :=
  let shaders := saveEclipsedDoubleScatteringComputationShader qt atmo sourcesToSave texIndex
  if opts.dbgNoEDSTextures then { files := shaders, samples := [] }
  else
    let texSizeBySZA := toUnsigned (sizes.eclipsedDoubleScatteringTextureSize 2)
    let texSizeByAltitude := toUnsigned (sizes.eclipsedDoubleScatteringTextureSize 3)
    let calls := samples sqrt acos atmo texSizeBySZA texSizeByAltitude
    let path := atmo.textureOutputDir ++ "/eclipsed-double-scattering-wlset" ++
      toString texIndex ++ ".f32"
    let header := [intToUint16 (sizes.eclipsedDoubleScatteringTextureSize 0),
      intToUint16 (sizes.eclipsedDoubleScatteringTextureSize 1),
      intToUint16 (sizes.eclipsedDoubleScatteringTextureSize 2),
      intToUint16 (sizes.eclipsedDoubleScatteringTextureSize 3)]
    { files := shaders ++
        [(path, FileContents.binary
          (header.flatMap Util.bytes16 ++ (precomputerTexture calls).flatMap Util.GLfloat.bytes))]
      samples := calls }

end Eclipsed

/-! ## The dithering table of `GLWidget::makeBayerPatternTexture` -/

/-- The constant `bayerPattern` of `GLWidget::makeBayerPatternTexture`, row by row. Each entry
`k/64.f` is a float that holds `k/64` exactly. -/
def bayerPattern : List ℚ :=
  [ 0/64, 32/64,  8/64, 40/64,  2/64, 34/64, 10/64, 42/64,
   48/64, 16/64, 56/64, 24/64, 50/64, 18/64, 58/64, 26/64,
   12/64, 44/64,  4/64, 36/64, 14/64, 46/64,  6/64, 38/64,
   60/64, 28/64, 52/64, 20/64, 62/64, 30/64, 54/64, 22/64,
    3/64, 35/64, 11/64, 43/64,  1/64, 33/64,  9/64, 41/64,
   51/64, 19/64, 59/64, 27/64, 49/64, 17/64, 57/64, 25/64,
   15/64, 47/64,  7/64, 39/64, 13/64, 45/64,  5/64, 37/64,
   63/64, 31/64, 55/64, 23/64, 61/64, 29/64, 53/64, 21/64]

/-- The numerators of the entries of `bayerPattern`. -/
def bayerNumerators : List Nat :=
  [ 0, 32,  8, 40,  2, 34, 10, 42,
   48, 16, 56, 24, 50, 18, 58, 26,
   12, 44,  4, 36, 14, 46,  6, 38,
   60, 28, 52, 20, 62, 30, 54, 22,
    3, 35, 11, 43,  1, 33,  9, 41,
   51, 19, 59, 27, 49, 17, 57, 25,
   15, 47,  7, 39, 13, 45,  5, 37,
   63, 31, 55, 23, 61, 29, 53, 21]

/-- The Bayer matrix of size `2^level` as the spec defines it: `B_1 = [0]`, and `B_{2k}` has
the blocks `4*B_k`, `4*B_k + 2` in its upper half and `4*B_k + 3`, `4*B_k + 1` in its lower
half. -/
def bayerMatrix : Nat → Nat → Nat → Nat
  | 0, _, _ => 0
  | level + 1, row, col =>
    4 * bayerMatrix level (row % 2 ^ level) (col % 2 ^ level) +
      (if row / 2 ^ level = 0 then (if col / 2 ^ level = 0 then 0 else 2)
       else (if col / 2 ^ level = 0 then 3 else 1))

/-! ## The file `params.atmo` -/

/-- The constant `AtmosphereParameters::ALL_TEXTURES_ARE_RADIANCES_DIRECTIVE`. -/
def ALL_TEXTURES_ARE_RADIANCES_DIRECTIVE : String := "all textures are radiances"

/-- The constant `AtmosphereParameters::NO_ECLIPSED_DOUBLE_SCATTERING_TEXTURES_DIRECTIVE`. -/
def NO_ECLIPSED_DOUBLE_SCATTERING_TEXTURES_DIRECTIVE : String :=
  "no eclipsed double scattering textures"

/-- The text that `main` writes to `params.atmo` through its `QTextStream`, on a run in which
the file can be opened and written; `descriptionFileText` is the field of that name of
`AtmosphereParameters`. -/
def paramsAtmo (opts : Options) (descriptionFileText : String) : String :=
  let out := ""
  let out := if opts.saveResultAsRadiance then
      out ++ ALL_TEXTURES_ARE_RADIANCES_DIRECTIVE ++ "\n"
    else out
  let out := if opts.dbgNoEDSTextures then
      out ++ NO_ECLIPSED_DOUBLE_SCATTERING_TEXTURES_DIRECTIVE ++ "\n"
    else out
  out ++ descriptionFileText

/-- The local `A` of `unitRangeTexCoordToCosSZA`. -/
def cosSZACoefficient (atmo : AtmosphereParameters) : ℚ :=
  atmo.earthRadius / (atmo.lengthOfHorizRayFromGroundToBorderOfAtmo - atmo.atmosphereHeight)

/-- The local `a` of `unitRangeTexCoordToCosSZA`. -/
def cosSZARatio (atmo : AtmosphereParameters) (texCoord : ℚ) : ℚ :=
  (cosSZACoefficient atmo - cosSZACoefficient atmo * texCoord) /
    (1 + cosSZACoefficient atmo * texCoord)

/-- Wavelength number `k` of a list of groups of four: component `k % 4` of group `k / 4`. -/
def wavelengthAt (allWavelengths : List Vec4) (k : Nat) : ℚ :=
  (allWavelengths.getD (k / 4) 0) (Fin.ofNat (k % 4))

/-! ## The previewer: `parseParams` -/

namespace Previewer

/-- A `float`: not a number, an infinity, or a finite value. -/
inductive FloatValue where
  | nan
  | negInf
  | finite (x : ℚ)
  | posInf
  deriving DecidableEq

/-- The test `std::isnan(x)`. -/
def FloatValue.isnan : FloatValue → Bool
  | FloatValue.nan => true
  | _ => false

/-- The comparison `x <= 0` of floats, which is false for a value that is not a number. -/
def FloatValue.leZero : FloatValue → Bool
  | FloatValue.nan => false
  | FloatValue.negInf => true
  | FloatValue.finite x => decide (x ≤ 0)
  | FloatValue.posInf => false

/-- The comparison `0 < x` of floats. -/
def FloatValue.pos : FloatValue → Bool
  | FloatValue.nan => false
  | FloatValue.negInf => false
  | FloatValue.finite x => decide (0 < x)
  | FloatValue.posInf => true

/-- The fields of `AtmosphereRenderer::Parameters` that `parseParams` sets. -/
structure Parameters where
  wavelengthSetCount : Nat
  atmosphereHeight : FloatValue
  deriving DecidableEq

/-- Modelled from the spec: `AtmosphereRenderer::Parameters` is declared in a header that is
not among the sources, and the spec does not describe it. `parseParams` takes a count of 0
and a height that is not a number for an entry that was not found, so these are taken as the
values of a fresh structure. -/
def Parameters.fresh : Parameters := ⟨0, FloatValue.nan⟩

/-- The messages of the `DataLoadError`s of `parseParams`, by kind. -/
inductive DataLoadError where
  | badEntry
  | badWavelengths
  | badAtmosphereHeight
  | nonPositiveAtmosphereHeight
  | unknownKey
  | noWavelengths
  | noAtmosphereHeight
  deriving DecidableEq

/-- The function `QByteArray::split`: the parts between the occurrences of `sep`; a byte array
without `sep` gives one part, also when it is empty. -/
def split (sep : Char) : List Char → List (List Char)
  | [] => [[]]
  | c :: rest =>
    if c = sep then [] :: split sep rest
    else
      match split sep rest with
      | [] => [[c]]
      | part :: parts => (c :: part) :: parts

/-- The white space of `QByteArray::trimmed`. -/
def isSpace (c : Char) : Bool :=
  c = '\t' || c = '\n' || c = '\x0b' || c = '\x0c' || c = '\r' || c = ' '

/-- The function `QByteArray::trimmed`: white space is removed from both ends. -/
def trimmed (bytes : List Char) : List Char :=
  ((bytes.dropWhile isSpace).reverse.dropWhile isSpace).reverse

/-- The successive results of `file.readLine()` for a file with the given content: the lines
with their newline, and what follows the last newline when that is not empty. `pending` holds
the bytes of the current line in reverse. -/
def readLines (pending : List Char) : List Char → List (List Char)
  | [] => if pending = [] then [] else [pending.reverse]
  | c :: rest =>
    if c = '\n' then (c :: pending).reverse :: readLines [] rest
    else readLines (c :: pending) rest

/-- The local `key` of `parseParams` for a line. -/
def key (line : List Char) : List Char := (split ':' line).headD []

/-- The local `value` of `parseParams` for a line. -/
def value (line : List Char) : List Char := trimmed ((split ':' line).getD 1 [])

/-- The body of the loop of `parseParams` for one line; `toFloat` is `QByteArray::toFloat`,
which gives no value when it reports failure. -/
def parseLine (toFloat : List Char → Option FloatValue) (params : Parameters)
    (line : List Char) : Except DataLoadError Parameters :=
  if line = "\n".data then Except.ok params
  else if (split ':' line).length ≠ 2 then Except.error DataLoadError.badEntry
  else if key line = "wavelengths".data then
    let wlStr := split ',' (value line)
    if wlStr.isEmpty ∨ wlStr.length % 4 ≠ 0 then Except.error DataLoadError.badWavelengths
    else Except.ok { params with wavelengthSetCount := wlStr.length / 4 }
  else if key line = "atmosphere height".data then
    match toFloat (value line) with
    | none => Except.error DataLoadError.badAtmosphereHeight
    | some height =>
      if height.leZero then Except.error DataLoadError.nonPositiveAtmosphereHeight
      else Except.ok { params with atmosphereHeight := height }
  else Except.error DataLoadError.unknownKey

/-- The loop of `parseParams` over the lines read, which ends at an empty line. -/
def parseLines (toFloat : List Char → Option FloatValue) :
    Parameters → List (List Char) → Except DataLoadError Parameters
  | params, [] => Except.ok params
  | params, line :: rest =>
    if line = [] then Except.ok params
    else
      match parseLine toFloat params line with
      | Except.error e => Except.error e
      | Except.ok next => parseLines toFloat next rest

/-- The checks of `parseParams` after its loop: a count of 0 stands for wavelengths that were
not found, a height that is not a number for a height that was not found. -/
def checkFound (params : Parameters) : Except DataLoadError Parameters :=
  if params.wavelengthSetCount = 0 then Except.error DataLoadError.noWavelengths
  else if params.atmosphereHeight.isnan then Except.error DataLoadError.noAtmosphereHeight
  else Except.ok params

/-- The function `parseParams` of the previewer for a file `params.txt` that can be opened
and read, with the given content. -/
def parseParams (toFloat : List Char → Option FloatValue) (content : List Char) :
    Except DataLoadError Parameters :=
  (parseLines toFloat Parameters.fresh (readLines [] content)).bind checkFound

/-- A line that is not a bare newline and has the key `name`. -/
def isEntry (name : String) (line : List Char) : Bool :=
  decide (line ≠ "\n".data) && decide (key line = name.data)

/-- The lines of a file that hold the entries with the key `name`, in order. -/
def entries (name : String) (content : List Char) : List (List Char) :=
  (readLines [] content).filter (isEntry name)

/-- A line for which `parseParams` fails as the spec lists it: it is not a bare newline and
does not split on `:` into two parts, or its key is neither `wavelengths` nor
`atmosphere height`, or it is a wavelengths entry whose value is not a positive multiple of 4
fields, or it is an atmosphere height entry whose value does not parse or is `<= 0`. -/
def BadLine (toFloat : List Char → Option FloatValue) (line : List Char) : Prop :=
  line ≠ "\n".data ∧
    ((split ':' line).length ≠ 2 ∨
     (key line ≠ "wavelengths".data ∧ key line ≠ "atmosphere height".data) ∨
     (key line = "wavelengths".data ∧
       ¬ (0 < (split ',' (value line)).length ∧ (split ',' (value line)).length % 4 = 0)) ∨
     (key line = "atmosphere height".data ∧
       (toFloat (value line) = none ∨
        (toFloat (value line)).any FloatValue.leZero = true)))

/-- The conditions under which the spec has `parseParams` fail: a bad line, no wavelengths
entry, or no atmosphere height entry. -/
def ListedFailure (toFloat : List Char → Option FloatValue) (content : List Char) : Prop :=
  (∃ line ∈ readLines [] content, BadLine toFloat line) ∨
  entries "wavelengths" content = [] ∨
  entries "atmosphere height" content = []

instance (toFloat : List Char → Option FloatValue) : DecidablePred (BadLine toFloat) := by
  intro line
  delta BadLine
  infer_instance

instance (toFloat : List Char → Option FloatValue) (content : List Char) :
    Decidable (ListedFailure toFloat content) := by
  delta ListedFailure
  infer_instance

/-- What the body of the loop of `parseParams` makes of the parameters when it does not
throw. -/
def update (toFloat : List Char → Option FloatValue) (params : Parameters)
    (line : List Char) : Parameters :=
  if line = "\n".data then params
  else if key line = "wavelengths".data then
    { params with wavelengthSetCount := (split ',' (value line)).length / 4 }
  else if key line = "atmosphere height".data then
    { params with atmosphereHeight := (toFloat (value line)).getD params.atmosphereHeight }
  else params

/-- The last atmosphere height entry of the file has a value that `toFloat` converts, with
success, to a value that is not a number. -/
def LastHeightIsNaN (toFloat : List Char → Option FloatValue) (content : List Char) : Prop :=
  ∃ line, (entries "atmosphere height" content).getLast? = some line ∧
    toFloat (value line) = some FloatValue.nan

end Previewer

/-! ## Substitution of macros in shader sources -/

/-- The regular expressions of the substitutions of `main.cpp`: a word boundary, the literal
`name ++ suffix`, and a closing word boundary when `closing` is set. `captures` tells that
the name stands in a capturing group: `\b(NAME)\b` is `⟨NAME, [], true, true⟩`, `\bNAME\b`
is `⟨NAME, [], true, false⟩`, and `\bNAME;` is `⟨NAME, [';'], false, false⟩`. -/
structure Pattern where
  name : List Char
  suffix : List Char
  closing : Bool
  captures : Bool

/-- The characters that a pattern matches. -/
def Pattern.literal (pattern : Pattern) : List Char := pattern.name ++ pattern.suffix

/-- Whether a position of a text holds a character of a word; a position before the start or
after the end holds none. `isWord` is the test of `QRegExp` for the characters of a word:
letters, digits, marks and the underscore. -/
def isWordAt (isWord : Char → Bool) : Option Char → Bool
  | none => false
  | some c => isWord c

/-- The assertion `\b` of `QRegExp` between two positions of a text. -/
def atBoundary (isWord : Char → Bool) (before after : Option Char) : Bool :=
  isWordAt isWord before != isWordAt isWord after

/-- Whether a pattern matches at the start of `text`, which follows the character `prev`. -/
def matchesAt (isWord : Char → Bool) (pattern : Pattern) (prev : Option Char)
    (text : List Char) : Bool :=
  atBoundary isWord prev text.head? && pattern.literal.isPrefixOf text &&
    (!pattern.closing ||
      atBoundary isWord pattern.literal.getLast? (text.drop pattern.literal.length).head?)

/-- The character before the position at which the search goes on after a replacement.
With a back-reference `QString::replace` replaces one match at a time, so that the search
goes on behind the replacement; without one it collects the matches in the text as it was. -/
def resumeAfter (pattern : Pattern) (after : List Char) (prev : Option Char) : Option Char :=
  if pattern.captures then
    match after.getLast? with
    | some c => some c
    | none => prev
  else pattern.literal.getLast?

/-- The loop of `QString::replace(QRegExp, after)` for a pattern with a literal that is not
empty: `skip` counts the characters of a match that are still to be passed over, `prev` is
the character before the current position. In `after` the back-reference is taken to be
filled in already. -/
def replaceFrom (isWord : Char → Bool) (pattern : Pattern) (after : List Char) :
    Nat → Option Char → List Char → List Char
  | _, _, [] => []
  | skip + 1, prev, _ :: rest => replaceFrom isWord pattern after skip prev rest
  | 0, prev, c :: rest =>
    if matchesAt isWord pattern prev (c :: rest) then
      after ++ replaceFrom isWord pattern after (pattern.literal.length - 1)
        (resumeAfter pattern after prev) rest
    else c :: replaceFrom isWord pattern after 0 (some c) rest

/-- The call `text.replace(QRegExp(pattern), after)`. -/
def replace (isWord : Char → Bool) (pattern : Pattern) (after text : List Char) : List Char :=
  replaceFrom isWord pattern after 0 none text

/-- The replacement `"1 /*\\1*/"` for a match of `\b(NAME)\b`. -/
def commentedOut (name : String) : List Char := "1 /*".data ++ name.data ++ "*/".data

/-- The call `.replace(QRegExp("\\b(NAME)\\b"), "1 /*\\1*/")`. -/
def defineMacro (isWord : Char → Bool) (name : String) (text : List Char) : List Char :=
  replace isWord ⟨name.data, [], true, true⟩ (commentedOut name) text

/-- The call `.replace(QRegExp("\\bNAME\\b"), value)`. -/
def setMacro (isWord : Char → Bool) (name value : String) (text : List Char) : List Char :=
  replace isWord ⟨name.data, [], true, false⟩ value.data text

/-- The source of `render.frag` that `saveZeroOrderScatteringRenderingShader` compiles. -/
def zeroOrderRenderSource (isWord : Char → Bool) (source : List Char) : List Char :=
  defineMacro isWord "RENDERING_ZERO_SCATTERING"
    (defineMacro isWord "RENDERING_ANY_ZERO_SCATTERING" source)

/-- The source of `compute-scattering-density.frag` that `computeScatteringDensityOrder2`
compiles for the radiation from the ground. -/
def scatteringDensitySource (isWord : Char → Bool) (radiationIsFromGroundOnly : Bool)
    (scatteringOrder : Nat) (source : List Char) : List Char :=
  setMacro isWord "SCATTERING_ORDER" (toString scatteringOrder)
    (setMacro isWord "RADIATION_IS_FROM_GROUND_ONLY"
      (if radiationIsFromGroundOnly then "true" else "false") source)

/-- The pattern `\bCOMPUTE_TOTAL_SCATTERING_COEFFICIENT;` of
`saveEclipsedDoubleScatteringComputationShader`. -/
def totalScatteringCoefficientPattern : Pattern :=
  ⟨"COMPUTE_TOTAL_SCATTERING_COEFFICIENT".data, [';'], false, false⟩

/-- The local `scatCoefDef` of `saveEclipsedDoubleScatteringComputationShader`. -/
def scatCoefDef (scattererNames : List String) : String :=
  scattererNames.foldl
    (fun text name =>
      text ++ "    totalScatteringCoefficient += " ++ " scattererNumberDensity_" ++ name ++
        "(altAtDist)" ++ " * scatteringCrossSection_" ++ name ++ " * phaseFunction_" ++ name ++
        "(dotViewSun)" ++ ";\n")
    "vec4 totalScatteringCoefficient=vec4(0);\n"

/-- The source of the eclipsed single scattering shader that
`saveEclipsedDoubleScatteringComputationShader` compiles. -/
def eclipsedDoubleScatteringSource (isWord : Char → Bool) (scattererNames : List String)
    (source : List Char) : List Char :=
  defineMacro isWord "ALL_SCATTERERS_AT_ONCE_WITH_PHASE_FUNCTION"
    (replace isWord totalScatteringCoefficientPattern (scatCoefDef scattererNames).data source)

/-- The words of a text: the maximal runs of characters of a word, and every other character
on its own, in the order of the text. -/
def tokens (isWord : Char → Bool) : List Char → List (List Char)
  | [] => []
  | c :: rest =>
    if isWord c then
      match tokens isWord rest with
      | (d :: word) :: others =>
        if isWord d then (c :: d :: word) :: others else [c] :: (d :: word) :: others
      | others => [c] :: others
    else [c] :: tokens isWord rest

/-- Whole-word substitution as the spec has it: every word that is `name` is replaced by
`after`, every other word and every other character is kept. -/
def substituteWords (name after : List Char) (words : List (List Char)) : List Char :=
  words.flatMap fun word => if word = name then after else word

/-- Substitution of the words `name` that the character `next` follows, together with that
character; `skip` tells that the current word is the `next` of a substitution. -/
def substituteFollowed (name : List Char) (next : Char) (after : List Char) :
    Bool → List (List Char) → List Char
  | _, [] => []
  | true, _ :: words => substituteFollowed name next after false words
  | false, word :: words =>
    if word = name ∧ words.head? = some [next] then
      after ++ substituteFollowed name next after true words
    else word ++ substituteFollowed name next after false words

/-! ## The output directories and the shader files written -/

/-- The enumeration `SingleScatteringRenderMode`. -/
inductive SingleScatteringRenderMode where
  | SSRM_ON_THE_FLY
  | SSRM_PRECOMPUTED
  deriving DecidableEq

namespace Files

open SingleScatteringRenderMode

/-- The arguments of the calls of `createDirs` at the start of `main`, in order, for the
parameters as they are after the conversion of the scatterers and the removal of the trailing
slash. `names` is the array `singleScatteringRenderModeNames`, which is declared in a header
that is not among the sources. -/
def createdDirs (opts : Options) (atmo : AtmosphereParameters)
    (names : SingleScatteringRenderMode → String) : List String :=
  (atmo.scatterers.flatMap fun scatterer =>
    ((List.range atmo.allWavelengths.length).flatMap fun texIndex =>
      [atmo.textureOutputDir ++ "/shaders/single-scattering-eclipsed/precomputation/" ++
          toString texIndex ++ "/" ++ scatterer.name,
       atmo.textureOutputDir ++ "/shaders/single-scattering-eclipsed/" ++
          names SSRM_ON_THE_FLY ++ "/" ++ toString texIndex ++ "/" ++ scatterer.name] ++
      (if scatterer.phaseFunctionType ≠ PhaseFunctionType.Smooth then
        [atmo.textureOutputDir ++ "/shaders/single-scattering/" ++ names SSRM_ON_THE_FLY ++
          "/" ++ toString texIndex ++ "/" ++ scatterer.name]
       else []) ++
      (if scatterer.phaseFunctionType = PhaseFunctionType.General then
        [atmo.textureOutputDir ++ "/shaders/single-scattering/" ++ names SSRM_PRECOMPUTED ++
          "/" ++ toString texIndex ++ "/" ++ scatterer.name,
         atmo.textureOutputDir ++ "/shaders/single-scattering-eclipsed/" ++
          names SSRM_PRECOMPUTED ++ "/" ++ toString texIndex ++ "/" ++ scatterer.name]
       else [])) ++
    (if scatterer.phaseFunctionType = PhaseFunctionType.Achromatic then
      [atmo.textureOutputDir ++ "/shaders/single-scattering/" ++ names SSRM_PRECOMPUTED ++
        "/" ++ scatterer.name]
     else []) ++
    (if scatterer.phaseFunctionType ≠ PhaseFunctionType.General then
      [atmo.textureOutputDir ++ "/shaders/single-scattering-eclipsed/" ++
        names SSRM_PRECOMPUTED ++ "/" ++ scatterer.name]
     else [])) ++
  ((List.range atmo.allWavelengths.length).flatMap fun texIndex =>
    [atmo.textureOutputDir ++ "/shaders/zero-order-scattering/" ++ toString texIndex,
     atmo.textureOutputDir ++ "/shaders/eclipsed-zero-order-scattering/" ++ toString texIndex,
     atmo.textureOutputDir ++ "/shaders/double-scattering-eclipsed/precomputed/" ++
      toString texIndex,
     atmo.textureOutputDir ++ "/shaders/double-scattering-eclipsed/precomputation/" ++
      toString texIndex,
     atmo.textureOutputDir ++ "/single-scattering/" ++ toString texIndex]) ++
  [atmo.textureOutputDir ++ "/shaders/multiple-scattering/"] ++
  (if opts.saveResultAsRadiance then
    (List.range atmo.allWavelengths.length).map fun texIndex =>
      atmo.textureOutputDir ++ "/shaders/multiple-scattering/" ++ toString texIndex
   else [])

/-- The paths of the files that `saveZeroOrderScatteringRenderingShader` writes, on a run
that goes on: one for each source that `compileShaderProgram` has captured in
`sourcesToSave`, except `viewDirFuncFileName`. Here and below a path is the pattern of the
source with its calls of `arg`, in their order. -/
def saveZeroOrderScatteringRenderingShader (qt : Qt) (atmo : AtmosphereParameters)
    (sourcesToSave : List (String × String)) (texIndex : Nat) : List String :=
  (sourcesToSave.filter fun source => source.1 ≠ Eclipsed.viewDirFuncFileName).map fun source =>
    QString.arg qt
      (QString.argNumber qt
        (QString.arg qt "%1/shaders/zero-order-scattering/%2/%3" atmo.textureOutputDir)
        texIndex)
      source.1

/-- The paths of the files that `saveEclipsedZeroOrderScatteringRenderingShader` writes. -/
def saveEclipsedZeroOrderScatteringRenderingShader (qt : Qt) (atmo : AtmosphereParameters)
    (sourcesToSave : List (String × String)) (texIndex : Nat) : List String :=
  (sourcesToSave.filter fun source => source.1 ≠ Eclipsed.viewDirFuncFileName).map fun source =>
    QString.arg qt
      (QString.argNumber qt
        (QString.arg qt "%1/shaders/eclipsed-zero-order-scattering/%2/%3"
          atmo.textureOutputDir)
        texIndex)
      source.1

/-- The paths of the files that `saveMultipleScatteringRenderingShader` writes. -/
def saveMultipleScatteringRenderingShader (qt : Qt) (opts : Options)
    (atmo : AtmosphereParameters) (sourcesToSave : List (String × String)) (texIndex : Nat) :
    List String :=
  (sourcesToSave.filter fun source => source.1 ≠ Eclipsed.viewDirFuncFileName).map fun source =>
    if opts.saveResultAsRadiance then
      QString.arg qt
        (QString.argNumber qt
          (QString.arg qt "%1/shaders/multiple-scattering/%2/%3" atmo.textureOutputDir)
          texIndex)
        source.1
    else
      QString.arg qt (QString.arg qt "%1/shaders/multiple-scattering/%2" atmo.textureOutputDir)
        source.1

/-- The paths of the files that `saveSingleScatteringRenderingShader` writes: none for a
Smooth scatterer. `toStringMode` is the function `toString` of the render modes, which is not
among the sources. -/
def saveSingleScatteringRenderingShader (qt : Qt) (atmo : AtmosphereParameters)
    (toStringMode : SingleScatteringRenderMode → String)
    (sourcesToSave : List (String × String)) (texIndex : Nat) (scatterer : Scatterer)
    (renderMode : SingleScatteringRenderMode) : List String :=
  if scatterer.phaseFunctionType = PhaseFunctionType.Smooth then []
  else
    (sourcesToSave.filter fun source => source.1 ≠ Eclipsed.viewDirFuncFileName).map fun source =>
      if scatterer.phaseFunctionType = PhaseFunctionType.General ∨
          renderMode = SSRM_ON_THE_FLY then
        QString.arg qt
          (QString.arg qt
            (QString.argNumber qt
              (QString.arg qt
                (QString.arg qt "%1/shaders/single-scattering/%2/%3/%4/%5"
                  atmo.textureOutputDir)
                (toStringMode renderMode))
              texIndex)
            scatterer.name)
          source.1
      else
        QString.arg qt
          (QString.arg qt
            (QString.arg qt
              (QString.arg qt "%1/shaders/single-scattering/%2/%3/%4" atmo.textureOutputDir)
              (toStringMode renderMode))
            scatterer.name)
          source.1

/-- The paths of the files that `saveEclipsedSingleScatteringRenderingShader` writes. -/
def saveEclipsedSingleScatteringRenderingShader (qt : Qt) (atmo : AtmosphereParameters)
    (toStringMode : SingleScatteringRenderMode → String)
    (sourcesToSave : List (String × String)) (texIndex : Nat) (scatterer : Scatterer)
    (renderMode : SingleScatteringRenderMode) : List String :=
  (sourcesToSave.filter fun source => source.1 ≠ Eclipsed.viewDirFuncFileName).map fun source =>
    if scatterer.phaseFunctionType = PhaseFunctionType.General ∨
        renderMode = SSRM_ON_THE_FLY then
      QString.arg qt
        (QString.arg qt
          (QString.argNumber qt
            (QString.arg qt
              (QString.arg qt "%1/shaders/single-scattering-eclipsed/%2/%3/%4/%5"
                atmo.textureOutputDir)
              (toStringMode renderMode))
            texIndex)
          scatterer.name)
        source.1
    else
      QString.arg qt
        (QString.arg qt
          (QString.arg qt
            (QString.arg qt "%1/shaders/single-scattering-eclipsed/%2/%3/%4"
              atmo.textureOutputDir)
            (toStringMode renderMode))
          scatterer.name)
        source.1

/-- The paths of the files that `saveEclipsedSingleScatteringComputationShader` writes. -/
def saveEclipsedSingleScatteringComputationShader (qt : Qt) (atmo : AtmosphereParameters)
    (sourcesToSave : List (String × String)) (texIndex : Nat) (scatterer : Scatterer) :
    List String :=
  (sourcesToSave.filter fun source => source.1 ≠ Eclipsed.viewDirFuncFileName).map fun source =>
    QString.arg qt
      (QString.arg qt
        (QString.argNumber qt
          (QString.arg qt "%1/shaders/single-scattering-eclipsed/precomputation/%2/%3/%4"
            atmo.textureOutputDir)
          texIndex)
        scatterer.name)
      source.1

/-- The paths of the files that `saveEclipsedDoubleScatteringRenderingShader` writes. -/
def saveEclipsedDoubleScatteringRenderingShader (qt : Qt) (atmo : AtmosphereParameters)
    (sourcesToSave : List (String × String)) (texIndex : Nat) : List String :=
  (sourcesToSave.filter fun source => source.1 ≠ Eclipsed.viewDirFuncFileName).map fun source =>
    QString.arg qt
      (QString.argNumber qt
        (QString.arg qt "%1/shaders/double-scattering-eclipsed/precomputed/%2/%3"
          atmo.textureOutputDir)
        texIndex)
      source.1

/-- The calls of `compileShaderProgram` of the save functions, which capture the sources to
save. -/
inductive ShaderSave where
  | zeroOrderScatteringRendering (texIndex : Nat)
  | eclipsedZeroOrderScatteringRendering (texIndex : Nat)
  | multipleScatteringRendering (texIndex : Nat)
  | singleScatteringRendering (texIndex : Nat) (scatterer : String)
      (renderMode : SingleScatteringRenderMode)
  | eclipsedSingleScatteringRendering (texIndex : Nat) (scatterer : String)
      (renderMode : SingleScatteringRenderMode)
  | eclipsedSingleScatteringComputation (texIndex : Nat) (scatterer : String)
  | eclipsedDoubleScatteringRendering (texIndex : Nat)
  | eclipsedDoubleScatteringComputation (texIndex : Nat)

/-- The paths of the shader files that `computeSingleScattering` writes, in order; `captured`
gives the sources that each call of `compileShaderProgram` captures. -/
def computeSingleScattering (qt : Qt) (atmo : AtmosphereParameters)
    (toStringMode : SingleScatteringRenderMode → String)
    (captured : ShaderSave → List (String × String)) (texIndex : Nat)
    (scatterer : Scatterer) : List String :=
  saveSingleScatteringRenderingShader qt atmo toStringMode
      (captured (ShaderSave.singleScatteringRendering texIndex scatterer.name SSRM_ON_THE_FLY))
      texIndex scatterer SSRM_ON_THE_FLY ++
  saveSingleScatteringRenderingShader qt atmo toStringMode
      (captured (ShaderSave.singleScatteringRendering texIndex scatterer.name SSRM_PRECOMPUTED))
      texIndex scatterer SSRM_PRECOMPUTED ++
  saveEclipsedSingleScatteringRenderingShader qt atmo toStringMode
      (captured
        (ShaderSave.eclipsedSingleScatteringRendering texIndex scatterer.name SSRM_ON_THE_FLY))
      texIndex scatterer SSRM_ON_THE_FLY ++
  saveEclipsedSingleScatteringRenderingShader qt atmo toStringMode
      (captured
        (ShaderSave.eclipsedSingleScatteringRendering texIndex scatterer.name SSRM_PRECOMPUTED))
      texIndex scatterer SSRM_PRECOMPUTED ++
  saveEclipsedSingleScatteringComputationShader qt atmo
      (captured (ShaderSave.eclipsedSingleScatteringComputation texIndex scatterer.name))
      texIndex scatterer

/-- The paths of the shader files that one turn of the loop of `main` over the wavelength
subsets writes, in order: the two zero-order shaders, those of `computeSingleScattering` for
each scatterer (in `computeScatteringDensityOrder2`), the eclipsed double scattering
rendering shader (in `computeMultipleScattering`), in radiance mode the multiple scattering
shader, and the shader of `computeEclipsedDoubleScattering`. -/
def mainLoopBody (qt : Qt) (opts : Options) (atmo : AtmosphereParameters)
    (toStringMode : SingleScatteringRenderMode → String)
    (captured : ShaderSave → List (String × String)) (texIndex : Nat) : List String :=
  saveZeroOrderScatteringRenderingShader qt atmo
      (captured (ShaderSave.zeroOrderScatteringRendering texIndex)) texIndex ++
  saveEclipsedZeroOrderScatteringRenderingShader qt atmo
      (captured (ShaderSave.eclipsedZeroOrderScatteringRendering texIndex)) texIndex ++
  (atmo.scatterers.flatMap (computeSingleScattering qt atmo toStringMode captured texIndex)) ++
  saveEclipsedDoubleScatteringRenderingShader qt atmo
      (captured (ShaderSave.eclipsedDoubleScatteringRendering texIndex)) texIndex ++
  (if opts.saveResultAsRadiance then
    saveMultipleScatteringRenderingShader qt opts atmo
      (captured (ShaderSave.multipleScatteringRendering texIndex)) texIndex
   else []) ++
  (Eclipsed.saveEclipsedDoubleScatteringComputationShader qt atmo
      (captured (ShaderSave.eclipsedDoubleScatteringComputation texIndex)) texIndex).map
    Prod.fst

/-- The paths of the shader files that `main` writes, in order, on a run that goes on: those
of the loop over the wavelength subsets and, in luminance mode, those of the call
`saveMultipleScatteringRenderingShader(-1)` after it. -/
def main (qt : Qt) (opts : Options) (atmo : AtmosphereParameters)
    (toStringMode : SingleScatteringRenderMode → String)
    (captured : ShaderSave → List (String × String)) : List String :=
  ((List.range atmo.allWavelengths.length).flatMap
    (mainLoopBody qt opts (startup opts atmo) toStringMode captured)) ++
  (if opts.saveResultAsRadiance then []
   else
    saveMultipleScatteringRenderingShader qt opts (startup opts atmo)
      (captured (ShaderSave.multipleScatteringRendering (2 ^ 32 - 1))) (2 ^ 32 - 1))

/-- The directory part of a path: what stands before its last slash. -/
def parentDir (path : String) : List Char :=
  ((path.data.reverse.dropWhile fun c => c ≠ '/').drop 1).reverse

/-- A directory that is one of the directories `created`, or an ancestor of one. -/
def Covered (created : List String) (dir : List Char) : Prop :=
  ∃ c ∈ created, dir = c.data ∨ dir ++ ['/'] <+: c.data

instance (created : List String) (dir : List Char) : Decidable (Covered created dir) := by
  delta Covered
  infer_instance

/-- The path of the file that an event writes. -/
def writtenPath : Event → Option String
  | Event.saveTexture path => some path
  | Event.writeFile path => some path
  | _ => none

/-- Every file that the events write lies in one of the directories `created` or in an
ancestor of one. -/
def WritesCovered (created : List String) (events : List Event) : Prop :=
  ∀ event ∈ events, ∀ path, writtenPath event = some path → Covered created (parentDir path)

end Files

/-! ## The content of the multiple-scattering accumulator -/

/-- The delta radiance of a scattering order and a wavelength subset: what the program of
`computeMultipleScatteringFromDensity` computes. -/
def deltaRadiance {T : Type} (sh : Shaders T) (scatteringOrder texIndex : Nat) : T :=
  sh.compute (Pass.computeMultipleScatteringFromDensity scatteringOrder texIndex)

/-- What `accumulateMultipleScattering` draws for a scattering order and a wavelength subset:
the delta radiance, copied with the uniform `radianceToLuminance` set to the matrix of the
subset, or copied with the uniform not set when the result is saved as radiance. -/
def accumulatedRadiance {T : Type} (sh : Shaders T) (opts : Options)
    (atmo : AtmosphereParameters) (scatteringOrder texIndex : Nat) : T :=
  sh.copyScatteringTexture
    (if opts.saveResultAsRadiance = false then
      some (radianceToLuminance sh.wavelengthToXYZW atmo.allWavelengths texIndex)
     else none)
    (deltaRadiance sh scatteringOrder texIndex)

/-- The sum of what is accumulated for the orders `2, ..., scatteringOrdersToCompute` of a
wavelength subset. -/
def accumulatedOrders {T : Type} [AddCommMonoid T] (sh : Shaders T) (opts : Options)
    (atmo : AtmosphereParameters) (texIndex : Nat) : T :=
  ((List.range' 2 (atmo.scatteringOrdersToCompute - 1)).map fun scatteringOrder =>
    accumulatedRadiance sh opts atmo scatteringOrder texIndex).sum

/-- The end of `accumulateMultipleScattering` for the last order, when the accumulator is to
be saved: the merge of the Smooth scatterers, then the save. -/
def mergeAndSave {T : Type} [AddCommMonoid T] (sh : Shaders T) (opts : Options)
    (atmo : AtmosphereParameters) (texIndex : Nat) (s : State T) : State T :=
  saveTexture (Texture.fixed TEX_MULTIPLE_SCATTERING)
    (if opts.saveResultAsRadiance then
      atmo.textureOutputDir ++ "/multiple-scattering-wlset" ++ toString texIndex ++ ".f32"
     else atmo.textureOutputDir ++ "/multiple-scattering-xyzw.f32")
    (mergeSmoothSingleScatteringTexture sh opts atmo s)

/-- The multiple-scattering accumulator is attached at most as colour attachment 0 of
`FBO_MULTIPLE_SCATTERING`. -/
def Sealed {T : Type} (s : State T) : Prop :=
  (∀ f, s.attachment1 f ≠ some (Texture.fixed TEX_MULTIPLE_SCATTERING)) ∧
  (∀ f, s.attachment0 f = some (Texture.fixed TEX_MULTIPLE_SCATTERING) →
    f = FBO_MULTIPLE_SCATTERING)

/-- No draw reaches the multiple-scattering accumulator: it is attached at most as colour
attachment 0 of `FBO_MULTIPLE_SCATTERING`, and when it is, that framebuffer is not bound.
With `detached` it is attached nowhere. -/
def Guarded {T : Type} (detached : Bool) (s : State T) : Prop :=
  Sealed s ∧
  (s.attachment0 FBO_MULTIPLE_SCATTERING = some (Texture.fixed TEX_MULTIPLE_SCATTERING) →
    s.framebuffer ≠ some FBO_MULTIPLE_SCATTERING ∧ detached = false)

/-- The multiple-scattering accumulator holds `v`, and no draw reaches it. -/
def Kept {T : Type} (detached : Bool) (v : T) (s : State T) : Prop :=
  s.image (Texture.fixed TEX_MULTIPLE_SCATTERING) = v ∧ Guarded detached s

/-! ## `unitRangeTexCoordToCosSZA` on the values of a `float` -/

namespace Ieee

/-- A value of the C++ type `float`: NaN, an infinity with its sign, or a finite number. A
finite number is a rational here; `negZero` is the sign of a zero and is read for the number
0 only. -/
inductive Value where
  | nan
  | inf (negative : Bool)
  | fin (q : ℚ) (negZero : Bool)
  deriving DecidableEq

open Value

/-- The sign bit of a value that is not NaN. -/
def Value.sign : Value → Bool
  | nan => false
  | inf negative => negative
  | fin q negZero => if q = 0 then negZero else decide (q < 0)

/-- Unary minus. -/
def neg : Value → Value
  | nan => nan
  | inf negative => inf (!negative)
  | fin q negZero => fin (-q) (!negZero)

/-- The sum of two floats. `round` gives the float for an exact result other than zero; an
exact zero is `-0` only as the sum of two `-0`. -/
def add (round : ℚ → Value) : Value → Value → Value
  | nan, _ => nan
  | _, nan => nan
  | inf s, inf s' => if s = s' then inf s else nan
  | inf s, fin _ _ => inf s
  | fin _ _, inf s => inf s
  | fin p s, fin q s' =>
    if p + q = 0 then fin 0 (decide (p = 0) && s && s') else round (p + q)

/-- The difference of two floats. -/
def sub (round : ℚ → Value) (x y : Value) : Value := add round x (neg y)

/-- The product of two floats: an infinity times a zero is NaN, and the sign of a zero or an
infinity is the exclusive or of the signs. -/
def mul (round : ℚ → Value) : Value → Value → Value
  | nan, _ => nan
  | _, nan => nan
  | inf s, inf s' => inf (s != s')
  | inf s, fin q s' => if q = 0 then nan else inf (s != (fin q s').sign)
  | fin p s, inf s' => if p = 0 then nan else inf ((fin p s).sign != s')
  | fin p s, fin q s' =>
    if p * q = 0 then fin 0 ((fin p s).sign != (fin q s').sign) else round (p * q)

/-- The quotient of two floats: `0/0` and an infinity by an infinity are NaN, and another
number by a zero is an infinity. -/
def div (round : ℚ → Value) : Value → Value → Value
  | nan, _ => nan
  | _, nan => nan
  | inf _, inf _ => nan
  | inf s, fin q s' => inf (s != (fin q s').sign)
  | fin p s, inf s' => fin 0 ((fin p s).sign != s')
  | fin p s, fin q s' =>
    if q = 0 then (if p = 0 then nan else inf ((fin p s).sign != (fin q s').sign))
    else if p = 0 then fin 0 ((fin p s).sign != (fin q s').sign)
    else round (p / q)

/-- The comparison `x < y`, false when a side is NaN. -/
def lt : Value → Value → Bool
  | nan, _ => false
  | _, nan => false
  | inf s, inf s' => s && !s'
  | inf s, fin _ _ => s
  | fin _ _, inf s' => !s'
  | fin p _, fin q _ => decide (p < q)

/-- The comparison `x <= y`, false when a side is NaN. -/
def le : Value → Value → Bool
  | nan, _ => false
  | _, nan => false
  | inf s, inf s' => s || !s'
  | inf s, fin _ _ => s
  | fin _ _, inf s' => !s'
  | fin p _, fin q _ => decide (p ≤ q)

/-- The comparison `x == 0`. -/
def isZero : Value → Bool
  | fin q _ => decide (q = 0)
  | _ => false

/-- The function `std::min`: `(b < a) ? b : a`. -/
def min (a b : Value) : Value := if lt b a then b else a

/-- The float of a number that needs no rounding, such as the literals 1 and 2. -/
def exact (q : ℚ) : Value := fin q false

/-- Modelled from the spec: `sqr` is declared in `util.hpp`, which is not among the sources;
the spec reads `sqr(x)` as the square of `x`. -/
def sqr (round : ℚ → Value) (x : Value) : Value := mul round x x

/-- Modelled from the spec: `clampCosine` is declared in `util.hpp`, which is not among the
sources; the spec says that all cosine results are clamped to `[-1, 1]`. The clamp is made of
comparisons, which are false for NaN, so that NaN is returned as it is. -/
def clampCosine (x : Value) : Value :=
  if lt x (exact (-1)) then exact (-1) else if lt (exact 1) x then exact 1 else x

/-- The fields of `AtmosphereParameters` that `unitRangeTexCoordToCosSZA` reads. -/
structure AtmosphereParameters where
  earthRadius : Value
  atmosphereHeight : Value
  lengthOfHorizRayFromGroundToBorderOfAtmo : Value

/-- The local `distFromGroundToTopAtmoBorder` of `unitRangeTexCoordToCosSZA`. -/
def distFromGroundToTopAtmoBorder (round : ℚ → Value) (atmo : AtmosphereParameters)
    (texCoord : Value) : Value :=
  let distMin := atmo.atmosphereHeight
  let distMax := atmo.lengthOfHorizRayFromGroundToBorderOfAtmo
  let A := div round atmo.earthRadius (sub round distMax distMin)
  let a := div round (sub round A (mul round A texCoord))
    (add round (exact 1) (mul round A texCoord))
  add round distMin (mul round (min a A) (sub round distMax distMin))

/-- The quotient that `unitRangeTexCoordToCosSZA` passes to `clampCosine`. -/
def cosSZAQuotient (round : ℚ → Value) (atmo : AtmosphereParameters) (texCoord : Value) :
    Value :=
  div round
    (sub round (sqr round atmo.lengthOfHorizRayFromGroundToBorderOfAtmo)
      (sqr round (distFromGroundToTopAtmoBorder round atmo texCoord)))
    (mul round (mul round (exact 2) atmo.earthRadius)
      (distFromGroundToTopAtmoBorder round atmo texCoord))

/-- The function `unitRangeTexCoordToCosSZA` on the values of a `float`, each operation
giving the float that `round` chooses for its exact result. -/
def unitRangeTexCoordToCosSZA (round : ℚ → Value) (atmo : AtmosphereParameters)
    (texCoord : Value) : Value :=
  if isZero (distFromGroundToTopAtmoBorder round atmo texCoord) then exact 1
  else clampCosine (cosSZAQuotient round atmo texCoord)

/-- The parameters of an atmosphere as floats, when they need no rounding. -/
def ofRational (atmo : CalcMySky.AtmosphereParameters) : AtmosphereParameters where
  earthRadius := exact atmo.earthRadius
  atmosphereHeight := exact atmo.atmosphereHeight
  lengthOfHorizRayFromGroundToBorderOfAtmo := exact atmo.lengthOfHorizRayFromGroundToBorderOfAtmo

end Ieee

/-! ## Concrete inputs -/

/-- Three groups of wavelengths, 400 nm to 730 nm in steps of 30 nm. -/
def threeGroups : List Vec4 :=
  [![400, 430, 460, 490], ![520, 550, 580, 610], ![640, 670, 700, 730]]

/-- A small planet: radius 4, atmosphere height 1, horizontal ray length 3. -/
def smallPlanet : AtmosphereParameters where
  allWavelengths := threeGroups
  textureOutputDir := "out"
  scatteringOrdersToCompute := 4
  earthRadius := 4
  atmosphereHeight := 1
  lengthOfHorizRayFromGroundToBorderOfAtmo := 3
  scatterers := []

/-- No option set: luminance output, no debug output. -/
def plainOptions : Options where
  saveResultAsRadiance := false
  dbgNoSaveTextures := false
  dbgNoEDSTextures := false
  dbgSaveGroundIrradiance := false
  dbgSaveScatDensity := false
  dbgSaveScatDensityOrder2FromGround := false
  dbgSaveAccumScattering := false
  dbgSaveDeltaScattering := false

/-- A scatterer with a general phase function. -/
def air : Scatterer where
  crossSectionAt1um := 1
  angstromExponent := 4
  numberDensity := "exp(-alt/8)"
  phaseFunction := "rayleigh"
  phaseFunctionType := PhaseFunctionType.General
  name := "air"

/-- A scatterer with an achromatic phase function. -/
def haze : Scatterer where
  crossSectionAt1um := 2
  angstromExponent := 0
  numberDensity := "exp(-alt/2)"
  phaseFunction := "isotropic"
  phaseFunctionType := PhaseFunctionType.Achromatic
  name := "haze"

/-- A scatterer with a smooth phase function. -/
def mist : Scatterer where
  crossSectionAt1um := 3
  angstromExponent := 1
  numberDensity := "exp(-alt/1)"
  phaseFunction := "henyey"
  phaseFunctionType := PhaseFunctionType.Smooth
  name := "mist"

/-- Shader programs on one-texel textures: every computing pass outputs 1, except that the
single scattering of `haze` is 5 and the indirect irradiance of the first scattering is 2 for
`air` and 3 for any other scatterer; the copying programs copy. -/
def unitShaders : Shaders ℚ where
  compute := fun pass =>
    match pass with
    | Pass.computeSingleScattering _ scatterer => if scatterer.name = "haze" then 5 else 1
    | Pass.computeIndirectIrradianceOrder1 _ scatterer => if scatterer.name = "air" then 2 else 3
    | _ => 1
  copyScatteringTexture := fun _ texture => texture
  mergeSmoothSingleScatteringTexture := fun _ texture => texture
  wavelengthToXYZW := fun _ => 0

/-- The small planet with the scatterers `air` and `haze`. -/
def airAndHaze : AtmosphereParameters := { smallPlanet with scatterers := [air, haze] }

/-- The state after the direct ground irradiance of subset 0 has been computed in a fresh
context whose textures all hold 7. -/
def afterDirectIrradiance : State ℚ :=
  computeDirectGroundIrradiance unitShaders plainOptions airAndHaze 0 (initialState fun _ => 7)

/-- The option `--no-save-textures` alone: luminance output, and no layer of a 3D texture is
rendered. -/
def noSaveOptions : Options := { plainOptions with dbgNoSaveTextures := true }

/-- The small planet with the scatterers `air`, `haze` and `mist`. -/
def mistyPlanet : AtmosphereParameters := { smallPlanet with scatterers := [air, haze, mist] }

/-- The small planet with one group of wavelengths, two scattering orders, and the
scatterer `haze` alone. -/
def hazyPlanet : AtmosphereParameters :=
  { smallPlanet with
    allWavelengths := [![400, 500, 600, 700]]
    scatteringOrdersToCompute := 2
    scatterers := [haze] }

/-- The programs of `unitShaders`, except that the delta radiance of the multiple scattering is
zero for every order and subset. -/
def zeroDeltaShaders : Shaders ℚ :=
  { unitShaders with
    compute := fun pass =>
      match pass with
      | Pass.computeMultipleScatteringFromDensity _ _ => 0
      | _ => unitShaders.compute pass }

/-- The option `--radiance` alone. -/
def radianceOptions : Options := { plainOptions with saveResultAsRadiance := true }

/-- The float 1, `0x3F800000`, on a little-endian host. -/
def floatOne : Util.GLfloat := ⟨0, 0, 128, 63⟩

/-- A 2D texture of 2 by 2 texels, every component 1. -/
def whiteSquare : Util.TextureImage := ⟨2, 2, 1, List.replicate 16 floatOne⟩

/-- A 3D texture of 2 by 2 by 2 texels, every component 1: a scattering texture for the sizes
`(2, 2, 1, 2)`. -/
def whiteCube : Util.TextureImage := ⟨2, 2, 2, List.replicate 32 floatOne⟩

/-- A buffer of 32 floats. -/
def smallBuffer : List Util.GLfloat := List.replicate 32 ⟨0, 0, 0, 0⟩

/-- Texture sizes of a quick run: the transmittance texture has 256 by 64 texels, the
irradiance texture 64 by 16, and the scattering texture 16 by 4 by 8 by 8, which is 4096
texels. -/
def quickSizes : TextureSizes where
  transmittanceTexW := 256
  transmittanceTexH := 64
  irradianceTexW := 64
  irradianceTexH := 16
  scatteringTextureSize := ![16, 4, 8, 8]
  eclipsedDoubleScatteringTextureSize := ![16, 8, 4, 4]

/-- A Qt in which no character outside ASCII is a digit and the locale writes numbers as
the C locale does. -/
def plainQt : Qt := ⟨fun _ => none, fun n => toString n⟩

/-- A planet of radius 8 with an atmosphere of height 9, for which the horizontal ray has the
length 15. -/
def widePlanet : AtmosphereParameters :=
  { smallPlanet with
    earthRadius := 8
    atmosphereHeight := 9
    lengthOfHorizRayFromGroundToBorderOfAtmo := 15 }

/-- A square root that is exact at 64 and at 289. -/
def sqrtTable (x : ℚ) : ℚ := if x = 64 then 8 else if x = 289 then 17 else 0

/-- A conversion that gives what `QByteArray::toFloat` gives for `nan` and for `120000`, and
reports failure for every other value. -/
def sampleToFloat (bytes : List Char) : Option Previewer.FloatValue :=
  if bytes = "nan".data then some Previewer.FloatValue.nan
  else if bytes = "120000".data then some (Previewer.FloatValue.finite 120000)
  else none

/-- A file `params.txt` with one group of wavelengths and an atmosphere height of 120 km. -/
def sampleParams : List Char :=
  "wavelengths: 400,500,600,700\n\natmosphere height: 120000\n".data

/-- A file `params.txt` whose atmosphere height is `nan`. -/
def nanParams : List Char := "wavelengths:400,500,600,700\natmosphere height:nan\n".data

/-- The characters of a word among the ASCII characters. -/
def asciiWord (c : Char) : Bool := c.isAlphanum || c = '_'

/-- A template in which the macro of zero order rendering and two longer macros occur. -/
def zeroOrderTemplate : List Char :=
  "#if RENDERING_ZERO_SCATTERING || RENDERING_ECLIPSED_ZERO_SCATTERING\n".data

/-- A template in which the place for the total scattering coefficient is named in a comment
and then used. -/
def coefficientTemplate : List Char :=
  "// COMPUTE_TOTAL_SCATTERING_COEFFICIENT\nCOMPUTE_TOTAL_SCATTERING_COEFFICIENT;\n".data

/-- The names of the render modes in the paths. -/
def sampleModeNames : SingleScatteringRenderMode → String
  | SingleScatteringRenderMode.SSRM_ON_THE_FLY => "on-the-fly"
  | SingleScatteringRenderMode.SSRM_PRECOMPUTED => "precomputed"

/-- Every program is taken to consist of the view direction stub and `render.frag`. -/
def sampleCaptured (_ : Files.ShaderSave) : List (String × String) :=
  [("calc-view-dir.frag", "vec3 calcViewDir() { return vec3(0); }"),
   ("render.frag", "void main() {}")]

/-- The planet `hazyPlanet` with the output directory `out%2`. -/
def percentPlanet : AtmosphereParameters := { hazyPlanet with textureOutputDir := "out%2" }

/-- A 2D texture of 3 by 1 texels, every component 1. -/
def whiteRow : Util.TextureImage := ⟨3, 1, 1, List.replicate 12 floatOne⟩

/-! ## Theorems -/

theorem diag_apply_self (x y z w : ℚ) (c : Fin 4) : diag x y z w c c = ![x, y, z, w] c := by
  simp [diag]

theorem diag_apply_ne (x y z w : ℚ) {i j : Fin 4} (h : i ≠ j) : diag x y z w i j = 0 := by
  simp [diag, Matrix.diagonal_apply_ne _ h]

theorem wlCount_of_lt {allWavelengths : List Vec4} (h : allWavelengths.length < 2 ^ 32) :
    wlCount allWavelengths = 4 * allWavelengths.length := by
  unfold wlCount
  omega

/-- C1: for a non-empty wavelength list of `n` groups (one that the 32-bit `texIndex` can
index) and every `texIndex < n`, the diagonal quadrature weights chosen by
`radianceToLuminance(texIndex)` are 0.5 for component 0 of group 0 and for component 3 of group
`n-1`, and 1 for every other wavelength; the off-diagonal entries are 0; for `n = 1` the weights
are (0.5, 1, 1, 0.5) and for `n >= 3` every interior group has weights (1, 1, 1, 1). -/
theorem C1_radianceToLuminance_weights (allWavelengths : List Vec4) (texIndex : Nat)
    (hsize : allWavelengths.length < 2 ^ 32) (hlt : texIndex < allWavelengths.length) :
    (∀ c : Fin 4, weights allWavelengths texIndex c c =
        if (texIndex = 0 ∧ c = 0) ∨ (texIndex = allWavelengths.length - 1 ∧ c = 3)
        then 1/2 else 1) ∧
    (∀ i j : Fin 4, i ≠ j → weights allWavelengths texIndex i j = 0) ∧
    (allWavelengths.length = 1 → weights allWavelengths texIndex = diag (1/2) 1 1 (1/2)) ∧
    (3 ≤ allWavelengths.length → 0 < texIndex → texIndex < allWavelengths.length - 1 →
        weights allWavelengths texIndex = diag 1 1 1 1) := by
  have hw := wlCount_of_lt hsize
  refine ⟨?_, ?_, ?_, ?_⟩
  · intro c
    unfold weights
    rw [hw]
    by_cases h1 : allWavelengths.length = 1
    · have h0 : texIndex = 0 := by omega
      simp only [h1, h0]
      fin_cases c <;> simp [diag]
    · have hne : ¬ (4 * allWavelengths.length = 4) := by omega
      simp only [hne, if_false]
      by_cases h0 : texIndex = 0
      · have hlast : ¬ (texIndex = allWavelengths.length - 1) := by omega
        have hlast2 : ¬ (allWavelengths.length ≤ 1) := by omega
        subst h0
        fin_cases c <;> simp [diag, if_neg hlast]
      · simp only [h0, if_false]
        have hmod : (texIndex + 1) % 2 ^ 32 = texIndex + 1 := by omega
        rw [hmod]
        by_cases hl : texIndex + 1 = 4 * allWavelengths.length / 4
        · have hl2 : texIndex = allWavelengths.length - 1 := by omega
          simp only [hl, if_true]
          fin_cases c <;> simp [diag, hl2]
        · have hl2 : ¬ (texIndex = allWavelengths.length - 1) := by omega
          simp only [hl, if_false]
          fin_cases c <;> simp [diag, hl2]
  · intro i j hij
    unfold weights
    split_ifs <;> exact diag_apply_ne _ _ _ _ hij
  · intro h1
    unfold weights
    rw [hw, h1]
    simp
  · intro h3 h0 hl
    unfold weights
    rw [hw]
    have hne : ¬ (4 * allWavelengths.length = 4) := by omega
    have h0' : ¬ texIndex = 0 := by omega
    have hl' : ¬ ((texIndex + 1) % 2 ^ 32 = 4 * allWavelengths.length / 4) := by omega
    simp only [hne, h0', hl', if_false]

/-- C1 at the last of three groups of wavelengths. -/
theorem C1_radianceToLuminance_weights_witness :
    (∀ c : Fin 4, weights threeGroups 2 c c =
        if ((2:Nat) = 0 ∧ c = 0) ∨ (2 = threeGroups.length - 1 ∧ c = 3)
        then 1/2 else 1) ∧
    (∀ i j : Fin 4, i ≠ j → weights threeGroups 2 i j = 0) ∧
    (threeGroups.length = 1 → weights threeGroups 2 = diag (1/2) 1 1 (1/2)) ∧
    (3 ≤ threeGroups.length → 0 < 2 → 2 < threeGroups.length - 1 →
        weights threeGroups 2 = diag 1 1 1 1) :=
  C1_radianceToLuminance_weights threeGroups 2 (by simp [threeGroups]) (by simp [threeGroups])

theorem clampCosine_mem (x : ℚ) : -1 ≤ clampCosine x ∧ clampCosine x ≤ 1 := by
  unfold clampCosine
  split_ifs with h1 h2
  · norm_num
  · norm_num
  · exact ⟨not_lt.mp h1, not_lt.mp h2⟩

theorem clampCosine_of_mem {x : ℚ} (h1 : -1 ≤ x) (h2 : x ≤ 1) : clampCosine x = x := by
  unfold clampCosine
  rw [if_neg (not_lt.mpr h1), if_neg (not_lt.mpr h2)]

theorem GeometryOK.height_lt_length {atmo : AtmosphereParameters} (h : GeometryOK atmo) :
    atmo.atmosphereHeight < atmo.lengthOfHorizRayFromGroundToBorderOfAtmo := by
  obtain ⟨hR, hH, hL0, hL⟩ := h
  have hpos : 0 < 2 * atmo.earthRadius * atmo.atmosphereHeight := by positivity
  nlinarith [sq_nonneg (atmo.lengthOfHorizRayFromGroundToBorderOfAtmo - atmo.atmosphereHeight)]

/-- C3: for every geometry with `R > 0`, `H > 0` and `L` the length of the horizontal ray,
`L >= 0` with `L^2 = H^2 + 2RH`, the distance computed at texture coordinate 1 is `H`, the
quotient `(L^2 - H^2)/(2RH)` is 1, and `unitRangeTexCoordToCosSZA(1)` equals 1. -/
theorem C3_unitRangeTexCoordToCosSZA_one (atmo : AtmosphereParameters)
    (hR : 0 < atmo.earthRadius) (hH : 0 < atmo.atmosphereHeight)
    (hL0 : 0 ≤ atmo.lengthOfHorizRayFromGroundToBorderOfAtmo)
    (hL : atmo.lengthOfHorizRayFromGroundToBorderOfAtmo ^ 2 =
      atmo.atmosphereHeight ^ 2 + 2 * atmo.earthRadius * atmo.atmosphereHeight) :
    distFromGroundToTopAtmoBorder atmo 1 = atmo.atmosphereHeight ∧
      (atmo.lengthOfHorizRayFromGroundToBorderOfAtmo ^ 2 - atmo.atmosphereHeight ^ 2) /
          (2 * atmo.earthRadius * atmo.atmosphereHeight) = 1 ∧
      unitRangeTexCoordToCosSZA atmo 1 = 1 := by
  have hlt := GeometryOK.height_lt_length ⟨hR, hH, hL0, hL⟩
  have hA : 0 < atmo.earthRadius /
      (atmo.lengthOfHorizRayFromGroundToBorderOfAtmo - atmo.atmosphereHeight) :=
    div_pos hR (sub_pos.mpr hlt)
  have hd : distFromGroundToTopAtmoBorder atmo 1 = atmo.atmosphereHeight := by
    simp only [distFromGroundToTopAtmoBorder, mul_one, sub_self, zero_div]
    rw [min_eq_left hA.le]
    ring
  have hq : (atmo.lengthOfHorizRayFromGroundToBorderOfAtmo ^ 2 - atmo.atmosphereHeight ^ 2) /
          (2 * atmo.earthRadius * atmo.atmosphereHeight) = 1 := by
    rw [hL]
    have : (2 * atmo.earthRadius * atmo.atmosphereHeight) ≠ 0 := by positivity
    field_simp
  refine ⟨hd, hq, ?_⟩
  unfold unitRangeTexCoordToCosSZA cosSZAQuotient
  rw [hd, if_neg hH.ne']
  have : (sqr atmo.lengthOfHorizRayFromGroundToBorderOfAtmo - sqr atmo.atmosphereHeight) /
      (2 * atmo.earthRadius * atmo.atmosphereHeight) = 1 := by
    rw [← hq]; simp [sqr, sq]
  rw [this]
  exact clampCosine_of_mem (by norm_num) (by norm_num)

/-- C3 on the planet of radius 4 with an atmosphere of height 1. -/
theorem C3_unitRangeTexCoordToCosSZA_one_witness :
    distFromGroundToTopAtmoBorder smallPlanet 1 = smallPlanet.atmosphereHeight ∧
      (smallPlanet.lengthOfHorizRayFromGroundToBorderOfAtmo ^ 2 -
            smallPlanet.atmosphereHeight ^ 2) /
          (2 * smallPlanet.earthRadius * smallPlanet.atmosphereHeight) = 1 ∧
      unitRangeTexCoordToCosSZA smallPlanet 1 = 1 :=
  C3_unitRangeTexCoordToCosSZA_one smallPlanet (by norm_num [smallPlanet])
    (by norm_num [smallPlanet]) (by norm_num [smallPlanet]) (by norm_num [smallPlanet])

/-- C4 as amended: for every geometry with `R > 0`, `H > 0` and `L^2 = H^2 + 2RH`, the distance
computed at texture coordinate 0 is `H + R` and `unitRangeTexCoordToCosSZA(0)` is
`-R/(2(R + H))`, a negative cosine: the lower end of the solar-zenith range is a sun below the
horizon. -/
theorem C4_unitRangeTexCoordToCosSZA_zero (atmo : AtmosphereParameters)
    (hR : 0 < atmo.earthRadius) (hH : 0 < atmo.atmosphereHeight)
    (hL : atmo.lengthOfHorizRayFromGroundToBorderOfAtmo ^ 2 =
      atmo.atmosphereHeight ^ 2 + 2 * atmo.earthRadius * atmo.atmosphereHeight) :
    distFromGroundToTopAtmoBorder atmo 0 = atmo.atmosphereHeight + atmo.earthRadius ∧
      unitRangeTexCoordToCosSZA atmo 0 =
        -atmo.earthRadius / (2 * (atmo.earthRadius + atmo.atmosphereHeight)) ∧
      unitRangeTexCoordToCosSZA atmo 0 < 0 := by
  have hne : atmo.lengthOfHorizRayFromGroundToBorderOfAtmo - atmo.atmosphereHeight ≠ 0 := by
    intro h0
    have : atmo.lengthOfHorizRayFromGroundToBorderOfAtmo = atmo.atmosphereHeight := by linarith
    rw [this] at hL
    have hpos : 0 < 2 * atmo.earthRadius * atmo.atmosphereHeight := by positivity
    linarith
  have hd : distFromGroundToTopAtmoBorder atmo 0 = atmo.atmosphereHeight + atmo.earthRadius := by
    simp only [distFromGroundToTopAtmoBorder, mul_zero, sub_zero, add_zero, div_one, min_self]
    rw [div_mul_cancel₀ _ hne]
  have hsum : 0 < atmo.atmosphereHeight + atmo.earthRadius := by positivity
  have hq : cosSZAQuotient atmo 0 =
      -atmo.earthRadius / (2 * (atmo.earthRadius + atmo.atmosphereHeight)) := by
    unfold cosSZAQuotient
    rw [hd]
    simp only [sqr, ← sq]
    rw [hL]
    field_simp
    ring
  have hval : unitRangeTexCoordToCosSZA atmo 0 =
      -atmo.earthRadius / (2 * (atmo.earthRadius + atmo.atmosphereHeight)) := by
    unfold unitRangeTexCoordToCosSZA
    rw [hd, if_neg hsum.ne', hq]
    apply clampCosine_of_mem
    · rw [le_div_iff₀ (by positivity)]; nlinarith
    · rw [div_le_iff₀ (by positivity)]; nlinarith
  refine ⟨hd, hval, ?_⟩
  rw [hval]
  apply div_neg_of_neg_of_pos
  · linarith
  · positivity

/-- C4 as stated fails on the planet of radius 4 with an atmosphere of height 1 and horizontal
ray length 3: at texture coordinate 0 the computed distance is 5, not 3, and the returned
cosine is -2/5, not 0. -/
theorem C4_counterexample :
    (0 < smallPlanet.earthRadius ∧ 0 < smallPlanet.atmosphereHeight ∧
      smallPlanet.lengthOfHorizRayFromGroundToBorderOfAtmo ^ 2 =
        smallPlanet.atmosphereHeight ^ 2 +
          2 * smallPlanet.earthRadius * smallPlanet.atmosphereHeight) ∧
    distFromGroundToTopAtmoBorder smallPlanet 0 = 5 ∧
    unitRangeTexCoordToCosSZA smallPlanet 0 = -2/5 ∧
    ¬ (distFromGroundToTopAtmoBorder smallPlanet 0 =
          smallPlanet.lengthOfHorizRayFromGroundToBorderOfAtmo ∧
        unitRangeTexCoordToCosSZA smallPlanet 0 = 0) := by
  have hd : distFromGroundToTopAtmoBorder smallPlanet 0 = 5 := by
    norm_num [distFromGroundToTopAtmoBorder, smallPlanet]
  have hv : unitRangeTexCoordToCosSZA smallPlanet 0 = -2/5 := by
    norm_num [unitRangeTexCoordToCosSZA, cosSZAQuotient, clampCosine, sqr, hd]
    norm_num [smallPlanet]
  refine ⟨by norm_num [smallPlanet], hd, hv, ?_⟩
  rw [hd, hv]
  norm_num [smallPlanet]

/-- C4 as amended, on the planet of radius 4 with an atmosphere of height 1. -/
theorem C4_unitRangeTexCoordToCosSZA_zero_witness :
    distFromGroundToTopAtmoBorder smallPlanet 0 =
        smallPlanet.atmosphereHeight + smallPlanet.earthRadius ∧
      unitRangeTexCoordToCosSZA smallPlanet 0 =
        -smallPlanet.earthRadius / (2 * (smallPlanet.earthRadius + smallPlanet.atmosphereHeight)) ∧
      unitRangeTexCoordToCosSZA smallPlanet 0 < 0 :=
  C4_unitRangeTexCoordToCosSZA_zero smallPlanet (by norm_num [smallPlanet])
    (by norm_num [smallPlanet]) (by norm_num [smallPlanet])

theorem State.ite_eq {T : Type} (c : Prop) [Decidable c] (a b : State T) :
    (if c then a else b) =
      { blend0 := if c then a.blend0 else b.blend0
        blend1 := if c then a.blend1 else b.blend1
        blendSrc := if c then a.blendSrc else b.blendSrc
        blendDst := if c then a.blendDst else b.blendDst
        framebuffer := if c then a.framebuffer else b.framebuffer
        attachment0 := if c then a.attachment0 else b.attachment0
        attachment1 := if c then a.attachment1 else b.attachment1
        drawBuffer1 := if c then a.drawBuffer1 else b.drawBuffer1
        image := if c then a.image else b.image
        accumulatedSingleScatteringTextures :=
          if c then a.accumulatedSingleScatteringTextures
          else b.accumulatedSingleScatteringTextures
        files := if c then a.files else b.files
        log := if c then a.log else b.log } := by
  split_ifs <;> rfl

theorem computeSingleScattering_irradiance {T : Type} [AddCommMonoid T] (sh : Shaders T)
    (opts : Options)
    (atmo : AtmosphereParameters) (texIndex : Nat) (scatterer : Scatterer) (s : State T)
    (h : IrradianceFramebufferReady s) :
    IrradianceFramebufferReady (computeSingleScattering sh opts atmo texIndex scatterer s) ∧
    (computeSingleScattering sh opts atmo texIndex scatterer s).attachment0
        FBO_MULTIPLE_SCATTERING = s.attachment0 FBO_MULTIPLE_SCATTERING ∧
    (computeSingleScattering sh opts atmo texIndex scatterer s).image
        (Texture.fixed TEX_DELTA_IRRADIANCE) = s.image (Texture.fixed TEX_DELTA_IRRADIANCE) ∧
    (computeSingleScattering sh opts atmo texIndex scatterer s).image
        (Texture.fixed TEX_IRRADIANCE) = s.image (Texture.fixed TEX_IRRADIANCE) := by
  obtain ⟨h0, h1, hd, ha⟩ := h
  have hDS := ha FBO_DELTA_SCATTERING (by decide)
  have hSS := ha FBO_SINGLE_SCATTERING (by decide)
  unfold IrradianceFramebufferReady
  cases hty : scatterer.phaseFunctionType <;> cases hflag : opts.dbgNoSaveTextures <;>
  simp only [computeSingleScattering, accumulateSingleScattering, render3DTexLayers, renderQuad,
    writeAttachment, glBindFramebuffer, glFramebufferTexture, checkFramebufferStatus,
    saveTexture, glBlendFunc, glEnableBlend, glDisableBlend, glGenTextures, State.ite_eq, hty,
    hflag, hDS, hSS, ↓reduceIte, ite_self, Function.update_same, Bool.false_eq_true] <;>
  (refine ⟨⟨?_, ?_, ?_, ?_⟩, ?_, ?_, ?_⟩) <;>
  first
    | (intro f hf; simp only [ha f hf])
    | simp [h0, h1, hd]

theorem order2Scatterer_irradiance {T : Type} [AddCommMonoid T] (sh : Shaders T)
    (opts : Options)
    (atmo : AtmosphereParameters) (texIndex : Nat) (s : State T) (j : Nat)
    (scatterer : Scatterer) (hj : atmo.scatterers[j]? = some scatterer)
    (h : IrradianceFramebufferReady s)
    (hm : s.attachment0 FBO_MULTIPLE_SCATTERING =
      some (Texture.fixed TEX_DELTA_SCATTERING_DENSITY)) :
    IrradianceFramebufferReady (order2Scatterer sh opts atmo texIndex s j) ∧
    (order2Scatterer sh opts atmo texIndex s j).attachment0 FBO_MULTIPLE_SCATTERING =
        some (Texture.fixed TEX_DELTA_SCATTERING_DENSITY) ∧
    (order2Scatterer sh opts atmo texIndex s j).image (Texture.fixed TEX_DELTA_IRRADIANCE) =
        (if j = 0 then sh.compute (Pass.computeIndirectIrradianceOrder1 texIndex scatterer)
         else sh.compute (Pass.computeIndirectIrradianceOrder1 texIndex scatterer) +
           s.image (Texture.fixed TEX_DELTA_IRRADIANCE)) ∧
    (order2Scatterer sh opts atmo texIndex s j).image (Texture.fixed TEX_IRRADIANCE) =
        sh.compute (Pass.computeIndirectIrradianceOrder1 texIndex scatterer) +
          s.image (Texture.fixed TEX_IRRADIANCE) := by
  obtain ⟨⟨x0, x1, xd, xa⟩, xm, xi0, xi1⟩ :=
    computeSingleScattering_irradiance sh opts atmo texIndex scatterer s h
  rw [hm] at xm
  have xM := xa FBO_MULTIPLE_SCATTERING (by decide)
  unfold IrradianceFramebufferReady
  by_cases hj0 : j = 0
  · subst hj0
    cases hflag : opts.dbgNoSaveTextures <;>
    simp only [order2Scatterer, hj, computeIndirectIrradianceOrder1, render3DTexLayers,
      renderQuad, writeAttachment, glBindFramebuffer, glEnableBlend, glDisableBlend,
      glBlendFunc, glEnableiBlend, glDisableiBlend, saveIrradiance, saveTexture, State.ite_eq,
      hflag, x0, x1, xd, xm, xM, ↓reduceIte, ite_self, Function.update_same,
      Bool.false_eq_true, one_ne_zero] <;>
    (refine ⟨⟨?_, ?_, ?_, ?_⟩, ?_, ?_, ?_⟩) <;>
    first
      | (intro f hf; simp only [xa f hf])
      | simp [x0, x1, xd, xm, xi0, xi1, blendResult, BlendFactor.apply]
  cases hflag : opts.dbgNoSaveTextures <;>
  simp only [order2Scatterer, hj, computeIndirectIrradianceOrder1, render3DTexLayers, renderQuad,
    writeAttachment, glBindFramebuffer, glEnableBlend, glDisableBlend, glBlendFunc,
    glEnableiBlend, glDisableiBlend, saveIrradiance, saveTexture, State.ite_eq,
    hj0, hflag, x0, x1, xd, xm, xM, ↓reduceIte, ite_self, Function.update_same,
    Bool.false_eq_true, one_ne_zero] <;>
  (refine ⟨⟨?_, ?_, ?_, ?_⟩, ?_, ?_, ?_⟩) <;>
  first
    | (intro f hf; simp only [xa f hf])
    | simp [x0, x1, xd, xm, xi0, xi1, blendResult, BlendFactor.apply]

theorem order2FromGround_irradiance {T : Type} [AddCommMonoid T] (sh : Shaders T)
    (opts : Options)
    (atmo : AtmosphereParameters) (texIndex : Nat) (s : State T)
    (h : IrradianceFramebufferReady s) :
    IrradianceFramebufferReady (order2FromGround sh opts atmo texIndex s) ∧
    (order2FromGround sh opts atmo texIndex s).attachment0 FBO_MULTIPLE_SCATTERING =
        some (Texture.fixed TEX_DELTA_SCATTERING_DENSITY) ∧
    (order2FromGround sh opts atmo texIndex s).image (Texture.fixed TEX_DELTA_IRRADIANCE) =
        s.image (Texture.fixed TEX_DELTA_IRRADIANCE) ∧
    (order2FromGround sh opts atmo texIndex s).image (Texture.fixed TEX_IRRADIANCE) =
        s.image (Texture.fixed TEX_IRRADIANCE) := by
  obtain ⟨h0, h1, hd, ha⟩ := h
  have hM := ha FBO_MULTIPLE_SCATTERING (by decide)
  unfold IrradianceFramebufferReady
  cases hflag : opts.dbgNoSaveTextures <;>
  simp only [order2FromGround, render3DTexLayers, renderQuad, writeAttachment,
    glBindFramebuffer, glFramebufferTexture, checkFramebufferStatus, saveTexture, glBlendFunc,
    State.ite_eq, hflag, hM, ↓reduceIte, ite_self, Function.update_same,
    Bool.false_eq_true] <;>
  (refine ⟨⟨?_, ?_, ?_, ?_⟩, ?_, ?_, ?_⟩) <;>
  first
    | (intro f hf; simp only [ha f hf])
    | simp [h0, h1, hd]

theorem order2Loop_irradiance {T : Type} [AddCommMonoid T] (sh : Shaders T)
    (opts : Options)
    (atmo : AtmosphereParameters) (texIndex : Nat) (s : State T)
    (h : IrradianceFramebufferReady s)
    (hm : s.attachment0 FBO_MULTIPLE_SCATTERING =
      some (Texture.fixed TEX_DELTA_SCATTERING_DENSITY))
    (k : Nat) (hk : k ≤ atmo.scatterers.length) :
    IrradianceFramebufferReady
        ((List.range k).foldl (order2Scatterer sh opts atmo texIndex) s) ∧
    ((List.range k).foldl (order2Scatterer sh opts atmo texIndex) s).attachment0
        FBO_MULTIPLE_SCATTERING = some (Texture.fixed TEX_DELTA_SCATTERING_DENSITY) ∧
    (0 < k → ((List.range k).foldl (order2Scatterer sh opts atmo texIndex) s).image
        (Texture.fixed TEX_DELTA_IRRADIANCE) =
        ((atmo.scatterers.take k).map fun scatterer =>
          sh.compute (Pass.computeIndirectIrradianceOrder1 texIndex scatterer)).sum) ∧
    ((List.range k).foldl (order2Scatterer sh opts atmo texIndex) s).image
        (Texture.fixed TEX_IRRADIANCE) =
        s.image (Texture.fixed TEX_IRRADIANCE) +
        ((atmo.scatterers.take k).map fun scatterer =>
          sh.compute (Pass.computeIndirectIrradianceOrder1 texIndex scatterer)).sum := by
  induction k with
  | zero => exact ⟨by simpa using h, by simpa using hm, by simp, by simp⟩
  | succ k ih =>
    obtain ⟨ihR, ihM, ihD, ihI⟩ := ih (Nat.le_of_succ_le hk)
    have hlt : k < atmo.scatterers.length := hk
    have hj : atmo.scatterers[k]? = some atmo.scatterers[k] := List.getElem?_eq_getElem hlt
    obtain ⟨bR, bM, bD, bI⟩ := order2Scatterer_irradiance sh opts atmo texIndex
      ((List.range k).foldl (order2Scatterer sh opts atmo texIndex) s) k _ hj ihR ihM
    have htake : atmo.scatterers.take (k + 1) = atmo.scatterers.take k ++ [atmo.scatterers[k]] := by
      rw [List.take_succ, hj]; rfl
    rw [List.range_succ, List.foldl_append, List.foldl_cons, List.foldl_nil, htake,
      List.map_append, List.sum_append, List.map_singleton, List.sum_singleton]
    refine ⟨bR, bM, fun _ => ?_, ?_⟩
    · rw [bD]
      by_cases hk0 : k = 0
      · subst hk0; simp
      · rw [if_neg hk0, ihD (Nat.pos_of_ne_zero hk0), add_comm]
    · rw [bI, ihI]
      abel

theorem computeScatteringDensityOrder2_irradiance {T : Type} [AddCommMonoid T] (sh : Shaders T)
    (opts : Options)
    (atmo : AtmosphereParameters) (texIndex : Nat) (s : State T)
    (h : IrradianceFramebufferReady s) (hm : 1 ≤ atmo.scatterers.length) :
    (computeScatteringDensityOrder2 sh opts atmo texIndex s).image
        (Texture.fixed TEX_DELTA_IRRADIANCE) =
      (atmo.scatterers.map fun scatterer =>
        sh.compute (Pass.computeIndirectIrradianceOrder1 texIndex scatterer)).sum ∧
    (computeScatteringDensityOrder2 sh opts atmo texIndex s).image
        (Texture.fixed TEX_IRRADIANCE) =
      s.image (Texture.fixed TEX_IRRADIANCE) +
      (atmo.scatterers.map fun scatterer =>
        sh.compute (Pass.computeIndirectIrradianceOrder1 texIndex scatterer)).sum := by
  obtain ⟨pR, pM, pD, pI⟩ := order2FromGround_irradiance sh opts atmo texIndex s h
  obtain ⟨lR, lM, lD, lI⟩ := order2Loop_irradiance sh opts atmo texIndex
    (order2FromGround sh opts atmo texIndex s) pR pM atmo.scatterers.length le_rfl
  rw [List.take_length] at lD lI
  rw [pI] at lI
  have lD' := lD hm
  simp only [computeScatteringDensityOrder2, glDisableBlend, saveScatteringDensity, saveTexture,
    glBindFramebuffer, State.ite_eq, ite_self]
  exact ⟨lD', lI⟩

theorem order2_two_scatterers {T : Type} [AddCommMonoid T] (sh : Shaders T)
    (opts : Options)
    (atmo : AtmosphereParameters) (texIndex : Nat) (a b : Scatterer) (s : State T)
    (h : IrradianceFramebufferReady s) :
    (order2Scatterer sh opts { atmo with scatterers := [a, b] } texIndex
        (order2FromGround sh opts { atmo with scatterers := [a, b] } texIndex s) 0).image
        (Texture.fixed TEX_DELTA_IRRADIANCE) =
      sh.compute (Pass.computeIndirectIrradianceOrder1 texIndex a) ∧
    (order2Scatterer sh opts { atmo with scatterers := [a, b] } texIndex
        (order2Scatterer sh opts { atmo with scatterers := [a, b] } texIndex
          (order2FromGround sh opts { atmo with scatterers := [a, b] } texIndex s) 0) 1).image
        (Texture.fixed TEX_DELTA_IRRADIANCE) =
      sh.compute (Pass.computeIndirectIrradianceOrder1 texIndex b) +
        (order2Scatterer sh opts { atmo with scatterers := [a, b] } texIndex
          (order2FromGround sh opts { atmo with scatterers := [a, b] } texIndex s) 0).image
          (Texture.fixed TEX_DELTA_IRRADIANCE) := by
  obtain ⟨pR, pM, -, -⟩ :=
    order2FromGround_irradiance sh opts { atmo with scatterers := [a, b] } texIndex s h
  obtain ⟨aR, aM, aD, -⟩ := order2Scatterer_irradiance sh opts
    { atmo with scatterers := [a, b] } texIndex _ 0 a rfl pR pM
  obtain ⟨-, -, bD, -⟩ := order2Scatterer_irradiance sh opts
    { atmo with scatterers := [a, b] } texIndex _ 1 b rfl aR aM
  exact ⟨by simpa using aD, by simpa using bD⟩

theorem computeDirectGroundIrradiance_ready {T : Type} [AddCommMonoid T] (sh : Shaders T)
    (opts : Options) (atmo : AtmosphereParameters) (texIndex : Nat) (s : State T)
    (ha : ∀ f, f ≠ FBO_IRRADIANCE → s.attachment1 f = none) :
    IrradianceFramebufferReady (computeDirectGroundIrradiance sh opts atmo texIndex s) := by
  unfold IrradianceFramebufferReady
  simp only [computeDirectGroundIrradiance, renderQuad, writeAttachment, glBindFramebuffer,
    glFramebufferTexture, checkFramebufferStatus, setDrawBuffers01, saveIrradiance, saveTexture,
    State.ite_eq, ↓reduceIte, ite_self, Function.update_same, one_ne_zero]
  refine ⟨trivial, trivial, trivial, fun f hf => ?_⟩
  rw [Function.update_noteq hf]
  exact ha f hf

/-- C5: with the framebuffer objects as `computeDirectGroundIrradiance` leaves them, after
`computeScatteringDensityOrder2` has processed the scatterers `0..m-1` (`m >= 1`), the
delta-irradiance texture holds the sum `c_0 + ... + c_{m-1}` of the indirect-irradiance outputs of
the scatterers, whatever it held before, and the accumulated-irradiance texture holds its
previous content plus that sum. -/
theorem C5_order2_irradiance {T : Type} [AddCommMonoid T] (sh : Shaders T)
    (opts : Options) (atmo : AtmosphereParameters) (texIndex : Nat) (s : State T)
    (h : IrradianceFramebufferReady s) (hm : 1 ≤ atmo.scatterers.length) :
    (computeScatteringDensityOrder2 sh opts atmo texIndex s).image
        (Texture.fixed TEX_DELTA_IRRADIANCE) =
      (atmo.scatterers.map fun scatterer =>
        sh.compute (Pass.computeIndirectIrradianceOrder1 texIndex scatterer)).sum ∧
    (computeScatteringDensityOrder2 sh opts atmo texIndex s).image
        (Texture.fixed TEX_IRRADIANCE) =
      s.image (Texture.fixed TEX_IRRADIANCE) +
      (atmo.scatterers.map fun scatterer =>
        sh.compute (Pass.computeIndirectIrradianceOrder1 texIndex scatterer)).sum :=
  computeScatteringDensityOrder2_irradiance sh opts atmo texIndex s h hm

/-- C5 for the scatterers `air` and `haze`, after the direct ground irradiance of subset 0. -/
theorem C5_order2_irradiance_witness :
    IrradianceFramebufferReady afterDirectIrradiance ∧ 1 ≤ airAndHaze.scatterers.length ∧
    (computeScatteringDensityOrder2 unitShaders plainOptions airAndHaze 0
        afterDirectIrradiance).image (Texture.fixed TEX_DELTA_IRRADIANCE) =
      (airAndHaze.scatterers.map fun scatterer =>
        unitShaders.compute (Pass.computeIndirectIrradianceOrder1 0 scatterer)).sum ∧
    (computeScatteringDensityOrder2 unitShaders plainOptions airAndHaze 0
        afterDirectIrradiance).image (Texture.fixed TEX_IRRADIANCE) =
      afterDirectIrradiance.image (Texture.fixed TEX_IRRADIANCE) +
      (airAndHaze.scatterers.map fun scatterer =>
        unitShaders.compute (Pass.computeIndirectIrradianceOrder1 0 scatterer)).sum :=
  ⟨computeDirectGroundIrradiance_ready _ _ _ _ _ (fun _ _ => rfl), by decide,
    C5_order2_irradiance unitShaders plainOptions airAndHaze 0 afterDirectIrradiance
      (computeDirectGroundIrradiance_ready _ _ _ _ _ (fun _ _ => rfl)) (by decide)⟩

/-- C6: for two scatterers `a` and `b` with fixed indirect-irradiance contributions, the
order-2 processing in the order `(a, b)` and in the order `(b, a)`, from the same state with the
framebuffer objects as `computeDirectGroundIrradiance` leaves them, ends with the same
delta-irradiance texture, the sum of the two contributions, and with the same
accumulated-irradiance texture; in both orders the scatterer at index 0 overwrites the
delta-irradiance texture and the scatterer at index 1 adds to it. -/
theorem C6_order2_order_independent {T : Type} [AddCommMonoid T] (sh : Shaders T)
    (opts : Options) (atmo : AtmosphereParameters) (texIndex : Nat) (a b : Scatterer)
    (s : State T) (h : IrradianceFramebufferReady s) :
    ((computeScatteringDensityOrder2 sh opts { atmo with scatterers := [a, b] } texIndex s).image
        (Texture.fixed TEX_DELTA_IRRADIANCE) =
      (computeScatteringDensityOrder2 sh opts { atmo with scatterers := [b, a] } texIndex
        s).image (Texture.fixed TEX_DELTA_IRRADIANCE) ∧
    (computeScatteringDensityOrder2 sh opts { atmo with scatterers := [a, b] } texIndex s).image
        (Texture.fixed TEX_DELTA_IRRADIANCE) =
      sh.compute (Pass.computeIndirectIrradianceOrder1 texIndex a) +
        sh.compute (Pass.computeIndirectIrradianceOrder1 texIndex b) ∧
    (computeScatteringDensityOrder2 sh opts { atmo with scatterers := [a, b] } texIndex s).image
        (Texture.fixed TEX_IRRADIANCE) =
      (computeScatteringDensityOrder2 sh opts { atmo with scatterers := [b, a] } texIndex
        s).image (Texture.fixed TEX_IRRADIANCE)) ∧
    ((order2Scatterer sh opts { atmo with scatterers := [a, b] } texIndex
        (order2FromGround sh opts { atmo with scatterers := [a, b] } texIndex s) 0).image
        (Texture.fixed TEX_DELTA_IRRADIANCE) =
      sh.compute (Pass.computeIndirectIrradianceOrder1 texIndex a) ∧
    (order2Scatterer sh opts { atmo with scatterers := [a, b] } texIndex
        (order2Scatterer sh opts { atmo with scatterers := [a, b] } texIndex
          (order2FromGround sh opts { atmo with scatterers := [a, b] } texIndex s) 0) 1).image
        (Texture.fixed TEX_DELTA_IRRADIANCE) =
      sh.compute (Pass.computeIndirectIrradianceOrder1 texIndex b) +
        (order2Scatterer sh opts { atmo with scatterers := [a, b] } texIndex
          (order2FromGround sh opts { atmo with scatterers := [a, b] } texIndex s) 0).image
          (Texture.fixed TEX_DELTA_IRRADIANCE)) ∧
    ((order2Scatterer sh opts { atmo with scatterers := [b, a] } texIndex
        (order2FromGround sh opts { atmo with scatterers := [b, a] } texIndex s) 0).image
        (Texture.fixed TEX_DELTA_IRRADIANCE) =
      sh.compute (Pass.computeIndirectIrradianceOrder1 texIndex b) ∧
    (order2Scatterer sh opts { atmo with scatterers := [b, a] } texIndex
        (order2Scatterer sh opts { atmo with scatterers := [b, a] } texIndex
          (order2FromGround sh opts { atmo with scatterers := [b, a] } texIndex s) 0) 1).image
        (Texture.fixed TEX_DELTA_IRRADIANCE) =
      sh.compute (Pass.computeIndirectIrradianceOrder1 texIndex a) +
        (order2Scatterer sh opts { atmo with scatterers := [b, a] } texIndex
          (order2FromGround sh opts { atmo with scatterers := [b, a] } texIndex s) 0).image
          (Texture.fixed TEX_DELTA_IRRADIANCE)) := by
  obtain ⟨abD, abI⟩ := computeScatteringDensityOrder2_irradiance sh opts
    { atmo with scatterers := [a, b] } texIndex s h (by simp)
  obtain ⟨baD, baI⟩ := computeScatteringDensityOrder2_irradiance sh opts
    { atmo with scatterers := [b, a] } texIndex s h (by simp)
  refine ⟨?_, order2_two_scatterers sh opts atmo texIndex a b s h,
    order2_two_scatterers sh opts atmo texIndex b a s h⟩
  rw [abD, abI, baD, baI]
  simp only [List.map_cons, List.map_nil, List.sum_cons, List.sum_nil, add_zero]
  exact ⟨add_comm _ _, trivial, by rw [add_comm (sh.compute _)]⟩

/-- C6 for the scatterers `air` and `haze`, after the direct ground irradiance of subset 0. -/
theorem C6_order2_order_independent_witness :
    (computeScatteringDensityOrder2 unitShaders plainOptions
        { smallPlanet with scatterers := [air, haze] } 0 afterDirectIrradiance).image
        (Texture.fixed TEX_DELTA_IRRADIANCE) =
      (computeScatteringDensityOrder2 unitShaders plainOptions
        { smallPlanet with scatterers := [haze, air] } 0 afterDirectIrradiance).image
        (Texture.fixed TEX_DELTA_IRRADIANCE) :=
  (C6_order2_order_independent unitShaders plainOptions smallPlanet 0 air haze
    afterDirectIrradiance
    (computeDirectGroundIrradiance_ready _ _ _ _ _ (fun _ _ => rfl))).1.1

theorem SameAccumulation.refl {T : Type} (s : State T) : SameAccumulation s s :=
  ⟨rfl, fun _ => rfl, rfl⟩

theorem SameAccumulation.trans {T : Type} {a b c : State T} (h1 : SameAccumulation a b)
    (h2 : SameAccumulation b c) : SameAccumulation a c :=
  ⟨h2.1.trans h1.1, fun name => (h2.2.1 name).trans (h1.2.1 name), h2.2.2.trans h1.2.2⟩

theorem computeTransmittance_quiet {T : Type} [AddCommMonoid T] (sh : Shaders T)
    (atmo : AtmosphereParameters) (texIndex : Nat) (s : State T) (h : BetweenStages s) :
    BetweenStages (computeTransmittance sh atmo texIndex s) ∧
      SameAccumulation s (computeTransmittance sh atmo texIndex s) := by
  obtain ⟨hb, h1, h2, h3⟩ := h
  have e1 := h1 FBO_TRANSMITTANCE (by decide)
  unfold BetweenStages AttachmentsOK SameAccumulation State.trace
  simp only [computeTransmittance, renderQuad, writeAttachment, glBindFramebuffer,
    glFramebufferTexture, checkFramebufferStatus, saveTexture, State.ite_eq, e1, hb,
    ↓reduceIte, ite_self, Function.update_same]
  refine ⟨⟨trivial, h1, h2, fun f hf name => ?_⟩, trivial, fun name => ?_, ?_⟩
  · by_cases hf' : f = FBO_TRANSMITTANCE
    · subst hf'; simp
    · rw [Function.update_noteq hf']; exact h3 f hf name
  · simp
  · simp [Event.tracked]

theorem computeDirectGroundIrradiance_quiet {T : Type} [AddCommMonoid T] (sh : Shaders T)
    (opts : Options) (atmo : AtmosphereParameters) (texIndex : Nat) (s : State T)
    (h : BetweenStages s) :
    BetweenStages (computeDirectGroundIrradiance sh opts atmo texIndex s) ∧
      SameAccumulation s (computeDirectGroundIrradiance sh opts atmo texIndex s) := by
  obtain ⟨hb, h1, h2, h3⟩ := h
  unfold BetweenStages AttachmentsOK SameAccumulation State.trace
  simp only [computeDirectGroundIrradiance, renderQuad, writeAttachment, glBindFramebuffer,
    glFramebufferTexture, checkFramebufferStatus, setDrawBuffers01, saveIrradiance, saveTexture,
    State.ite_eq, hb, ↓reduceIte, ite_self, Function.update_same, one_ne_zero]
  refine ⟨⟨trivial, fun f hf => ?_, fun name => ?_, fun f hf name => ?_⟩, trivial,
    fun name => ?_, ?_⟩
  · rw [Function.update_noteq hf]; exact h1 f hf
  · simp
  · by_cases hf' : f = FBO_IRRADIANCE
    · subst hf'; simp
    · rw [Function.update_noteq hf']; exact h3 f hf name
  · simp
  · split_ifs <;> simp [Event.tracked]

theorem order2FromGround_quiet {T : Type} [AddCommMonoid T] (sh : Shaders T)
    (opts : Options) (atmo : AtmosphereParameters) (texIndex : Nat) (s : State T)
    (h : BetweenStages s) :
    BetweenStages (order2FromGround sh opts atmo texIndex s) ∧
      SameAccumulation s (order2FromGround sh opts atmo texIndex s) := by
  obtain ⟨hb, h1, h2, h3⟩ := h
  have e1 := h1 FBO_MULTIPLE_SCATTERING (by decide)
  unfold BetweenStages AttachmentsOK SameAccumulation State.trace
  cases hflag : opts.dbgNoSaveTextures <;>
  simp only [order2FromGround, render3DTexLayers, renderQuad, writeAttachment,
    glBindFramebuffer, glFramebufferTexture, checkFramebufferStatus, saveTexture, glBlendFunc,
    State.ite_eq, hflag, e1, hb, ↓reduceIte, ite_self, Function.update_same,
    Bool.false_eq_true] <;>
  (refine ⟨⟨trivial, h1, h2, fun f hf name => ?_⟩, trivial, fun name => ?_, ?_⟩) <;>
  first
    | (by_cases hf' : f = FBO_MULTIPLE_SCATTERING
       · subst hf'; simp
       · rw [Function.update_noteq hf']; exact h3 f hf name)
    | (split_ifs <;> simp [Event.tracked])
    | simp

theorem computeScatteringDensity_quiet {T : Type} [AddCommMonoid T] (sh : Shaders T)
    (opts : Options) (atmo : AtmosphereParameters) (scatteringOrder texIndex : Nat)
    (s : State T) (h : BetweenStages s) :
    BetweenStages (computeScatteringDensity sh opts atmo scatteringOrder texIndex s) ∧
      SameAccumulation s (computeScatteringDensity sh opts atmo scatteringOrder texIndex s) := by
  obtain ⟨hb, h1, h2, h3⟩ := h
  have e1 := h1 FBO_MULTIPLE_SCATTERING (by decide)
  unfold BetweenStages AttachmentsOK SameAccumulation State.trace
  cases hflag : opts.dbgNoSaveTextures <;>
  simp only [computeScatteringDensity, render3DTexLayers, renderQuad, writeAttachment,
    glBindFramebuffer, glFramebufferTexture, saveScatteringDensity, saveTexture,
    State.ite_eq, hflag, e1, hb, ↓reduceIte, ite_self, Function.update_same,
    Bool.false_eq_true] <;>
  (refine ⟨⟨trivial, h1, h2, fun f hf name => ?_⟩, trivial, fun name => ?_, ?_⟩) <;>
  first
    | (by_cases hf' : f = FBO_MULTIPLE_SCATTERING
       · subst hf'; simp
       · rw [Function.update_noteq hf']; exact h3 f hf name)
    | (split_ifs <;> simp [Event.tracked])
    | simp

theorem computeEclipsedDoubleScattering_quiet {T : Type} [AddCommMonoid T] (sh : Shaders T)
    (opts : Options) (atmo : AtmosphereParameters) (texIndex : Nat)
    (s : State T) (h : BetweenStages s) :
    BetweenStages (computeEclipsedDoubleScattering sh opts atmo texIndex s) ∧
      SameAccumulation s (computeEclipsedDoubleScattering sh opts atmo texIndex s) ∧
      (computeEclipsedDoubleScattering sh opts atmo texIndex s).files = s.files := by
  obtain ⟨hb, h1, h2, h3⟩ := h
  unfold BetweenStages AttachmentsOK SameAccumulation State.trace
  cases hflag : opts.dbgNoEDSTextures <;>
  simp only [computeEclipsedDoubleScattering, precomputerCompute, glBindFramebuffer,
    glFramebufferTexture, checkFramebufferStatus, hflag, hb, ↓reduceIte,
    Bool.false_eq_true] <;>
  (refine ⟨⟨trivial, h1, h2, fun f hf name => ?_⟩, ⟨trivial, fun name => ?_, ?_⟩, trivial⟩) <;>
  first
    | exact h3 f hf name
    | (by_cases hf' : f = FBO_ECLIPSED_DOUBLE_SCATTERING
       · subst hf'; simp
       · rw [Function.update_noteq hf']; exact h3 f hf name)
    | simp [Event.tracked]

theorem image_update_accumulated {T : Type} (image : Texture → T) (target : Option Texture)
    (h : ∀ name, target ≠ some (Texture.accumulated name)) (t : Texture) (ht : target = some t)
    (v : T) (name : String) :
    Function.update image t v (Texture.accumulated name) = image (Texture.accumulated name) := by
  apply Function.update_noteq
  intro e
  exact h name (by rw [ht, e])

theorem computeIndirectIrradiance_quiet {T : Type} [AddCommMonoid T] (sh : Shaders T)
    (opts : Options) (atmo : AtmosphereParameters) (scatteringOrder texIndex : Nat)
    (s : State T) (h : BetweenStages s) :
    BetweenStages (computeIndirectIrradiance sh opts atmo scatteringOrder texIndex s) ∧
      SameAccumulation s (computeIndirectIrradiance sh opts atmo scatteringOrder texIndex s) := by
  obtain ⟨hb, h1, h2, h3⟩ := h
  have k0 := h3 FBO_IRRADIANCE (by decide)
  unfold BetweenStages AttachmentsOK SameAccumulation State.trace
  cases e0 : s.attachment0 FBO_IRRADIANCE <;> cases e1 : s.attachment1 FBO_IRRADIANCE <;>
  cases ed : s.drawBuffer1 FBO_IRRADIANCE <;>
  simp only [computeIndirectIrradiance, renderQuad, writeAttachment, glBindFramebuffer,
    glBlendFunc, glEnableiBlend, glDisableiBlend, glDisableBlend, saveIrradiance, saveTexture,
    State.ite_eq, e0, e1, ed, ↓reduceIte, ite_self, Function.update_same, one_ne_zero,
    Bool.false_eq_true] <;>
  (refine ⟨⟨trivial, h1, fun name => by rw [← e1]; exact h2 name, h3⟩, trivial,
    fun name => ?_, ?_⟩) <;>
  first
    | trivial
    | (split_ifs <;> simp [Event.tracked])
    | (rw [image_update_accumulated _ _ h2 _ e1, image_update_accumulated _ _ k0 _ e0])
    | (rw [image_update_accumulated _ _ k0 _ e0])
    | (rw [image_update_accumulated _ _ h2 _ e1])

theorem computeIndirectIrradianceOrder1_quiet {T : Type} [AddCommMonoid T] (sh : Shaders T)
    (opts : Options) (atmo : AtmosphereParameters) (texIndex j : Nat) (scatterer : Scatterer)
    (hj : atmo.scatterers[j]? = some scatterer) (s : State T) (h : AttachmentsOK s) :
    BetweenStages (computeIndirectIrradianceOrder1 sh opts atmo texIndex j s) ∧
      SameAccumulation s (computeIndirectIrradianceOrder1 sh opts atmo texIndex j s) := by
  obtain ⟨h1, h2, h3⟩ := h
  have k0 := h3 FBO_IRRADIANCE (by decide)
  unfold BetweenStages AttachmentsOK SameAccumulation State.trace
  cases e0 : s.attachment0 FBO_IRRADIANCE <;> cases e1 : s.attachment1 FBO_IRRADIANCE <;>
  cases ed : s.drawBuffer1 FBO_IRRADIANCE <;>
  simp only [computeIndirectIrradianceOrder1, hj, renderQuad, writeAttachment,
    glBindFramebuffer, glBlendFunc, glEnableiBlend, glDisableiBlend, glDisableBlend,
    saveIrradiance, saveTexture, State.ite_eq, e0, e1, ed, ↓reduceIte, ite_self,
    Function.update_same, one_ne_zero, Bool.false_eq_true] <;>
  (refine ⟨⟨trivial, h1, fun name => by rw [← e1]; exact h2 name, h3⟩, trivial,
    fun name => ?_, ?_⟩) <;>
  first
    | trivial
    | (split_ifs <;> simp [Event.tracked])
    | (rw [image_update_accumulated _ _ h2 _ e1, image_update_accumulated _ _ k0 _ e0])
    | (rw [image_update_accumulated _ _ k0 _ e0])
    | (rw [image_update_accumulated _ _ h2 _ e1])

theorem order2Density_quiet {T : Type} [AddCommMonoid T] (sh : Shaders T)
    (opts : Options) (texIndex : Nat) (scatterer : Scatterer) (s : State T)
    (h : AttachmentsOK s) :
    AttachmentsOK (render3DTexLayers opts (Pass.scatteringDensityOrder2 texIndex scatterer)
        (sh.compute (Pass.scatteringDensityOrder2 texIndex scatterer))
        (glEnableBlend (glBindFramebuffer (some FBO_MULTIPLE_SCATTERING) s))) ∧
      SameAccumulation s (render3DTexLayers opts (Pass.scatteringDensityOrder2 texIndex scatterer)
        (sh.compute (Pass.scatteringDensityOrder2 texIndex scatterer))
        (glEnableBlend (glBindFramebuffer (some FBO_MULTIPLE_SCATTERING) s))) := by
  obtain ⟨h1, h2, h3⟩ := h
  have k0 := h3 FBO_MULTIPLE_SCATTERING (by decide)
  have e1 := h1 FBO_MULTIPLE_SCATTERING (by decide)
  unfold AttachmentsOK SameAccumulation State.trace
  cases hflag : opts.dbgNoSaveTextures <;> cases e0 : s.attachment0 FBO_MULTIPLE_SCATTERING <;>
  simp only [render3DTexLayers, renderQuad, writeAttachment, glBindFramebuffer, glEnableBlend,
    State.ite_eq, hflag, e0, e1, ↓reduceIte, ite_self, Function.update_same,
    Bool.false_eq_true] <;>
  (refine ⟨⟨h1, h2, h3⟩, trivial, fun name => ?_, ?_⟩) <;>
  first
    | trivial
    | (rw [image_update_accumulated _ _ k0 _ e0])
    | simp [Event.tracked]

theorem computeSingleScattering_general_quiet {T : Type} [AddCommMonoid T] (sh : Shaders T)
    (opts : Options) (atmo : AtmosphereParameters) (texIndex : Nat) (scatterer : Scatterer)
    (hty : scatterer.phaseFunctionType = PhaseFunctionType.General)
    (s : State T) (h : BetweenStages s) :
    BetweenStages (computeSingleScattering sh opts atmo texIndex scatterer s) ∧
      SameAccumulation s (computeSingleScattering sh opts atmo texIndex scatterer s) := by
  obtain ⟨hb, h1, h2, h3⟩ := h
  have e1 := h1 FBO_DELTA_SCATTERING (by decide)
  unfold BetweenStages AttachmentsOK SameAccumulation State.trace
  cases hflag : opts.dbgNoSaveTextures <;>
  simp only [computeSingleScattering, hty, render3DTexLayers, renderQuad, writeAttachment,
    glBindFramebuffer, glFramebufferTexture, checkFramebufferStatus, saveTexture,
    State.ite_eq, hflag, e1, hb, ↓reduceIte, ite_self, Function.update_same,
    Bool.false_eq_true] <;>
  (refine ⟨⟨trivial, h1, h2, fun f hf name => ?_⟩, trivial, fun name => ?_, ?_⟩) <;>
  first
    | (by_cases hf' : f = FBO_DELTA_SCATTERING
       · subst hf'; simp
       · rw [Function.update_noteq hf']; exact h3 f hf name)
    | simp [Event.tracked]

theorem computeSingleScattering_accumulate {T : Type} [AddCommMonoid T] (sh : Shaders T)
    (opts : Options) (atmo : AtmosphereParameters) (texIndex : Nat) (scatterer : Scatterer)
    (hty : scatterer.phaseFunctionType ≠ PhaseFunctionType.General)
    (hflag : opts.dbgNoSaveTextures = false) (s : State T) (h : BetweenStages s) :
    BetweenStages (computeSingleScattering sh opts atmo texIndex scatterer s) ∧
    (computeSingleScattering sh opts atmo texIndex scatterer s).accumulatedSingleScatteringTextures
      = (if scatterer.name ∈ s.accumulatedSingleScatteringTextures then
          s.accumulatedSingleScatteringTextures
        else s.accumulatedSingleScatteringTextures ++ [scatterer.name]) ∧
    (∀ name, name ≠ scatterer.name →
      (computeSingleScattering sh opts atmo texIndex scatterer s).image
        (Texture.accumulated name) = s.image (Texture.accumulated name)) ∧
    (computeSingleScattering sh opts atmo texIndex scatterer s).image
        (Texture.accumulated scatterer.name) =
      blendResult (decide (scatterer.name ∈ s.accumulatedSingleScatteringTextures))
        GL_ONE GL_ONE
        (sh.copyScatteringTexture
          (some (radianceToLuminance sh.wavelengthToXYZW atmo.allWavelengths texIndex))
          (sh.compute (Pass.computeSingleScattering texIndex scatterer)))
        (s.image (Texture.accumulated scatterer.name)) ∧
    (computeSingleScattering sh opts atmo texIndex scatterer s).trace =
      s.trace ++
        (if scatterer.name ∈ s.accumulatedSingleScatteringTextures then []
         else [Event.genTexture scatterer.name]) ++
        [Event.draw (Pass.accumulateSingleScattering texIndex scatterer)
          (some (Texture.accumulated scatterer.name))
          (decide (scatterer.name ∈ s.accumulatedSingleScatteringTextures)) GL_ONE GL_ONE] := by
  obtain ⟨hb, h1, h2, h3⟩ := h
  have e1 := h1 FBO_DELTA_SCATTERING (by decide)
  have e2 := h1 FBO_SINGLE_SCATTERING (by decide)
  have hcases : scatterer.phaseFunctionType = PhaseFunctionType.Achromatic ∨
      scatterer.phaseFunctionType = PhaseFunctionType.Smooth := by
    cases hc : scatterer.phaseFunctionType
    · exact absurd hc hty
    · exact Or.inl rfl
    · exact Or.inr rfl
  unfold BetweenStages AttachmentsOK State.trace
  by_cases hmem : scatterer.name ∈ s.accumulatedSingleScatteringTextures <;>
  rcases hcases with hc | hc <;>
  simp only [computeSingleScattering, accumulateSingleScattering, hc, render3DTexLayers,
    renderQuad, writeAttachment, glBindFramebuffer, glFramebufferTexture,
    checkFramebufferStatus, saveTexture, glBlendFunc, glEnableBlend, glDisableBlend,
    glGenTextures, State.ite_eq, hflag, hmem, e1, e2, hb, ↓reduceIte, ite_self,
    Function.update_same, Bool.false_eq_true, decide_True, decide_False] <;>
  (refine ⟨⟨trivial, h1, h2, fun f hf name => ?_⟩, trivial, fun name hname => ?_, ?_, ?_⟩) <;>
  first
    | (by_cases hf' : f = FBO_SINGLE_SCATTERING
       · exact absurd hf' hf
       · rw [Function.update_noteq hf']
         by_cases hf'' : f = FBO_DELTA_SCATTERING
         · subst hf''; simp
         · rw [Function.update_noteq hf'']; exact h3 f hf name)
    | (rw [Function.update_noteq (by simpa using hname), Function.update_noteq (by simp)])
    | (simp [blendResult, BlendFactor.apply]; done)
    | (split_ifs <;> simp [Event.tracked])

theorem filter_multiple_trace {T : Type} (s : State T) :
    s.log.filter Event.multiple = s.trace.filter Event.multiple := by
  unfold State.trace
  rw [List.filter_filter]
  congr 1
  funext e
  cases e with
  | draw pass target blend src dst => cases pass <;> simp [Event.multiple, Event.tracked]
  | _ => simp [Event.multiple, Event.tracked]

theorem filter_single_trace {T : Type} (name : String) (s : State T) :
    s.log.filter (Event.single name) = s.trace.filter (Event.single name) := by
  unfold State.trace
  rw [List.filter_filter]
  congr 1
  funext e
  cases e with
  | draw pass target blend src dst => cases pass <;> simp [Event.single, Event.tracked]
  | _ => simp [Event.single, Event.tracked]

theorem SameAccumulation.multiple {T : Type} {s s' : State T} (h : SameAccumulation s s') :
    s'.log.filter Event.multiple = s.log.filter Event.multiple := by
  rw [filter_multiple_trace, filter_multiple_trace, h.2.2]

theorem SameAccumulation.single {T : Type} {s s' : State T} (h : SameAccumulation s s')
    (name : String) :
    s'.log.filter (Event.single name) = s.log.filter (Event.single name) := by
  rw [filter_single_trace, filter_single_trace, h.2.2]

theorem computeSingleScattering_multiple {T : Type} [AddCommMonoid T] (sh : Shaders T)
    (opts : Options) (atmo : AtmosphereParameters) (texIndex : Nat) (scatterer : Scatterer)
    (s : State T) (h : BetweenStages s) :
    BetweenStages (computeSingleScattering sh opts atmo texIndex scatterer s) ∧
    (computeSingleScattering sh opts atmo texIndex scatterer s).log.filter Event.multiple =
      s.log.filter Event.multiple := by
  obtain ⟨hb, h1, h2, h3⟩ := h
  have e1 := h1 FBO_DELTA_SCATTERING (by decide)
  have e2 := h1 FBO_SINGLE_SCATTERING (by decide)
  unfold BetweenStages AttachmentsOK
  by_cases hmem : scatterer.name ∈ s.accumulatedSingleScatteringTextures <;>
  cases hc : scatterer.phaseFunctionType <;> cases hflag : opts.dbgNoSaveTextures <;>
  simp only [computeSingleScattering, accumulateSingleScattering, hc, render3DTexLayers,
    renderQuad, writeAttachment, glBindFramebuffer, glFramebufferTexture,
    checkFramebufferStatus, saveTexture, glBlendFunc, glEnableBlend, glDisableBlend,
    glGenTextures, State.ite_eq, hflag, hmem, e1, e2, hb, ↓reduceIte, ite_self,
    Function.update_same, Bool.false_eq_true] <;>
  (refine ⟨⟨trivial, h1, h2, fun f hf name => ?_⟩, ?_⟩) <;>
  first
    | (by_cases hf' : f = FBO_SINGLE_SCATTERING
       · exact absurd hf' hf
       · by_cases hf'' : f = FBO_DELTA_SCATTERING
         · subst hf''; simp
         · simp only [Function.update_noteq hf', Function.update_noteq hf'']
           exact h3 f hf name)
    | (split_ifs <;> simp [Event.multiple])
    | simp [Event.multiple]

theorem mergeSmoothScatterer_spec {T : Type} [AddCommMonoid T] (sh : Shaders T)
    (opts : Options) (hflag : opts.dbgNoSaveTextures = false) (scatterer : Scatterer)
    (s : State T) (hfb : s.framebuffer = some FBO_MULTIPLE_SCATTERING) (h : MergeReady s) :
    (mergeSmoothScatterer sh opts s scatterer).framebuffer = some FBO_MULTIPLE_SCATTERING ∧
    MergeReady (mergeSmoothScatterer sh opts s scatterer) ∧
    (mergeSmoothScatterer sh opts s scatterer).accumulatedSingleScatteringTextures =
      s.accumulatedSingleScatteringTextures ∧
    (mergeSmoothScatterer sh opts s scatterer).files = s.files ∧
    (mergeSmoothScatterer sh opts s scatterer).log = s.log ++ mergeDraws [scatterer] ∧
    (∀ t, t ≠ Texture.fixed TEX_MULTIPLE_SCATTERING →
      (mergeSmoothScatterer sh opts s scatterer).image t = s.image t) ∧
    (mergeSmoothScatterer sh opts s scatterer).image (Texture.fixed TEX_MULTIPLE_SCATTERING) =
      s.image (Texture.fixed TEX_MULTIPLE_SCATTERING) + mergedLight sh [scatterer] s.image := by
  obtain ⟨h0, h1, h2, h3⟩ := h
  have e1 := h1 FBO_MULTIPLE_SCATTERING (by decide)
  unfold MergeReady AttachmentsOK mergeDraws mergedLight
  cases hc : scatterer.phaseFunctionType <;>
  simp only [mergeSmoothScatterer, hc, render3DTexLayers, renderQuad, writeAttachment,
    glBlendFunc, glEnableBlend, State.ite_eq, hflag, hfb, h0, e1, ↓reduceIte, ite_self,
    Function.update_same, Bool.false_eq_true, ne_eq, not_true_eq_false, not_false_eq_true,
    reduceCtorEq] <;>
  (refine ⟨trivial, ⟨trivial, h1, h2, h3⟩, trivial, trivial, ?_, fun t ht => ?_, ?_⟩) <;>
  first
    | (rw [Function.update_noteq ht])
    | simp [hc, blendResult, BlendFactor.apply, add_comm]

theorem mergeDraws_cons (scatterer : Scatterer) (scatterers : List Scatterer) :
    mergeDraws (scatterer :: scatterers) = mergeDraws [scatterer] ++ mergeDraws scatterers := by
  unfold mergeDraws
  by_cases h : scatterer.phaseFunctionType = PhaseFunctionType.Smooth <;> simp [List.filter_cons, h]

theorem mergedLight_cons {T : Type} [AddCommMonoid T] (sh : Shaders T) (scatterer : Scatterer)
    (scatterers : List Scatterer) (image : Texture → T) :
    mergedLight sh (scatterer :: scatterers) image =
      mergedLight sh [scatterer] image + mergedLight sh scatterers image := by
  unfold mergedLight
  by_cases h : scatterer.phaseFunctionType = PhaseFunctionType.Smooth <;> simp [List.filter_cons, h]

theorem mergedLight_congr {T : Type} [AddCommMonoid T] (sh : Shaders T)
    (scatterers : List Scatterer) (image image' : Texture → T)
    (h : ∀ name, image' (Texture.accumulated name) = image (Texture.accumulated name)) :
    mergedLight sh scatterers image' = mergedLight sh scatterers image := by
  unfold mergedLight
  simp only [h]

theorem mergeLoop_spec {T : Type} [AddCommMonoid T] (sh : Shaders T)
    (opts : Options) (hflag : opts.dbgNoSaveTextures = false) (scatterers : List Scatterer)
    (s : State T) (hfb : s.framebuffer = some FBO_MULTIPLE_SCATTERING) (h : MergeReady s) :
    (scatterers.foldl (mergeSmoothScatterer sh opts) s).framebuffer =
      some FBO_MULTIPLE_SCATTERING ∧
    MergeReady (scatterers.foldl (mergeSmoothScatterer sh opts) s) ∧
    (scatterers.foldl (mergeSmoothScatterer sh opts) s).accumulatedSingleScatteringTextures =
      s.accumulatedSingleScatteringTextures ∧
    (scatterers.foldl (mergeSmoothScatterer sh opts) s).files = s.files ∧
    (scatterers.foldl (mergeSmoothScatterer sh opts) s).log = s.log ++ mergeDraws scatterers ∧
    (∀ t, t ≠ Texture.fixed TEX_MULTIPLE_SCATTERING →
      (scatterers.foldl (mergeSmoothScatterer sh opts) s).image t = s.image t) ∧
    (scatterers.foldl (mergeSmoothScatterer sh opts) s).image
        (Texture.fixed TEX_MULTIPLE_SCATTERING) =
      s.image (Texture.fixed TEX_MULTIPLE_SCATTERING) + mergedLight sh scatterers s.image := by
  induction scatterers generalizing s with
  | nil => exact ⟨hfb, h, rfl, rfl, by simp [mergeDraws], fun _ _ => rfl, by simp [mergedLight]⟩
  | cons scatterer rest ih =>
    obtain ⟨a1, a2, a3, a4, a5, a6, a7⟩ := mergeSmoothScatterer_spec sh opts hflag scatterer s hfb h
    obtain ⟨b1, b2, b3, b4, b5, b6, b7⟩ := ih (mergeSmoothScatterer sh opts s scatterer) a1 a2
    rw [List.foldl_cons]
    refine ⟨b1, b2, b3.trans a3, b4.trans a4, ?_, fun t ht => (b6 t ht).trans (a6 t ht), ?_⟩
    · rw [b5, a5, mergeDraws_cons scatterer rest, List.append_assoc]
    · rw [b7, a7, mergedLight_cons sh scatterer rest,
        mergedLight_congr sh rest s.image _ (fun name => a6 _ (by simp)), add_assoc]

theorem mergeLoop_noSave {T : Type} [AddCommMonoid T] (sh : Shaders T)
    (opts : Options) (hflag : opts.dbgNoSaveTextures = true) (scatterers : List Scatterer)
    (s : State T) :
    (scatterers.foldl (mergeSmoothScatterer sh opts) s).attachment0 = s.attachment0 ∧
    (scatterers.foldl (mergeSmoothScatterer sh opts) s).attachment1 = s.attachment1 ∧
    (scatterers.foldl (mergeSmoothScatterer sh opts) s).accumulatedSingleScatteringTextures =
      s.accumulatedSingleScatteringTextures ∧
    (scatterers.foldl (mergeSmoothScatterer sh opts) s).files = s.files ∧
    (scatterers.foldl (mergeSmoothScatterer sh opts) s).log = s.log ∧
    (scatterers.foldl (mergeSmoothScatterer sh opts) s).image = s.image := by
  induction scatterers generalizing s with
  | nil => exact ⟨rfl, rfl, rfl, rfl, rfl, rfl⟩
  | cons scatterer rest ih =>
    obtain ⟨b1, b2, b3, b4, b5, b6⟩ := ih (mergeSmoothScatterer sh opts s scatterer)
    rw [List.foldl_cons, b1, b2, b3, b4, b5, b6]
    cases hc : scatterer.phaseFunctionType <;>
    simp [mergeSmoothScatterer, hc, render3DTexLayers, hflag, glBlendFunc, glEnableBlend]

theorem mergeSmoothSingleScatteringTexture_spec {T : Type} [AddCommMonoid T] (sh : Shaders T)
    (opts : Options) (atmo : AtmosphereParameters) (s : State T) (h : MergeReady s) :
    BetweenStages (mergeSmoothSingleScatteringTexture sh opts atmo s) ∧
    (mergeSmoothSingleScatteringTexture sh opts atmo s).accumulatedSingleScatteringTextures =
      s.accumulatedSingleScatteringTextures ∧
    (mergeSmoothSingleScatteringTexture sh opts atmo s).files = s.files ∧
    (mergeSmoothSingleScatteringTexture sh opts atmo s).log =
      s.log ++ (if opts.dbgNoSaveTextures then [] else mergeDraws atmo.scatterers) ∧
    (∀ t, t ≠ Texture.fixed TEX_MULTIPLE_SCATTERING →
      (mergeSmoothSingleScatteringTexture sh opts atmo s).image t = s.image t) ∧
    (mergeSmoothSingleScatteringTexture sh opts atmo s).image
        (Texture.fixed TEX_MULTIPLE_SCATTERING) =
      s.image (Texture.fixed TEX_MULTIPLE_SCATTERING) +
        (if opts.dbgNoSaveTextures then 0 else mergedLight sh atmo.scatterers s.image) := by
  cases hflag : opts.dbgNoSaveTextures
  · have hr : MergeReady (glBindFramebuffer (some FBO_MULTIPLE_SCATTERING) s) := h
    obtain ⟨-, ⟨-, b2⟩, b3, b4, b5, b6, b7⟩ := mergeLoop_spec sh opts hflag atmo.scatterers
      (glBindFramebuffer (some FBO_MULTIPLE_SCATTERING) s) rfl hr
    exact ⟨⟨rfl, b2⟩, b3, b4, by simpa using b5, b6, by simpa using b7⟩
  · obtain ⟨b1, b2, b3, b4, b5, b6⟩ := mergeLoop_noSave sh opts hflag atmo.scatterers
      (glBindFramebuffer (some FBO_MULTIPLE_SCATTERING) s)
    refine ⟨⟨rfl, ?_⟩, b3, b4, by simpa using b5, fun t _ => congrFun b6 t, ?_⟩
    · obtain ⟨-, h1, h2, h3⟩ := h
      exact ⟨fun f hf => (congrFun b2 f).trans (h1 f hf),
        fun name => (congrFun b2 FBO_IRRADIANCE).trans_ne (h2 name),
        fun f hf name => (congrFun b1 f).trans_ne (h3 f hf name)⟩
    · simpa using congrFun b6 _

theorem accumulateMultipleScattering_draw {T : Type} [AddCommMonoid T] (sh : Shaders T)
    (opts : Options) (atmo : AtmosphereParameters) (scatteringOrder texIndex : Nat)
    (s : State T) (h : BetweenStages s) (x : State T)
    (hx : x =
      let s := glBlendFunc GL_ONE GL_ONE s
      let s := if scatteringOrder > 2 ∨ (texIndex > 0 ∧ opts.saveResultAsRadiance = false) then
          glEnableBlend s
        else glDisableBlend s
      let s := glBindFramebuffer (some FBO_MULTIPLE_SCATTERING) s
      let s := glFramebufferTexture 0 (Texture.fixed TEX_MULTIPLE_SCATTERING) s
      let s := checkFramebufferStatus s
      let s := render3DTexLayers opts (Pass.accumulateMultipleScattering scatteringOrder texIndex)
        (sh.copyScatteringTexture
          (if opts.saveResultAsRadiance = false then
            some (radianceToLuminance sh.wavelengthToXYZW atmo.allWavelengths texIndex)
           else none)
          (s.image (Texture.fixed TEX_DELTA_SCATTERING))) s
      let s := glDisableBlend s
      let s := glBindFramebuffer none s
      if opts.dbgSaveAccumScattering then
        saveTexture (Texture.fixed TEX_MULTIPLE_SCATTERING)
          (atmo.textureOutputDir ++ "/multiple-scattering-to-order" ++
            toString scatteringOrder ++ "-wlset" ++ toString texIndex ++ ".f32") s
      else s) :
    BetweenStages x ∧ MergeReady x ∧
    x.accumulatedSingleScatteringTextures = s.accumulatedSingleScatteringTextures ∧
    (∀ t, t ≠ Texture.fixed TEX_MULTIPLE_SCATTERING → x.image t = s.image t) ∧
    x.image (Texture.fixed TEX_MULTIPLE_SCATTERING) =
      (if opts.dbgNoSaveTextures then s.image (Texture.fixed TEX_MULTIPLE_SCATTERING)
       else blendResult
        (decide (scatteringOrder > 2 ∨ (texIndex > 0 ∧ opts.saveResultAsRadiance = false)))
        GL_ONE GL_ONE
        (sh.copyScatteringTexture
          (if opts.saveResultAsRadiance = false then
            some (radianceToLuminance sh.wavelengthToXYZW atmo.allWavelengths texIndex)
           else none)
          (s.image (Texture.fixed TEX_DELTA_SCATTERING)))
        (s.image (Texture.fixed TEX_MULTIPLE_SCATTERING))) ∧
    x.log.filter Event.tracked = s.log.filter Event.tracked ++
      (if opts.dbgNoSaveTextures then []
       else [Event.draw (Pass.accumulateMultipleScattering scatteringOrder texIndex)
        (some (Texture.fixed TEX_MULTIPLE_SCATTERING))
        (decide (scatteringOrder > 2 ∨ (texIndex > 0 ∧ opts.saveResultAsRadiance = false)))
        GL_ONE GL_ONE]) ∧
    x.log = s.log ++
      [Event.framebufferTexture (some FBO_MULTIPLE_SCATTERING) 0
          (Texture.fixed TEX_MULTIPLE_SCATTERING),
        Event.checkFramebufferStatus (some FBO_MULTIPLE_SCATTERING)] ++
      (if opts.dbgNoSaveTextures then []
       else [Event.draw (Pass.accumulateMultipleScattering scatteringOrder texIndex)
        (some (Texture.fixed TEX_MULTIPLE_SCATTERING))
        (decide (scatteringOrder > 2 ∨ (texIndex > 0 ∧ opts.saveResultAsRadiance = false)))
        GL_ONE GL_ONE]) ++
      (if opts.dbgSaveAccumScattering then
        [Event.saveTexture (atmo.textureOutputDir ++ "/multiple-scattering-to-order" ++
            toString scatteringOrder ++ "-wlset" ++ toString texIndex ++ ".f32")]
       else []) := by
  obtain ⟨hb, h1, h2, h3⟩ := h
  have e1 := h1 FBO_MULTIPLE_SCATTERING (by decide)
  subst hx
  unfold BetweenStages MergeReady AttachmentsOK
  cases hflag : opts.dbgNoSaveTextures <;>
  by_cases hblend : scatteringOrder > 2 ∨ (texIndex > 0 ∧ opts.saveResultAsRadiance = false) <;>
  cases hdbg : opts.dbgSaveAccumScattering <;>
  simp only [render3DTexLayers, renderQuad, writeAttachment, glBindFramebuffer,
    glFramebufferTexture, checkFramebufferStatus, saveTexture, glBlendFunc, glEnableBlend,
    glDisableBlend, State.ite_eq, hflag, hblend, hdbg, e1, ↓reduceIte, ite_self,
    Function.update_same, Bool.false_eq_true, decide_True, decide_False] <;>
  (refine ⟨⟨trivial, h1, h2, fun f hf name => ?_⟩, ⟨trivial, h1, h2, fun f hf name => ?_⟩,
    trivial, fun t ht => ?_, ?_, ?_, ?_⟩) <;>
  first
    | (by_cases hf' : f = FBO_MULTIPLE_SCATTERING
       · subst hf'; simp
       · rw [Function.update_noteq hf']; exact h3 f hf name)
    | (rw [Function.update_noteq ht])
    | rfl
    | simp [Event.tracked]

theorem mergeDraws_tracked (scatterers : List Scatterer) :
    (mergeDraws scatterers).filter Event.tracked = mergeDraws scatterers := by
  rw [List.filter_eq_self]
  intro e he
  unfold mergeDraws at he
  obtain ⟨scatterer, -, rfl⟩ := List.mem_map.1 he
  rfl

theorem accumulateMultipleScattering_spec {T : Type} [AddCommMonoid T] (sh : Shaders T)
    (opts : Options) (atmo : AtmosphereParameters) (scatteringOrder texIndex : Nat)
    (s : State T) (h : BetweenStages s) :
    BetweenStages (accumulateMultipleScattering sh opts atmo scatteringOrder texIndex s) ∧
    (accumulateMultipleScattering sh opts atmo scatteringOrder texIndex
        s).accumulatedSingleScatteringTextures = s.accumulatedSingleScatteringTextures ∧
    (∀ t, t ≠ Texture.fixed TEX_MULTIPLE_SCATTERING →
      (accumulateMultipleScattering sh opts atmo scatteringOrder texIndex s).image t =
        s.image t) ∧
    (accumulateMultipleScattering sh opts atmo scatteringOrder texIndex s).trace =
      s.trace ++
      (if opts.dbgNoSaveTextures then []
       else Event.draw (Pass.accumulateMultipleScattering scatteringOrder texIndex)
          (some (Texture.fixed TEX_MULTIPLE_SCATTERING))
          (decide (scatteringOrder > 2 ∨ (texIndex > 0 ∧ opts.saveResultAsRadiance = false)))
          GL_ONE GL_ONE ::
        (if scatteringOrder = atmo.scatteringOrdersToCompute ∧
            ((texIndex + 1) % 2 ^ 32 = atmo.allWavelengths.length ∨ opts.saveResultAsRadiance)
         then mergeDraws atmo.scatterers else [])) := by
  have hx : ∃ x : State T,
      (BetweenStages x ∧ MergeReady x ∧
        x.accumulatedSingleScatteringTextures = s.accumulatedSingleScatteringTextures ∧
        (∀ t, t ≠ Texture.fixed TEX_MULTIPLE_SCATTERING → x.image t = s.image t) ∧
        x.image (Texture.fixed TEX_MULTIPLE_SCATTERING) = _ ∧
        x.log.filter Event.tracked = s.log.filter Event.tracked ++ _ ∧
        x.log = _) ∧
      accumulateMultipleScattering sh opts atmo scatteringOrder texIndex s =
        if scatteringOrder = atmo.scatteringOrdersToCompute ∧
            ((texIndex + 1) % 2 ^ 32 = atmo.allWavelengths.length ∨ opts.saveResultAsRadiance)
        then saveTexture (Texture.fixed TEX_MULTIPLE_SCATTERING)
          (if opts.saveResultAsRadiance then
            atmo.textureOutputDir ++ "/multiple-scattering-wlset" ++ toString texIndex ++ ".f32"
           else atmo.textureOutputDir ++ "/multiple-scattering-xyzw.f32")
          (mergeSmoothSingleScatteringTexture sh opts atmo x)
        else x :=
    ⟨_, accumulateMultipleScattering_draw sh opts atmo scatteringOrder texIndex s h _ rfl, rfl⟩
  obtain ⟨x, ⟨x1, x2, x3, x4, -, x6, -⟩, e⟩ := hx
  rw [e]
  unfold State.trace
  by_cases hcond : scatteringOrder = atmo.scatteringOrdersToCompute ∧
      ((texIndex + 1) % 2 ^ 32 = atmo.allWavelengths.length ∨ opts.saveResultAsRadiance)
  · rw [if_pos hcond, if_pos hcond]
    obtain ⟨m1, m2, -, m4, m5, -⟩ := mergeSmoothSingleScatteringTexture_spec sh opts atmo x x2
    refine ⟨m1, m2.trans x3, fun t ht => (m5 t ht).trans (x4 t ht), ?_⟩
    show List.filter Event.tracked
      ((mergeSmoothSingleScatteringTexture sh opts atmo x).log ++ [Event.saveTexture _]) = _
    rw [m4, List.filter_append, List.filter_append, x6]
    cases hflag : opts.dbgNoSaveTextures <;>
    simp [mergeDraws_tracked, Event.tracked]
  · rw [if_neg hcond, if_neg hcond]
    refine ⟨x1, x3, x4, ?_⟩
    rw [x6]

theorem accumulateMultipleScattering_saved {T : Type} [AddCommMonoid T] (sh : Shaders T)
    (opts : Options) (atmo : AtmosphereParameters) (scatteringOrder texIndex : Nat)
    (s : State T) (h : BetweenStages s)
    (hcond : scatteringOrder = atmo.scatteringOrdersToCompute ∧
      ((texIndex + 1) % 2 ^ 32 = atmo.allWavelengths.length ∨ opts.saveResultAsRadiance)) :
    (accumulateMultipleScattering sh opts atmo scatteringOrder texIndex s).log =
      s.log ++
      [Event.framebufferTexture (some FBO_MULTIPLE_SCATTERING) 0
          (Texture.fixed TEX_MULTIPLE_SCATTERING),
        Event.checkFramebufferStatus (some FBO_MULTIPLE_SCATTERING)] ++
      (if opts.dbgNoSaveTextures then []
       else [Event.draw (Pass.accumulateMultipleScattering scatteringOrder texIndex)
        (some (Texture.fixed TEX_MULTIPLE_SCATTERING))
        (decide (scatteringOrder > 2 ∨ (texIndex > 0 ∧ opts.saveResultAsRadiance = false)))
        GL_ONE GL_ONE]) ++
      (if opts.dbgSaveAccumScattering then
        [Event.saveTexture (atmo.textureOutputDir ++ "/multiple-scattering-to-order" ++
            toString scatteringOrder ++ "-wlset" ++ toString texIndex ++ ".f32")]
       else []) ++
      (if opts.dbgNoSaveTextures then [] else mergeDraws atmo.scatterers) ++
      [Event.saveTexture (if opts.saveResultAsRadiance then
            atmo.textureOutputDir ++ "/multiple-scattering-wlset" ++ toString texIndex ++ ".f32"
           else atmo.textureOutputDir ++ "/multiple-scattering-xyzw.f32")] ∧
    (accumulateMultipleScattering sh opts atmo scatteringOrder texIndex s).files.getLast? =
      some (if opts.saveResultAsRadiance then
            atmo.textureOutputDir ++ "/multiple-scattering-wlset" ++ toString texIndex ++ ".f32"
           else atmo.textureOutputDir ++ "/multiple-scattering-xyzw.f32",
        (accumulateMultipleScattering sh opts atmo scatteringOrder texIndex s).image
          (Texture.fixed TEX_MULTIPLE_SCATTERING)) ∧
    (accumulateMultipleScattering sh opts atmo scatteringOrder texIndex s).image
        (Texture.fixed TEX_MULTIPLE_SCATTERING) =
      (if opts.dbgNoSaveTextures then s.image (Texture.fixed TEX_MULTIPLE_SCATTERING)
       else blendResult
        (decide (scatteringOrder > 2 ∨ (texIndex > 0 ∧ opts.saveResultAsRadiance = false)))
        GL_ONE GL_ONE
        (sh.copyScatteringTexture
          (if opts.saveResultAsRadiance = false then
            some (radianceToLuminance sh.wavelengthToXYZW atmo.allWavelengths texIndex)
           else none)
          (s.image (Texture.fixed TEX_DELTA_SCATTERING)))
        (s.image (Texture.fixed TEX_MULTIPLE_SCATTERING))) +
      (if opts.dbgNoSaveTextures then 0 else mergedLight sh atmo.scatterers s.image) := by
  have hx : ∃ x : State T,
      (BetweenStages x ∧ MergeReady x ∧
        x.accumulatedSingleScatteringTextures = s.accumulatedSingleScatteringTextures ∧
        (∀ t, t ≠ Texture.fixed TEX_MULTIPLE_SCATTERING → x.image t = s.image t) ∧
        x.image (Texture.fixed TEX_MULTIPLE_SCATTERING) = _ ∧
        x.log.filter Event.tracked = s.log.filter Event.tracked ++ _ ∧
        x.log = _) ∧
      accumulateMultipleScattering sh opts atmo scatteringOrder texIndex s =
        if scatteringOrder = atmo.scatteringOrdersToCompute ∧
            ((texIndex + 1) % 2 ^ 32 = atmo.allWavelengths.length ∨ opts.saveResultAsRadiance)
        then saveTexture (Texture.fixed TEX_MULTIPLE_SCATTERING)
          (if opts.saveResultAsRadiance then
            atmo.textureOutputDir ++ "/multiple-scattering-wlset" ++ toString texIndex ++ ".f32"
           else atmo.textureOutputDir ++ "/multiple-scattering-xyzw.f32")
          (mergeSmoothSingleScatteringTexture sh opts atmo x)
        else x :=
    ⟨_, accumulateMultipleScattering_draw sh opts atmo scatteringOrder texIndex s h _ rfl, rfl⟩
  obtain ⟨x, ⟨-, x2, -, x4, x5, -, x7⟩, e⟩ := hx
  rw [e, if_pos hcond]
  obtain ⟨-, -, -, m4, -, m6⟩ := mergeSmoothSingleScatteringTexture_spec sh opts atmo x x2
  refine ⟨?_, ?_, ?_⟩
  · show (mergeSmoothSingleScatteringTexture sh opts atmo x).log ++ [Event.saveTexture _] = _
    rw [m4, x7]
  · show List.getLast? ((mergeSmoothSingleScatteringTexture sh opts atmo x).files ++ [_]) = _
    rw [List.getLast?_append]
    rfl
  · show (mergeSmoothSingleScatteringTexture sh opts atmo x).image _ = _
    rw [m6, x5, mergedLight_congr sh atmo.scatterers s.image x.image (fun name => x4 _ (by simp))]

theorem computeMultipleScatteringFromDensity_draw {T : Type} [AddCommMonoid T]
    (sh : Shaders T) (opts : Options) (atmo : AtmosphereParameters)
    (scatteringOrder texIndex : Nat) (s : State T) (h : BetweenStages s) (x : State T)
    (hx : x =
      let s := glBindFramebuffer (some FBO_MULTIPLE_SCATTERING) s
      let s := glFramebufferTexture 0 (Texture.fixed TEX_DELTA_SCATTERING) s
      let s := checkFramebufferStatus s
      let s := render3DTexLayers opts
        (Pass.computeMultipleScatteringFromDensity scatteringOrder texIndex)
        (sh.compute (Pass.computeMultipleScatteringFromDensity scatteringOrder texIndex)) s
      let s := if opts.dbgSaveDeltaScattering then
          saveTexture (Texture.fixed TEX_DELTA_SCATTERING)
            (atmo.textureOutputDir ++ "/delta-scattering-order" ++ toString scatteringOrder ++
              "-wlset" ++ toString texIndex ++ ".f32") s
        else s
      glBindFramebuffer none s) :
    BetweenStages x ∧
    x.accumulatedSingleScatteringTextures = s.accumulatedSingleScatteringTextures ∧
    (∀ t, t ≠ Texture.fixed TEX_DELTA_SCATTERING → x.image t = s.image t) ∧
    x.image (Texture.fixed TEX_DELTA_SCATTERING) =
      (if opts.dbgNoSaveTextures then s.image (Texture.fixed TEX_DELTA_SCATTERING)
       else sh.compute (Pass.computeMultipleScatteringFromDensity scatteringOrder texIndex)) ∧
    x.trace = s.trace := by
  obtain ⟨hb, h1, h2, h3⟩ := h
  have e1 := h1 FBO_MULTIPLE_SCATTERING (by decide)
  subst hx
  unfold BetweenStages AttachmentsOK State.trace
  cases hflag : opts.dbgNoSaveTextures <;>
  cases hdbg : opts.dbgSaveDeltaScattering <;>
  simp only [render3DTexLayers, renderQuad, writeAttachment, glBindFramebuffer,
    glFramebufferTexture, checkFramebufferStatus, saveTexture, State.ite_eq, hflag, hdbg, hb,
    e1, ↓reduceIte, ite_self, Function.update_same, Bool.false_eq_true] <;>
  (refine ⟨⟨trivial, h1, h2, fun f hf name => ?_⟩, trivial, fun t ht => ?_, ?_, ?_⟩) <;>
  first
    | (by_cases hf' : f = FBO_MULTIPLE_SCATTERING
       · subst hf'; simp
       · rw [Function.update_noteq hf']; exact h3 f hf name)
    | (rw [Function.update_noteq ht])
    | rfl
    | (simp [blendResult]; done)
    | simp [Event.tracked]

theorem computeMultipleScatteringFromDensity_spec {T : Type} [AddCommMonoid T]
    (sh : Shaders T) (opts : Options) (atmo : AtmosphereParameters)
    (scatteringOrder texIndex : Nat) (s : State T) (h : BetweenStages s) :
    BetweenStages (computeMultipleScatteringFromDensity sh opts atmo scatteringOrder texIndex s) ∧
    (computeMultipleScatteringFromDensity sh opts atmo scatteringOrder texIndex
        s).accumulatedSingleScatteringTextures = s.accumulatedSingleScatteringTextures ∧
    (∀ name,
      (computeMultipleScatteringFromDensity sh opts atmo scatteringOrder texIndex s).image
        (Texture.accumulated name) = s.image (Texture.accumulated name)) ∧
    (computeMultipleScatteringFromDensity sh opts atmo scatteringOrder texIndex s).trace =
      s.trace ++
      (if opts.dbgNoSaveTextures then []
       else Event.draw (Pass.accumulateMultipleScattering scatteringOrder texIndex)
          (some (Texture.fixed TEX_MULTIPLE_SCATTERING))
          (decide (scatteringOrder > 2 ∨ (texIndex > 0 ∧ opts.saveResultAsRadiance = false)))
          GL_ONE GL_ONE ::
        (if scatteringOrder = atmo.scatteringOrdersToCompute ∧
            ((texIndex + 1) % 2 ^ 32 = atmo.allWavelengths.length ∨ opts.saveResultAsRadiance)
         then mergeDraws atmo.scatterers else [])) := by
  have hx : ∃ x : State T,
      (BetweenStages x ∧
        x.accumulatedSingleScatteringTextures = s.accumulatedSingleScatteringTextures ∧
        (∀ t, t ≠ Texture.fixed TEX_DELTA_SCATTERING → x.image t = s.image t) ∧
        x.image (Texture.fixed TEX_DELTA_SCATTERING) = _ ∧ x.trace = s.trace) ∧
      computeMultipleScatteringFromDensity sh opts atmo scatteringOrder texIndex s =
        accumulateMultipleScattering sh opts atmo scatteringOrder texIndex x :=
    ⟨_, computeMultipleScatteringFromDensity_draw sh opts atmo scatteringOrder texIndex s h _
      rfl, rfl⟩
  obtain ⟨x, ⟨x1, x2, x3, -, x5⟩, e⟩ := hx
  rw [e]
  obtain ⟨a1, a2, a3, a4⟩ :=
    accumulateMultipleScattering_spec sh opts atmo scatteringOrder texIndex x x1
  exact ⟨a1, a2.trans x2, fun name => (a3 _ (by simp)).trans (x3 _ (by simp)), by rw [a4, x5]⟩

theorem computeMultipleScatteringFromDensity_saved {T : Type} [AddCommMonoid T]
    (sh : Shaders T) (opts : Options) (atmo : AtmosphereParameters)
    (scatteringOrder texIndex : Nat) (s : State T) (h : BetweenStages s)
    (hflag : opts.dbgNoSaveTextures = false)
    (hcond : scatteringOrder = atmo.scatteringOrdersToCompute ∧
      ((texIndex + 1) % 2 ^ 32 = atmo.allWavelengths.length ∨ opts.saveResultAsRadiance)) :
    (computeMultipleScatteringFromDensity sh opts atmo scatteringOrder texIndex
        s).files.getLast? =
      some (if opts.saveResultAsRadiance then
            atmo.textureOutputDir ++ "/multiple-scattering-wlset" ++ toString texIndex ++ ".f32"
           else atmo.textureOutputDir ++ "/multiple-scattering-xyzw.f32",
        blendResult
          (decide (scatteringOrder > 2 ∨ (texIndex > 0 ∧ opts.saveResultAsRadiance = false)))
          GL_ONE GL_ONE
          (sh.copyScatteringTexture
            (if opts.saveResultAsRadiance = false then
              some (radianceToLuminance sh.wavelengthToXYZW atmo.allWavelengths texIndex)
             else none)
            (sh.compute (Pass.computeMultipleScatteringFromDensity scatteringOrder texIndex)))
          (s.image (Texture.fixed TEX_MULTIPLE_SCATTERING)) +
        mergedLight sh atmo.scatterers s.image) := by
  have hx : ∃ x : State T,
      (BetweenStages x ∧
        x.accumulatedSingleScatteringTextures = s.accumulatedSingleScatteringTextures ∧
        (∀ t, t ≠ Texture.fixed TEX_DELTA_SCATTERING → x.image t = s.image t) ∧
        x.image (Texture.fixed TEX_DELTA_SCATTERING) = _ ∧ x.trace = s.trace) ∧
      computeMultipleScatteringFromDensity sh opts atmo scatteringOrder texIndex s =
        accumulateMultipleScattering sh opts atmo scatteringOrder texIndex x :=
    ⟨_, computeMultipleScatteringFromDensity_draw sh opts atmo scatteringOrder texIndex s h _
      rfl, rfl⟩
  obtain ⟨x, ⟨x1, -, x3, x4, -⟩, e⟩ := hx
  rw [e]
  obtain ⟨-, a2, a3⟩ :=
    accumulateMultipleScattering_saved sh opts atmo scatteringOrder texIndex x x1 hcond
  rw [a2, a3, x4, x3 _ (by simp),
    mergedLight_congr sh atmo.scatterers s.image x.image (fun name => x3 _ (by simp))]
  simp only [hflag, Bool.false_eq_true, ↓reduceIte]

theorem order2Scatterer_after {T : Type} [AddCommMonoid T] (sh : Shaders T)
    (opts : Options) (atmo : AtmosphereParameters) (texIndex j : Nat) (scatterer : Scatterer)
    (hj : atmo.scatterers[j]? = some scatterer) (s : State T) (h : BetweenStages s) :
    BetweenStages (order2Scatterer sh opts atmo texIndex s j) ∧
    SameAccumulation (computeSingleScattering sh opts atmo texIndex scatterer s)
      (order2Scatterer sh opts atmo texIndex s j) := by
  obtain ⟨a1, -⟩ := computeSingleScattering_multiple sh opts atmo texIndex scatterer s h
  obtain ⟨b1, b2⟩ := order2Density_quiet sh opts texIndex scatterer _ a1.2
  obtain ⟨c1, c2⟩ := computeIndirectIrradianceOrder1_quiet sh opts atmo texIndex j scatterer hj
    _ b1
  have e : order2Scatterer sh opts atmo texIndex s j =
      computeIndirectIrradianceOrder1 sh opts atmo texIndex j
        (render3DTexLayers opts (Pass.scatteringDensityOrder2 texIndex scatterer)
          (sh.compute (Pass.scatteringDensityOrder2 texIndex scatterer))
          (glEnableBlend (glBindFramebuffer (some FBO_MULTIPLE_SCATTERING)
            (computeSingleScattering sh opts atmo texIndex scatterer s)))) := by
    simp only [order2Scatterer, hj]
  rw [e]
  exact ⟨c1, b2.trans c2⟩

theorem order2Scatterer_outside {T : Type} [AddCommMonoid T] (sh : Shaders T)
    (opts : Options) (atmo : AtmosphereParameters) (texIndex j : Nat)
    (hj : atmo.scatterers[j]? = none) (s : State T) :
    order2Scatterer sh opts atmo texIndex s j = s := by
  simp only [order2Scatterer, hj]

theorem order2Tail_quiet {T : Type} [AddCommMonoid T] (opts : Options)
    (atmo : AtmosphereParameters) (texIndex : Nat) (s : State T) (h : AttachmentsOK s) :
    BetweenStages (glBindFramebuffer none
      (saveScatteringDensity opts atmo 2 texIndex (glDisableBlend s))) ∧
    SameAccumulation s (glBindFramebuffer none
      (saveScatteringDensity opts atmo 2 texIndex (glDisableBlend s))) := by
  obtain ⟨h1, h2, h3⟩ := h
  unfold BetweenStages AttachmentsOK SameAccumulation State.trace
  cases hdbg : opts.dbgSaveScatDensity <;>
  simp only [saveScatteringDensity, saveTexture, glBindFramebuffer, glDisableBlend, hdbg,
    ↓reduceIte, Bool.true_eq_false] <;>
  (refine ⟨⟨trivial, h1, h2, h3⟩, trivial, fun name => trivial, ?_⟩) <;>
  first
    | trivial
    | simp [Event.tracked]

theorem mergeDraws_multiple (scatterers : List Scatterer) :
    (mergeDraws scatterers).filter Event.multiple = mergeDraws scatterers := by
  rw [List.filter_eq_self]
  intro e he
  unfold mergeDraws at he
  obtain ⟨scatterer, -, rfl⟩ := List.mem_map.1 he
  rfl

theorem multipleScatteringEvents_multiple (opts : Options) (atmo : AtmosphereParameters)
    (scatteringOrder texIndex : Nat) :
    (multipleScatteringEvents opts atmo scatteringOrder texIndex).filter Event.multiple =
      multipleScatteringEvents opts atmo scatteringOrder texIndex := by
  unfold multipleScatteringEvents
  split_ifs <;> simp [Event.multiple, mergeDraws_multiple]

theorem computeMultipleScatteringFromDensity_multiple {T : Type} [AddCommMonoid T]
    (sh : Shaders T) (opts : Options) (atmo : AtmosphereParameters)
    (scatteringOrder texIndex : Nat) (s : State T) (h : BetweenStages s) :
    BetweenStages (computeMultipleScatteringFromDensity sh opts atmo scatteringOrder texIndex s) ∧
    (computeMultipleScatteringFromDensity sh opts atmo scatteringOrder texIndex s).log.filter
        Event.multiple =
      s.log.filter Event.multiple ++ multipleScatteringEvents opts atmo scatteringOrder texIndex := by
  obtain ⟨a1, -, -, a4⟩ :=
    computeMultipleScatteringFromDensity_spec sh opts atmo scatteringOrder texIndex s h
  refine ⟨a1, ?_⟩
  rw [filter_multiple_trace, a4, List.filter_append, ← filter_multiple_trace]
  exact congrArg _ (multipleScatteringEvents_multiple opts atmo scatteringOrder texIndex)

theorem higherOrder_multiple {T : Type} [AddCommMonoid T]
    (sh : Shaders T) (opts : Options) (atmo : AtmosphereParameters)
    (scatteringOrder texIndex : Nat) (s : State T) (h : BetweenStages s) :
    BetweenStages (higherOrder sh opts atmo texIndex s scatteringOrder) ∧
    (higherOrder sh opts atmo texIndex s scatteringOrder).log.filter Event.multiple =
      s.log.filter Event.multiple ++ multipleScatteringEvents opts atmo scatteringOrder texIndex := by
  obtain ⟨a1, a2⟩ := computeScatteringDensity_quiet sh opts atmo scatteringOrder texIndex s h
  obtain ⟨b1, b2⟩ := computeIndirectIrradiance_quiet sh opts atmo scatteringOrder texIndex _ a1
  obtain ⟨c1, c2⟩ :=
    computeMultipleScatteringFromDensity_multiple sh opts atmo scatteringOrder texIndex _ b1
  refine ⟨c1, ?_⟩
  show (computeMultipleScatteringFromDensity sh opts atmo scatteringOrder texIndex
    (computeIndirectIrradiance sh opts atmo scatteringOrder texIndex
      (computeScatteringDensity sh opts atmo scatteringOrder texIndex s))).log.filter
        Event.multiple = _
  rw [c2, b2.multiple, a2.multiple]

theorem higherOrders_multiple {T : Type} [AddCommMonoid T]
    (sh : Shaders T) (opts : Options) (atmo : AtmosphereParameters) (texIndex : Nat)
    (orders : List Nat) (s : State T) (h : BetweenStages s) :
    BetweenStages (orders.foldl (higherOrder sh opts atmo texIndex) s) ∧
    (orders.foldl (higherOrder sh opts atmo texIndex) s).log.filter Event.multiple =
      s.log.filter Event.multiple ++
        orders.flatMap fun scatteringOrder =>
          multipleScatteringEvents opts atmo scatteringOrder texIndex := by
  induction orders generalizing s with
  | nil => exact ⟨h, by simp⟩
  | cons scatteringOrder rest ih =>
    obtain ⟨a1, a2⟩ := higherOrder_multiple sh opts atmo scatteringOrder texIndex s h
    obtain ⟨b1, b2⟩ := ih _ a1
    rw [List.foldl_cons]
    exact ⟨b1, by rw [b2, a2, List.flatMap_cons, List.append_assoc]⟩

theorem order2Scatterer_multiple {T : Type} [AddCommMonoid T] (sh : Shaders T)
    (opts : Options) (atmo : AtmosphereParameters) (texIndex j : Nat) (s : State T)
    (h : BetweenStages s) :
    BetweenStages (order2Scatterer sh opts atmo texIndex s j) ∧
    (order2Scatterer sh opts atmo texIndex s j).log.filter Event.multiple =
      s.log.filter Event.multiple := by
  cases hj : atmo.scatterers[j]? with
  | none => rw [order2Scatterer_outside sh opts atmo texIndex j hj]; exact ⟨h, rfl⟩
  | some scatterer =>
    obtain ⟨a1, a2⟩ := order2Scatterer_after sh opts atmo texIndex j scatterer hj s h
    obtain ⟨-, b2⟩ := computeSingleScattering_multiple sh opts atmo texIndex scatterer s h
    exact ⟨a1, a2.multiple.trans b2⟩

theorem order2Loop_multiple {T : Type} [AddCommMonoid T] (sh : Shaders T)
    (opts : Options) (atmo : AtmosphereParameters) (texIndex : Nat) (indices : List Nat)
    (s : State T) (h : BetweenStages s) :
    BetweenStages (indices.foldl (order2Scatterer sh opts atmo texIndex) s) ∧
    (indices.foldl (order2Scatterer sh opts atmo texIndex) s).log.filter Event.multiple =
      s.log.filter Event.multiple := by
  induction indices generalizing s with
  | nil => exact ⟨h, rfl⟩
  | cons j rest ih =>
    obtain ⟨a1, a2⟩ := order2Scatterer_multiple sh opts atmo texIndex j s h
    obtain ⟨b1, b2⟩ := ih _ a1
    rw [List.foldl_cons]
    exact ⟨b1, b2.trans a2⟩

theorem computeScatteringDensityOrder2_multiple {T : Type} [AddCommMonoid T] (sh : Shaders T)
    (opts : Options) (atmo : AtmosphereParameters) (texIndex : Nat) (s : State T)
    (h : BetweenStages s) :
    BetweenStages (computeScatteringDensityOrder2 sh opts atmo texIndex s) ∧
    (computeScatteringDensityOrder2 sh opts atmo texIndex s).log.filter Event.multiple =
      s.log.filter Event.multiple := by
  obtain ⟨a1, a2⟩ := order2FromGround_quiet sh opts atmo texIndex s h
  obtain ⟨b1, b2⟩ := order2Loop_multiple sh opts atmo texIndex
    (List.range atmo.scatterers.length) _ a1
  obtain ⟨c1, c2⟩ := order2Tail_quiet opts atmo texIndex _ b1.2
  exact ⟨c1, c2.multiple.trans (b2.trans a2.multiple)⟩

theorem computeMultipleScattering_multiple {T : Type} [AddCommMonoid T] (sh : Shaders T)
    (opts : Options) (atmo : AtmosphereParameters) (texIndex : Nat) (s : State T)
    (h : BetweenStages s) :
    BetweenStages (computeMultipleScattering sh opts atmo texIndex s) ∧
    (computeMultipleScattering sh opts atmo texIndex s).log.filter Event.multiple =
      s.log.filter Event.multiple ++
        (2 :: List.range' 3 (atmo.scatteringOrdersToCompute - 2)).flatMap fun scatteringOrder =>
          multipleScatteringEvents opts atmo scatteringOrder texIndex := by
  obtain ⟨a1, a2⟩ := computeScatteringDensityOrder2_multiple sh opts atmo texIndex s h
  obtain ⟨b1, b2⟩ := computeMultipleScatteringFromDensity_multiple sh opts atmo 2 texIndex _ a1
  obtain ⟨c1, c2⟩ := higherOrders_multiple sh opts atmo texIndex
    (List.range' 3 (atmo.scatteringOrdersToCompute - 2)) _ b1
  exact ⟨c1, by rw [List.flatMap_cons, ← List.append_assoc, ← a2, ← b2]; exact c2⟩

theorem mainLoopBody_multiple {T : Type} [AddCommMonoid T] (sh : Shaders T)
    (opts : Options) (atmo : AtmosphereParameters) (texIndex : Nat) (s : State T)
    (h : BetweenStages s) :
    BetweenStages (mainLoopBody sh opts atmo s texIndex) ∧
    (mainLoopBody sh opts atmo s texIndex).log.filter Event.multiple =
      s.log.filter Event.multiple ++
        (2 :: List.range' 3 (atmo.scatteringOrdersToCompute - 2)).flatMap fun scatteringOrder =>
          multipleScatteringEvents opts atmo scatteringOrder texIndex := by
  obtain ⟨a1, a2⟩ := computeTransmittance_quiet sh atmo texIndex s h
  obtain ⟨b1, b2⟩ := computeDirectGroundIrradiance_quiet sh opts atmo texIndex _ a1
  obtain ⟨c1, c2⟩ := computeMultipleScattering_multiple sh opts atmo texIndex _ b1
  obtain ⟨d1, d2, -⟩ := computeEclipsedDoubleScattering_quiet sh opts atmo texIndex _ c1
  exact ⟨d1, by rw [← a2.multiple, ← b2.multiple, ← c2]; exact d2.multiple⟩

theorem initialState_betweenStages {T : Type} (image : Texture → T) :
    BetweenStages (initialState image) :=
  ⟨rfl, fun _ _ => rfl, fun _ => by simp [initialState], fun _ _ _ => by simp [initialState]⟩

theorem mainLoop_multiple {T : Type} [AddCommMonoid T] (sh : Shaders T)
    (opts : Options) (atmo : AtmosphereParameters) (subsets : List Nat) (s : State T)
    (h : BetweenStages s) :
    BetweenStages (subsets.foldl (mainLoopBody sh opts atmo) s) ∧
    (subsets.foldl (mainLoopBody sh opts atmo) s).log.filter Event.multiple =
      s.log.filter Event.multiple ++
        subsets.flatMap fun texIndex =>
          (2 :: List.range' 3 (atmo.scatteringOrdersToCompute - 2)).flatMap
            fun scatteringOrder => multipleScatteringEvents opts atmo scatteringOrder texIndex := by
  induction subsets generalizing s with
  | nil => exact ⟨h, by simp⟩
  | cons texIndex rest ih =>
    obtain ⟨a1, a2⟩ := mainLoopBody_multiple sh opts atmo texIndex s h
    obtain ⟨b1, b2⟩ := ih _ a1
    rw [List.foldl_cons]
    exact ⟨b1, by simp only [b2, a2, List.flatMap_cons, List.append_assoc]⟩

theorem main_multiple {T : Type} [AddCommMonoid T] (sh : Shaders T)
    (opts : Options) (atmo : AtmosphereParameters) (image : Texture → T) :
    (main sh opts atmo image).log.filter Event.multiple =
      (List.range (startup opts atmo).allWavelengths.length).flatMap fun texIndex =>
        (2 :: List.range' 3 ((startup opts atmo).scatteringOrdersToCompute - 2)).flatMap
          fun scatteringOrder =>
            multipleScatteringEvents opts (startup opts atmo) scatteringOrder texIndex := by
  obtain ⟨-, a2⟩ := mainLoop_multiple sh opts (startup opts atmo)
    (List.range (startup opts atmo).allWavelengths.length) (initialState image)
    (initialState_betweenStages image)
  unfold main
  rw [a2]
  simp [initialState]

theorem filter_accumulates_multiple (l : List Event) :
    (l.filter Event.multiple).filter Event.accumulates = l.filter Event.accumulates := by
  rw [List.filter_filter]
  congr 1
  funext e
  cases e with
  | draw pass target blend src dst => cases pass <;> simp [Event.multiple, Event.accumulates]
  | _ => simp [Event.multiple, Event.accumulates]

theorem filter_merges_multiple (l : List Event) :
    (l.filter Event.multiple).filter Event.merges = l.filter Event.merges := by
  rw [List.filter_filter]
  congr 1
  funext e
  cases e with
  | draw pass target blend src dst => cases pass <;> simp [Event.multiple, Event.merges]
  | _ => simp [Event.multiple, Event.merges]

theorem mergeDraws_merges (scatterers : List Scatterer) :
    (mergeDraws scatterers).filter Event.merges = mergeDraws scatterers := by
  rw [List.filter_eq_self]
  intro e he
  unfold mergeDraws at he
  obtain ⟨scatterer, -, rfl⟩ := List.mem_map.1 he
  rfl

theorem mergeDraws_accumulates (scatterers : List Scatterer) :
    (mergeDraws scatterers).filter Event.accumulates = [] := by
  rw [List.filter_eq_nil_iff]
  intro e he
  unfold mergeDraws at he
  obtain ⟨scatterer, -, rfl⟩ := List.mem_map.1 he
  simp [Event.accumulates]

theorem multipleScatteringEvents_accumulates (opts : Options) (atmo : AtmosphereParameters)
    (scatteringOrder texIndex : Nat) :
    (multipleScatteringEvents opts atmo scatteringOrder texIndex).filter Event.accumulates =
      if opts.dbgNoSaveTextures then []
      else [Event.draw (Pass.accumulateMultipleScattering scatteringOrder texIndex)
        (some (Texture.fixed TEX_MULTIPLE_SCATTERING))
        (decide (scatteringOrder > 2 ∨ (texIndex > 0 ∧ opts.saveResultAsRadiance = false)))
        GL_ONE GL_ONE] := by
  unfold multipleScatteringEvents
  split_ifs <;> simp [Event.accumulates, mergeDraws_accumulates]

theorem multipleScatteringEvents_merges (opts : Options) (atmo : AtmosphereParameters)
    (scatteringOrder texIndex : Nat) :
    (multipleScatteringEvents opts atmo scatteringOrder texIndex).filter Event.merges =
      if opts.dbgNoSaveTextures = false ∧ scatteringOrder = atmo.scatteringOrdersToCompute ∧
          ((texIndex + 1) % 2 ^ 32 = atmo.allWavelengths.length ∨ opts.saveResultAsRadiance)
      then mergeDraws atmo.scatterers else [] := by
  unfold multipleScatteringEvents
  cases hflag : opts.dbgNoSaveTextures
  · by_cases hcond : scatteringOrder = atmo.scatteringOrdersToCompute ∧
      ((texIndex + 1) % 2 ^ 32 = atmo.allWavelengths.length ∨ opts.saveResultAsRadiance)
    · simp only [Bool.false_eq_true, ↓reduceIte, if_pos hcond, List.filter_cons,
        Event.merges, mergeDraws_merges, true_and]
    · simp only [Bool.false_eq_true, ↓reduceIte, if_neg hcond, List.filter_cons,
        Event.merges, List.filter_nil, true_and]
  · simp

theorem startup_allWavelengths (opts : Options) (atmo : AtmosphereParameters) :
    (startup opts atmo).allWavelengths = atmo.allWavelengths := rfl

theorem startup_scatteringOrdersToCompute (opts : Options) (atmo : AtmosphereParameters) :
    (startup opts atmo).scatteringOrdersToCompute = atmo.scatteringOrdersToCompute := rfl

theorem startup_scatterers (opts : Options) (atmo : AtmosphereParameters)
    (h : opts.saveResultAsRadiance = false) :
    (startup opts atmo).scatterers = atmo.scatterers := by
  simp [startup, h]

theorem main_accumulates {T : Type} [AddCommMonoid T] (sh : Shaders T)
    (opts : Options) (atmo : AtmosphereParameters) (image : Texture → T) :
    (main sh opts atmo image).log.filter Event.accumulates =
      if opts.dbgNoSaveTextures then []
      else (List.range atmo.allWavelengths.length).flatMap fun texIndex =>
        (2 :: List.range' 3 (atmo.scatteringOrdersToCompute - 2)).map fun scatteringOrder =>
          Event.draw (Pass.accumulateMultipleScattering scatteringOrder texIndex)
            (some (Texture.fixed TEX_MULTIPLE_SCATTERING))
            (decide (scatteringOrder > 2 ∨ (texIndex > 0 ∧ opts.saveResultAsRadiance = false)))
            GL_ONE GL_ONE := by
  rw [← filter_accumulates_multiple, main_multiple, startup_allWavelengths,
    startup_scatteringOrdersToCompute, List.filter_flatMap]
  simp only [List.filter_flatMap, multipleScatteringEvents_accumulates]
  cases hflag : opts.dbgNoSaveTextures
  · simp only [Bool.false_eq_true, ↓reduceIte]
    refine List.flatMap_congr fun texIndex _ => ?_
    induction (2 :: List.range' 3 (atmo.scatteringOrdersToCompute - 2)) with
    | nil => rfl
    | cons k rest ih => rw [List.flatMap_cons, List.map_cons, ih]; rfl
  · simp

theorem flatMap_unique {α β : Type} (l : List α) (f : α → List β) (a : α) (hl : l.Nodup)
    (ha : a ∈ l) (hf : ∀ x ∈ l, x ≠ a → f x = []) : l.flatMap f = f a := by
  induction l with
  | nil => simp at ha
  | cons x rest ih =>
    rw [List.flatMap_cons]
    obtain ⟨hx, hrest⟩ := List.nodup_cons.1 hl
    by_cases hxa : x = a
    · subst hxa
      have : rest.flatMap f = [] := by
        rw [List.flatMap_eq_nil_iff]
        intro y hy
        exact hf y (List.mem_cons_of_mem _ hy) (fun e => hx (e ▸ hy))
      rw [this, List.append_nil]
    · have hmem : a ∈ rest := by
        rcases List.mem_cons.1 ha with e | e
        · exact absurd e.symm hxa
        · exact e
      rw [hf x (List.mem_cons_self _ _) hxa, List.nil_append]
      exact ih hrest hmem fun y hy => hf y (List.mem_cons_of_mem _ hy)

theorem main_merges {T : Type} [AddCommMonoid T] (sh : Shaders T)
    (opts : Options) (atmo : AtmosphereParameters) (image : Texture → T)
    (hflag : opts.dbgNoSaveTextures = false) (hlum : opts.saveResultAsRadiance = false)
    (horders : 2 ≤ atmo.scatteringOrdersToCompute) (hsubsets : 0 < atmo.allWavelengths.length)
    (hrange : atmo.allWavelengths.length < 2 ^ 32) :
    (main sh opts atmo image).log.filter Event.merges = mergeDraws atmo.scatterers := by
  rw [← filter_merges_multiple, main_multiple, startup_allWavelengths,
    startup_scatteringOrdersToCompute, List.filter_flatMap]
  simp only [List.filter_flatMap, multipleScatteringEvents_merges, startup_allWavelengths,
    startup_scatteringOrdersToCompute, startup_scatterers opts atmo hlum]
  rw [flatMap_unique (List.range atmo.allWavelengths.length) _ (atmo.allWavelengths.length - 1)
    (List.nodup_range _) (List.mem_range.2 (by omega))]
  · rw [flatMap_unique (2 :: List.range' 3 (atmo.scatteringOrdersToCompute - 2)) _
      atmo.scatteringOrdersToCompute]
    · rw [if_pos]
      refine ⟨hflag, rfl, Or.inl ?_⟩
      rw [Nat.mod_eq_of_lt (by omega)]
      omega
    · rw [List.nodup_cons]
      exact ⟨by simp only [List.mem_range']; rintro ⟨x, -, hx⟩; omega, List.nodup_range' _ _⟩
    · rcases Nat.eq_or_lt_of_le horders with e | e
      · rw [← e]; exact List.mem_cons_self _ _
      · refine List.mem_cons_of_mem _ ?_
        rw [List.mem_range']
        exact ⟨atmo.scatteringOrdersToCompute - 3, by omega, by omega⟩
    · intro k _ hk
      rw [if_neg]
      exact fun c => hk c.2.1
  · intro i hi hne
    rw [List.mem_range] at hi
    rw [List.flatMap_eq_nil_iff]
    intro k _
    rw [if_neg]
    rintro ⟨-, -, c | c⟩
    · rw [Nat.mod_eq_of_lt (by omega)] at c
      omega
    · rw [hlum] at c
      exact Bool.false_ne_true c

theorem filter_merges_trace {T : Type} (s : State T) :
    s.log.filter Event.merges = s.trace.filter Event.merges := by
  unfold State.trace
  rw [List.filter_filter]
  congr 1
  funext e
  cases e with
  | draw pass target blend src dst => cases pass <;> simp [Event.merges, Event.tracked]
  | _ => simp [Event.merges, Event.tracked]

theorem accumulateMultipleScattering_merges {T : Type} [AddCommMonoid T] (sh : Shaders T)
    (opts : Options) (atmo : AtmosphereParameters) (scatteringOrder texIndex : Nat)
    (s : State T) (h : BetweenStages s)
    (hcond : ¬(scatteringOrder = atmo.scatteringOrdersToCompute ∧
      ((texIndex + 1) % 2 ^ 32 = atmo.allWavelengths.length ∨ opts.saveResultAsRadiance))) :
    (accumulateMultipleScattering sh opts atmo scatteringOrder texIndex s).log.filter
      Event.merges = s.log.filter Event.merges := by
  obtain ⟨-, -, -, a4⟩ :=
    accumulateMultipleScattering_spec sh opts atmo scatteringOrder texIndex s h
  rw [filter_merges_trace, a4, if_neg hcond, List.filter_append, ← filter_merges_trace]
  cases opts.dbgNoSaveTextures <;> simp [Event.merges]

theorem main_merges_noSave {T : Type} [AddCommMonoid T] (sh : Shaders T)
    (opts : Options) (atmo : AtmosphereParameters) (image : Texture → T)
    (hflag : opts.dbgNoSaveTextures = true) :
    (main sh opts atmo image).log.filter Event.merges = [] := by
  rw [← filter_merges_multiple, main_multiple]
  simp [multipleScatteringEvents, hflag]

/-- C7: over a whole run the draws of `accumulateMultipleScattering` are, for each wavelength
subset in turn, the draw of order 2 followed by the draws of the orders above 2, each into the
multiple-scattering accumulator with the blend function `GL_ONE, GL_ONE`, and blending is
enabled for a draw iff `scatteringOrder > 2` or (`texIndex > 0` and the result is not saved as
radiance); under `dbgNoSaveTextures` nothing is drawn. So in luminance mode only the first draw
of the run, order 2 of subset 0, has blending disabled, and in radiance mode the first draw of
every subset, order 2, has blending disabled. -/
theorem C7_accumulateMultipleScattering_blend {T : Type} [AddCommMonoid T] (sh : Shaders T)
    (opts : Options) (atmo : AtmosphereParameters) (image : Texture → T) :
    ((main sh opts atmo image).log.filter Event.accumulates =
      if opts.dbgNoSaveTextures then []
      else (List.range atmo.allWavelengths.length).flatMap fun texIndex =>
        (2 :: List.range' 3 (atmo.scatteringOrdersToCompute - 2)).map fun scatteringOrder =>
          Event.draw (Pass.accumulateMultipleScattering scatteringOrder texIndex)
            (some (Texture.fixed TEX_MULTIPLE_SCATTERING))
            (decide (scatteringOrder > 2 ∨ (texIndex > 0 ∧ opts.saveResultAsRadiance = false)))
            GL_ONE GL_ONE) ∧
    (opts.saveResultAsRadiance = false →
      (main sh opts atmo image).log.filter Event.accumulates =
        if opts.dbgNoSaveTextures then []
        else (List.range atmo.allWavelengths.length).flatMap fun texIndex =>
          Event.draw (Pass.accumulateMultipleScattering 2 texIndex)
              (some (Texture.fixed TEX_MULTIPLE_SCATTERING)) (decide (0 < texIndex))
              GL_ONE GL_ONE ::
            (List.range' 3 (atmo.scatteringOrdersToCompute - 2)).map fun scatteringOrder =>
              Event.draw (Pass.accumulateMultipleScattering scatteringOrder texIndex)
                (some (Texture.fixed TEX_MULTIPLE_SCATTERING)) true GL_ONE GL_ONE) ∧
    (opts.saveResultAsRadiance = true →
      (main sh opts atmo image).log.filter Event.accumulates =
        if opts.dbgNoSaveTextures then []
        else (List.range atmo.allWavelengths.length).flatMap fun texIndex =>
          Event.draw (Pass.accumulateMultipleScattering 2 texIndex)
              (some (Texture.fixed TEX_MULTIPLE_SCATTERING)) false GL_ONE GL_ONE ::
            (List.range' 3 (atmo.scatteringOrdersToCompute - 2)).map fun scatteringOrder =>
              Event.draw (Pass.accumulateMultipleScattering scatteringOrder texIndex)
                (some (Texture.fixed TEX_MULTIPLE_SCATTERING)) true GL_ONE GL_ONE) := by
  have above : ∀ (texIndex scatteringOrder : Nat),
      scatteringOrder ∈ List.range' 3 (atmo.scatteringOrdersToCompute - 2) →
      decide (scatteringOrder > 2 ∨ (texIndex > 0 ∧ opts.saveResultAsRadiance = false)) =
        true := by
    intro texIndex scatteringOrder hk
    rw [List.mem_range'] at hk
    obtain ⟨x, -, rfl⟩ := hk
    exact decide_eq_true (Or.inl (by omega))
  refine ⟨main_accumulates sh opts atmo image, fun hlum => ?_, fun hrad => ?_⟩
  · rw [main_accumulates]
    congr 1
    refine List.flatMap_congr fun texIndex _ => ?_
    rw [List.map_cons]
    congr 1
    · simp [hlum]
    · exact List.map_congr_left fun scatteringOrder hk => by rw [above texIndex _ hk]
  · rw [main_accumulates]
    congr 1
    refine List.flatMap_congr fun texIndex _ => ?_
    rw [List.map_cons]
    congr 1
    · simp [hrad]
    · exact List.map_congr_left fun scatteringOrder hk => by rw [above texIndex _ hk]

/-- C7 for a luminance-mode run over three wavelength subsets with four scattering orders. -/
theorem C7_accumulateMultipleScattering_blend_witness :
    plainOptions.saveResultAsRadiance = false ∧
    (main unitShaders plainOptions airAndHaze fun _ => 0).log.filter Event.accumulates =
      if plainOptions.dbgNoSaveTextures then []
      else (List.range airAndHaze.allWavelengths.length).flatMap fun texIndex =>
        Event.draw (Pass.accumulateMultipleScattering 2 texIndex)
            (some (Texture.fixed TEX_MULTIPLE_SCATTERING)) (decide (0 < texIndex))
            GL_ONE GL_ONE ::
          (List.range' 3 (airAndHaze.scatteringOrdersToCompute - 2)).map fun scatteringOrder =>
            Event.draw (Pass.accumulateMultipleScattering scatteringOrder texIndex)
              (some (Texture.fixed TEX_MULTIPLE_SCATTERING)) true GL_ONE GL_ONE :=
  ⟨rfl, (C7_accumulateMultipleScattering_blend unitShaders plainOptions airAndHaze
    fun _ => 0).2.1 rfl⟩

/-- C8, amended: when `dbgNoSaveTextures` is not set, `mergeSmoothSingleScatteringTexture`,
called with the multiple-scattering accumulator attached as `accumulateMultipleScattering`
attaches it, draws once for each Smooth scatterer, with blending enabled and the blend function
`GL_ONE, GL_ONE`, adds to the accumulator what the merge program makes of that scatterer's own
accumulated single-scattering texture, and draws nothing for the other scatterers;
`accumulateMultipleScattering` calls it exactly when
`scatteringOrder = scatteringOrdersToCompute` and the subset is the last one or the result is
saved as radiance, after its own draw and right before it saves the accumulator; so in a
luminance-mode run with at least 2 orders the merge draws of the run are one for each Smooth
scatterer. -/
theorem C8_mergeSmoothSingleScatteringTexture {T : Type} [AddCommMonoid T] (sh : Shaders T)
    (opts : Options) (atmo : AtmosphereParameters) (hflag : opts.dbgNoSaveTextures = false) :
    (∀ s : State T, MergeReady s →
      (mergeSmoothSingleScatteringTexture sh opts atmo s).log =
        s.log ++
          ((atmo.scatterers.filter fun scatterer =>
              decide (scatterer.phaseFunctionType = PhaseFunctionType.Smooth)).map
            fun scatterer => Event.draw (Pass.mergeSmoothSingleScatteringTexture scatterer)
              (some (Texture.fixed TEX_MULTIPLE_SCATTERING)) true GL_ONE GL_ONE) ∧
      (mergeSmoothSingleScatteringTexture sh opts atmo s).image
          (Texture.fixed TEX_MULTIPLE_SCATTERING) =
        s.image (Texture.fixed TEX_MULTIPLE_SCATTERING) +
          ((atmo.scatterers.filter fun scatterer =>
              decide (scatterer.phaseFunctionType = PhaseFunctionType.Smooth)).map
            fun scatterer => sh.mergeSmoothSingleScatteringTexture scatterer
              (s.image (Texture.accumulated scatterer.name))).sum) ∧
    (∀ (s : State T) (scatteringOrder texIndex : Nat), BetweenStages s →
      ((scatteringOrder = atmo.scatteringOrdersToCompute ∧
          ((texIndex + 1) % 2 ^ 32 = atmo.allWavelengths.length ∨
            opts.saveResultAsRadiance = true)) →
        (accumulateMultipleScattering sh opts atmo scatteringOrder texIndex s).log =
          s.log ++
          [Event.framebufferTexture (some FBO_MULTIPLE_SCATTERING) 0
              (Texture.fixed TEX_MULTIPLE_SCATTERING),
            Event.checkFramebufferStatus (some FBO_MULTIPLE_SCATTERING),
            Event.draw (Pass.accumulateMultipleScattering scatteringOrder texIndex)
              (some (Texture.fixed TEX_MULTIPLE_SCATTERING))
              (decide (scatteringOrder > 2 ∨
                (texIndex > 0 ∧ opts.saveResultAsRadiance = false)))
              GL_ONE GL_ONE] ++
          (if opts.dbgSaveAccumScattering then
            [Event.saveTexture (atmo.textureOutputDir ++ "/multiple-scattering-to-order" ++
                toString scatteringOrder ++ "-wlset" ++ toString texIndex ++ ".f32")]
           else []) ++
          ((atmo.scatterers.filter fun scatterer =>
              decide (scatterer.phaseFunctionType = PhaseFunctionType.Smooth)).map
            fun scatterer => Event.draw (Pass.mergeSmoothSingleScatteringTexture scatterer)
              (some (Texture.fixed TEX_MULTIPLE_SCATTERING)) true GL_ONE GL_ONE) ++
          [Event.saveTexture (if opts.saveResultAsRadiance then
              atmo.textureOutputDir ++ "/multiple-scattering-wlset" ++ toString texIndex ++
                ".f32"
             else atmo.textureOutputDir ++ "/multiple-scattering-xyzw.f32")]) ∧
      (¬(scatteringOrder = atmo.scatteringOrdersToCompute ∧
          ((texIndex + 1) % 2 ^ 32 = atmo.allWavelengths.length ∨
            opts.saveResultAsRadiance = true)) →
        (accumulateMultipleScattering sh opts atmo scatteringOrder texIndex s).log.filter
          Event.merges = s.log.filter Event.merges)) ∧
    (opts.saveResultAsRadiance = false → 2 ≤ atmo.scatteringOrdersToCompute →
      0 < atmo.allWavelengths.length → atmo.allWavelengths.length < 2 ^ 32 →
      ∀ image : Texture → T,
        (main sh opts atmo image).log.filter Event.merges =
          (atmo.scatterers.filter fun scatterer =>
              decide (scatterer.phaseFunctionType = PhaseFunctionType.Smooth)).map
            fun scatterer => Event.draw (Pass.mergeSmoothSingleScatteringTexture scatterer)
              (some (Texture.fixed TEX_MULTIPLE_SCATTERING)) true GL_ONE GL_ONE) := by
  refine ⟨fun s hs => ?_, fun s scatteringOrder texIndex hs => ⟨fun hcond => ?_, fun hcond => ?_⟩,
    fun hlum horders hsubsets hrange image =>
      main_merges sh opts atmo image hflag hlum horders hsubsets hrange⟩
  · obtain ⟨-, -, -, m4, -, m6⟩ := mergeSmoothSingleScatteringTexture_spec sh opts atmo s hs
    rw [m4, m6]
    simp only [hflag, Bool.false_eq_true, ↓reduceIte]
    exact ⟨rfl, rfl⟩
  · obtain ⟨a1, -, -⟩ :=
      accumulateMultipleScattering_saved sh opts atmo scatteringOrder texIndex s hs hcond
    rw [a1]
    simp only [hflag, Bool.false_eq_true, ↓reduceIte, mergeDraws, List.append_assoc,
      List.cons_append, List.nil_append]
  · exact accumulateMultipleScattering_merges sh opts atmo scatteringOrder texIndex s hs hcond

/-- With `dbgNoSaveTextures` set, a luminance-mode run over three subsets with four orders and
the Smooth scatterer `mist` has no merge draw at all. -/
theorem C8_counterexample :
    noSaveOptions.saveResultAsRadiance = false ∧ 2 ≤ mistyPlanet.scatteringOrdersToCompute ∧
    mist ∈ mistyPlanet.scatterers ∧ mist.phaseFunctionType = PhaseFunctionType.Smooth ∧
    (main unitShaders noSaveOptions mistyPlanet fun _ => 0).log.filter Event.merges = [] :=
  ⟨rfl, by decide, by simp [mistyPlanet], rfl, main_merges_noSave _ _ _ _ rfl⟩

/-- C8 for a luminance-mode run over three subsets with four orders and the scatterers `air`,
`haze` and `mist`: the merge draws of the run are one for each Smooth scatterer. -/
theorem C8_mergeSmoothSingleScatteringTexture_witness :
    plainOptions.dbgNoSaveTextures = false ∧
    (main unitShaders plainOptions mistyPlanet fun _ => 0).log.filter Event.merges =
      (mistyPlanet.scatterers.filter fun scatterer =>
          decide (scatterer.phaseFunctionType = PhaseFunctionType.Smooth)).map
        fun scatterer => Event.draw (Pass.mergeSmoothSingleScatteringTexture scatterer)
          (some (Texture.fixed TEX_MULTIPLE_SCATTERING)) true GL_ONE GL_ONE :=
  ⟨rfl, (C8_mergeSmoothSingleScatteringTexture unitShaders plainOptions mistyPlanet rfl).2.2 rfl
    (by decide) (by decide) (by decide) _⟩

theorem SameAccumulation.accumulator {T : Type} {s s' : State T} (h : SameAccumulation s s')
    (name : String) : SameAccumulator name s s' :=
  ⟨by rw [h.1], h.2.1 name, h.single name⟩

theorem SameAccumulator.self {T : Type} (name : String) (s : State T) :
    SameAccumulator name s s :=
  ⟨Iff.rfl, rfl, rfl⟩

theorem SameAccumulator.andThen {T : Type} {name : String} {a b c : State T}
    (h1 : SameAccumulator name a b) (h2 : SameAccumulator name b c) :
    SameAccumulator name a c :=
  ⟨h2.1.trans h1.1, h2.2.1.trans h1.2.1, h2.2.2.trans h1.2.2⟩

theorem AccumulatedOnce.after {T : Type} [AddCommMonoid T] {sh : Shaders T}
    {atmo : AtmosphereParameters} {texIndex : Nat} {scatterer : Scatterer} {a b c : State T}
    (h1 : AccumulatedOnce sh atmo texIndex scatterer a b)
    (h2 : SameAccumulator scatterer.name b c) :
    AccumulatedOnce sh atmo texIndex scatterer a c :=
  ⟨h2.1.2 h1.1, h2.2.1.trans h1.2.1, h2.2.2.trans h1.2.2⟩

theorem AccumulatedOnce.before {T : Type} [AddCommMonoid T] {sh : Shaders T}
    {atmo : AtmosphereParameters} {texIndex : Nat} {scatterer : Scatterer} {a b c : State T}
    (h1 : SameAccumulator scatterer.name a b)
    (h2 : AccumulatedOnce sh atmo texIndex scatterer b c) :
    AccumulatedOnce sh atmo texIndex scatterer a c := by
  obtain ⟨m, i, l⟩ := h1
  obtain ⟨m', i', l'⟩ := h2
  refine ⟨m', ?_, ?_⟩
  · rw [i', i]
    simp only [m]
  · rw [l', l]
    simp only [m]

theorem computeSingleScattering_once {T : Type} [AddCommMonoid T] (sh : Shaders T)
    (opts : Options) (atmo : AtmosphereParameters) (texIndex : Nat) (scatterer : Scatterer)
    (hty : scatterer.phaseFunctionType ≠ PhaseFunctionType.General)
    (hflag : opts.dbgNoSaveTextures = false) (s : State T) (h : BetweenStages s) :
    AccumulatedOnce sh atmo texIndex scatterer s
      (computeSingleScattering sh opts atmo texIndex scatterer s) := by
  obtain ⟨-, a2, -, a4, a5⟩ :=
    computeSingleScattering_accumulate sh opts atmo texIndex scatterer hty hflag s h
  refine ⟨?_, a4, ?_⟩
  · rw [a2]
    split_ifs with hm
    · exact hm
    · simp
  · rw [filter_single_trace, a5, List.filter_append, List.filter_append, ← filter_single_trace]
    split_ifs <;> simp [Event.single]

theorem computeSingleScattering_other {T : Type} [AddCommMonoid T] (sh : Shaders T)
    (opts : Options) (atmo : AtmosphereParameters) (texIndex : Nat) (scatterer : Scatterer)
    (name : String) (hname : scatterer.name ≠ name)
    (hflag : opts.dbgNoSaveTextures = false) (s : State T) (h : BetweenStages s) :
    SameAccumulator name s (computeSingleScattering sh opts atmo texIndex scatterer s) := by
  by_cases hty : scatterer.phaseFunctionType = PhaseFunctionType.General
  · exact (computeSingleScattering_general_quiet sh opts atmo texIndex scatterer hty s
      h).2.accumulator name
  · obtain ⟨-, a2, a3, -, a5⟩ :=
      computeSingleScattering_accumulate sh opts atmo texIndex scatterer hty hflag s h
    refine ⟨?_, a3 name (Ne.symm hname), ?_⟩
    · rw [a2]
      split_ifs
      · exact Iff.rfl
      · simp [Ne.symm hname]
    · rw [filter_single_trace, a5, List.filter_append, List.filter_append,
        ← filter_single_trace]
      split_ifs <;> simp [Event.single, hname]

theorem order2Scatterer_once {T : Type} [AddCommMonoid T] (sh : Shaders T)
    (opts : Options) (atmo : AtmosphereParameters) (texIndex j : Nat) (scatterer : Scatterer)
    (hj : atmo.scatterers[j]? = some scatterer)
    (hty : scatterer.phaseFunctionType ≠ PhaseFunctionType.General)
    (hflag : opts.dbgNoSaveTextures = false) (s : State T) (h : BetweenStages s) :
    AccumulatedOnce sh atmo texIndex scatterer s (order2Scatterer sh opts atmo texIndex s j) :=
  (computeSingleScattering_once sh opts atmo texIndex scatterer hty hflag s h).after
    ((order2Scatterer_after sh opts atmo texIndex j scatterer hj s h).2.accumulator _)

theorem order2Scatterer_other {T : Type} [AddCommMonoid T] (sh : Shaders T)
    (opts : Options) (atmo : AtmosphereParameters) (texIndex j : Nat) (name : String)
    (hj : ∀ scatterer, atmo.scatterers[j]? = some scatterer → scatterer.name ≠ name)
    (hflag : opts.dbgNoSaveTextures = false) (s : State T) (h : BetweenStages s) :
    SameAccumulator name s (order2Scatterer sh opts atmo texIndex s j) := by
  cases e : atmo.scatterers[j]? with
  | none => rw [order2Scatterer_outside sh opts atmo texIndex j e]; exact SameAccumulator.self _ _
  | some scatterer =>
    exact (computeSingleScattering_other sh opts atmo texIndex scatterer name (hj _ e) hflag s
      h).andThen ((order2Scatterer_after sh opts atmo texIndex j scatterer e s h).2.accumulator _)

theorem order2Loop_other {T : Type} [AddCommMonoid T] (sh : Shaders T)
    (opts : Options) (atmo : AtmosphereParameters) (texIndex : Nat) (name : String)
    (hflag : opts.dbgNoSaveTextures = false) (indices : List Nat)
    (hj : ∀ j ∈ indices, ∀ scatterer, atmo.scatterers[j]? = some scatterer →
      scatterer.name ≠ name)
    (s : State T) (h : BetweenStages s) :
    SameAccumulator name s (indices.foldl (order2Scatterer sh opts atmo texIndex) s) := by
  induction indices generalizing s with
  | nil => exact SameAccumulator.self _ _
  | cons j rest ih =>
    rw [List.foldl_cons]
    exact (order2Scatterer_other sh opts atmo texIndex j name
      (hj j (List.mem_cons_self _ _)) hflag s h).andThen
      (ih (fun i hi => hj i (List.mem_cons_of_mem _ hi)) _
        (order2Scatterer_multiple sh opts atmo texIndex j s h).1)

theorem scatterer_name_ne {atmo : AtmosphereParameters}
    (hnames : (atmo.scatterers.map Scatterer.name).Nodup) {i j : Nat} {a b : Scatterer}
    (hi : atmo.scatterers[i]? = some a) (hj : atmo.scatterers[j]? = some b) (hij : i ≠ j) :
    a.name ≠ b.name := by
  intro e
  apply hij
  obtain ⟨hi', rfl⟩ := List.getElem?_eq_some.1 hi
  obtain ⟨hj', rfl⟩ := List.getElem?_eq_some.1 hj
  have hi'' : i < (atmo.scatterers.map Scatterer.name).length := by simpa using hi'
  have hj'' : j < (atmo.scatterers.map Scatterer.name).length := by simpa using hj'
  exact (@List.Nodup.getElem_inj_iff String (atmo.scatterers.map Scatterer.name) hnames
    i hi'' j hj'').1 (by simpa using e)

theorem order2Loop_once {T : Type} [AddCommMonoid T] (sh : Shaders T)
    (opts : Options) (atmo : AtmosphereParameters) (texIndex : Nat) (scatterer : Scatterer)
    (hflag : opts.dbgNoSaveTextures = false)
    (hnames : (atmo.scatterers.map Scatterer.name).Nodup) (hmem : scatterer ∈ atmo.scatterers)
    (hty : scatterer.phaseFunctionType ≠ PhaseFunctionType.General)
    (s : State T) (h : BetweenStages s) :
    AccumulatedOnce sh atmo texIndex scatterer s
      ((List.range atmo.scatterers.length).foldl (order2Scatterer sh opts atmo texIndex) s) := by
  obtain ⟨j0, hj0⟩ := List.mem_iff_getElem?.1 hmem
  obtain ⟨hlt, -⟩ := List.getElem?_eq_some.1 hj0
  have hsplit : List.range atmo.scatterers.length =
      List.range' 0 j0 ++ (j0 :: List.range' (j0 + 1) (atmo.scatterers.length - j0 - 1)) := by
    rw [List.range_eq_range', ← List.range'_succ]
    have := List.range'_append 0 j0 (atmo.scatterers.length - j0 - 1 + 1) 1
    simp only [one_mul, zero_add] at this
    rw [this]
    congr 1
    omega
  rw [hsplit, List.foldl_append, List.foldl_cons]
  have hother : ∀ j, j ≠ j0 → ∀ other, atmo.scatterers[j]? = some other →
      other.name ≠ scatterer.name :=
    fun j hj other hother => scatterer_name_ne hnames hother hj0 hj
  have h1 := order2Loop_other sh opts atmo texIndex scatterer.name hflag (List.range' 0 j0)
    (fun j hj => hother j (by rw [List.mem_range'] at hj; omega)) s h
  have b1 := (order2Loop_multiple sh opts atmo texIndex (List.range' 0 j0) s h).1
  have h2 := order2Scatterer_once sh opts atmo texIndex j0 scatterer hj0 hty hflag _ b1
  have b2 := (order2Scatterer_multiple sh opts atmo texIndex j0 _ b1).1
  have h3 := order2Loop_other sh opts atmo texIndex scatterer.name hflag
    (List.range' (j0 + 1) (atmo.scatterers.length - j0 - 1))
    (fun j hj => hother j (by rw [List.mem_range'] at hj; omega)) _ b2
  exact (AccumulatedOnce.before h1 h2).after h3

theorem computeScatteringDensityOrder2_once {T : Type} [AddCommMonoid T] (sh : Shaders T)
    (opts : Options) (atmo : AtmosphereParameters) (texIndex : Nat) (scatterer : Scatterer)
    (hflag : opts.dbgNoSaveTextures = false)
    (hnames : (atmo.scatterers.map Scatterer.name).Nodup) (hmem : scatterer ∈ atmo.scatterers)
    (hty : scatterer.phaseFunctionType ≠ PhaseFunctionType.General)
    (s : State T) (h : BetweenStages s) :
    AccumulatedOnce sh atmo texIndex scatterer s
      (computeScatteringDensityOrder2 sh opts atmo texIndex s) := by
  obtain ⟨a1, a2⟩ := order2FromGround_quiet sh opts atmo texIndex s h
  have b := order2Loop_once sh opts atmo texIndex scatterer hflag hnames hmem hty _ a1
  obtain ⟨b1, -⟩ := order2Loop_multiple sh opts atmo texIndex
    (List.range atmo.scatterers.length) _ a1
  obtain ⟨-, c2⟩ := order2Tail_quiet opts atmo texIndex _ b1.2
  exact (AccumulatedOnce.before (a2.accumulator _) b).after (c2.accumulator _)

theorem multipleScatteringEvents_single (opts : Options) (atmo : AtmosphereParameters)
    (scatteringOrder texIndex : Nat) (name : String) :
    (multipleScatteringEvents opts atmo scatteringOrder texIndex).filter (Event.single name) =
      [] := by
  rw [List.filter_eq_nil_iff]
  intro e he
  have hm : e ∈ (multipleScatteringEvents opts atmo scatteringOrder texIndex).filter
      Event.multiple := by
    rw [multipleScatteringEvents_multiple]; exact he
  have hm' := (List.mem_filter.1 hm).2
  cases e with
  | draw pass target blend src dst => cases pass <;> simp_all [Event.multiple, Event.single]
  | _ => simp_all [Event.multiple, Event.single]

theorem computeMultipleScatteringFromDensity_accumulator {T : Type} [AddCommMonoid T]
    (sh : Shaders T) (opts : Options) (atmo : AtmosphereParameters)
    (scatteringOrder texIndex : Nat) (name : String) (s : State T) (h : BetweenStages s) :
    SameAccumulator name s
      (computeMultipleScatteringFromDensity sh opts atmo scatteringOrder texIndex s) := by
  obtain ⟨-, a2, a3, a4⟩ :=
    computeMultipleScatteringFromDensity_spec sh opts atmo scatteringOrder texIndex s h
  refine ⟨by rw [a2], a3 name, ?_⟩
  rw [filter_single_trace, a4, List.filter_append, ← filter_single_trace]
  have := multipleScatteringEvents_single opts atmo scatteringOrder texIndex name
  unfold multipleScatteringEvents at this
  rw [this, List.append_nil]

theorem higherOrders_accumulator {T : Type} [AddCommMonoid T]
    (sh : Shaders T) (opts : Options) (atmo : AtmosphereParameters) (texIndex : Nat)
    (name : String) (orders : List Nat) (s : State T) (h : BetweenStages s) :
    SameAccumulator name s (orders.foldl (higherOrder sh opts atmo texIndex) s) := by
  induction orders generalizing s with
  | nil => exact SameAccumulator.self _ _
  | cons scatteringOrder rest ih =>
    obtain ⟨a1, a2⟩ := computeScatteringDensity_quiet sh opts atmo scatteringOrder texIndex s h
    obtain ⟨b1, b2⟩ := computeIndirectIrradiance_quiet sh opts atmo scatteringOrder texIndex _ a1
    have c := computeMultipleScatteringFromDensity_accumulator sh opts atmo scatteringOrder
      texIndex name _ b1
    rw [List.foldl_cons]
    exact (((a2.accumulator name).andThen (b2.accumulator name)).andThen c).andThen
      (ih _ (higherOrder_multiple sh opts atmo scatteringOrder texIndex s h).1)

theorem mainLoopBody_once {T : Type} [AddCommMonoid T] (sh : Shaders T)
    (opts : Options) (atmo : AtmosphereParameters) (texIndex : Nat) (scatterer : Scatterer)
    (hflag : opts.dbgNoSaveTextures = false)
    (hnames : (atmo.scatterers.map Scatterer.name).Nodup) (hmem : scatterer ∈ atmo.scatterers)
    (hty : scatterer.phaseFunctionType ≠ PhaseFunctionType.General)
    (s : State T) (h : BetweenStages s) :
    AccumulatedOnce sh atmo texIndex scatterer s (mainLoopBody sh opts atmo s texIndex) := by
  obtain ⟨a1, a2⟩ := computeTransmittance_quiet sh atmo texIndex s h
  obtain ⟨b1, b2⟩ := computeDirectGroundIrradiance_quiet sh opts atmo texIndex _ a1
  have c := computeScatteringDensityOrder2_once sh opts atmo texIndex scatterer hflag hnames
    hmem hty _ b1
  obtain ⟨c1, -⟩ := computeScatteringDensityOrder2_multiple sh opts atmo texIndex _ b1
  have d := computeMultipleScatteringFromDensity_accumulator sh opts atmo 2 texIndex
    scatterer.name _ c1
  obtain ⟨d1, -⟩ := computeMultipleScatteringFromDensity_multiple sh opts atmo 2 texIndex _ c1
  have e := higherOrders_accumulator sh opts atmo texIndex scatterer.name
    (List.range' 3 (atmo.scatteringOrdersToCompute - 2)) _ d1
  obtain ⟨e1, -⟩ := higherOrders_multiple sh opts atmo texIndex
    (List.range' 3 (atmo.scatteringOrdersToCompute - 2)) _ d1
  obtain ⟨-, f2, -⟩ := computeEclipsedDoubleScattering_quiet sh opts atmo texIndex _ e1
  exact (AccumulatedOnce.before ((a2.accumulator _).andThen (b2.accumulator _)) c).after
    ((d.andThen e).andThen (f2.accumulator _))

theorem mainLoop_accumulated {T : Type} [AddCommMonoid T] (sh : Shaders T)
    (opts : Options) (atmo : AtmosphereParameters) (scatterer : Scatterer)
    (hflag : opts.dbgNoSaveTextures = false)
    (hnames : (atmo.scatterers.map Scatterer.name).Nodup) (hmem : scatterer ∈ atmo.scatterers)
    (hty : scatterer.phaseFunctionType ≠ PhaseFunctionType.General)
    (s : State T) (h : BetweenStages s)
    (hnew : scatterer.name ∉ s.accumulatedSingleScatteringTextures) (n : Nat) :
    scatterer.name ∈ ((List.range (n + 1)).foldl (mainLoopBody sh opts atmo)
      s).accumulatedSingleScatteringTextures ∧
    ((List.range (n + 1)).foldl (mainLoopBody sh opts atmo) s).image
        (Texture.accumulated scatterer.name) =
      ((List.range (n + 1)).map fun texIndex =>
        sh.copyScatteringTexture
          (some (radianceToLuminance sh.wavelengthToXYZW atmo.allWavelengths texIndex))
          (sh.compute (Pass.computeSingleScattering texIndex scatterer))).sum ∧
    ((List.range (n + 1)).foldl (mainLoopBody sh opts atmo) s).log.filter
        (Event.single scatterer.name) =
      s.log.filter (Event.single scatterer.name) ++
        Event.genTexture scatterer.name ::
          (List.range (n + 1)).map fun texIndex =>
            Event.draw (Pass.accumulateSingleScattering texIndex scatterer)
              (some (Texture.accumulated scatterer.name)) (decide (0 < texIndex))
              GL_ONE GL_ONE := by
  induction n with
  | zero =>
    obtain ⟨a1, a2, a3⟩ :=
      mainLoopBody_once sh opts atmo 0 scatterer hflag hnames hmem hty s h
    refine ⟨a1, ?_, ?_⟩
    · show (mainLoopBody sh opts atmo s 0).image _ = _
      rw [a2]
      simp [hnew, blendResult, List.range_succ]
    · show (mainLoopBody sh opts atmo s 0).log.filter _ = _
      rw [a3]
      simp [hnew, List.range_succ]
  | succ n ih =>
    obtain ⟨i1, i2, i3⟩ := ih
    have hb := (mainLoop_multiple sh opts atmo (List.range (n + 1)) s h).1
    obtain ⟨a1, a2, a3⟩ :=
      mainLoopBody_once sh opts atmo (n + 1) scatterer hflag hnames hmem hty _ hb
    rw [List.range_succ, List.foldl_append]
    refine ⟨a1, ?_, ?_⟩
    · show (mainLoopBody sh opts atmo _ (n + 1)).image _ = _
      rw [a2, i2, List.map_append, List.sum_append]
      simp [i1, blendResult, BlendFactor.apply, add_comm]
    · show (mainLoopBody sh opts atmo _ (n + 1)).log.filter _ = _
      rw [a3, i3, List.map_append]
      simp [i1]

theorem mergedLight_of_no_smooth {T : Type} [AddCommMonoid T] (sh : Shaders T)
    (scatterers : List Scatterer) (image : Texture → T)
    (h : ∀ scatterer ∈ scatterers, scatterer.phaseFunctionType ≠ PhaseFunctionType.Smooth) :
    mergedLight sh scatterers image = 0 := by
  unfold mergedLight
  have : (scatterers.filter fun scatterer =>
      decide (scatterer.phaseFunctionType = PhaseFunctionType.Smooth)) = [] := by
    rw [List.filter_eq_nil_iff]
    intro scatterer hs
    simpa using h scatterer hs
  rw [this]
  rfl

theorem mainLoopBody_saved {T : Type} [AddCommMonoid T] (sh : Shaders T)
    (opts : Options) (atmo : AtmosphereParameters)
    (hflag : opts.dbgNoSaveTextures = false) (hlum : opts.saveResultAsRadiance = false)
    (horders : atmo.scatteringOrdersToCompute = 2) (hsubsets : atmo.allWavelengths.length = 1)
    (hsmooth : ∀ scatterer ∈ atmo.scatterers,
      scatterer.phaseFunctionType ≠ PhaseFunctionType.Smooth)
    (s : State T) (h : BetweenStages s) :
    (mainLoopBody sh opts atmo s 0).files.getLast? =
      some (atmo.textureOutputDir ++ "/multiple-scattering-xyzw.f32",
        sh.copyScatteringTexture
          (some (radianceToLuminance sh.wavelengthToXYZW atmo.allWavelengths 0))
          (sh.compute (Pass.computeMultipleScatteringFromDensity 2 0))) := by
  obtain ⟨a1, -⟩ := computeTransmittance_quiet sh atmo 0 s h
  obtain ⟨b1, -⟩ := computeDirectGroundIrradiance_quiet sh opts atmo 0 _ a1
  obtain ⟨c1, -⟩ := computeScatteringDensityOrder2_multiple sh opts atmo 0 _ b1
  have d := computeMultipleScatteringFromDensity_saved sh opts atmo 2 0 _ c1 hflag
    ⟨horders.symm, Or.inl (by rw [hsubsets]; rfl)⟩
  obtain ⟨d1, -⟩ := computeMultipleScatteringFromDensity_multiple sh opts atmo 2 0 _ c1
  have e : computeMultipleScattering sh opts atmo 0
      (computeDirectGroundIrradiance sh opts atmo 0 (computeTransmittance sh atmo 0 s)) =
      computeMultipleScatteringFromDensity sh opts atmo 2 0
        (computeScatteringDensityOrder2 sh opts atmo 0
          (computeDirectGroundIrradiance sh opts atmo 0 (computeTransmittance sh atmo 0 s))) := by
    simp only [computeMultipleScattering, horders, Nat.sub_self, List.range'_zero,
      List.foldl_nil]
  obtain ⟨-, -, f3⟩ := computeEclipsedDoubleScattering_quiet sh opts atmo 0 _ (e ▸ d1)
  show (computeEclipsedDoubleScattering sh opts atmo 0 (computeMultipleScattering sh opts atmo 0
    (computeDirectGroundIrradiance sh opts atmo 0
      (computeTransmittance sh atmo 0 s)))).files.getLast? = _
  rw [f3, e, d, mergedLight_of_no_smooth sh atmo.scatterers _ hsmooth]
  simp [hlum, blendResult]

theorem achromatic_run {T : Type} [AddCommMonoid T] (sh : Shaders T)
    (opts : Options) (atmo : AtmosphereParameters) (scatterer : Scatterer)
    (image : Texture → T)
    (hflag : opts.dbgNoSaveTextures = false) (hlum : opts.saveResultAsRadiance = false)
    (hscatterers : atmo.scatterers = [scatterer])
    (hty : scatterer.phaseFunctionType = PhaseFunctionType.Achromatic)
    (hsubsets : atmo.allWavelengths.length = 1) (horders : atmo.scatteringOrdersToCompute = 2) :
    (main sh opts atmo image).files.getLast? =
      some ((startup opts atmo).textureOutputDir ++ "/multiple-scattering-xyzw.f32",
        sh.copyScatteringTexture
          (some (radianceToLuminance sh.wavelengthToXYZW atmo.allWavelengths 0))
          (sh.compute (Pass.computeMultipleScatteringFromDensity 2 0))) ∧
    (main sh opts atmo image).image (Texture.accumulated scatterer.name) =
      sh.copyScatteringTexture
        (some (radianceToLuminance sh.wavelengthToXYZW atmo.allWavelengths 0))
        (sh.compute (Pass.computeSingleScattering 0 scatterer)) := by
  have hs : (startup opts atmo).scatterers = [scatterer] := by
    rw [startup_scatterers opts atmo hlum, hscatterers]
  have hmain : main sh opts atmo image =
      mainLoopBody sh opts (startup opts atmo) (initialState image) 0 := by
    unfold main
    rw [startup_allWavelengths, hsubsets]
    rfl
  rw [hmain]
  refine ⟨mainLoopBody_saved sh opts (startup opts atmo) hflag hlum horders hsubsets
    (fun other hother => ?_) _ (initialState_betweenStages image), ?_⟩
  · rw [hs, List.mem_singleton] at hother
    rw [hother, hty]
    decide
  · obtain ⟨-, a2, -⟩ := mainLoopBody_once sh opts (startup opts atmo) 0 scatterer hflag
      (by rw [hs]; simp) (by rw [hs]; simp) (by rw [hty]; decide) _
      (initialState_betweenStages image)
    rw [a2]
    simp [initialState, blendResult]
    rfl

/-- C9, amended: for a run with a single Achromatic scatterer, one wavelength subset,
`scatteringOrdersToCompute = 2`, luminance output, `dbgNoSaveTextures` not set, and an order-2
delta radiance that is zero, the texture saved last, as `multiple-scattering-xyzw.f32`, is what
`copy-scattering-texture.frag` makes of the zero delta radiance with the matrix
`radianceToLuminance(0)`; the scatterer's luminance-accumulated single-scattering texture,
which holds the same conversion of its single scattering, is not merged into it. -/
theorem C9_single_achromatic_scatterer {T : Type} [AddCommMonoid T] (sh : Shaders T)
    (opts : Options) (atmo : AtmosphereParameters) (scatterer : Scatterer)
    (image : Texture → T)
    (hflag : opts.dbgNoSaveTextures = false) (hlum : opts.saveResultAsRadiance = false)
    (hscatterers : atmo.scatterers = [scatterer])
    (hty : scatterer.phaseFunctionType = PhaseFunctionType.Achromatic)
    (hsubsets : atmo.allWavelengths.length = 1) (horders : atmo.scatteringOrdersToCompute = 2)
    (hzero : sh.compute (Pass.computeMultipleScatteringFromDensity 2 0) = 0) :
    (main sh opts atmo image).files.getLast? =
      some ((startup opts atmo).textureOutputDir ++ "/multiple-scattering-xyzw.f32",
        sh.copyScatteringTexture
          (some (radianceToLuminance sh.wavelengthToXYZW atmo.allWavelengths 0)) 0) ∧
    (main sh opts atmo image).image (Texture.accumulated scatterer.name) =
      sh.copyScatteringTexture
        (some (radianceToLuminance sh.wavelengthToXYZW atmo.allWavelengths 0))
        (sh.compute (Pass.computeSingleScattering 0 scatterer)) := by
  have h := achromatic_run sh opts atmo scatterer image hflag hlum hscatterers hty hsubsets
    horders
  rw [hzero] at h
  exact h

/-- In the run of `hazyPlanet` with the Achromatic scatterer `haze` alone, one wavelength
subset, two orders, luminance output and a zero order-2 delta radiance, the texture saved as
`multiple-scattering-xyzw.f32` is 0, and the luminance-accumulated single-scattering texture
of `haze` is 5. -/
theorem C9_counterexample :
    (main zeroDeltaShaders plainOptions hazyPlanet fun _ => 0).files.getLast?.map Prod.snd =
      some 0 ∧
    (main zeroDeltaShaders plainOptions hazyPlanet fun _ => 0).image
      (Texture.accumulated haze.name) = 5 := by
  obtain ⟨a, b⟩ := achromatic_run zeroDeltaShaders plainOptions hazyPlanet haze (fun _ => 0)
    rfl rfl rfl rfl rfl rfl
  rw [a, b]
  exact ⟨rfl, rfl⟩

/-- C9 for `hazyPlanet`: the texture saved as `multiple-scattering-xyzw.f32` is the
conversion of the zero delta radiance. -/
theorem C9_single_achromatic_scatterer_witness :
    zeroDeltaShaders.compute (Pass.computeMultipleScatteringFromDensity 2 0) = 0 ∧
    (main zeroDeltaShaders plainOptions hazyPlanet fun _ => 0).files.getLast? =
      some ((startup plainOptions hazyPlanet).textureOutputDir ++
          "/multiple-scattering-xyzw.f32",
        zeroDeltaShaders.copyScatteringTexture
          (some (radianceToLuminance zeroDeltaShaders.wavelengthToXYZW
            hazyPlanet.allWavelengths 0)) 0) :=
  ⟨rfl, (C9_single_achromatic_scatterer zeroDeltaShaders plainOptions hazyPlanet haze
    (fun _ => 0) rfl rfl rfl rfl rfl rfl rfl).1⟩

/-- C10, amended: in a luminance-mode run over the wavelength subsets `0..n-1` (`n >= 1`)
with `dbgNoSaveTextures` not set and pairwise distinct scatterer names, for every Achromatic
or Smooth scatterer the events of its accumulator texture are its creation, once, followed by
one draw of `accumulateSingleScattering` into it for each subset in turn, with blending
disabled for subset 0 and enabled with the blend function `GL_ONE, GL_ONE` for every later
subset; and after the run the texture holds the sum over the subsets `i` of what
`copy-scattering-texture.frag` makes of the single scattering of the scatterer for subset `i`
with the matrix `radianceToLuminance(i)`. -/
theorem C10_accumulateSingleScattering_sum {T : Type} [AddCommMonoid T] (sh : Shaders T)
    (opts : Options) (atmo : AtmosphereParameters) (scatterer : Scatterer)
    (image : Texture → T)
    (hflag : opts.dbgNoSaveTextures = false) (hlum : opts.saveResultAsRadiance = false)
    (hnames : (atmo.scatterers.map Scatterer.name).Nodup) (hmem : scatterer ∈ atmo.scatterers)
    (hty : scatterer.phaseFunctionType ≠ PhaseFunctionType.General)
    (hsubsets : 0 < atmo.allWavelengths.length) :
    (main sh opts atmo image).log.filter (Event.single scatterer.name) =
      Event.genTexture scatterer.name ::
        ((List.range atmo.allWavelengths.length).map fun texIndex =>
          Event.draw (Pass.accumulateSingleScattering texIndex scatterer)
            (some (Texture.accumulated scatterer.name)) (decide (0 < texIndex))
            GL_ONE GL_ONE) ∧
    (main sh opts atmo image).image (Texture.accumulated scatterer.name) =
      ((List.range atmo.allWavelengths.length).map fun texIndex =>
        sh.copyScatteringTexture
          (some (radianceToLuminance sh.wavelengthToXYZW atmo.allWavelengths texIndex))
          (sh.compute (Pass.computeSingleScattering texIndex scatterer))).sum := by
  obtain ⟨n, hn⟩ : ∃ n, atmo.allWavelengths.length = n + 1 := ⟨_, (Nat.succ_pred_eq_of_pos
    hsubsets).symm⟩
  have hs := startup_scatterers opts atmo hlum
  obtain ⟨-, a2, a3⟩ := mainLoop_accumulated sh opts (startup opts atmo) scatterer hflag
    (by rw [hs]; exact hnames) (by rw [hs]; exact hmem) hty (initialState image)
    (initialState_betweenStages image) (by simp [initialState]) n
  unfold main
  rw [startup_allWavelengths, hn]
  refine ⟨?_, a2⟩
  rw [a3]
  simp [initialState]

set_option maxRecDepth 100000 in
/-- With `dbgNoSaveTextures` set, in a luminance-mode run over three wavelength subsets the
accumulator texture of the Achromatic scatterer `haze` is created and never drawn into: it
keeps the content 0 that it had, while the conversions of the single scattering of `haze` sum
to 15. -/
theorem C10_counterexample :
    (main unitShaders noSaveOptions airAndHaze fun _ => 0).log.filter
      (Event.single haze.name) = [Event.genTexture haze.name] ∧
    (main unitShaders noSaveOptions airAndHaze fun _ => 0).image
      (Texture.accumulated haze.name) = 0 ∧
    ((List.range airAndHaze.allWavelengths.length).map fun texIndex =>
      unitShaders.copyScatteringTexture
        (some (radianceToLuminance unitShaders.wavelengthToXYZW airAndHaze.allWavelengths
          texIndex))
        (unitShaders.compute (Pass.computeSingleScattering texIndex haze))).sum = 15 := by
  refine ⟨rfl, rfl, ?_⟩
  norm_num [unitShaders, haze, airAndHaze, smallPlanet, threeGroups, List.range_succ]

/-- C10 for the scatterer `haze` in a luminance-mode run over three wavelength subsets. -/
theorem C10_accumulateSingleScattering_sum_witness :
    (main unitShaders plainOptions airAndHaze fun _ => 0).image
        (Texture.accumulated haze.name) =
      ((List.range airAndHaze.allWavelengths.length).map fun texIndex =>
        unitShaders.copyScatteringTexture
          (some (radianceToLuminance unitShaders.wavelengthToXYZW airAndHaze.allWavelengths
            texIndex))
          (unitShaders.compute (Pass.computeSingleScattering texIndex haze))).sum :=
  (C10_accumulateSingleScattering_sum unitShaders plainOptions airAndHaze haze (fun _ => 0)
    rfl rfl (by decide) (by decide) (by decide) (by decide)).2

theorem writeAttachment_log {T : Type} [AddCommMonoid T] (enabled : Bool)
    (target : Option Texture) (out : T) (s : State T) :
    (writeAttachment enabled target out s).log = s.log := by
  cases target <;> rfl

theorem writeAttachment_framebuffer {T : Type} [AddCommMonoid T] (enabled : Bool)
    (target : Option Texture) (out : T) (s : State T) :
    (writeAttachment enabled target out s).framebuffer = s.framebuffer := by
  cases target <;> rfl

theorem glEnableiBlend_effect {T : Type} (i : Nat) (s : State T) :
    (glEnableiBlend i s).outline = s.outline ∧ (glEnableiBlend i s).framebuffer = s.framebuffer := by
  unfold glEnableiBlend
  split_ifs <;> exact ⟨rfl, rfl⟩

theorem glDisableiBlend_effect {T : Type} (i : Nat) (s : State T) :
    (glDisableiBlend i s).outline = s.outline ∧
      (glDisableiBlend i s).framebuffer = s.framebuffer := by
  unfold glDisableiBlend
  split_ifs <;> exact ⟨rfl, rfl⟩

theorem glFramebufferTexture_effect {T : Type} (i : Nat) (texture : Texture) (s : State T) :
    (glFramebufferTexture i texture s).outline =
      s.outline ++ [Event.framebufferTexture s.framebuffer i texture] ∧
    (glFramebufferTexture i texture s).framebuffer = s.framebuffer := by
  unfold glFramebufferTexture State.outline
  cases s.framebuffer with
  | none => simp [Event.outline]
  | some fbo => by_cases h : i = 0 <;> simp [h, Event.outline]

theorem setDrawBuffers01_effect {T : Type} (s : State T) :
    (setDrawBuffers01 s).outline = s.outline ∧ (setDrawBuffers01 s).framebuffer = s.framebuffer := by
  unfold setDrawBuffers01
  cases h : s.framebuffer
  · exact ⟨rfl, h⟩
  · exact ⟨rfl, rfl⟩

theorem checkFramebufferStatus_effect {T : Type} (s : State T) :
    (checkFramebufferStatus s).outline =
      s.outline ++ [Event.checkFramebufferStatus s.framebuffer] ∧
    (checkFramebufferStatus s).framebuffer = s.framebuffer := by
  simp [checkFramebufferStatus, State.outline, Event.outline]

theorem renderQuad_effect {T : Type} [AddCommMonoid T] (pass : Pass) (out : T) (s : State T) :
    (renderQuad pass out s).outline = s.outline ++ [drawn pass] ∧
    (renderQuad pass out s).framebuffer = s.framebuffer := by
  unfold renderQuad State.outline
  cases h : s.framebuffer with
  | none => simp [Event.outline]
  | some fbo =>
    by_cases hd : s.drawBuffer1 fbo = true <;>
    simp [hd, h, Event.outline, writeAttachment_framebuffer]

theorem render3DTexLayers_effect {T : Type} [AddCommMonoid T] (opts : Options) (pass : Pass)
    (out : T) (s : State T) :
    (render3DTexLayers opts pass out s).outline =
      s.outline ++ (if opts.dbgNoSaveTextures then [] else [drawn pass]) ∧
    (render3DTexLayers opts pass out s).framebuffer = s.framebuffer := by
  unfold render3DTexLayers
  cases opts.dbgNoSaveTextures
  · simpa using renderQuad_effect pass out s
  · simp

theorem saveTexture_effect {T : Type} (texture : Texture) (path : String) (s : State T) :
    (saveTexture texture path s).outline = s.outline ++ [Event.saveTexture path] ∧
    (saveTexture texture path s).framebuffer = s.framebuffer := by
  simp [saveTexture, State.outline, Event.outline]

theorem glGenTextures_effect {T : Type} (name : String) (s : State T) :
    (glGenTextures name s).outline = s.outline ∧
    (glGenTextures name s).framebuffer = s.framebuffer := by
  simp [glGenTextures, State.outline, Event.outline]

theorem glBlendFunc_outline {T : Type} (src dst : BlendFactor) (s : State T) :
    (glBlendFunc src dst s).outline = s.outline := rfl

theorem glEnableBlend_outline {T : Type} (s : State T) : (glEnableBlend s).outline = s.outline :=
  rfl

theorem glDisableBlend_outline {T : Type} (s : State T) :
    (glDisableBlend s).outline = s.outline := rfl

theorem glBindFramebuffer_outline {T : Type} (fbo : Option FboId) (s : State T) :
    (glBindFramebuffer fbo s).outline = s.outline := rfl

theorem glBlendFunc_framebuffer {T : Type} (src dst : BlendFactor) (s : State T) :
    (glBlendFunc src dst s).framebuffer = s.framebuffer := rfl

theorem glEnableBlend_framebuffer {T : Type} (s : State T) :
    (glEnableBlend s).framebuffer = s.framebuffer := rfl

theorem glDisableBlend_framebuffer {T : Type} (s : State T) :
    (glDisableBlend s).framebuffer = s.framebuffer := rfl

theorem glBindFramebuffer_framebuffer {T : Type} (fbo : Option FboId) (s : State T) :
    (glBindFramebuffer fbo s).framebuffer = fbo := rfl

theorem glEnableiBlend_outline {T : Type} (i : Nat) (s : State T) :
    (glEnableiBlend i s).outline = s.outline := (glEnableiBlend_effect i s).1

theorem glEnableiBlend_framebuffer {T : Type} (i : Nat) (s : State T) :
    (glEnableiBlend i s).framebuffer = s.framebuffer := (glEnableiBlend_effect i s).2

theorem glDisableiBlend_outline {T : Type} (i : Nat) (s : State T) :
    (glDisableiBlend i s).outline = s.outline := (glDisableiBlend_effect i s).1

theorem glDisableiBlend_framebuffer {T : Type} (i : Nat) (s : State T) :
    (glDisableiBlend i s).framebuffer = s.framebuffer := (glDisableiBlend_effect i s).2

theorem glFramebufferTexture_outline {T : Type} (i : Nat) (texture : Texture) (s : State T) :
    (glFramebufferTexture i texture s).outline =
      s.outline ++ [Event.framebufferTexture s.framebuffer i texture] :=
  (glFramebufferTexture_effect i texture s).1

theorem glFramebufferTexture_framebuffer {T : Type} (i : Nat) (texture : Texture)
    (s : State T) : (glFramebufferTexture i texture s).framebuffer = s.framebuffer :=
  (glFramebufferTexture_effect i texture s).2

theorem setDrawBuffers01_outline {T : Type} (s : State T) :
    (setDrawBuffers01 s).outline = s.outline := (setDrawBuffers01_effect s).1

theorem setDrawBuffers01_framebuffer {T : Type} (s : State T) :
    (setDrawBuffers01 s).framebuffer = s.framebuffer := (setDrawBuffers01_effect s).2

theorem checkFramebufferStatus_outline {T : Type} (s : State T) :
    (checkFramebufferStatus s).outline =
      s.outline ++ [Event.checkFramebufferStatus s.framebuffer] :=
  (checkFramebufferStatus_effect s).1

theorem checkFramebufferStatus_framebuffer {T : Type} (s : State T) :
    (checkFramebufferStatus s).framebuffer = s.framebuffer := (checkFramebufferStatus_effect s).2

theorem renderQuad_outline {T : Type} [AddCommMonoid T] (pass : Pass) (out : T) (s : State T) :
    (renderQuad pass out s).outline = s.outline ++ [drawn pass] := (renderQuad_effect pass out s).1

theorem renderQuad_framebuffer {T : Type} [AddCommMonoid T] (pass : Pass) (out : T)
    (s : State T) : (renderQuad pass out s).framebuffer = s.framebuffer :=
  (renderQuad_effect pass out s).2

theorem render3DTexLayers_outline {T : Type} [AddCommMonoid T] (opts : Options) (pass : Pass)
    (out : T) (s : State T) :
    (render3DTexLayers opts pass out s).outline =
      s.outline ++ (if opts.dbgNoSaveTextures then [] else [drawn pass]) :=
  (render3DTexLayers_effect opts pass out s).1

theorem render3DTexLayers_framebuffer {T : Type} [AddCommMonoid T] (opts : Options)
    (pass : Pass) (out : T) (s : State T) :
    (render3DTexLayers opts pass out s).framebuffer = s.framebuffer :=
  (render3DTexLayers_effect opts pass out s).2

theorem saveTexture_outline {T : Type} (texture : Texture) (path : String) (s : State T) :
    (saveTexture texture path s).outline = s.outline ++ [Event.saveTexture path] :=
  (saveTexture_effect texture path s).1

theorem saveTexture_framebuffer {T : Type} (texture : Texture) (path : String) (s : State T) :
    (saveTexture texture path s).framebuffer = s.framebuffer :=
  (saveTexture_effect texture path s).2

theorem glGenTextures_outline {T : Type} (name : String) (s : State T) :
    (glGenTextures name s).outline = s.outline := (glGenTextures_effect name s).1

theorem glGenTextures_framebuffer {T : Type} (name : String) (s : State T) :
    (glGenTextures name s).framebuffer = s.framebuffer := (glGenTextures_effect name s).2

theorem saveIrradiance_outline {T : Type} (opts : Options) (atmo : AtmosphereParameters)
    (scatteringOrder texIndex : Nat) (s : State T) :
    (saveIrradiance opts atmo scatteringOrder texIndex s).outline =
      s.outline ++ saveIrradianceEvents opts atmo scatteringOrder texIndex := by
  unfold saveIrradiance saveIrradianceEvents
  by_cases h1 : scatteringOrder = atmo.scatteringOrdersToCompute <;>
  cases h2 : opts.dbgSaveGroundIrradiance <;>
  simp [h1, saveTexture_outline]

theorem saveScatteringDensity_outline {T : Type} (opts : Options)
    (atmo : AtmosphereParameters) (scatteringOrder texIndex : Nat) (s : State T) :
    (saveScatteringDensity opts atmo scatteringOrder texIndex s).outline =
      s.outline ++ saveScatteringDensityEvents opts atmo scatteringOrder texIndex := by
  unfold saveScatteringDensity saveScatteringDensityEvents
  cases h2 : opts.dbgSaveScatDensity <;> simp [saveTexture_outline]

theorem computeTransmittance_outline {T : Type} [AddCommMonoid T] (sh : Shaders T)
    (atmo : AtmosphereParameters) (texIndex : Nat) (s : State T) :
    (computeTransmittance sh atmo texIndex s).outline =
      s.outline ++ computeTransmittanceEvents atmo texIndex := by
  simp only [computeTransmittance, computeTransmittanceEvents, glBindFramebuffer_outline,
    saveTexture_outline, renderQuad_outline, checkFramebufferStatus_outline,
    glFramebufferTexture_outline, glFramebufferTexture_framebuffer,
    glBindFramebuffer_framebuffer, List.append_assoc, List.cons_append, List.nil_append]

theorem computeDirectGroundIrradiance_outline {T : Type} [AddCommMonoid T] (sh : Shaders T)
    (opts : Options) (atmo : AtmosphereParameters) (texIndex : Nat) (s : State T) :
    (computeDirectGroundIrradiance sh opts atmo texIndex s).outline =
      s.outline ++ computeDirectGroundIrradianceEvents opts atmo texIndex := by
  simp only [computeDirectGroundIrradiance, computeDirectGroundIrradianceEvents,
    glBindFramebuffer_outline, saveIrradiance_outline, renderQuad_outline,
    setDrawBuffers01_outline, checkFramebufferStatus_outline, setDrawBuffers01_framebuffer,
    glFramebufferTexture_outline, glFramebufferTexture_framebuffer,
    glBindFramebuffer_framebuffer, List.append_assoc, List.cons_append, List.nil_append]

theorem State.outline_ite {T : Type} (c : Prop) [Decidable c] (a b : State T) :
    (if c then a else b).outline = if c then a.outline else b.outline := by
  split_ifs <;> rfl

theorem accumulateSingleScattering_outline {T : Type} [AddCommMonoid T] (sh : Shaders T)
    (opts : Options) (atmo : AtmosphereParameters) (texIndex : Nat) (scatterer : Scatterer)
    (s : State T) :
    (accumulateSingleScattering sh opts atmo texIndex scatterer s).outline =
      s.outline ++ accumulateSingleScatteringEvents opts atmo texIndex scatterer := by
  unfold accumulateSingleScattering accumulateSingleScatteringEvents rendered
  simp only [State.outline_ite, glBindFramebuffer_outline, saveTexture_outline,
    glDisableBlend_outline, render3DTexLayers_outline, checkFramebufferStatus_outline,
    glFramebufferTexture_outline, glFramebufferTexture_framebuffer,
    glBindFramebuffer_framebuffer, glGenTextures_outline, glEnableBlend_outline,
    glBlendFunc_outline, ite_self, List.append_assoc, List.cons_append, List.nil_append]
  split_ifs <;> simp

theorem computeSingleScattering_outline {T : Type} [AddCommMonoid T] (sh : Shaders T)
    (opts : Options) (atmo : AtmosphereParameters) (texIndex : Nat) (scatterer : Scatterer)
    (s : State T) :
    (computeSingleScattering sh opts atmo texIndex scatterer s).outline =
      s.outline ++ computeSingleScatteringEvents opts atmo texIndex scatterer := by
  unfold computeSingleScattering computeSingleScatteringEvents rendered
  cases hc : scatterer.phaseFunctionType <;>
  simp only [glBindFramebuffer_outline, saveTexture_outline,
    render3DTexLayers_outline, checkFramebufferStatus_outline,
    glFramebufferTexture_outline, glFramebufferTexture_framebuffer,
    glBindFramebuffer_framebuffer, accumulateSingleScattering_outline,
    List.append_assoc, List.cons_append, List.nil_append]

theorem computeIndirectIrradianceOrder1_outline {T : Type} [AddCommMonoid T] (sh : Shaders T)
    (opts : Options) (atmo : AtmosphereParameters) (texIndex j : Nat) (scatterer : Scatterer)
    (hj : atmo.scatterers[j]? = some scatterer) (s : State T) :
    (computeIndirectIrradianceOrder1 sh opts atmo texIndex j s).outline =
      s.outline ++ computeIndirectIrradianceOrder1Events opts atmo texIndex scatterer := by
  unfold computeIndirectIrradianceOrder1 computeIndirectIrradianceOrder1Events
  by_cases h0 : j = 0
  · subst h0
    simp only [hj, ↓reduceIte, glBindFramebuffer_outline, saveIrradiance_outline,
      glDisableBlend_outline, renderQuad_outline, glEnableiBlend_outline,
      glDisableiBlend_outline, glBlendFunc_outline, List.append_assoc, List.cons_append,
      List.nil_append]
  · simp only [hj, if_neg h0, glBindFramebuffer_outline, saveIrradiance_outline,
      glDisableBlend_outline, renderQuad_outline, glEnableiBlend_outline,
      glDisableiBlend_outline, glBlendFunc_outline, List.append_assoc, List.cons_append,
      List.nil_append]

theorem order2Scatterer_outline {T : Type} [AddCommMonoid T] (sh : Shaders T)
    (opts : Options) (atmo : AtmosphereParameters) (texIndex j : Nat) (s : State T) :
    (order2Scatterer sh opts atmo texIndex s j).outline =
      s.outline ++
        (atmo.scatterers[j]?).elim [] (order2ScattererEvents opts atmo texIndex) := by
  cases hj : atmo.scatterers[j]? with
  | none => rw [order2Scatterer_outside sh opts atmo texIndex j hj]; simp
  | some scatterer =>
    simp only [order2Scatterer, hj, order2ScattererEvents, rendered, Option.elim,
      computeIndirectIrradianceOrder1_outline sh opts atmo texIndex j scatterer hj,
      render3DTexLayers_outline, glEnableBlend_outline, glBindFramebuffer_outline,
      computeSingleScattering_outline, List.append_assoc]

theorem flatMap_range_getElem? {α β : Type} (l : List α) (f : α → List β) :
    ((List.range l.length).flatMap fun j => (l[j]?).elim [] f) = l.flatMap f := by
  induction l using List.reverseRecOn with
  | nil => rfl
  | append_singleton l a ih =>
    rw [List.length_append, List.length_singleton, List.range_succ, List.flatMap_append,
      List.flatMap_append, ← ih]
    congr 1
    · refine List.flatMap_congr fun j hj => ?_
      rw [List.mem_range] at hj
      rw [List.getElem?_append_left hj]
    · simp

theorem order2Loop_outline {T : Type} [AddCommMonoid T] (sh : Shaders T)
    (opts : Options) (atmo : AtmosphereParameters) (texIndex : Nat) (indices : List Nat)
    (s : State T) :
    (indices.foldl (order2Scatterer sh opts atmo texIndex) s).outline =
      s.outline ++ indices.flatMap fun j =>
        (atmo.scatterers[j]?).elim [] (order2ScattererEvents opts atmo texIndex) := by
  induction indices generalizing s with
  | nil => simp
  | cons j rest ih =>
    rw [List.foldl_cons, ih, order2Scatterer_outline, List.flatMap_cons, List.append_assoc]

theorem order2FromGround_outline {T : Type} [AddCommMonoid T] (sh : Shaders T)
    (opts : Options) (atmo : AtmosphereParameters) (texIndex : Nat) (s : State T) :
    (order2FromGround sh opts atmo texIndex s).outline =
      s.outline ++ order2FromGroundEvents opts atmo texIndex := by
  unfold order2FromGround order2FromGroundEvents rendered
  cases hd : opts.dbgSaveScatDensityOrder2FromGround <;>
  simp only [↓reduceIte, Bool.false_eq_true, glBlendFunc_outline, saveTexture_outline,
    render3DTexLayers_outline, checkFramebufferStatus_outline,
    glFramebufferTexture_outline, glFramebufferTexture_framebuffer,
    glBindFramebuffer_framebuffer, glBindFramebuffer_outline,
    List.append_assoc, List.cons_append, List.nil_append, List.append_nil]

theorem computeScatteringDensityOrder2_outline {T : Type} [AddCommMonoid T] (sh : Shaders T)
    (opts : Options) (atmo : AtmosphereParameters) (texIndex : Nat) (s : State T) :
    (computeScatteringDensityOrder2 sh opts atmo texIndex s).outline =
      s.outline ++ computeScatteringDensityOrder2Events opts atmo texIndex := by
  simp only [computeScatteringDensityOrder2, computeScatteringDensityOrder2Events,
    glBindFramebuffer_outline, saveScatteringDensity_outline, glDisableBlend_outline,
    order2Loop_outline, order2FromGround_outline, flatMap_range_getElem?,
    List.append_assoc]

theorem computeScatteringDensity_outline {T : Type} [AddCommMonoid T] (sh : Shaders T)
    (opts : Options) (atmo : AtmosphereParameters) (scatteringOrder texIndex : Nat)
    (s : State T) :
    (computeScatteringDensity sh opts atmo scatteringOrder texIndex s).outline =
      s.outline ++ computeScatteringDensityEvents opts atmo scatteringOrder texIndex := by
  simp only [computeScatteringDensity, computeScatteringDensityEvents, rendered,
    glBindFramebuffer_outline, saveScatteringDensity_outline, render3DTexLayers_outline,
    glFramebufferTexture_outline, glBindFramebuffer_framebuffer, List.append_assoc]

theorem computeIndirectIrradiance_outline {T : Type} [AddCommMonoid T] (sh : Shaders T)
    (opts : Options) (atmo : AtmosphereParameters) (scatteringOrder texIndex : Nat)
    (s : State T) :
    (computeIndirectIrradiance sh opts atmo scatteringOrder texIndex s).outline =
      s.outline ++ computeIndirectIrradianceEvents opts atmo scatteringOrder texIndex := by
  simp only [computeIndirectIrradiance, computeIndirectIrradianceEvents,
    glBindFramebuffer_outline, saveIrradiance_outline, glDisableBlend_outline,
    renderQuad_outline, glEnableiBlend_outline, glDisableiBlend_outline, glBlendFunc_outline,
    List.append_assoc, List.cons_append, List.nil_append]

theorem mergeSmoothScatterer_outline {T : Type} [AddCommMonoid T] (sh : Shaders T)
    (opts : Options) (s : State T) (scatterer : Scatterer) :
    (mergeSmoothScatterer sh opts s scatterer).outline =
      s.outline ++ (if scatterer.phaseFunctionType ≠ PhaseFunctionType.Smooth then []
        else rendered opts (Pass.mergeSmoothSingleScatteringTexture scatterer)) := by
  unfold mergeSmoothScatterer rendered
  simp only [State.outline_ite, render3DTexLayers_outline, glEnableBlend_outline,
    glBlendFunc_outline]
  split_ifs <;> simp

theorem mergeLoop_outline {T : Type} [AddCommMonoid T] (sh : Shaders T)
    (opts : Options) (scatterers : List Scatterer) (s : State T) :
    (scatterers.foldl (mergeSmoothScatterer sh opts) s).outline =
      s.outline ++ scatterers.flatMap fun scatterer =>
        if scatterer.phaseFunctionType ≠ PhaseFunctionType.Smooth then []
        else rendered opts (Pass.mergeSmoothSingleScatteringTexture scatterer) := by
  induction scatterers generalizing s with
  | nil => simp
  | cons scatterer rest ih =>
    rw [List.foldl_cons, ih, mergeSmoothScatterer_outline, List.flatMap_cons,
      List.append_assoc]

theorem mergeSmoothSingleScatteringTexture_outline {T : Type} [AddCommMonoid T]
    (sh : Shaders T) (opts : Options) (atmo : AtmosphereParameters) (s : State T) :
    (mergeSmoothSingleScatteringTexture sh opts atmo s).outline =
      s.outline ++ mergeSmoothSingleScatteringTextureEvents opts atmo := by
  simp only [mergeSmoothSingleScatteringTexture, mergeSmoothSingleScatteringTextureEvents,
    glBindFramebuffer_outline, glDisableBlend_outline, mergeLoop_outline]

theorem accumulateMultipleScattering_outline {T : Type} [AddCommMonoid T] (sh : Shaders T)
    (opts : Options) (atmo : AtmosphereParameters) (scatteringOrder texIndex : Nat)
    (s : State T) :
    (accumulateMultipleScattering sh opts atmo scatteringOrder texIndex s).outline =
      s.outline ++ accumulateMultipleScatteringEvents opts atmo scatteringOrder texIndex := by
  unfold accumulateMultipleScattering accumulateMultipleScatteringEvents rendered
  simp only [State.outline_ite, glBindFramebuffer_outline,
    saveTexture_outline, mergeSmoothSingleScatteringTexture_outline, glDisableBlend_outline,
    render3DTexLayers_outline, checkFramebufferStatus_outline, glFramebufferTexture_outline,
    glFramebufferTexture_framebuffer, glBindFramebuffer_framebuffer, glEnableBlend_outline,
    glBlendFunc_outline, ite_self, List.append_assoc, List.cons_append, List.nil_append]
  split_ifs <;> simp

theorem computeMultipleScatteringFromDensity_outline {T : Type} [AddCommMonoid T]
    (sh : Shaders T) (opts : Options) (atmo : AtmosphereParameters)
    (scatteringOrder texIndex : Nat) (s : State T) :
    (computeMultipleScatteringFromDensity sh opts atmo scatteringOrder texIndex s).outline =
      s.outline ++
        computeMultipleScatteringFromDensityEvents opts atmo scatteringOrder texIndex := by
  unfold computeMultipleScatteringFromDensity computeMultipleScatteringFromDensityEvents
    rendered
  cases hd : opts.dbgSaveDeltaScattering <;>
  simp only [↓reduceIte, Bool.false_eq_true, accumulateMultipleScattering_outline,
    glBindFramebuffer_outline, saveTexture_outline, render3DTexLayers_outline,
    checkFramebufferStatus_outline, glFramebufferTexture_outline,
    glFramebufferTexture_framebuffer, glBindFramebuffer_framebuffer,
    List.append_assoc, List.cons_append, List.nil_append, List.append_nil]

theorem higherOrder_outline {T : Type} [AddCommMonoid T] (sh : Shaders T) (opts : Options)
    (atmo : AtmosphereParameters) (texIndex scatteringOrder : Nat) (s : State T) :
    (higherOrder sh opts atmo texIndex s scatteringOrder).outline =
      s.outline ++ higherOrderEvents opts atmo texIndex scatteringOrder := by
  simp only [higherOrder, higherOrderEvents, computeMultipleScatteringFromDensity_outline,
    computeIndirectIrradiance_outline, computeScatteringDensity_outline, List.append_assoc]

theorem higherOrders_outline {T : Type} [AddCommMonoid T] (sh : Shaders T) (opts : Options)
    (atmo : AtmosphereParameters) (texIndex : Nat) (orders : List Nat) (s : State T) :
    (orders.foldl (higherOrder sh opts atmo texIndex) s).outline =
      s.outline ++ orders.flatMap (higherOrderEvents opts atmo texIndex) := by
  induction orders generalizing s with
  | nil => simp
  | cons scatteringOrder rest ih =>
    rw [List.foldl_cons, ih, higherOrder_outline, List.flatMap_cons, List.append_assoc]

theorem computeMultipleScattering_outline {T : Type} [AddCommMonoid T] (sh : Shaders T)
    (opts : Options) (atmo : AtmosphereParameters) (texIndex : Nat) (s : State T) :
    (computeMultipleScattering sh opts atmo texIndex s).outline =
      s.outline ++ computeMultipleScatteringEvents opts atmo texIndex := by
  simp only [computeMultipleScattering, computeMultipleScatteringEvents,
    higherOrders_outline, computeMultipleScatteringFromDensity_outline,
    computeScatteringDensityOrder2_outline, List.append_assoc]

theorem computeEclipsedDoubleScattering_outline {T : Type} [AddCommMonoid T]
    (sh : Shaders T) (opts : Options) (atmo : AtmosphereParameters) (texIndex : Nat)
    (s : State T) :
    (computeEclipsedDoubleScattering sh opts atmo texIndex s).outline =
      s.outline ++ computeEclipsedDoubleScatteringEvents opts atmo texIndex := by
  unfold computeEclipsedDoubleScattering computeEclipsedDoubleScatteringEvents
  cases hd : opts.dbgNoEDSTextures
  · simp only [Bool.false_eq_true, ↓reduceIte]
    show List.filterMap Event.outline ((precomputerCompute sh texIndex _).log ++ [_]) = _
    rw [List.filterMap_append]
    show (checkFramebufferStatus _).outline ++ _ = _
    simp only [checkFramebufferStatus_outline, glFramebufferTexture_outline,
      glFramebufferTexture_framebuffer, glBindFramebuffer_framebuffer,
      glBindFramebuffer_outline, List.append_assoc, List.cons_append, List.nil_append]
    rfl
  · simp

theorem mainLoopBody_outline {T : Type} [AddCommMonoid T] (sh : Shaders T) (opts : Options)
    (atmo : AtmosphereParameters) (texIndex : Nat) (s : State T) :
    (mainLoopBody sh opts atmo s texIndex).outline =
      s.outline ++ mainLoopBodyEvents opts atmo texIndex := by
  simp only [mainLoopBody, mainLoopBodyEvents, computeEclipsedDoubleScattering_outline,
    computeMultipleScattering_outline, computeDirectGroundIrradiance_outline,
    computeTransmittance_outline, List.append_assoc]

theorem mainLoop_outline {T : Type} [AddCommMonoid T] (sh : Shaders T) (opts : Options)
    (atmo : AtmosphereParameters) (subsets : List Nat) (s : State T) :
    (subsets.foldl (mainLoopBody sh opts atmo) s).outline =
      s.outline ++ subsets.flatMap (mainLoopBodyEvents opts atmo) := by
  induction subsets generalizing s with
  | nil => simp
  | cons texIndex rest ih =>
    rw [List.foldl_cons, ih, mainLoopBody_outline, List.flatMap_cons, List.append_assoc]

theorem main_outline {T : Type} [AddCommMonoid T] (sh : Shaders T) (opts : Options)
    (atmo : AtmosphereParameters) (image : Texture → T) :
    (main sh opts atmo image).outline = mainEvents opts (startup opts atmo) := by
  unfold main mainEvents
  rw [mainLoop_outline]
  rfl

theorem data_irradianceWlset :
    "/irradiance-wlset".data =
      ['/', 'i', 'r', 'r', 'a', 'd', 'i', 'a', 'n', 'c', 'e', '-', 'w', 'l', 's', 'e', 't'] := rfl

theorem data_irradianceDeltaOrder :
    "/irradiance-delta-order".data =
      ['/', 'i', 'r', 'r', 'a', 'd', 'i', 'a', 'n', 'c', 'e', '-', 'd', 'e', 'l', 't', 'a',
      '-', 'o', 'r', 'd', 'e', 'r'] := rfl

theorem data_irradianceAccumOrder :
    "/irradiance-accum-order".data =
      ['/', 'i', 'r', 'r', 'a', 'd', 'i', 'a', 'n', 'c', 'e', '-', 'a', 'c', 'c', 'u', 'm',
      '-', 'o', 'r', 'd', 'e', 'r'] := rfl

theorem data_scatteringDensity :
    "/scattering-density".data =
      ['/', 's', 'c', 'a', 't', 't', 'e', 'r', 'i', 'n', 'g', '-', 'd', 'e', 'n', 's', 'i',
      't', 'y'] := rfl

theorem data_scatteringDensityFromGround :
    "/scattering-density2-from-ground-wlset".data =
      ['/', 's', 'c', 'a', 't', 't', 'e', 'r', 'i', 'n', 'g', '-', 'd', 'e', 'n', 's', 'i',
      't', 'y', '2', '-', 'f', 'r', 'o', 'm', '-', 'g', 'r', 'o', 'u', 'n', 'd', '-', 'w',
      'l', 's', 'e', 't'] := rfl

theorem data_transmittanceWlset :
    "/transmittance-wlset".data =
      ['/', 't', 'r', 'a', 'n', 's', 'm', 'i', 't', 't', 'a', 'n', 'c', 'e', '-', 'w', 'l',
      's', 'e', 't'] := rfl

theorem data_singleScattering :
    "/single-scattering/".data =
      ['/', 's', 'i', 'n', 'g', 'l', 'e', '-', 's', 'c', 'a', 't', 't', 'e', 'r', 'i', 'n',
      'g', '/'] := rfl

theorem data_multipleScatteringToOrder :
    "/multiple-scattering-to-order".data =
      ['/', 'm', 'u', 'l', 't', 'i', 'p', 'l', 'e', '-', 's', 'c', 'a', 't', 't', 'e', 'r',
      'i', 'n', 'g', '-', 't', 'o', '-', 'o', 'r', 'd', 'e', 'r'] := rfl

theorem data_multipleScatteringWlset :
    "/multiple-scattering-wlset".data =
      ['/', 'm', 'u', 'l', 't', 'i', 'p', 'l', 'e', '-', 's', 'c', 'a', 't', 't', 'e', 'r',
      'i', 'n', 'g', '-', 'w', 'l', 's', 'e', 't'] := rfl

theorem data_multipleScatteringXYZW :
    "/multiple-scattering-xyzw.f32".data =
      ['/', 'm', 'u', 'l', 't', 'i', 'p', 'l', 'e', '-', 's', 'c', 'a', 't', 't', 'e', 'r',
      'i', 'n', 'g', '-', 'x', 'y', 'z', 'w', '.', 'f', '3', '2'] := rfl

theorem data_deltaScatteringOrder :
    "/delta-scattering-order".data =
      ['/', 'd', 'e', 'l', 't', 'a', '-', 's', 'c', 'a', 't', 't', 'e', 'r', 'i', 'n', 'g',
      '-', 'o', 'r', 'd', 'e', 'r'] := rfl

theorem filter_ite {α : Type} (p : α → Bool) (c : Prop) [Decidable c] (l l' : List α) :
    (if c then l else l').filter p = if c then l.filter p else l'.filter p := by
  split_ifs <;> rfl

theorem savesUnder_saveTexture (dir rel saved : String) :
    Event.savesUnder (dir ++ rel) (Event.saveTexture (dir ++ saved)) =
      decide (rel.data <+: saved.data) := by
  simp [Event.savesUnder, String.data_append, List.prefix_append_right_inj]

theorem filter_savesUnder_outline (path : String) (log : List Event) :
    (log.filterMap Event.outline).filter (Event.savesUnder path) =
      log.filter (Event.savesUnder path) := by
  induction log with
  | nil => rfl
  | cons e rest ih =>
    cases e <;> simp [Event.outline, drawn, Event.savesUnder, List.filter_cons, ih]

theorem order2ScattererEvents_single (opts : Options) (atmo : AtmosphereParameters)
    (texIndex : Nat) (scatterer : Scatterer) :
    (order2ScattererEvents opts atmo texIndex scatterer).filter
      (Event.savesUnder (atmo.textureOutputDir ++ "/single-scattering/")) =
      singleScatteringSaves atmo texIndex scatterer := by
  unfold singleScatteringSaves
  cases hc : scatterer.phaseFunctionType <;>
  simp [order2ScattererEvents, computeSingleScatteringEvents, accumulateSingleScatteringEvents,
    computeIndirectIrradianceOrder1Events, saveIrradianceEvents, rendered, hc,
    drawn, filter_ite, String.append_assoc, savesUnder_saveTexture,
    String.data_append, Event.savesUnder, data_singleScattering, data_irradianceWlset,
    data_irradianceDeltaOrder, data_irradianceAccumOrder]

theorem mainLoopBodyEvents_single (opts : Options) (atmo : AtmosphereParameters)
    (texIndex : Nat) :
    (mainLoopBodyEvents opts atmo texIndex).filter
      (Event.savesUnder (atmo.textureOutputDir ++ "/single-scattering/")) =
      atmo.scatterers.flatMap (singleScatteringSaves atmo texIndex) := by
  cases hr : opts.saveResultAsRadiance <;>
  simp [hr, mainLoopBodyEvents, computeTransmittanceEvents, computeDirectGroundIrradianceEvents,
    computeMultipleScatteringEvents, computeEclipsedDoubleScatteringEvents,
    computeScatteringDensityOrder2Events, order2FromGroundEvents,
    computeMultipleScatteringFromDensityEvents, accumulateMultipleScatteringEvents,
    mergeSmoothSingleScatteringTextureEvents, higherOrderEvents,
    computeScatteringDensityEvents, computeIndirectIrradianceEvents,
    saveScatteringDensityEvents, saveIrradianceEvents, rendered, drawn, filter_ite,
    List.filter_flatMap, order2ScattererEvents_single,
    String.append_assoc, savesUnder_saveTexture, String.data_append, Event.savesUnder,
    data_singleScattering, data_irradianceWlset, data_irradianceDeltaOrder,
    data_irradianceAccumOrder, data_scatteringDensity, data_scatteringDensityFromGround,
    data_transmittanceWlset, data_multipleScatteringToOrder, data_multipleScatteringWlset,
    data_multipleScatteringXYZW, data_deltaScatteringOrder]

theorem State.outline_filter_savesUnder {T : Type} (s : State T) (path : String) :
    s.log.filter (Event.savesUnder path) = s.outline.filter (Event.savesUnder path) :=
  (filter_savesUnder_outline path s.log).symm

theorem main_single_saves {T : Type} [AddCommMonoid T] (sh : Shaders T) (opts : Options)
    (atmo : AtmosphereParameters) (image : Texture → T) :
    (main sh opts atmo image).log.filter
        (Event.savesUnder ((startup opts atmo).textureOutputDir ++ "/single-scattering/")) =
      (List.range atmo.allWavelengths.length).flatMap fun texIndex =>
        (startup opts atmo).scatterers.flatMap
          (singleScatteringSaves (startup opts atmo) texIndex) := by
  rw [State.outline_filter_savesUnder, main_outline, mainEvents, List.filter_flatMap]
  simp only [mainLoopBodyEvents_single]
  rfl

/-- C11: the texture files that a run saves under `single-scattering/` are, for each
wavelength subset in turn and each scatterer in turn: for a General scatterer the one file
`single-scattering/{i}/{name}.f32` of that subset; for an Achromatic scatterer the one file
`single-scattering/{name}-xyzw.f32`, in the last subset only (`texIndex+1` equal to the number
of subsets); for a Smooth scatterer none. The phase-function types are those after the start
of `main`, and there are fewer than `2^32` subsets. -/
theorem C11_single_scattering_files {T : Type} [AddCommMonoid T] (sh : Shaders T)
    (opts : Options) (atmo : AtmosphereParameters) (image : Texture → T)
    (hrange : atmo.allWavelengths.length < 2 ^ 32) :
    (main sh opts atmo image).log.filter
        (Event.savesUnder ((startup opts atmo).textureOutputDir ++ "/single-scattering/")) =
      (List.range atmo.allWavelengths.length).flatMap fun texIndex =>
        (startup opts atmo).scatterers.flatMap fun scatterer =>
          match scatterer.phaseFunctionType with
          | PhaseFunctionType.General =>
            [Event.saveTexture
              ((startup opts atmo).textureOutputDir ++ "/single-scattering/" ++
                toString texIndex ++ "/" ++ scatterer.name ++ ".f32")]
          | PhaseFunctionType.Achromatic =>
            if texIndex + 1 = atmo.allWavelengths.length then
              [Event.saveTexture
                ((startup opts atmo).textureOutputDir ++ "/single-scattering/" ++
                  scatterer.name ++ "-xyzw.f32")]
            else []
          | PhaseFunctionType.Smooth => [] := by
  rw [main_single_saves]
  refine List.flatMap_congr fun texIndex hi => List.flatMap_congr fun scatterer _ => ?_
  rw [List.mem_range] at hi
  have hmod : (texIndex + 1) % 2 ^ 32 = texIndex + 1 := Nat.mod_eq_of_lt (by omega)
  unfold singleScatteringSaves
  cases hc : scatterer.phaseFunctionType <;> simp only [hmod, startup_allWavelengths]

/-- C11 for the scatterers `air`, `haze` and `mist` and three wavelength subsets. -/
theorem C11_single_scattering_files_witness :
    mistyPlanet.allWavelengths.length < 2 ^ 32 ∧
    (main unitShaders plainOptions mistyPlanet fun _ => 0).log.filter
        (Event.savesUnder
          ((startup plainOptions mistyPlanet).textureOutputDir ++ "/single-scattering/")) =
      (List.range mistyPlanet.allWavelengths.length).flatMap fun texIndex =>
        (startup plainOptions mistyPlanet).scatterers.flatMap fun scatterer =>
          match scatterer.phaseFunctionType with
          | PhaseFunctionType.General =>
            [Event.saveTexture
              ((startup plainOptions mistyPlanet).textureOutputDir ++ "/single-scattering/" ++
                toString texIndex ++ "/" ++ scatterer.name ++ ".f32")]
          | PhaseFunctionType.Achromatic =>
            if texIndex + 1 = mistyPlanet.allWavelengths.length then
              [Event.saveTexture
                ((startup plainOptions mistyPlanet).textureOutputDir ++ "/single-scattering/" ++
                  scatterer.name ++ "-xyzw.f32")]
            else []
          | PhaseFunctionType.Smooth => [] :=
  ⟨by decide, C11_single_scattering_files unitShaders plainOptions mistyPlanet (fun _ => 0)
    (by decide)⟩

theorem saveTexture_ite (c : Prop) [Decidable c] (a b : String) :
    Event.saveTexture (if c then a else b) =
      if c then Event.saveTexture a else Event.saveTexture b := by
  split_ifs <;> rfl

theorem flatMap_nil_fun {α β : Type} (l : List α) :
    (l.flatMap fun _ => ([] : List β)) = [] := by
  induction l with
  | nil => rfl
  | cons a l ih => simp [List.flatMap_cons]

theorem order2ScattererEvents_accumulatesOrSaves (opts : Options) (atmo : AtmosphereParameters)
    (texIndex : Nat) (scatterer : Scatterer) :
    (order2ScattererEvents opts atmo texIndex scatterer).filter
      (Event.accumulatesOrSaves atmo.textureOutputDir) = [] := by
  cases hc : scatterer.phaseFunctionType <;> cases hf : opts.dbgNoSaveTextures <;>
  simp [order2ScattererEvents, computeSingleScatteringEvents, accumulateSingleScatteringEvents,
    computeIndirectIrradianceOrder1Events, saveIrradianceEvents, rendered, hc, hf,
    drawn, filter_ite, String.append_assoc, savesUnder_saveTexture,
    Event.accumulatesOrSaves, Event.accumulates,
    String.data_append, Event.savesUnder, data_singleScattering, data_irradianceWlset,
    data_irradianceDeltaOrder, data_irradianceAccumOrder, data_multipleScatteringWlset,
    data_multipleScatteringXYZW]

theorem mainLoopBodyEvents_accumulatesOrSaves (opts : Options) (atmo : AtmosphereParameters)
    (texIndex : Nat) :
    (mainLoopBodyEvents opts atmo texIndex).filter
      (Event.accumulatesOrSaves atmo.textureOutputDir) =
      (2 :: List.range' 3 (atmo.scatteringOrdersToCompute - 2)).flatMap fun scatteringOrder =>
        rendered opts (Pass.accumulateMultipleScattering scatteringOrder texIndex) ++
        (if scatteringOrder = atmo.scatteringOrdersToCompute ∧
            ((texIndex + 1) % 2 ^ 32 = atmo.allWavelengths.length ∨
              opts.saveResultAsRadiance) then
          [Event.saveTexture
            (if opts.saveResultAsRadiance then
              atmo.textureOutputDir ++ "/multiple-scattering-wlset" ++ toString texIndex ++
                ".f32"
             else atmo.textureOutputDir ++ "/multiple-scattering-xyzw.f32")]
         else []) := by
  cases hr : opts.saveResultAsRadiance <;> cases hf : opts.dbgNoSaveTextures <;>
  simp [hr, hf, mainLoopBodyEvents, computeTransmittanceEvents,
    computeDirectGroundIrradianceEvents,
    computeMultipleScatteringEvents, computeEclipsedDoubleScatteringEvents,
    computeScatteringDensityOrder2Events, order2FromGroundEvents,
    order2ScattererEvents_accumulatesOrSaves, flatMap_nil_fun,
    computeMultipleScatteringFromDensityEvents, accumulateMultipleScatteringEvents,
    mergeSmoothSingleScatteringTextureEvents, higherOrderEvents,
    computeScatteringDensityEvents, computeIndirectIrradianceEvents,
    saveScatteringDensityEvents, saveIrradianceEvents, rendered, drawn, filter_ite,
    List.filter_flatMap, Event.accumulatesOrSaves, Event.accumulates,
    String.append_assoc, savesUnder_saveTexture, String.data_append, Event.savesUnder,
    data_singleScattering, data_irradianceWlset, data_irradianceDeltaOrder,
    data_irradianceAccumOrder, data_scatteringDensity, data_scatteringDensityFromGround,
    data_transmittanceWlset, data_multipleScatteringToOrder, data_multipleScatteringWlset,
    data_multipleScatteringXYZW, data_deltaScatteringOrder]

theorem main_accumulatesOrSaves {T : Type} [AddCommMonoid T] (sh : Shaders T) (opts : Options)
    (atmo : AtmosphereParameters) (image : Texture → T)
    (horders : 2 ≤ atmo.scatteringOrdersToCompute)
    (hrange : atmo.allWavelengths.length < 2 ^ 32) :
    (main sh opts atmo image).outline.filter
        (Event.accumulatesOrSaves (startup opts atmo).textureOutputDir) =
      (List.range atmo.allWavelengths.length).flatMap fun texIndex =>
        (List.range' 2 (atmo.scatteringOrdersToCompute - 1)).flatMap fun scatteringOrder =>
          rendered opts (Pass.accumulateMultipleScattering scatteringOrder texIndex) ++
          (if scatteringOrder = atmo.scatteringOrdersToCompute ∧
              (texIndex + 1 = atmo.allWavelengths.length ∨ opts.saveResultAsRadiance) then
            [Event.saveTexture
              (if opts.saveResultAsRadiance then
                (startup opts atmo).textureOutputDir ++ "/multiple-scattering-wlset" ++
                  toString texIndex ++ ".f32"
               else (startup opts atmo).textureOutputDir ++ "/multiple-scattering-xyzw.f32")]
           else []) := by
  rw [main_outline, mainEvents, List.filter_flatMap]
  simp only [mainLoopBodyEvents_accumulatesOrSaves]
  refine List.flatMap_congr fun texIndex hi => ?_
  rw [List.mem_range, startup_allWavelengths] at hi
  have hmod : (texIndex + 1) % 2 ^ 32 = texIndex + 1 := Nat.mod_eq_of_lt (by omega)
  have hlist : 2 :: List.range' 3 (atmo.scatteringOrdersToCompute - 2) =
      List.range' 2 (atmo.scatteringOrdersToCompute - 1) := by
    obtain ⟨m, hm⟩ : ∃ m, atmo.scatteringOrdersToCompute = m + 2 :=
      ⟨atmo.scatteringOrdersToCompute - 2, (by omega)⟩
    rw [hm]
    rfl
  simp only [hmod, startup_allWavelengths, startup_scatteringOrdersToCompute, hlist]

theorem savesUnder_accumulatesOrSaves_wlset (dir : String) (l : List Event) :
    l.filter (Event.savesUnder (dir ++ "/multiple-scattering-wlset")) =
      (l.filter (Event.accumulatesOrSaves dir)).filter
        (Event.savesUnder (dir ++ "/multiple-scattering-wlset")) := by
  rw [List.filter_filter]
  refine List.filter_congr fun e _ => ?_
  cases h : Event.savesUnder (dir ++ "/multiple-scattering-wlset") e <;>
    simp [Event.accumulatesOrSaves, h]

theorem savesUnder_accumulatesOrSaves_xyzw (dir : String) (l : List Event) :
    l.filter (Event.savesUnder (dir ++ "/multiple-scattering-xyzw.f32")) =
      (l.filter (Event.accumulatesOrSaves dir)).filter
        (Event.savesUnder (dir ++ "/multiple-scattering-xyzw.f32")) := by
  rw [List.filter_filter]
  refine List.filter_congr fun e _ => ?_
  cases h : Event.savesUnder (dir ++ "/multiple-scattering-xyzw.f32") e <;>
    simp [Event.accumulatesOrSaves, h]

theorem flatMap_singleton_map {α β : Type} (l : List α) (f : α → β) :
    (l.flatMap fun a => [f a]) = l.map f := by
  induction l with
  | nil => rfl
  | cons a l ih => simp [List.flatMap_cons, ih]

/-- C13: a run with `N >= 2` scattering orders and `n >= 1` wavelength subsets (fewer than
`2^32`). In outline, the draws of `accumulateMultipleScattering` and the saves of the
multiple-scattering accumulator are, per subset and per order `2..N`: the draw, followed when
the order is `N` and the subset is the last one or the run is in radiance mode by the save, to
`multiple-scattering-wlset{i}.f32` in radiance mode and `multiple-scattering-xyzw.f32`
otherwise. Hence in luminance mode `multiple-scattering-xyzw.f32` is saved once and no
`multiple-scattering-wlset` file is; in radiance mode `multiple-scattering-wlset{i}.f32` is
saved once for each subset, in turn, and `multiple-scattering-xyzw.f32` never. -/
theorem C13_multiple_scattering_files {T : Type} [AddCommMonoid T] (sh : Shaders T)
    (opts : Options) (atmo : AtmosphereParameters) (image : Texture → T)
    (horders : 2 ≤ atmo.scatteringOrdersToCompute) (hsubsets : 0 < atmo.allWavelengths.length)
    (hrange : atmo.allWavelengths.length < 2 ^ 32) :
    ((main sh opts atmo image).outline.filter
        (Event.accumulatesOrSaves (startup opts atmo).textureOutputDir) =
      (List.range atmo.allWavelengths.length).flatMap fun texIndex =>
        (List.range' 2 (atmo.scatteringOrdersToCompute - 1)).flatMap fun scatteringOrder =>
          rendered opts (Pass.accumulateMultipleScattering scatteringOrder texIndex) ++
          (if scatteringOrder = atmo.scatteringOrdersToCompute ∧
              (texIndex + 1 = atmo.allWavelengths.length ∨ opts.saveResultAsRadiance) then
            [Event.saveTexture
              (if opts.saveResultAsRadiance then
                (startup opts atmo).textureOutputDir ++ "/multiple-scattering-wlset" ++
                  toString texIndex ++ ".f32"
               else (startup opts atmo).textureOutputDir ++ "/multiple-scattering-xyzw.f32")]
           else [])) ∧
    (opts.saveResultAsRadiance = false →
      (main sh opts atmo image).log.filter
          (Event.savesUnder
            ((startup opts atmo).textureOutputDir ++ "/multiple-scattering-xyzw.f32")) =
        [Event.saveTexture
          ((startup opts atmo).textureOutputDir ++ "/multiple-scattering-xyzw.f32")] ∧
      (main sh opts atmo image).log.filter
          (Event.savesUnder
            ((startup opts atmo).textureOutputDir ++ "/multiple-scattering-wlset")) = []) ∧
    (opts.saveResultAsRadiance = true →
      (main sh opts atmo image).log.filter
          (Event.savesUnder
            ((startup opts atmo).textureOutputDir ++ "/multiple-scattering-wlset")) =
        ((List.range atmo.allWavelengths.length).map fun texIndex =>
          Event.saveTexture
            ((startup opts atmo).textureOutputDir ++ "/multiple-scattering-wlset" ++
              toString texIndex ++ ".f32")) ∧
      (main sh opts atmo image).log.filter
          (Event.savesUnder
            ((startup opts atmo).textureOutputDir ++ "/multiple-scattering-xyzw.f32")) =
        []) := by
  have hmain := main_accumulatesOrSaves sh opts atmo image horders hrange
  have hmemN : atmo.scatteringOrdersToCompute ∈
      List.range' 2 (atmo.scatteringOrdersToCompute - 1) := by
    rw [List.mem_range']
    exact ⟨atmo.scatteringOrdersToCompute - 2, by omega, by omega⟩
  have hnodup : (List.range' 2 (atmo.scatteringOrdersToCompute - 1)).Nodup :=
    List.nodup_range' _ _
  refine ⟨hmain, fun hlum => ?_, fun hrad => ?_⟩
  · have hlast : atmo.allWavelengths.length - 1 ∈ List.range atmo.allWavelengths.length :=
      List.mem_range.2 (by omega)
    constructor
    · rw [State.outline_filter_savesUnder, savesUnder_accumulatesOrSaves_xyzw, hmain,
        List.filter_flatMap,
        flatMap_unique _ _ _ (List.nodup_range _) hlast, List.filter_flatMap,
        flatMap_unique _ _ _ hnodup hmemN]
      · have h1 : atmo.allWavelengths.length - 1 + 1 = atmo.allWavelengths.length := by omega
        cases hf : opts.dbgNoSaveTextures <;>
        simp [hlum, hf, h1, rendered, drawn, Event.savesUnder]
      · intro k _ hk
        cases hf : opts.dbgNoSaveTextures <;>
        simp [hlum, hf, hk, rendered, drawn, Event.savesUnder]
      · intro i _ hi
        have h1 : i + 1 ≠ atmo.allWavelengths.length := by omega
        rw [List.filter_flatMap, List.flatMap_eq_nil_iff]
        intro k _
        cases hf : opts.dbgNoSaveTextures <;>
        simp [hlum, hf, h1, rendered, drawn, Event.savesUnder]
    · rw [State.outline_filter_savesUnder, savesUnder_accumulatesOrSaves_wlset, hmain,
        List.filter_flatMap, List.flatMap_eq_nil_iff]
      intro i _
      rw [List.filter_flatMap, List.flatMap_eq_nil_iff]
      intro k _
      cases hf : opts.dbgNoSaveTextures <;>
      simp [hlum, hf, rendered, drawn, filter_ite, Event.savesUnder, String.data_append,
        data_multipleScatteringWlset, data_multipleScatteringXYZW]
  · constructor
    · rw [State.outline_filter_savesUnder, savesUnder_accumulatesOrSaves_wlset, hmain,
        List.filter_flatMap, ← flatMap_singleton_map]
      refine List.flatMap_congr fun i _ => ?_
      rw [List.filter_flatMap, flatMap_unique _ _ _ hnodup hmemN]
      · cases hf : opts.dbgNoSaveTextures <;>
        simp [hrad, hf, rendered, drawn, Event.savesUnder, String.data_append,
          String.append_assoc]
      · intro k _ hk
        cases hf : opts.dbgNoSaveTextures <;>
        simp [hrad, hf, hk, rendered, drawn, Event.savesUnder]
    · rw [State.outline_filter_savesUnder, savesUnder_accumulatesOrSaves_xyzw, hmain,
        List.filter_flatMap, List.flatMap_eq_nil_iff]
      intro i _
      rw [List.filter_flatMap, List.flatMap_eq_nil_iff]
      intro k _
      cases hf : opts.dbgNoSaveTextures <;>
      simp [hrad, hf, rendered, drawn, filter_ite, Event.savesUnder, String.data_append,
        String.append_assoc, data_multipleScatteringWlset, data_multipleScatteringXYZW]

theorem filter_eq_nil_of_outline (p : Event → Bool) (log : List Event)
    (hp : ∀ e, p e = true → ∃ e', e.outline = some e' ∧ p e' = true)
    (h : (log.filterMap Event.outline).filter p = []) : log.filter p = [] := by
  rw [List.filter_eq_nil_iff] at h ⊢
  intro e he hpe
  obtain ⟨e', he', hpe'⟩ := hp e hpe
  exact h e' (List.mem_filterMap.2 ⟨e, he, he'⟩) hpe'

theorem accumulatesSingleOrMerges_outline (e : Event)
    (h : e.accumulatesSingleOrMerges = true) :
    ∃ e', e.outline = some e' ∧ e'.accumulatesSingleOrMerges = true := by
  cases e with
  | genTexture name => simp [Event.accumulatesSingleOrMerges, Event.accumulatesSingle,
      Event.merges] at h
  | draw pass target blend src dst =>
    refine ⟨drawn pass, rfl, ?_⟩
    cases pass <;>
      simp_all [Event.accumulatesSingleOrMerges, Event.accumulatesSingle, Event.merges, drawn]
  | framebufferTexture fbo i tex => exact ⟨_, rfl, h⟩
  | checkFramebufferStatus fbo => exact ⟨_, rfl, h⟩
  | saveTexture path => exact ⟨_, rfl, h⟩
  | writeFile path => exact ⟨_, rfl, h⟩

theorem order2ScattererEvents_general (opts : Options) (atmo : AtmosphereParameters)
    (texIndex : Nat) (scatterer : Scatterer)
    (hc : scatterer.phaseFunctionType = PhaseFunctionType.General) :
    (order2ScattererEvents opts atmo texIndex scatterer).filter
      Event.accumulatesSingleOrMerges = [] := by
  cases hf : opts.dbgNoSaveTextures <;>
  simp [order2ScattererEvents, computeSingleScatteringEvents,
    computeIndirectIrradianceOrder1Events, saveIrradianceEvents, rendered, hc, hf,
    drawn, filter_ite, Event.accumulatesSingleOrMerges, Event.accumulatesSingle, Event.merges]

theorem mergeSmoothSingleScatteringTextureEvents_general (opts : Options)
    (atmo : AtmosphereParameters)
    (hgen : ∀ sc ∈ atmo.scatterers, sc.phaseFunctionType = PhaseFunctionType.General) :
    mergeSmoothSingleScatteringTextureEvents opts atmo = [] := by
  unfold mergeSmoothSingleScatteringTextureEvents
  rw [List.flatMap_eq_nil_iff]
  intro sc hsc
  simp [hgen sc hsc]

theorem mainLoopBodyEvents_general (opts : Options) (atmo : AtmosphereParameters)
    (texIndex : Nat)
    (hgen : ∀ sc ∈ atmo.scatterers, sc.phaseFunctionType = PhaseFunctionType.General) :
    (mainLoopBodyEvents opts atmo texIndex).filter Event.accumulatesSingleOrMerges = [] := by
  have h2 : (atmo.scatterers.flatMap fun sc =>
      (order2ScattererEvents opts atmo texIndex sc).filter Event.accumulatesSingleOrMerges) =
      [] := by
    rw [List.flatMap_eq_nil_iff]
    exact fun sc hsc => order2ScattererEvents_general opts atmo texIndex sc (hgen sc hsc)
  cases hf : opts.dbgNoSaveTextures <;>
  simp [hf, mainLoopBodyEvents, computeTransmittanceEvents, computeDirectGroundIrradianceEvents,
    computeMultipleScatteringEvents, computeEclipsedDoubleScatteringEvents,
    computeScatteringDensityOrder2Events, order2FromGroundEvents,
    computeMultipleScatteringFromDensityEvents, accumulateMultipleScatteringEvents,
    mergeSmoothSingleScatteringTextureEvents_general opts atmo hgen, higherOrderEvents,
    computeScatteringDensityEvents, computeIndirectIrradianceEvents,
    saveScatteringDensityEvents, saveIrradianceEvents, rendered, drawn, filter_ite,
    List.filter_flatMap, h2, flatMap_nil_fun,
    Event.accumulatesSingleOrMerges, Event.accumulatesSingle, Event.merges]

theorem startup_general (opts : Options) (atmo : AtmosphereParameters)
    (hrad : opts.saveResultAsRadiance = true) :
    ∀ sc ∈ (startup opts atmo).scatterers,
      sc.phaseFunctionType = PhaseFunctionType.General := by
  intro sc hsc
  simp only [startup, hrad, if_true, List.mem_map] at hsc
  obtain ⟨sc', _, rfl⟩ := hsc
  rfl

theorem main_general {T : Type} [AddCommMonoid T] (sh : Shaders T) (opts : Options)
    (atmo : AtmosphereParameters) (image : Texture → T)
    (hrad : opts.saveResultAsRadiance = true) :
    (main sh opts atmo image).log.filter Event.accumulatesSingleOrMerges = [] := by
  apply filter_eq_nil_of_outline _ _ accumulatesSingleOrMerges_outline
  change (main sh opts atmo image).outline.filter _ = []
  rw [main_outline, mainEvents, List.filter_flatMap, List.flatMap_eq_nil_iff]
  exact fun i _ => mainLoopBodyEvents_general opts _ i (startup_general opts atmo hrad)

theorem accumulateSingleScattering_checks {T : Type} [AddCommMonoid T] (sh : Shaders T)
    (opts : Options) (atmo : AtmosphereParameters) (texIndex : Nat) (scatterer : Scatterer)
    (s : State T) :
    Event.checkFramebufferStatus (some FBO_SINGLE_SCATTERING) ∈
      (accumulateSingleScattering sh opts atmo texIndex scatterer s).log := by
  have h : Event.checkFramebufferStatus (some FBO_SINGLE_SCATTERING) ∈
      (accumulateSingleScattering sh opts atmo texIndex scatterer s).outline := by
    rw [accumulateSingleScattering_outline]
    simp [accumulateSingleScatteringEvents]
  obtain ⟨e, he, hout⟩ := List.mem_filterMap.1 h
  cases e <;> simp [Event.outline, drawn] at hout
  subst hout
  exact he

/-- C12: with `saveResultAsRadiance` the start of `main` gives every scatterer the phase
function type `General` and changes no other field of a scatterer; without it the scatterers
are left as they are. Every call of `accumulateSingleScattering` leaves a status check of
`FBO_SINGLE_SCATTERING` in the trace; a radiance-mode run leaves no event of
`accumulateSingleScattering` at all, and no draw of `mergeSmoothSingleScatteringTexture`. -/
theorem C12_radiance_all_general {T : Type} [AddCommMonoid T] (sh : Shaders T)
    (opts : Options) (atmo : AtmosphereParameters) (image : Texture → T) :
    (opts.saveResultAsRadiance = true →
      (startup opts atmo).scatterers =
        atmo.scatterers.map fun scatterer =>
          { scatterer with phaseFunctionType := PhaseFunctionType.General }) ∧
    (opts.saveResultAsRadiance = false → (startup opts atmo).scatterers = atmo.scatterers) ∧
    (∀ (texIndex : Nat) (scatterer : Scatterer) (s : State T),
      Event.checkFramebufferStatus (some FBO_SINGLE_SCATTERING) ∈
        (accumulateSingleScattering sh opts (startup opts atmo) texIndex scatterer s).log) ∧
    (opts.saveResultAsRadiance = true →
      (main sh opts atmo image).log.filter Event.accumulatesSingle = [] ∧
      (main sh opts atmo image).log.filter Event.merges = []) := by
  refine ⟨fun hrad => by simp [startup, hrad], startup_scatterers opts atmo,
    fun texIndex scatterer s => accumulateSingleScattering_checks sh opts _ texIndex scatterer s,
    fun hrad => ?_⟩
  have h := main_general sh opts atmo image hrad
  rw [List.filter_eq_nil_iff] at h
  constructor <;>
  · rw [List.filter_eq_nil_iff]
    intro e he hp
    exact h e he (by simp [Event.accumulatesSingleOrMerges, hp])

/-- C12 for the scatterers `air`, `haze` and `mist` in radiance mode. -/
theorem C12_radiance_all_general_witness :
    (startup radianceOptions mistyPlanet).scatterers =
      [air, { haze with phaseFunctionType := PhaseFunctionType.General },
        { mist with phaseFunctionType := PhaseFunctionType.General }] ∧
    (main unitShaders radianceOptions mistyPlanet fun _ => 0).log.filter
      Event.accumulatesSingle = [] ∧
    (main unitShaders radianceOptions mistyPlanet fun _ => 0).log.filter Event.merges = [] :=
  ⟨(C12_radiance_all_general unitShaders radianceOptions mistyPlanet fun _ => 0).1 rfl,
   (C12_radiance_all_general unitShaders radianceOptions mistyPlanet fun _ => 0).2.2.2 rfl⟩

/-- C13 for the scatterers `air`, `haze` and `mist`, three wavelength subsets and four
scattering orders, in luminance mode. -/
theorem C13_multiple_scattering_files_witness :
    2 ≤ mistyPlanet.scatteringOrdersToCompute ∧ 0 < mistyPlanet.allWavelengths.length ∧
    mistyPlanet.allWavelengths.length < 2 ^ 32 ∧
    (main unitShaders plainOptions mistyPlanet fun _ => 0).log.filter
        (Event.savesUnder
          ((startup plainOptions mistyPlanet).textureOutputDir ++
            "/multiple-scattering-xyzw.f32")) =
      [Event.saveTexture "out/multiple-scattering-xyzw.f32"] ∧
    (main unitShaders plainOptions mistyPlanet fun _ => 0).log.filter
        (Event.savesUnder
          ((startup plainOptions mistyPlanet).textureOutputDir ++
            "/multiple-scattering-wlset")) = [] :=
  ⟨by decide, by decide, by decide,
    (C13_multiple_scattering_files unitShaders plainOptions mistyPlanet (fun _ => 0)
      (by decide) (by decide) (by decide)).2.1 rfl⟩

namespace Util

theorem length_flatMap_bytes (l : List GLfloat) :
    (l.flatMap GLfloat.bytes).length = 4 * l.length := by
  induction l with
  | nil => rfl
  | cons x l ih => simp [List.flatMap_cons, GLfloat.bytes, ih]; omega

theorem length_flatMap_bytes16 (l : List Nat) : (l.flatMap bytes16).length = 2 * l.length := by
  induction l with
  | nil => rfl
  | cons x l ih => simp [List.flatMap_cons, bytes16, ih]; omega

theorem floatsOfBytes_flatMap_append (l : List GLfloat) (rest : List Byte) :
    floatsOfBytes (l.flatMap GLfloat.bytes ++ rest) = l ++ floatsOfBytes rest := by
  induction l with
  | nil => rfl
  | cons x l ih =>
    have h : (x :: l).flatMap GLfloat.bytes ++ rest =
        x.byte0 :: x.byte1 :: x.byte2 :: x.byte3 :: (l.flatMap GLfloat.bytes ++ rest) := by
      simp [List.flatMap_cons, GLfloat.bytes]
    rw [h, floatsOfBytes, ih]
    rfl

theorem floatsOfBytes_flatMap (l : List GLfloat) :
    floatsOfBytes (l.flatMap GLfloat.bytes) = l := by
  have h := floatsOfBytes_flatMap_append l []
  simpa [floatsOfBytes] using h

theorem drop_flatMap_bytes (l : List GLfloat) (k : Nat) :
    (l.flatMap GLfloat.bytes).drop (4 * k) = (l.drop k).flatMap GLfloat.bytes := by
  induction l generalizing k with
  | nil => simp
  | cons x l ih =>
    cases k with
    | zero => rfl
    | succ k =>
      have : 4 * (k + 1) = 4 * k + 4 := by ring
      rw [this]
      simp only [List.flatMap_cons, GLfloat.bytes, List.cons_append, List.nil_append,
        List.drop_succ_cons, ih]

theorem take_flatMap_bytes (l : List GLfloat) (k : Nat) :
    (l.flatMap GLfloat.bytes).take (4 * k) = (l.take k).flatMap GLfloat.bytes := by
  induction l generalizing k with
  | nil => simp
  | cons x l ih =>
    cases k with
    | zero => rfl
    | succ k =>
      have : 4 * (k + 1) = 4 * k + 4 := by ring
      rw [this]
      simp only [List.flatMap_cons, GLfloat.bytes, List.cons_append, List.nil_append,
        List.take_succ_cons, ih]

theorem toUint16_natCast (n : Nat) (h : n ≤ 65535) : toUint16 (n : ℚ) = some n := by
  unfold toUint16
  have h1 : (-1 : ℚ) < n := lt_of_lt_of_le (by norm_num) (Nat.cast_nonneg n)
  have h2 : (n : ℚ) < 65536 := by exact_mod_cast Nat.lt_succ_of_le h
  rw [if_pos ⟨h1, h2⟩]
  simp

theorem sizesHeader_natCast (header : List Nat) (h : ∀ n ∈ header, n ≤ 65535) :
    sizesHeader (header.map (Nat.cast : Nat → ℚ)) = some header := by
  induction header with
  | nil => rfl
  | cons n header ih =>
    rw [List.map_cons, sizesHeader, toUint16_natCast n (h n (List.mem_cons_self _ _)),
      ih fun m hm => h m (List.mem_cons_of_mem _ hm)]
    rfl

theorem sizesHeader_length (sizes : List ℚ) (header : List Nat)
    (h : sizesHeader sizes = some header) : header.length = sizes.length := by
  induction sizes generalizing header with
  | nil =>
    simp only [sizesHeader, Option.some.injEq] at h
    subst h
    rfl
  | cons x sizes ih =>
    simp only [sizesHeader, Option.bind_eq_some, Option.map_eq_some'] at h
    obtain ⟨s, _, rest, hrest, rfl⟩ := h
    simp [ih rest hrest]

theorem saveTexture_eq (target : TextureTarget) (texture : TextureImage) (sizes : List ℚ)
    (buffer : List GLfloat)
    (hpixels : texture.pixels.length =
      4 * texWidth texture * texHeight target texture * texDepth target texture)
    (hfit : texture.pixels.length ≤ buffer.length) (hbuffer : 4 * buffer.length < 2 ^ 64) :
    saveTexture target texture sizes buffer =
      (sizesHeader sizes).map fun header =>
        header.flatMap bytes16 ++ texture.pixels.flatMap GLfloat.bytes := by
  unfold saveTexture
  simp only [← hpixels]
  have h1 : texture.pixels.length % 2 ^ 64 = texture.pixels.length :=
    Nat.mod_eq_of_lt (by omega)
  have h2 : texture.pixels.length * 4 % 2 ^ 64 = 4 * texture.pixels.length := by
    rw [Nat.mod_eq_of_lt (by omega)]
    ring
  have h3 : 4 * texture.pixels.length ≤
      4 * (texture.pixels ++ List.drop texture.pixels.length buffer).length := by
    simp
  rw [if_pos hfit, h1, h2]
  simp only [if_pos h3, take_flatMap_bytes, List.take_left']
  cases sizesHeader sizes <;> simp

end Util

namespace Util

theorem uint16_bytes (s : Nat) (h : s ≤ 65535) :
    (Fin.ofNat s : Byte).val + 256 * (Fin.ofNat (s / 256) : Byte).val = s := by
  show s % 256 + 256 * (s / 256 % 256) = s
  omega

theorem uint16At_lt (bytes : List Byte) (i : Nat) : uint16At bytes i < 65536 := by
  unfold uint16At
  have h1 := (bytes.getD (2 * i) 0).isLt
  have h2 := (bytes.getD (2 * i + 1) 0).isLt
  omega

theorem header_product_lt (bytes : List Byte) :
    uint16At bytes 0 * uint16At bytes 1 * uint16At bytes 2 * uint16At bytes 3 < 2 ^ 64 := by
  have h0 := uint16At_lt bytes 0
  have h1 := uint16At_lt bytes 1
  have h2 := uint16At_lt bytes 2
  have h3 := uint16At_lt bytes 3
  calc uint16At bytes 0 * uint16At bytes 1 * uint16At bytes 2 * uint16At bytes 3
      ≤ 65535 * 65535 * 65535 * 65535 :=
        Nat.mul_le_mul (Nat.mul_le_mul (Nat.mul_le_mul (by omega) (by omega)) (by omega))
          (by omega)
    _ < 2 ^ 64 := by norm_num

theorem loadTexture_saved (path : String) (a b c d : Nat) (pixels buffer : List GLfloat)
    (width height depth : Nat)
    (ha : a ≤ 65535) (hb : b ≤ 65535) (hc : c ≤ 65535) (hd : d ≤ 65535)
    (hprod : a * b * c * d = width * height * depth)
    (hpixels : pixels.length = 4 * width * height * depth)
    (hfit : pixels.length ≤ buffer.length) (hbuffer : 4 * buffer.length < 2 ^ 64) :
    loadTexture path (some ([a, b, c, d].flatMap bytes16 ++ pixels.flatMap GLfloat.bytes))
        width height depth buffer =
      some ⟨LoadOutcome.uploaded width height depth pixels, 8 + 4 * pixels.length,
        pixels ++ buffer.drop pixels.length⟩ := by
  have hfile : [a, b, c, d].flatMap bytes16 ++ pixels.flatMap GLfloat.bytes =
      Fin.ofNat a :: Fin.ofNat (a / 256) :: Fin.ofNat b :: Fin.ofNat (b / 256) ::
        Fin.ofNat c :: Fin.ofNat (c / 256) :: Fin.ofNat d :: Fin.ofNat (d / 256) ::
          pixels.flatMap GLfloat.bytes := by
    simp [List.flatMap_cons, bytes16]
  have h0 : uint16At ([a, b, c, d].flatMap bytes16 ++ pixels.flatMap GLfloat.bytes) 0 = a := by
    rw [hfile]
    exact uint16_bytes a ha
  have h1 : uint16At ([a, b, c, d].flatMap bytes16 ++ pixels.flatMap GLfloat.bytes) 1 = b := by
    rw [hfile]
    exact uint16_bytes b hb
  have h2 : uint16At ([a, b, c, d].flatMap bytes16 ++ pixels.flatMap GLfloat.bytes) 2 = c := by
    rw [hfile]
    exact uint16_bytes c hc
  have h3 : uint16At ([a, b, c, d].flatMap bytes16 ++ pixels.flatMap GLfloat.bytes) 3 = d := by
    rw [hfile]
    exact uint16_bytes d hd
  have hlen : ([a, b, c, d].flatMap bytes16 ++ pixels.flatMap GLfloat.bytes).length =
      8 + 4 * pixels.length := by
    rw [List.length_append, length_flatMap_bytes, length_flatMap_bytes16]
    rfl
  have hdrop : ([a, b, c, d].flatMap bytes16 ++ pixels.flatMap GLfloat.bytes).drop 8 =
      pixels.flatMap GLfloat.bytes := by
    rw [hfile]
    rfl
  have hcount : pixels.length % 2 ^ 64 * 4 % 2 ^ 64 = 4 * pixels.length := by
    rw [Nat.mod_eq_of_lt (by omega), Nat.mod_eq_of_lt (by omega)]
    ring
  have hwhd : width * height * depth % 2 ^ 64 = width * height * depth :=
    Nat.mod_eq_of_lt (by
      have : 4 * (width * height * depth) = pixels.length := by rw [hpixels]; ring
      omega)
  have hdata : (pixels.flatMap GLfloat.bytes).take (4 * pixels.length) =
      pixels.flatMap GLfloat.bytes := by
    rw [take_flatMap_bytes, List.take_length]
  have h8 : ¬ 8 + 4 * pixels.length < 8 := by omega
  have hfit4 : ¬ 4 * buffer.length < 4 * pixels.length := by omega
  have hlenp : pixels.length ≤ (pixels ++ List.drop pixels.length buffer).length := by simp
  unfold loadTexture
  simp only [h0, h1, h2, h3, hlen, hdrop, hprod, hwhd, ← hpixels]
  simp only [hcount, hdata, length_flatMap_bytes, drop_flatMap_bytes,
    floatsOfBytes_flatMap_append, floatsOfBytes_flatMap, if_neg h8, if_neg hfit4, lt_irrefl,
    if_false, if_pos hlenp, List.take_left', ne_eq, not_true_eq_false]

end Util

/-- C14: `saveTexture` on a texture whose `4*w*h*d` floats fit the buffer of
`pixelsToSaveOrLoad`. The file is the 16-bit values of the entries of `sizes`, two bytes each
and in order, followed by the `4*w*h*d` floats of the texture, four bytes each; there is one
header value per entry. When the entries are whole numbers in `[0, 65535]` whose product
is `w*h*d`, the header values are these numbers, and their product times 4 times 4 is the
length of the file less the two bytes per header value. -/
theorem C14_saveTexture_file (target : Util.TextureTarget) (texture : Util.TextureImage)
    (sizes : List ℚ) (buffer : List Util.GLfloat)
    (hpixels : texture.pixels.length =
      4 * Util.texWidth texture * Util.texHeight target texture * Util.texDepth target texture)
    (hfit : texture.pixels.length ≤ buffer.length) (hbuffer : 4 * buffer.length < 2 ^ 64) :
    Util.saveTexture target texture sizes buffer =
      ((Util.sizesHeader sizes).map fun header =>
        header.flatMap Util.bytes16 ++ texture.pixels.flatMap Util.GLfloat.bytes) ∧
    (∀ header, Util.sizesHeader sizes = some header → header.length = sizes.length) ∧
    ∀ header : List Nat, sizes = header.map Nat.cast → (∀ n ∈ header, n ≤ 65535) →
      header.prod =
        Util.texWidth texture * Util.texHeight target texture * Util.texDepth target texture →
      ∃ file, Util.saveTexture target texture sizes buffer = some file ∧
        file = header.flatMap Util.bytes16 ++ texture.pixels.flatMap Util.GLfloat.bytes ∧
        header.prod * 4 * 4 = file.length - 2 * header.length := by
  have hsave := Util.saveTexture_eq target texture sizes buffer hpixels hfit hbuffer
  refine ⟨hsave, Util.sizesHeader_length sizes, ?_⟩
  intro header hsizes hrange hprod
  refine ⟨_, ?_, rfl, ?_⟩
  · rw [hsave, hsizes, Util.sizesHeader_natCast header hrange]
    rfl
  · rw [List.length_append, Util.length_flatMap_bytes, Util.length_flatMap_bytes16, hpixels,
      hprod]
    have h : 2 * header.length + 4 * (4 * Util.texWidth texture *
        Util.texHeight target texture * Util.texDepth target texture) - 2 * header.length =
        4 * (4 * Util.texWidth texture *
        Util.texHeight target texture * Util.texDepth target texture) := by omega
    rw [h]
    ring

/-- C14 for a scattering texture of `2 x (2*1) x 2` texels saved with the sizes
`(2, 2, 1, 2)`. -/
theorem C14_saveTexture_file_witness :
    whiteCube.pixels.length =
      4 * Util.texWidth whiteCube *
        Util.texHeight Util.TextureTarget.GL_TEXTURE_3D whiteCube *
        Util.texDepth Util.TextureTarget.GL_TEXTURE_3D whiteCube ∧
    whiteCube.pixels.length ≤ smallBuffer.length ∧ 4 * smallBuffer.length < 2 ^ 64 ∧
    ∃ file, Util.saveTexture Util.TextureTarget.GL_TEXTURE_3D whiteCube
        (([2, 2, 1, 2] : List Nat).map Nat.cast) smallBuffer = some file ∧
      file = ([2, 2, 1, 2] : List Nat).flatMap Util.bytes16 ++
        whiteCube.pixels.flatMap Util.GLfloat.bytes ∧
      ([2, 2, 1, 2] : List Nat).prod * 4 * 4 = file.length - 2 * ([2, 2, 1, 2] : List Nat).length :=
  ⟨by decide, by decide, by decide,
    (C14_saveTexture_file Util.TextureTarget.GL_TEXTURE_3D whiteCube
      (([2, 2, 1, 2] : List Nat).map Nat.cast) smallBuffer (by decide) (by decide)
      (by decide)).2.2 [2, 2, 1, 2] rfl (by decide) (by decide)⟩

/-- C15, amended: a texture of `w x h x d` texels that fits the buffer of `pixelsToSaveOrLoad`
and is saved by `saveTexture` with a header of four whole numbers in `[0, 65535]` whose product
is `w*h*d`; `loadTexture` with `w`, `h` and `d` on the written file ends with the upload of
the floats of the texture, in their order. -/
theorem C15_save_load_roundtrip (path : String) (target : Util.TextureTarget)
    (texture : Util.TextureImage) (header : List Nat) (buffer loadBuffer : List Util.GLfloat)
    (hheader : header.length = 4) (hrange : ∀ n ∈ header, n ≤ 65535)
    (hprod : header.prod =
      Util.texWidth texture * Util.texHeight target texture * Util.texDepth target texture)
    (hpixels : texture.pixels.length =
      4 * Util.texWidth texture * Util.texHeight target texture * Util.texDepth target texture)
    (hfit : texture.pixels.length ≤ buffer.length) (hbuffer : 4 * buffer.length < 2 ^ 64)
    (hload : loadBuffer.length = buffer.length) :
    ∃ file, Util.saveTexture target texture (header.map Nat.cast) buffer = some file ∧
      ∃ result, Util.loadTexture path (some file) (Util.texWidth texture)
          (Util.texHeight target texture) (Util.texDepth target texture) loadBuffer =
          some result ∧
        result.outcome = Util.LoadOutcome.uploaded (Util.texWidth texture)
          (Util.texHeight target texture) (Util.texDepth target texture) texture.pixels := by
  obtain ⟨a, b, c, d, rfl⟩ : ∃ a b c d, header = [a, b, c, d] := by
    match header, hheader with
    | [a, b, c, d], _ => exact ⟨a, b, c, d, rfl⟩
  have ha := hrange a (by simp)
  have hb := hrange b (by simp)
  have hc := hrange c (by simp)
  have hd := hrange d (by simp)
  have hprod' : a * b * c * d =
      Util.texWidth texture * Util.texHeight target texture * Util.texDepth target texture := by
    rw [← hprod]
    simp [Nat.mul_assoc]
  refine ⟨_, ?_, _, Util.loadTexture_saved path a b c d texture.pixels loadBuffer _ _ _
    ha hb hc hd hprod' hpixels (by omega) (by omega), rfl⟩
  rw [Util.saveTexture_eq target texture _ buffer hpixels hfit hbuffer,
    Util.sizesHeader_natCast _ hrange]
  rfl

/-- C15 for a scattering texture of `2 x (2*1) x 2` texels saved with the sizes
`(2, 2, 1, 2)`. -/
theorem C15_save_load_roundtrip_witness :
    ∃ file, Util.saveTexture Util.TextureTarget.GL_TEXTURE_3D whiteCube
        (([2, 2, 1, 2] : List Nat).map Nat.cast) smallBuffer = some file ∧
      ∃ result, Util.loadTexture "cube.f32" (some file) (Util.texWidth whiteCube)
          (Util.texHeight Util.TextureTarget.GL_TEXTURE_3D whiteCube)
          (Util.texDepth Util.TextureTarget.GL_TEXTURE_3D whiteCube) smallBuffer =
          some result ∧
        result.outcome = Util.LoadOutcome.uploaded (Util.texWidth whiteCube)
          (Util.texHeight Util.TextureTarget.GL_TEXTURE_3D whiteCube)
          (Util.texDepth Util.TextureTarget.GL_TEXTURE_3D whiteCube) whiteCube.pixels :=
  C15_save_load_roundtrip "cube.f32" Util.TextureTarget.GL_TEXTURE_3D whiteCube [2, 2, 1, 2]
    smallBuffer smallBuffer rfl (by decide) (by decide) (by decide) (by decide) (by decide) rfl

/-- C15 fails for a 2D texture of `2 x 2` texels saved with the header `(2, 2)`, as
`computeTransmittance` saves its texture: `loadTexture` takes the first float of the data for
two more header values and ends with the error "Bad texture size". -/
theorem C15_counterexample :
    ([2, 2] : List Nat).prod =
      Util.texWidth whiteSquare * Util.texHeight Util.TextureTarget.GL_TEXTURE_2D whiteSquare *
        Util.texDepth Util.TextureTarget.GL_TEXTURE_2D whiteSquare ∧
    ∃ file, Util.saveTexture Util.TextureTarget.GL_TEXTURE_2D whiteSquare
        (([2, 2] : List Nat).map Nat.cast) smallBuffer = some file ∧
      Util.loadTexture "transmittance-wlset0.f32" (some file)
          (Util.texWidth whiteSquare)
          (Util.texHeight Util.TextureTarget.GL_TEXTURE_2D whiteSquare)
          (Util.texDepth Util.TextureTarget.GL_TEXTURE_2D whiteSquare) smallBuffer =
        some ⟨Util.LoadOutcome.runtimeError
          "Bad texture size in file transmittance-wlset0.f32", 8, smallBuffer⟩ := by
  refine ⟨by decide, ([2, 2] : List Nat).flatMap Util.bytes16 ++
    whiteSquare.pixels.flatMap Util.GLfloat.bytes, ?_, ?_⟩
  · rw [Util.saveTexture_eq _ _ _ _ (by decide) (by decide) (by decide),
      Util.sizesHeader_natCast _ (by decide)]
    rfl
  · decide

/-- C16: `loadTexture` on a file of at least the eight bytes of the header, for a requested
size whose product is below `2^64`. When the product of the four header values differs from
`width*height*depth`, the call ends with the error "Bad texture size in file " followed by the
path, having read the eight bytes of the header and nothing more, with the buffer as it was and
no texture uploaded; when the products are equal, it does not end with that error. -/
theorem C16_loadTexture_bad_size (path : String) (bytes : List Util.Byte)
    (width height depth : Nat) (buffer : List Util.GLfloat)
    (hheader : 8 ≤ bytes.length) (hrange : width * height * depth < 2 ^ 64) :
    (Util.uint16At bytes 0 * Util.uint16At bytes 1 * Util.uint16At bytes 2 *
        Util.uint16At bytes 3 ≠ width * height * depth →
      Util.loadTexture path (some bytes) width height depth buffer =
        some ⟨Util.LoadOutcome.runtimeError ("Bad texture size in file " ++ path), 8, buffer⟩) ∧
    (Util.uint16At bytes 0 * Util.uint16At bytes 1 * Util.uint16At bytes 2 *
        Util.uint16At bytes 3 = width * height * depth →
      ∀ result, Util.loadTexture path (some bytes) width height depth buffer = some result →
        ∀ what, result.outcome ≠ Util.LoadOutcome.runtimeError what) := by
  have h8 : ¬ bytes.length < 8 := by omega
  have hp := Nat.mod_eq_of_lt (Util.header_product_lt bytes)
  have hw := Nat.mod_eq_of_lt hrange
  constructor
  · intro hne
    unfold Util.loadTexture
    simp only [if_neg h8, hp, hw, if_pos hne]
  · intro heq result hresult what
    unfold Util.loadTexture at hresult
    simp only [if_neg h8, hp, hw, heq, ne_eq, not_true_eq_false, if_false] at hresult
    split_ifs at hresult <;> simp only [Option.some.injEq] at hresult <;>
      (subst hresult; simp)

/-- C16 for a file of eight bytes 1, whose header values are 257 each, and the requested size
`2 x 2 x 1`. -/
theorem C16_loadTexture_bad_size_witness :
    8 ≤ (List.replicate 8 (1 : Util.Byte)).length ∧ 2 * 2 * 1 < 2 ^ 64 ∧
    Util.loadTexture "t.f32" (some (List.replicate 8 1)) 2 2 1 smallBuffer =
      some ⟨Util.LoadOutcome.runtimeError ("Bad texture size in file " ++ "t.f32"), 8,
        smallBuffer⟩ :=
  ⟨by decide, by decide,
    (C16_loadTexture_bad_size "t.f32" (List.replicate 8 1) 2 2 1 smallBuffer (by decide)
      (by decide)).1 (by decide)⟩

/-- C17 fails for the sizes `quickSizes`: the buffer of `pixelsToSaveOrLoad` has the
`16*(4*8)*8*4 = 16384` floats of the scattering texture, and `saveTexture` on the transmittance
texture of 256 by 64 texels, as `computeTransmittance` calls it, has `glGetTexImage` store
`4*256*64 = 65536` floats in it, past its end. -/
theorem C17_staging_buffer_overrun :
    Util.pixelsToSaveOrLoad quickSizes = some 16384 ∧
    (transmittanceTexture quickSizes (List.replicate 65536 floatOne)).pixels.length = 65536 ∧
    Util.saveTexture Util.TextureTarget.GL_TEXTURE_2D
      (transmittanceTexture quickSizes (List.replicate 65536 floatOne))
      [quickSizes.transmittanceTexW, quickSizes.transmittanceTexH]
      (List.replicate 16384 floatOne) = none := by
  refine ⟨by decide, List.length_replicate _ _, ?_⟩
  have h : ¬ (transmittanceTexture quickSizes (List.replicate 65536 floatOne)).pixels.length ≤
      (List.replicate 16384 floatOne).length := by
    show ¬ (List.replicate 65536 floatOne).length ≤ (List.replicate 16384 floatOne).length
    rw [List.length_replicate, List.length_replicate]
    omega
  unfold Util.saveTexture
  exact if_neg h

theorem uncheckedDraws_outline (unchecked : Bool) (log : List Event) :
    uncheckedDraws unchecked (log.filterMap Event.outline) = uncheckedDraws unchecked log := by
  induction log generalizing unchecked with
  | nil => rfl
  | cons e rest ih =>
    cases e <;> simp [Event.outline, drawn, uncheckedDraws, List.filterMap_cons, ih]

theorem main_uncheckedDraws {T : Type} [AddCommMonoid T] (sh : Shaders T) (opts : Options)
    (atmo : AtmosphereParameters) (image : Texture → T) :
    uncheckedDraws false (main sh opts atmo image).log =
      uncheckedDraws false (mainEvents opts (startup opts atmo)) := by
  rw [← main_outline sh opts atmo image, State.outline, uncheckedDraws_outline]

set_option maxRecDepth 100000 in
/-- C18 fails in the run with the scatterers `air` and `haze`, three wavelength subsets and
four scattering orders: `computeScatteringDensity` attaches the texture of the scattering
density to the framebuffer and draws with no call of `checkFramebufferStatus`, for the orders
3 and 4 of each subset, and the draw of `computeIndirectIrradiance` follows before the next
call. In no other stage is a pass drawn between a change of attachment and the check. -/
theorem C18_unchecked_draws :
    uncheckedDraws false (main unitShaders plainOptions airAndHaze fun _ => 0).log =
      (List.range 3).flatMap fun texIndex =>
        [Pass.computeScatteringDensity 3 texIndex, Pass.computeIndirectIrradiance 3 texIndex,
         Pass.computeScatteringDensity 4 texIndex, Pass.computeIndirectIrradiance 4 texIndex] := by
  rw [main_uncheckedDraws]
  decide

namespace QString

theorem markerAt_of_ne (qt : Qt) (c : Char) (rest : List Char) (h : c ≠ '%') :
    markerAt qt (c :: rest) = none := by
  simp [markerAt, h]

theorem pieces_append (qt : Qt) (pre rest : List Char) (h : '%' ∉ pre) :
    pieces qt (pre ++ rest) = pre.map Piece.text ++ pieces qt rest := by
  induction pre with
  | nil => rfl
  | cons c pre ih =>
    have hc : c ≠ '%' := fun e => h (e ▸ List.mem_cons_self _ _)
    have hpre : '%' ∉ pre := fun hmem => h (List.mem_cons_of_mem _ hmem)
    have ih' := ih hpre
    unfold pieces at ih' ⊢
    rw [List.cons_append, piecesFrom, markerAt_of_ne qt c _ hc]
    simp only [List.map_cons, List.cons_append]
    rw [ih']

theorem findArgEscapes_text (pre : List Char) (ps : List Piece) :
    findArgEscapes (pre.map Piece.text ++ ps) = findArgEscapes ps := by
  induction pre with
  | nil => rfl
  | cons c pre ih => simpa [findArgEscapes] using ih

theorem replaceArgEscapes_text (escape : Nat) (a larg pre : List Char) (ps : List Piece) :
    replaceArgEscapes escape a larg (pre.map Piece.text ++ ps) =
      pre ++ replaceArgEscapes escape a larg ps := by
  induction pre with
  | nil => rfl
  | cons c pre ih => simpa [replaceArgEscapes] using ih

/-- A start of the string without `%` is left as it is by `arg`. -/
theorem arg_append (qt : Qt) (pre tmpl a : String) (h : '%' ∉ pre.data) :
    arg qt (pre ++ tmpl) a = pre ++ arg qt tmpl a := by
  unfold arg
  rw [String.data_append, pieces_append qt _ _ h, findArgEscapes_text]
  cases findArgEscapes (pieces qt tmpl.data) with
  | none => rfl
  | some escape =>
    apply String.ext
    simp [String.data_append, replaceArgEscapes_text]

theorem argNumber_append (qt : Qt) (pre tmpl : String) (a : Nat) (h : '%' ∉ pre.data) :
    argNumber qt (pre ++ tmpl) a = pre ++ argNumber qt tmpl a := by
  unfold argNumber
  rw [String.data_append, pieces_append qt _ _ h, findArgEscapes_text]
  cases findArgEscapes (pieces qt tmpl.data) with
  | none => rfl
  | some escape =>
    apply String.ext
    simp [String.data_append, replaceArgEscapes_text]

/-- One call of `arg` on a string that starts without `%`: the value on the rest. -/
theorem arg_pre (qt : Qt) {pre tmpl a res : String} (h : '%' ∉ pre.data)
    (heval : arg qt tmpl a = res) : arg qt (pre ++ tmpl) a = pre ++ res := by
  rw [arg_append qt pre tmpl a h, heval]

theorem argNumber_pre (qt : Qt) {pre tmpl res : String} {a : Nat} (h : '%' ∉ pre.data)
    (heval : argNumber qt tmpl a = res) : argNumber qt (pre ++ tmpl) a = pre ++ res := by
  rw [argNumber_append qt pre tmpl a h, heval]

theorem toDigitsCore_no_percent (fuel n : Nat) (ds : List Char) (h : '%' ∉ ds) :
    '%' ∉ Nat.toDigitsCore 10 fuel n ds := by
  induction fuel generalizing n ds with
  | zero => exact h
  | succ fuel ih =>
    have hd : Nat.digitChar (n % 10) ≠ '%' := by
      have : n % 10 < 10 := Nat.mod_lt _ (by decide)
      interval_cases n % 10 <;> decide
    unfold Nat.toDigitsCore
    simp only
    split_ifs
    · simp [hd.symm, h]
    · apply ih
      simp [hd.symm, h]

theorem toString_no_percent (n : Nat) : '%' ∉ (toString n).data := by
  show '%' ∉ (Nat.repr n).data
  unfold Nat.repr Nat.toDigits
  exact toDigitsCore_no_percent _ _ _ (by simp)

theorem zeroOrder_path (qt : Qt) (dir file : String) (n : Nat) (hdir : '%' ∉ dir.data) :
    arg qt (argNumber qt (arg qt "%1/shaders/zero-order-scattering/%2/%3" dir) n) file =
      dir ++ "/shaders/zero-order-scattering/" ++ toString n ++ "/" ++ file := by
  have h1 : arg qt "%1/shaders/zero-order-scattering/%2/%3" dir =
      dir ++ "/shaders/zero-order-scattering/%2/%3" := rfl
  have h2 : argNumber qt "/shaders/zero-order-scattering/%2/%3" n =
      "/shaders/zero-order-scattering/" ++ toString n ++ "/%3" := rfl
  have p2 : '%' ∉ (dir ++ ("/shaders/zero-order-scattering/" ++ toString n)).data := by
    simp [String.data_append, hdir, toString_no_percent]
  have h3 : arg qt "/%3" file = "/" ++ file :=
    String.ext (List.append_nil ('/' :: file.data))
  rw [h1, argNumber_pre qt hdir h2,
    ← String.append_assoc dir ("/shaders/zero-order-scattering/" ++ toString n) "/%3",
    arg_pre qt p2 h3]
  simp only [String.append_assoc]

theorem eclipsedZeroOrder_path (qt : Qt) (dir file : String) (n : Nat) (hdir : '%' ∉ dir.data) :
    arg qt (argNumber qt (arg qt "%1/shaders/eclipsed-zero-order-scattering/%2/%3" dir) n) file =
      dir ++ "/shaders/eclipsed-zero-order-scattering/" ++ toString n ++ "/" ++ file := by
  have h1 : arg qt "%1/shaders/eclipsed-zero-order-scattering/%2/%3" dir =
      dir ++ "/shaders/eclipsed-zero-order-scattering/%2/%3" := rfl
  have h2 : argNumber qt "/shaders/eclipsed-zero-order-scattering/%2/%3" n =
      "/shaders/eclipsed-zero-order-scattering/" ++ toString n ++ "/%3" := rfl
  have p2 : '%' ∉ (dir ++ ("/shaders/eclipsed-zero-order-scattering/" ++ toString n)).data := by
    simp [String.data_append, hdir, toString_no_percent]
  have h3 : arg qt "/%3" file = "/" ++ file :=
    String.ext (List.append_nil ('/' :: file.data))
  rw [h1, argNumber_pre qt hdir h2,
    ← String.append_assoc dir ("/shaders/eclipsed-zero-order-scattering/" ++ toString n) "/%3",
    arg_pre qt p2 h3]
  simp only [String.append_assoc]

theorem multipleRadiance_path (qt : Qt) (dir file : String) (n : Nat) (hdir : '%' ∉ dir.data) :
    arg qt (argNumber qt (arg qt "%1/shaders/multiple-scattering/%2/%3" dir) n) file =
      dir ++ "/shaders/multiple-scattering/" ++ toString n ++ "/" ++ file := by
  have h1 : arg qt "%1/shaders/multiple-scattering/%2/%3" dir =
      dir ++ "/shaders/multiple-scattering/%2/%3" := rfl
  have h2 : argNumber qt "/shaders/multiple-scattering/%2/%3" n =
      "/shaders/multiple-scattering/" ++ toString n ++ "/%3" := rfl
  have p2 : '%' ∉ (dir ++ ("/shaders/multiple-scattering/" ++ toString n)).data := by
    simp [String.data_append, hdir, toString_no_percent]
  have h3 : arg qt "/%3" file = "/" ++ file :=
    String.ext (List.append_nil ('/' :: file.data))
  rw [h1, argNumber_pre qt hdir h2,
    ← String.append_assoc dir ("/shaders/multiple-scattering/" ++ toString n) "/%3",
    arg_pre qt p2 h3]
  simp only [String.append_assoc]

theorem multipleLuminance_path (qt : Qt) (dir file : String) (hdir : '%' ∉ dir.data) :
    arg qt (arg qt "%1/shaders/multiple-scattering/%2" dir) file =
      dir ++ "/shaders/multiple-scattering/" ++ file := by
  have h1 : arg qt "%1/shaders/multiple-scattering/%2" dir =
      dir ++ "/shaders/multiple-scattering/%2" := rfl
  have h2 : arg qt "%2" file = file := String.ext (List.append_nil file.data)
  have e : ("/shaders/multiple-scattering/%2" : String) =
      "/shaders/multiple-scattering/" ++ "%2" := rfl
  have p : '%' ∉ (dir ++ "/shaders/multiple-scattering/").data := by
    simp [String.data_append, hdir, toString_no_percent]
  rw [h1, e, ← String.append_assoc dir "/shaders/multiple-scattering/" "%2", arg_pre qt p h2]

theorem singleSubset_path (qt : Qt) (dir mode name file : String) (n : Nat)
    (hdir : '%' ∉ dir.data) (hmode : '%' ∉ mode.data) (hname : '%' ∉ name.data) :
    arg qt (arg qt (argNumber qt (arg qt (arg qt "%1/shaders/single-scattering/%2/%3/%4/%5" dir)
      mode) n) name) file =
      dir ++ "/shaders/single-scattering/" ++ mode ++ "/" ++ toString n ++ "/" ++ name ++ "/" ++
        file := by
  have h1 : arg qt "%1/shaders/single-scattering/%2/%3/%4/%5" dir =
      dir ++ "/shaders/single-scattering/%2/%3/%4/%5" := rfl
  have h2 : arg qt "/shaders/single-scattering/%2/%3/%4/%5" mode =
      "/shaders/single-scattering/" ++ mode ++ "/%3/%4/%5" := rfl
  have p2 : '%' ∉ (dir ++ ("/shaders/single-scattering/" ++ mode)).data := by
    simp [String.data_append, hdir, hmode, toString_no_percent]
  have h3 : argNumber qt "/%3/%4/%5" n =
      "/" ++ toString n ++ "/%4/%5" := rfl
  have p3 : '%' ∉ (dir ++ ("/shaders/single-scattering/" ++ mode) ++ ("/" ++ toString n)).data :=
      by
    simp [String.data_append, hdir, hmode, toString_no_percent]
  have h4 : arg qt "/%4/%5" name =
      "/" ++ name ++ "/%5" := rfl
  have p4 : '%' ∉ (dir ++ ("/shaders/single-scattering/" ++ mode) ++ ("/" ++ toString n) ++ ("/"
      ++ name)).data := by
    simp [String.data_append, hdir, hmode, hname, toString_no_percent]
  have h5 : arg qt "/%5" file = "/" ++ file :=
    String.ext (List.append_nil ('/' :: file.data))
  rw [h1, arg_pre qt hdir h2,
    ← String.append_assoc dir ("/shaders/single-scattering/" ++ mode) "/%3/%4/%5",
    argNumber_pre qt p2 h3,
    ← String.append_assoc (dir ++ ("/shaders/single-scattering/" ++ mode))
      ("/" ++ toString n) "/%4/%5",
    arg_pre qt p3 h4,
    ← String.append_assoc (dir ++ ("/shaders/single-scattering/" ++ mode) ++
      ("/" ++ toString n)) ("/" ++ name) "/%5",
    arg_pre qt p4 h5]
  simp only [String.append_assoc]

theorem singleWhole_path (qt : Qt) (dir mode name file : String) (hdir : '%' ∉ dir.data)
    (hmode : '%' ∉ mode.data) (hname : '%' ∉ name.data) :
    arg qt (arg qt (arg qt (arg qt "%1/shaders/single-scattering/%2/%3/%4" dir) mode) name) file =
      dir ++ "/shaders/single-scattering/" ++ mode ++ "/" ++ name ++ "/" ++ file := by
  have h1 : arg qt "%1/shaders/single-scattering/%2/%3/%4" dir =
      dir ++ "/shaders/single-scattering/%2/%3/%4" := rfl
  have h2 : arg qt "/shaders/single-scattering/%2/%3/%4" mode =
      "/shaders/single-scattering/" ++ mode ++ "/%3/%4" := rfl
  have p2 : '%' ∉ (dir ++ ("/shaders/single-scattering/" ++ mode)).data := by
    simp [String.data_append, hdir, hmode, toString_no_percent]
  have h3 : arg qt "/%3/%4" name =
      "/" ++ name ++ "/%4" := rfl
  have p3 : '%' ∉ (dir ++ ("/shaders/single-scattering/" ++ mode) ++ ("/" ++ name)).data := by
    simp [String.data_append, hdir, hmode, hname, toString_no_percent]
  have h4 : arg qt "/%4" file = "/" ++ file :=
    String.ext (List.append_nil ('/' :: file.data))
  rw [h1, arg_pre qt hdir h2,
    ← String.append_assoc dir ("/shaders/single-scattering/" ++ mode) "/%3/%4", arg_pre qt p2 h3,
    ← String.append_assoc (dir ++ ("/shaders/single-scattering/" ++ mode)) ("/" ++ name) "/%4",
    arg_pre qt p3 h4]
  simp only [String.append_assoc]

theorem eclipsedSingleSubset_path (qt : Qt) (dir mode name file : String) (n : Nat)
    (hdir : '%' ∉ dir.data) (hmode : '%' ∉ mode.data) (hname : '%' ∉ name.data) :
    arg qt (arg qt (argNumber qt (arg qt (arg qt
      "%1/shaders/single-scattering-eclipsed/%2/%3/%4/%5" dir) mode) n) name) file =
      dir ++ "/shaders/single-scattering-eclipsed/" ++ mode ++ "/" ++ toString n ++ "/" ++
        name ++ "/" ++ file := by
  have h1 : arg qt "%1/shaders/single-scattering-eclipsed/%2/%3/%4/%5" dir =
      dir ++ "/shaders/single-scattering-eclipsed/%2/%3/%4/%5" := rfl
  have h2 : arg qt "/shaders/single-scattering-eclipsed/%2/%3/%4/%5" mode =
      "/shaders/single-scattering-eclipsed/" ++ mode ++ "/%3/%4/%5" := rfl
  have p2 : '%' ∉ (dir ++ ("/shaders/single-scattering-eclipsed/" ++ mode)).data := by
    simp [String.data_append, hdir, hmode, toString_no_percent]
  have h3 : argNumber qt "/%3/%4/%5" n =
      "/" ++ toString n ++ "/%4/%5" := rfl
  have p3 : '%' ∉ (dir ++ ("/shaders/single-scattering-eclipsed/" ++ mode) ++ ("/" ++ toString
      n)).data := by
    simp [String.data_append, hdir, hmode, toString_no_percent]
  have h4 : arg qt "/%4/%5" name =
      "/" ++ name ++ "/%5" := rfl
  have p4 : '%' ∉ (dir ++ ("/shaders/single-scattering-eclipsed/" ++ mode) ++ ("/" ++ toString n)
      ++ ("/" ++ name)).data := by
    simp [String.data_append, hdir, hmode, hname, toString_no_percent]
  have h5 : arg qt "/%5" file = "/" ++ file :=
    String.ext (List.append_nil ('/' :: file.data))
  rw [h1, arg_pre qt hdir h2,
    ← String.append_assoc dir ("/shaders/single-scattering-eclipsed/" ++ mode) "/%3/%4/%5",
    argNumber_pre qt p2 h3,
    ← String.append_assoc (dir ++ ("/shaders/single-scattering-eclipsed/" ++ mode))
      ("/" ++ toString n) "/%4/%5",
    arg_pre qt p3 h4,
    ← String.append_assoc (dir ++ ("/shaders/single-scattering-eclipsed/" ++ mode) ++
      ("/" ++ toString n)) ("/" ++ name) "/%5",
    arg_pre qt p4 h5]
  simp only [String.append_assoc]

theorem eclipsedSingleWhole_path (qt : Qt) (dir mode name file : String) (hdir : '%' ∉ dir.data)
    (hmode : '%' ∉ mode.data) (hname : '%' ∉ name.data) :
    arg qt (arg qt (arg qt (arg qt "%1/shaders/single-scattering-eclipsed/%2/%3/%4" dir) mode)
      name) file =
      dir ++ "/shaders/single-scattering-eclipsed/" ++ mode ++ "/" ++ name ++ "/" ++ file := by
  have h1 : arg qt "%1/shaders/single-scattering-eclipsed/%2/%3/%4" dir =
      dir ++ "/shaders/single-scattering-eclipsed/%2/%3/%4" := rfl
  have h2 : arg qt "/shaders/single-scattering-eclipsed/%2/%3/%4" mode =
      "/shaders/single-scattering-eclipsed/" ++ mode ++ "/%3/%4" := rfl
  have p2 : '%' ∉ (dir ++ ("/shaders/single-scattering-eclipsed/" ++ mode)).data := by
    simp [String.data_append, hdir, hmode, toString_no_percent]
  have h3 : arg qt "/%3/%4" name =
      "/" ++ name ++ "/%4" := rfl
  have p3 : '%' ∉ (dir ++ ("/shaders/single-scattering-eclipsed/" ++ mode) ++ ("/" ++ name)).data
      := by
    simp [String.data_append, hdir, hmode, hname, toString_no_percent]
  have h4 : arg qt "/%4" file = "/" ++ file :=
    String.ext (List.append_nil ('/' :: file.data))
  rw [h1, arg_pre qt hdir h2,
    ← String.append_assoc dir ("/shaders/single-scattering-eclipsed/" ++ mode) "/%3/%4",
    arg_pre qt p2 h3,
    ← String.append_assoc (dir ++ ("/shaders/single-scattering-eclipsed/" ++ mode))
      ("/" ++ name) "/%4",
    arg_pre qt p3 h4]
  simp only [String.append_assoc]

theorem eclipsedSingleComputation_path (qt : Qt) (dir name file : String) (n : Nat)
    (hdir : '%' ∉ dir.data) (hname : '%' ∉ name.data) :
    arg qt (arg qt (argNumber qt (arg qt
      "%1/shaders/single-scattering-eclipsed/precomputation/%2/%3/%4" dir) n) name) file =
      dir ++ "/shaders/single-scattering-eclipsed/precomputation/" ++ toString n ++ "/" ++
        name ++ "/" ++ file := by
  have h1 : arg qt "%1/shaders/single-scattering-eclipsed/precomputation/%2/%3/%4" dir =
      dir ++ "/shaders/single-scattering-eclipsed/precomputation/%2/%3/%4" := rfl
  have h2 : argNumber qt "/shaders/single-scattering-eclipsed/precomputation/%2/%3/%4" n =
      "/shaders/single-scattering-eclipsed/precomputation/" ++ toString n ++ "/%3/%4" := rfl
  have p2 : '%' ∉ (dir ++ ("/shaders/single-scattering-eclipsed/precomputation/" ++ toString
      n)).data := by
    simp [String.data_append, hdir, toString_no_percent]
  have h3 : arg qt "/%3/%4" name =
      "/" ++ name ++ "/%4" := rfl
  have p3 : '%' ∉ (dir ++ ("/shaders/single-scattering-eclipsed/precomputation/" ++ toString n) ++
      ("/" ++ name)).data := by
    simp [String.data_append, hdir, hname, toString_no_percent]
  have h4 : arg qt "/%4" file = "/" ++ file :=
    String.ext (List.append_nil ('/' :: file.data))
  rw [h1, argNumber_pre qt hdir h2,
    ← String.append_assoc dir
      ("/shaders/single-scattering-eclipsed/precomputation/" ++ toString n) "/%3/%4",
    arg_pre qt p2 h3,
    ← String.append_assoc (dir ++
      ("/shaders/single-scattering-eclipsed/precomputation/" ++ toString n)) ("/" ++ name) "/%4",
    arg_pre qt p3 h4]
  simp only [String.append_assoc]

theorem eclipsedDoubleRendering_path (qt : Qt) (dir file : String) (n : Nat)
    (hdir : '%' ∉ dir.data) :
    arg qt (argNumber qt (arg qt "%1/shaders/double-scattering-eclipsed/precomputed/%2/%3" dir) n)
      file =
      dir ++ "/shaders/double-scattering-eclipsed/precomputed/" ++ toString n ++ "/" ++
        file := by
  have h1 : arg qt "%1/shaders/double-scattering-eclipsed/precomputed/%2/%3" dir =
      dir ++ "/shaders/double-scattering-eclipsed/precomputed/%2/%3" := rfl
  have h2 : argNumber qt "/shaders/double-scattering-eclipsed/precomputed/%2/%3" n =
      "/shaders/double-scattering-eclipsed/precomputed/" ++ toString n ++ "/%3" := rfl
  have p2 : '%' ∉ (dir ++ ("/shaders/double-scattering-eclipsed/precomputed/" ++ toString n)).data
      := by
    simp [String.data_append, hdir, toString_no_percent]
  have h3 : arg qt "/%3" file = "/" ++ file :=
    String.ext (List.append_nil ('/' :: file.data))
  rw [h1, argNumber_pre qt hdir h2,
    ← String.append_assoc dir
      ("/shaders/double-scattering-eclipsed/precomputed/" ++ toString n) "/%3",
    arg_pre qt p2 h3]
  simp only [String.append_assoc]

theorem eclipsedDoubleComputation_path (qt : Qt) (dir file : String) (n : Nat)
    (hdir : '%' ∉ dir.data) :
    arg qt (argNumber qt (arg qt "%1/shaders/double-scattering-eclipsed/precomputation/%2/%3" dir)
      n) file =
      dir ++ "/shaders/double-scattering-eclipsed/precomputation/" ++ toString n ++ "/" ++
        file := by
  have h1 : arg qt "%1/shaders/double-scattering-eclipsed/precomputation/%2/%3" dir =
      dir ++ "/shaders/double-scattering-eclipsed/precomputation/%2/%3" := rfl
  have h2 : argNumber qt "/shaders/double-scattering-eclipsed/precomputation/%2/%3" n =
      "/shaders/double-scattering-eclipsed/precomputation/" ++ toString n ++ "/%3" := rfl
  have p2 : '%' ∉ (dir ++ ("/shaders/double-scattering-eclipsed/precomputation/" ++ toString
      n)).data := by
    simp [String.data_append, hdir, toString_no_percent]
  have h3 : arg qt "/%3" file = "/" ++ file :=
    String.ext (List.append_nil ('/' :: file.data))
  rw [h1, argNumber_pre qt hdir h2,
    ← String.append_assoc dir
      ("/shaders/double-scattering-eclipsed/precomputation/" ++ toString n) "/%3",
    arg_pre qt p2 h3]
  simp only [String.append_assoc]

end QString

/-- C19: the camera altitude of `computeEclipsedDoubleScattering` for an altitude index, when
`texSizeByAltitude` is at least 2 and the atmosphere height at least 2, whether the index
is below `texSizeByAltitude` or not. It is
`sqrt(d^2 + R^2) - R` for `d = altIndex/(texSizeByAltitude-1) * L`, raised to at least 1 and
then lowered to at most `atmosphereHeight - 1`; it lies between these bounds; and for the
index 0 it is 1, when `sqrt(R^2)` is at most `R + 1`. These altitudes are what the calls of
the precomputer receive. -/
theorem C19_camera_altitude (sqrt acos : ℚ → ℚ) (atmo : AtmosphereParameters)
    (texSizeBySZA texSizeByAltitude altIndex : Nat)
    (hsize : 2 ≤ texSizeByAltitude) (hunsigned : texSizeByAltitude < 2 ^ 32)
    (hheight : 2 ≤ atmo.atmosphereHeight) :
    Eclipsed.cameraAltitude sqrt atmo texSizeByAltitude altIndex =
      min (max (sqrt (((altIndex : ℚ) / ((texSizeByAltitude : ℚ) - 1) *
          atmo.lengthOfHorizRayFromGroundToBorderOfAtmo) ^ 2 + atmo.earthRadius ^ 2) -
        atmo.earthRadius) 1) (atmo.atmosphereHeight - 1) ∧
    1 ≤ Eclipsed.cameraAltitude sqrt atmo texSizeByAltitude altIndex ∧
    Eclipsed.cameraAltitude sqrt atmo texSizeByAltitude altIndex ≤ atmo.atmosphereHeight - 1 ∧
    (sqrt (atmo.earthRadius ^ 2) ≤ atmo.earthRadius + 1 →
      Eclipsed.cameraAltitude sqrt atmo texSizeByAltitude 0 = 1) ∧
    (Eclipsed.samples sqrt acos atmo texSizeBySZA texSizeByAltitude).map
        (fun sample => (sample.szaIndex, sample.altIndex, sample.cameraAltitude)) =
      (List.range texSizeBySZA).flatMap fun szaIndex =>
        (List.range texSizeByAltitude).map fun altIndex =>
          (szaIndex, altIndex, Eclipsed.cameraAltitude sqrt atmo texSizeByAltitude altIndex) := by
  have hmod : (texSizeByAltitude + (2 ^ 32 - 1)) % 2 ^ 32 = texSizeByAltitude - 1 := by omega
  have hcast : ((texSizeByAltitude - 1 : Nat) : ℚ) = (texSizeByAltitude : ℚ) - 1 := by
    rw [Nat.cast_sub (by omega)]
    simp
  have hone : (1 : ℚ) ≤ atmo.atmosphereHeight - 1 := by linarith
  refine ⟨?_, ?_, ?_, ?_, ?_⟩
  · simp only [Eclipsed.cameraAltitude, Eclipsed.clamp, Eclipsed.distToHorizon, sqr, hmod,
      hcast, pow_two]
  · exact le_min (le_max_right _ _) hone
  · exact min_le_right _ _
  · intro hsqrt
    have h0 : Eclipsed.distToHorizon atmo texSizeByAltitude 0 = 0 := by
      simp [Eclipsed.distToHorizon]
    have hsq : sqr (0 : ℚ) + sqr atmo.earthRadius = atmo.earthRadius ^ 2 := by
      simp [sqr, pow_two]
    simp only [Eclipsed.cameraAltitude, Eclipsed.clamp, h0, hsq]
    rw [max_eq_right (by linarith), min_eq_left hone]
  · simp [Eclipsed.samples, List.map_flatMap, Function.comp_def]

/-- C19 for the planet of radius 8 and atmosphere height 9, four altitudes, and the index 3,
for which the altitude `17 - 8` is lowered to 8. -/
theorem C19_camera_altitude_witness :
    2 ≤ 4 ∧ 4 < 2 ^ 32 ∧ (2 : ℚ) ≤ widePlanet.atmosphereHeight ∧
    Eclipsed.cameraAltitude sqrtTable widePlanet 4 3 =
      min (max (sqrtTable ((((3 : Nat) : ℚ) / (((4 : Nat) : ℚ) - 1) *
          widePlanet.lengthOfHorizRayFromGroundToBorderOfAtmo) ^ 2 +
          widePlanet.earthRadius ^ 2) - widePlanet.earthRadius) 1)
        (widePlanet.atmosphereHeight - 1) ∧
    1 ≤ Eclipsed.cameraAltitude sqrtTable widePlanet 4 3 ∧
    Eclipsed.cameraAltitude sqrtTable widePlanet 4 3 ≤ widePlanet.atmosphereHeight - 1 ∧
    Eclipsed.cameraAltitude sqrtTable widePlanet 4 0 = 1 :=
  have h := C19_camera_altitude sqrtTable (fun x => x) widePlanet 2 4 3 (by decide) (by decide)
    (by decide)
  ⟨by decide, by decide, by decide, h.1, h.2.1, h.2.2.1,
    h.2.2.2.1 (by norm_num [sqrtTable, widePlanet])⟩

namespace Eclipsed

/-- For an output directory without `%` the calls of `arg` put the directory, the index and
the file name where the pattern has its three place markers. -/
theorem saveEclipsedDoubleScatteringComputationShader_plain (qt : Qt)
    (atmo : AtmosphereParameters) (sourcesToSave : List (String × String)) (texIndex : Nat)
    (hdir : '%' ∉ atmo.textureOutputDir.data) :
    saveEclipsedDoubleScatteringComputationShader qt atmo sourcesToSave texIndex =
      (sourcesToSave.filter fun source => source.1 ≠ viewDirFuncFileName).map fun source =>
        (atmo.textureOutputDir ++ "/shaders/double-scattering-eclipsed/precomputation/" ++
          toString texIndex ++ "/" ++ source.1, FileContents.text source.2) := by
  unfold saveEclipsedDoubleScatteringComputationShader
  simp only [QString.eclipsedDoubleComputation_path qt _ _ _ hdir]

end Eclipsed

/-- C21: the text written to `params.atmo` is the line "all textures are radiances" with its
newline exactly when `saveResultAsRadiance` is set, then the line "no eclipsed double
scattering textures" with its newline exactly when `dbgNoEDSTextures` is set, then the
description file text; with neither option it is the description file text. -/
theorem C21_params_atmo (opts : Options) (descriptionFileText : String) :
    paramsAtmo opts descriptionFileText =
      (if opts.saveResultAsRadiance then "all textures are radiances\n" else "") ++
      (if opts.dbgNoEDSTextures then "no eclipsed double scattering textures\n" else "") ++
      descriptionFileText ∧
    (opts.saveResultAsRadiance = false → opts.dbgNoEDSTextures = false →
      paramsAtmo opts descriptionFileText = descriptionFileText) := by
  constructor
  · cases hr : opts.saveResultAsRadiance <;> cases he : opts.dbgNoEDSTextures <;>
      simp [paramsAtmo, hr, he, ALL_TEXTURES_ARE_RADIANCES_DIRECTIVE,
        NO_ECLIPSED_DOUBLE_SCATTERING_TEXTURES_DIRECTIVE]
  · intro hr he
    simp [paramsAtmo, hr, he]

/-- C21 with no option set. -/
theorem C21_params_atmo_witness :
    paramsAtmo plainOptions "planet: Earth\n" = "planet: Earth\n" :=
  (C21_params_atmo plainOptions "planet: Earth\n").2 rfl rfl

theorem bayerPattern_numerators :
    bayerPattern = bayerNumerators.map fun (k : Nat) => (k : ℚ) / 64 := by
  simp only [bayerPattern, bayerNumerators, List.map_cons, List.map_nil, Nat.cast_ofNat,
    Nat.cast_zero, Nat.cast_one]

theorem bayerNumerators_bayerMatrix :
    ∀ row col : Fin 8, bayerNumerators.getD (8 * row.val + col.val) 0 =
      bayerMatrix 3 row.val col.val := by
  decide

theorem bayerNumerators_perm : bayerNumerators.Perm (List.range 64) := by
  decide

/-- C30: the table has 64 entries; the entry at `(row, col)` times 64 is the entry of the 8x8
Bayer matrix; and the 64 numerators are the numbers `0..63` in some order, each once. -/
theorem C30_bayer_pattern :
    bayerPattern.length = 64 ∧
    (∀ row col : Fin 8,
      bayerPattern.getD (8 * row.val + col.val) 0 * 64 = bayerMatrix 3 row.val col.val) ∧
    (bayerPattern.map fun x => x * 64).Perm ((List.range 64).map Nat.cast) := by
  refine ⟨rfl, ?_, ?_⟩
  · intro row col
    have h : 8 * row.val + col.val < bayerNumerators.length := by
      have := row.isLt
      have := col.isLt
      show 8 * row.val + col.val < 64
      omega
    rw [← bayerNumerators_bayerMatrix row col, bayerPattern_numerators,
      List.getD_eq_getElem _ _ (by simpa using h), List.getD_eq_getElem _ _ h,
      List.getElem_map]
    norm_num
  · have h : (bayerPattern.map fun x => x * 64) = bayerNumerators.map Nat.cast := by
      rw [bayerPattern_numerators, List.map_map]
      refine List.map_congr_left fun k _ => ?_
      simp
    rw [h]
    exact bayerNumerators_perm.map _

theorem distFromGroundToTopAtmoBorder_eq (atmo : AtmosphereParameters) (texCoord : ℚ) :
    distFromGroundToTopAtmoBorder atmo texCoord =
      atmo.atmosphereHeight + min (cosSZARatio atmo texCoord) (cosSZACoefficient atmo) *
        (atmo.lengthOfHorizRayFromGroundToBorderOfAtmo - atmo.atmosphereHeight) := rfl

theorem GeometryOK.coefficient_pos {atmo : AtmosphereParameters} (h : GeometryOK atmo) :
    0 < cosSZACoefficient atmo :=
  div_pos h.1 (sub_pos.mpr h.height_lt_length)

theorem GeometryOK.ratio_bounds {atmo : AtmosphereParameters} (h : GeometryOK atmo) {t : ℚ}
    (h0 : 0 ≤ t) (h1 : t ≤ 1) :
    0 ≤ cosSZARatio atmo t ∧ cosSZARatio atmo t ≤ cosSZACoefficient atmo := by
  have hA := h.coefficient_pos
  have hden : 0 < 1 + cosSZACoefficient atmo * t := by positivity
  unfold cosSZARatio
  constructor
  · apply div_nonneg _ hden.le
    nlinarith
  · rw [div_le_iff₀ hden]
    nlinarith [mul_nonneg (mul_nonneg hA.le hA.le) h0, mul_nonneg hA.le h0]

theorem GeometryOK.ratio_antitone {atmo : AtmosphereParameters} (h : GeometryOK atmo)
    {t1 t2 : ℚ} (h0 : 0 ≤ t1) (h12 : t1 ≤ t2) :
    cosSZARatio atmo t2 ≤ cosSZARatio atmo t1 := by
  have hA := h.coefficient_pos
  have hd1 : 0 < 1 + cosSZACoefficient atmo * t1 := by positivity
  have hd2 : 0 < 1 + cosSZACoefficient atmo * t2 := by
    have : 0 ≤ t2 := le_trans h0 h12
    positivity
  unfold cosSZARatio
  rw [div_le_div_iff₀ hd2 hd1]
  nlinarith [mul_nonneg hA.le (sub_nonneg.mpr h12),
    mul_nonneg (mul_nonneg hA.le hA.le) (sub_nonneg.mpr h12)]

theorem GeometryOK.dist_eq {atmo : AtmosphereParameters} (h : GeometryOK atmo) {t : ℚ}
    (h0 : 0 ≤ t) (h1 : t ≤ 1) :
    distFromGroundToTopAtmoBorder atmo t =
      atmo.atmosphereHeight + cosSZARatio atmo t *
        (atmo.lengthOfHorizRayFromGroundToBorderOfAtmo - atmo.atmosphereHeight) := by
  rw [distFromGroundToTopAtmoBorder_eq, min_eq_left (h.ratio_bounds h0 h1).2]

theorem GeometryOK.dist_bounds {atmo : AtmosphereParameters} (h : GeometryOK atmo) {t : ℚ}
    (h0 : 0 ≤ t) (h1 : t ≤ 1) :
    atmo.atmosphereHeight ≤ distFromGroundToTopAtmoBorder atmo t ∧
      distFromGroundToTopAtmoBorder atmo t ≤ atmo.atmosphereHeight + atmo.earthRadius := by
  have hlt := sub_pos.mpr h.height_lt_length
  obtain ⟨ha0, haA⟩ := h.ratio_bounds h0 h1
  have hAR : cosSZACoefficient atmo *
      (atmo.lengthOfHorizRayFromGroundToBorderOfAtmo - atmo.atmosphereHeight) =
      atmo.earthRadius := div_mul_cancel₀ _ hlt.ne'
  rw [h.dist_eq h0 h1]
  constructor
  · nlinarith [mul_nonneg ha0 hlt.le]
  · nlinarith [mul_le_mul_of_nonneg_right haA hlt.le]

theorem GeometryOK.dist_antitone {atmo : AtmosphereParameters} (h : GeometryOK atmo)
    {t1 t2 : ℚ} (h0 : 0 ≤ t1) (h12 : t1 ≤ t2) (h2 : t2 ≤ 1) :
    distFromGroundToTopAtmoBorder atmo t2 ≤ distFromGroundToTopAtmoBorder atmo t1 := by
  have hlt := sub_pos.mpr h.height_lt_length
  rw [h.dist_eq h0 (le_trans h12 h2), h.dist_eq (le_trans h0 h12) h2]
  nlinarith [mul_le_mul_of_nonneg_right (h.ratio_antitone h0 h12) hlt.le]

theorem clampCosine_mono {x y : ℚ} (h : x ≤ y) : clampCosine x ≤ clampCosine y := by
  unfold clampCosine
  split_ifs <;> linarith

/-- C25: for a geometry with `R > 0`, `H > 0` and `L >= 0`, `L^2 = H^2 + 2RH`, and a texture
coordinate `t` in `[0, 1]`: the distance computed inside `unitRangeTexCoordToCosSZA` lies in
`[H, H + R]`, is `H + R` at `t = 0` and `H` at `t = 1`; `min(a, A)` is `a`; `1 + A*t`, `L - H`
and `2*R*distance` are not zero, and neither is the distance, so that the function returns the
clamped quotient; at `t = 0` the quotient is `-R/(2(R + H))`. -/
theorem C25_unitRangeTexCoordToCosSZA_defined (atmo : AtmosphereParameters) (t : ℚ)
    (hR : 0 < atmo.earthRadius) (hH : 0 < atmo.atmosphereHeight)
    (hL0 : 0 ≤ atmo.lengthOfHorizRayFromGroundToBorderOfAtmo)
    (hL : atmo.lengthOfHorizRayFromGroundToBorderOfAtmo ^ 2 =
      atmo.atmosphereHeight ^ 2 + 2 * atmo.earthRadius * atmo.atmosphereHeight)
    (h0 : 0 ≤ t) (h1 : t ≤ 1) :
    (atmo.atmosphereHeight ≤ distFromGroundToTopAtmoBorder atmo t ∧
      distFromGroundToTopAtmoBorder atmo t ≤ atmo.atmosphereHeight + atmo.earthRadius) ∧
    distFromGroundToTopAtmoBorder atmo 0 = atmo.atmosphereHeight + atmo.earthRadius ∧
    distFromGroundToTopAtmoBorder atmo 1 = atmo.atmosphereHeight ∧
    min (cosSZARatio atmo t) (cosSZACoefficient atmo) = cosSZARatio atmo t ∧
    1 + cosSZACoefficient atmo * t ≠ 0 ∧
    atmo.lengthOfHorizRayFromGroundToBorderOfAtmo - atmo.atmosphereHeight ≠ 0 ∧
    2 * atmo.earthRadius * distFromGroundToTopAtmoBorder atmo t ≠ 0 ∧
    distFromGroundToTopAtmoBorder atmo t ≠ 0 ∧
    unitRangeTexCoordToCosSZA atmo t = clampCosine (cosSZAQuotient atmo t) ∧
    cosSZAQuotient atmo 0 =
      -atmo.earthRadius / (2 * (atmo.earthRadius + atmo.atmosphereHeight)) := by
  have hg : GeometryOK atmo := ⟨hR, hH, hL0, hL⟩
  have hlt := sub_pos.mpr hg.height_lt_length
  have hA := hg.coefficient_pos
  have hb := hg.dist_bounds h0 h1
  have hd : 0 < distFromGroundToTopAtmoBorder atmo t := lt_of_lt_of_le hH hb.1
  have hAR : cosSZACoefficient atmo *
      (atmo.lengthOfHorizRayFromGroundToBorderOfAtmo - atmo.atmosphereHeight) =
      atmo.earthRadius := div_mul_cancel₀ _ hlt.ne'
  have hd0 : distFromGroundToTopAtmoBorder atmo 0 =
      atmo.atmosphereHeight + atmo.earthRadius := by
    rw [hg.dist_eq le_rfl zero_le_one]
    simp only [cosSZARatio, mul_zero, sub_zero, add_zero, div_one]
    rw [hAR]
  have hd1 : distFromGroundToTopAtmoBorder atmo 1 = atmo.atmosphereHeight := by
    rw [hg.dist_eq zero_le_one le_rfl]
    simp [cosSZARatio]
  refine ⟨hb, hd0, hd1, min_eq_left (hg.ratio_bounds h0 h1).2, ?_, hlt.ne', ?_, hd.ne', ?_, ?_⟩
  · have : 0 < 1 + cosSZACoefficient atmo * t := by positivity
    exact this.ne'
  · have : 0 < 2 * atmo.earthRadius * distFromGroundToTopAtmoBorder atmo t := by positivity
    exact this.ne'
  · unfold unitRangeTexCoordToCosSZA
    rw [if_neg hd.ne']
  · unfold cosSZAQuotient
    rw [hd0]
    simp only [sqr, ← sq]
    rw [hL]
    have hsum : 0 < atmo.atmosphereHeight + atmo.earthRadius := by positivity
    field_simp
    ring

/-- C25 on the planet of radius 4 with an atmosphere of height 1, at `t = 1/2`. -/
theorem C25_unitRangeTexCoordToCosSZA_defined_witness :
    (smallPlanet.atmosphereHeight ≤ distFromGroundToTopAtmoBorder smallPlanet (1/2) ∧
      distFromGroundToTopAtmoBorder smallPlanet (1/2) ≤
        smallPlanet.atmosphereHeight + smallPlanet.earthRadius) ∧
    distFromGroundToTopAtmoBorder smallPlanet (1/2) ≠ 0 ∧
    unitRangeTexCoordToCosSZA smallPlanet (1/2) =
      clampCosine (cosSZAQuotient smallPlanet (1/2)) :=
  have h := C25_unitRangeTexCoordToCosSZA_defined smallPlanet (1/2)
    (by norm_num [smallPlanet]) (by norm_num [smallPlanet]) (by norm_num [smallPlanet])
    (by norm_num [smallPlanet]) (by norm_num) (by norm_num)
  ⟨h.1, h.2.2.2.2.2.2.2.1, h.2.2.2.2.2.2.2.2.1⟩

/-- C26: for a geometry with `R > 0`, `H > 0` and `L >= 0`, `L^2 = H^2 + 2RH`,
`unitRangeTexCoordToCosSZA` is non-decreasing on `[0, 1]`. -/
theorem C26_unitRangeTexCoordToCosSZA_monotone (atmo : AtmosphereParameters) (t1 t2 : ℚ)
    (hR : 0 < atmo.earthRadius) (hH : 0 < atmo.atmosphereHeight)
    (hL0 : 0 ≤ atmo.lengthOfHorizRayFromGroundToBorderOfAtmo)
    (hL : atmo.lengthOfHorizRayFromGroundToBorderOfAtmo ^ 2 =
      atmo.atmosphereHeight ^ 2 + 2 * atmo.earthRadius * atmo.atmosphereHeight)
    (h0 : 0 ≤ t1) (h12 : t1 ≤ t2) (h2 : t2 ≤ 1) :
    unitRangeTexCoordToCosSZA atmo t1 ≤ unitRangeTexCoordToCosSZA atmo t2 := by
  have hg : GeometryOK atmo := ⟨hR, hH, hL0, hL⟩
  have hb1 := hg.dist_bounds h0 (le_trans h12 h2)
  have hb2 := hg.dist_bounds (le_trans h0 h12) h2
  have hd1 : 0 < distFromGroundToTopAtmoBorder atmo t1 := lt_of_lt_of_le hH hb1.1
  have hd2 : 0 < distFromGroundToTopAtmoBorder atmo t2 := lt_of_lt_of_le hH hb2.1
  have hanti := hg.dist_antitone h0 h12 h2
  unfold unitRangeTexCoordToCosSZA
  rw [if_neg hd1.ne', if_neg hd2.ne']
  apply clampCosine_mono
  unfold cosSZAQuotient
  rw [div_le_div_iff₀ (by positivity) (by positivity)]
  simp only [sqr]
  have hLL : 0 ≤ atmo.lengthOfHorizRayFromGroundToBorderOfAtmo *
      atmo.lengthOfHorizRayFromGroundToBorderOfAtmo := mul_self_nonneg _
  have hdiff := sub_nonneg.mpr hanti
  nlinarith [mul_nonneg hLL hdiff, mul_nonneg (mul_nonneg hd1.le hd2.le) hdiff,
    mul_nonneg hR.le (mul_nonneg hLL hdiff),
    mul_nonneg hR.le (mul_nonneg (mul_nonneg hd1.le hd2.le) hdiff)]

/-- C26 on the planet of radius 4 with an atmosphere of height 1, at `1/4` and `3/4`. -/
theorem C26_unitRangeTexCoordToCosSZA_monotone_witness :
    unitRangeTexCoordToCosSZA smallPlanet (1/4) ≤ unitRangeTexCoordToCosSZA smallPlanet (3/4) :=
  C26_unitRangeTexCoordToCosSZA_monotone smallPlanet (1/4) (3/4)
    (by norm_num [smallPlanet]) (by norm_num [smallPlanet]) (by norm_num [smallPlanet])
    (by norm_num [smallPlanet]) (by norm_num) (by norm_num) (by norm_num)

theorem weights_diag (allWavelengths : List Vec4) (texIndex : Nat)
    (hsize : allWavelengths.length < 2 ^ 32) (hlt : texIndex < allWavelengths.length) :
    weights allWavelengths texIndex 0 0 = (if texIndex = 0 then 1/2 else 1) ∧
    weights allWavelengths texIndex 1 1 = 1 ∧
    weights allWavelengths texIndex 2 2 = 1 ∧
    weights allWavelengths texIndex 3 3 =
      (if texIndex = allWavelengths.length - 1 then 1/2 else 1) := by
  have hw := wlCount_of_lt hsize
  unfold weights
  rw [hw]
  by_cases h1 : allWavelengths.length = 1
  · have h0 : texIndex = 0 := by omega
    simp [h1, h0, diag]
  · have hne : ¬ (4 * allWavelengths.length = 4) := by omega
    simp only [hne, if_false]
    by_cases h0 : texIndex = 0
    · have hlast : ¬ (0 = allWavelengths.length - 1) := by omega
      subst h0
      simp [diag, hlast]
    · simp only [h0, if_false]
      have hmod : (texIndex + 1) % 2 ^ 32 = texIndex + 1 := by omega
      rw [hmod]
      by_cases hl : texIndex + 1 = 4 * allWavelengths.length / 4
      · have hl2 : texIndex = allWavelengths.length - 1 := by omega
        rw [if_pos hl, if_pos hl2]
        simp [diag]
      · have hl2 : ¬ texIndex = allWavelengths.length - 1 := by omega
        rw [if_neg hl, if_neg hl2]
        simp [diag]

theorem dlambda_diag (allWavelengths : List Vec4) (texIndex : Nat) (c : Fin 4) :
    dlambda allWavelengths texIndex c c =
      ((wlCount allWavelengths : ℚ) - 1)⁻¹ *
        |(allWavelengths.getLastD 0) 3 - (allWavelengths.headD 0) 0| *
        weights allWavelengths texIndex c c := by
  simp [dlambda]

theorem wavelengthAt_group (allWavelengths : List Vec4) (t : Nat) :
    wavelengthAt allWavelengths (4 * t) = (allWavelengths.getD t 0) 0 ∧
    wavelengthAt allWavelengths (4 * t + 1) = (allWavelengths.getD t 0) 1 ∧
    wavelengthAt allWavelengths (4 * t + 2) = (allWavelengths.getD t 0) 2 ∧
    wavelengthAt allWavelengths (4 * t + 3) = (allWavelengths.getD t 0) 3 := by
  have h0 : 4 * t / 4 = t := by omega
  have h1 : (4 * t + 1) / 4 = t := by omega
  have h2 : (4 * t + 2) / 4 = t := by omega
  have h3 : (4 * t + 3) / 4 = t := by omega
  have m0 : 4 * t % 4 = 0 := by omega
  have m1 : (4 * t + 1) % 4 = 1 := by omega
  have m2 : (4 * t + 2) % 4 = 2 := by omega
  have m3 : (4 * t + 3) % 4 = 3 := by omega
  unfold wavelengthAt
  rw [h0, h1, h2, h3, m0, m1, m2, m3]
  exact ⟨rfl, rfl, rfl, rfl⟩

theorem sum_groups (allWavelengths : List Vec4) (f : ℚ → ℚ) (n : Nat) :
    (∑ t in Finset.range n, ∑ c : Fin 4, f ((allWavelengths.getD t 0) c)) =
      ∑ k in Finset.range (4 * n), f (wavelengthAt allWavelengths k) := by
  induction n with
  | zero => simp
  | succ n ih =>
    obtain ⟨e0, e1, e2, e3⟩ := wavelengthAt_group allWavelengths n
    have h4 : 4 * (n + 1) = 4 * n + 1 + 1 + 1 + 1 := by ring
    rw [Finset.sum_range_succ, ih, h4, Finset.sum_range_succ, Finset.sum_range_succ,
      Finset.sum_range_succ, Finset.sum_range_succ, Fin.sum_univ_four, e0]
    have e1' : wavelengthAt allWavelengths (4 * n + 1 + 1) = (allWavelengths.getD n 0) 2 := e2
    have e2' : wavelengthAt allWavelengths (4 * n + 1 + 1 + 1) = (allWavelengths.getD n 0) 3 :=
      e3
    rw [e1, e1', e2']
    ring

theorem sum_range_ends (F : Nat → ℚ) (m : Nat) (hm : 1 ≤ m) :
    (∑ k in Finset.range (m + 1), F k) = F 0 + (∑ k in Finset.Ico 1 m, F k) + F m := by
  rw [Finset.sum_range_succ, Finset.range_eq_Ico, Finset.sum_eq_sum_Ico_succ_bot (by omega)]

/-- C23: for `n >= 1` groups of wavelengths (fewer than `2^32`) and any function `f`, the sum
over the groups and the components of the diagonal entry of `dlambda` times `f` at the
wavelength is `h*(f(l_0)/2 + f(l_1) + ... + f(l_{4n-2}) + f(l_{4n-1})/2)` with
`h = |l_{4n-1} - l_0|/(4n-1)`, the composite trapezoidal rule; and the diagonal entries summed
over all groups give `|l_{4n-1} - l_0|`. -/
theorem C23_trapezoidal_rule (allWavelengths : List Vec4) (f : ℚ → ℚ)
    (hne : 1 ≤ allWavelengths.length) (hsize : allWavelengths.length < 2 ^ 32) :
    (∑ texIndex in Finset.range allWavelengths.length, ∑ c : Fin 4,
        dlambda allWavelengths texIndex c c * f ((allWavelengths.getD texIndex 0) c)) =
      |wavelengthAt allWavelengths (4 * allWavelengths.length - 1) -
          wavelengthAt allWavelengths 0| / (4 * (allWavelengths.length : ℚ) - 1) *
        (f (wavelengthAt allWavelengths 0) / 2 +
          (∑ k in Finset.Ico 1 (4 * allWavelengths.length - 1),
            f (wavelengthAt allWavelengths k)) +
          f (wavelengthAt allWavelengths (4 * allWavelengths.length - 1)) / 2) ∧
    (∑ texIndex in Finset.range allWavelengths.length, ∑ c : Fin 4,
        dlambda allWavelengths texIndex c c) =
      |wavelengthAt allWavelengths (4 * allWavelengths.length - 1) -
          wavelengthAt allWavelengths 0| := by
  have hw := wlCount_of_lt hsize
  have hlast : allWavelengths.getLastD 0 =
      allWavelengths.getD (allWavelengths.length - 1) 0 := by
    cases hl : allWavelengths with
    | nil => rw [hl] at hne; simp at hne
    | cons a rest =>
      rw [List.getLastD_eq_getLast?, List.getLast?_eq_getElem?,
        List.getD_eq_getElem?_getD]
  have hhead : allWavelengths.headD 0 = allWavelengths.getD 0 0 := by
    cases allWavelengths <;> rfl
  obtain ⟨b0, -, -, -⟩ := wavelengthAt_group allWavelengths 0
  obtain ⟨-, -, -, b3⟩ := wavelengthAt_group allWavelengths (allWavelengths.length - 1)
  have hidx : 4 * (allWavelengths.length - 1) + 3 = 4 * allWavelengths.length - 1 := by omega
  rw [hidx] at b3
  rw [Nat.mul_zero] at b0
  have hcast : ((wlCount allWavelengths : ℕ) : ℚ) - 1 = 4 * (allWavelengths.length : ℚ) - 1 := by
    rw [hw]
    push_cast
    ring
  have hpos : (0 : ℚ) < 4 * (allWavelengths.length : ℚ) - 1 := by
    have : (1 : ℚ) ≤ (allWavelengths.length : ℚ) := by exact_mod_cast hne
    linarith
  have key : ∀ g : ℚ → ℚ,
      (∑ texIndex in Finset.range allWavelengths.length, ∑ c : Fin 4,
        dlambda allWavelengths texIndex c c * g ((allWavelengths.getD texIndex 0) c)) =
      |wavelengthAt allWavelengths (4 * allWavelengths.length - 1) -
          wavelengthAt allWavelengths 0| / (4 * (allWavelengths.length : ℚ) - 1) *
        (g (wavelengthAt allWavelengths 0) / 2 +
          (∑ k in Finset.Ico 1 (4 * allWavelengths.length - 1),
            g (wavelengthAt allWavelengths k)) +
          g (wavelengthAt allWavelengths (4 * allWavelengths.length - 1)) / 2) := by
    intro g
    have hsplit : ∀ texIndex ∈ Finset.range allWavelengths.length,
        (∑ c : Fin 4, dlambda allWavelengths texIndex c c *
          g ((allWavelengths.getD texIndex 0) c)) =
        |wavelengthAt allWavelengths (4 * allWavelengths.length - 1) -
          wavelengthAt allWavelengths 0| / (4 * (allWavelengths.length : ℚ) - 1) *
        ((∑ c : Fin 4, g ((allWavelengths.getD texIndex 0) c)) -
          (if texIndex = 0 then g ((allWavelengths.getD texIndex 0) 0) / 2 else 0) -
          (if texIndex = allWavelengths.length - 1 then
            g ((allWavelengths.getD texIndex 0) 3) / 2 else 0)) := by
      intro texIndex ht
      obtain ⟨w0, w1, w2, w3⟩ :=
        weights_diag allWavelengths texIndex hsize (Finset.mem_range.1 ht)
      simp only [Fin.sum_univ_four, dlambda_diag, w0, w1, w2, w3, hcast, hlast, hhead, b0, b3]
      split_ifs <;> ring
    rw [Finset.sum_congr rfl hsplit, ← Finset.mul_sum, Finset.sum_sub_distrib,
      Finset.sum_sub_distrib, sum_groups, Finset.sum_ite_eq', Finset.sum_ite_eq',
      if_pos (Finset.mem_range.2 (by omega)), if_pos (Finset.mem_range.2 (by omega)),
      ← b0, ← b3]
    have h4 : 4 * allWavelengths.length = (4 * allWavelengths.length - 1) + 1 := by omega
    rw [h4, sum_range_ends _ _ (by omega)]
    simp only [Nat.add_sub_cancel]
    ring
  refine ⟨key f, ?_⟩
  have h1 := key fun _ => 1
  simp only [mul_one] at h1
  rw [h1]
  have hcard : (∑ k in Finset.Ico 1 (4 * allWavelengths.length - 1), (1 : ℚ)) =
      4 * (allWavelengths.length : ℚ) - 2 := by
    rw [Finset.sum_const, Nat.card_Ico]
    have : 4 * allWavelengths.length - 1 - 1 = 4 * allWavelengths.length - 2 := by omega
    rw [this, nsmul_eq_mul, mul_one, Nat.cast_sub (by omega)]
    push_cast
    ring
  rw [hcard]
  have hsum : (1 / 2 + (4 * (allWavelengths.length : ℚ) - 2) + 1 / 2) =
      4 * (allWavelengths.length : ℚ) - 1 := by ring
  rw [hsum, div_mul_cancel₀ _ hpos.ne']

/-- C23 for three groups of wavelengths and the function `f(l) = l`. -/
theorem C23_trapezoidal_rule_witness :
    1 ≤ threeGroups.length ∧ threeGroups.length < 2 ^ 32 ∧
    (∑ texIndex in Finset.range threeGroups.length, ∑ c : Fin 4,
        dlambda threeGroups texIndex c c) =
      |wavelengthAt threeGroups (4 * threeGroups.length - 1) - wavelengthAt threeGroups 0| :=
  ⟨by decide, by decide, (C23_trapezoidal_rule threeGroups (fun l => l) (by decide)
    (by decide)).2⟩

namespace Previewer

theorem split_ne_nil (sep : Char) (bytes : List Char) : split sep bytes ≠ [] := by
  induction bytes with
  | nil => simp [split]
  | cons c rest ih =>
    unfold split
    split_ifs
    · simp
    · cases h : split sep rest <;> simp

theorem readLines_ne_nil (pending content : List Char) :
    ∀ line ∈ readLines pending content, line ≠ [] := by
  induction content generalizing pending with
  | nil =>
    intro line hline
    unfold readLines at hline
    split_ifs at hline with h
    · simp at hline
    · simp only [List.mem_singleton] at hline
      subst hline
      simpa using h
  | cons c rest ih =>
    intro line hline
    unfold readLines at hline
    split_ifs at hline with h
    · rcases List.mem_cons.1 hline with e | e
      · subst e
        simp
      · exact ih _ line e
    · exact ih _ line hline

theorem parseLine_of_not_bad (toFloat : List Char → Option FloatValue) (params : Parameters)
    (line : List Char) (h : ¬ BadLine toFloat line) :
    parseLine toFloat params line = Except.ok (update toFloat params line) := by
  unfold parseLine update
  by_cases hn : line = "\n".data
  · rw [if_pos hn, if_pos hn]
  · rw [if_neg hn, if_neg hn]
    have h' := fun x => h ⟨hn, x⟩
    have h1 : ¬ (split ':' line).length ≠ 2 := fun a => h' (Or.inl a)
    rw [if_neg h1]
    by_cases hw : key line = "wavelengths".data
    · have h3 : 0 < (split ',' (value line)).length ∧ (split ',' (value line)).length % 4 = 0 :=
        not_not.1 fun a => h' (Or.inr (Or.inr (Or.inl ⟨hw, a⟩)))
      have hne : (split ',' (value line)).isEmpty = false := by
        cases hs : split ',' (value line) with
        | nil => exact absurd hs (split_ne_nil _ _)
        | cons a l => rfl
      rw [if_pos hw, if_pos hw]
      simp only [hne, h3.2, Bool.false_eq_true, ne_eq, not_true_eq_false, or_self, if_false]
    · have ha : key line = "atmosphere height".data :=
        not_not.1 fun a => h' (Or.inr (Or.inl ⟨hw, a⟩))
      rw [if_neg hw, if_neg hw, if_pos ha, if_pos ha]
      have h4 : ¬ (toFloat (value line) = none ∨
          (toFloat (value line)).any FloatValue.leZero = true) :=
        fun a => h' (Or.inr (Or.inr (Or.inr ⟨ha, a⟩)))
      cases hf : toFloat (value line) with
      | none => exact absurd (Or.inl hf) h4
      | some height =>
        rw [hf] at h4
        have : height.leZero = false := by
          cases hz : height.leZero
          · rfl
          · exact absurd (Or.inr (by simpa using hz)) h4
        simp only [this, Bool.false_eq_true, if_false, Option.getD_some]

theorem parseLine_of_bad (toFloat : List Char → Option FloatValue) (params : Parameters)
    (line : List Char) (h : BadLine toFloat line) :
    ∃ e, parseLine toFloat params line = Except.error e := by
  unfold parseLine
  obtain ⟨hn, h⟩ := h
  simp only [hn, if_false]
  by_cases h1 : (split ':' line).length ≠ 2
  · exact ⟨_, if_pos h1⟩
  · rw [if_neg h1]
    rcases h with h | h | h | h
    · exact absurd h h1
    · rw [if_neg h.1, if_neg h.2]
      exact ⟨_, rfl⟩
    · rw [if_pos h.1]
      have : (split ',' (value line)).isEmpty ∨ (split ',' (value line)).length % 4 ≠ 0 := by
        right
        intro h4
        apply h.2
        refine ⟨?_, h4⟩
        exact List.length_pos.2 (split_ne_nil _ _)
      exact ⟨_, if_pos this⟩
    · by_cases hw : key line = "wavelengths".data
      · rw [hw] at h
        exact absurd h.1 (by decide)
      · rw [if_neg hw, if_pos h.1]
        rcases h.2 with hf | hf
        · rw [hf]
          exact ⟨_, rfl⟩
        · cases hf' : toFloat (value line) with
          | none => exact ⟨_, rfl⟩
          | some height =>
            rw [hf'] at hf
            have : height.leZero = true := by simpa using hf
            simp [this]

theorem parseLines_of_not_bad (toFloat : List Char → Option FloatValue)
    (lines : List (List Char)) (params : Parameters)
    (hne : ∀ line ∈ lines, line ≠ []) (h : ∀ line ∈ lines, ¬ BadLine toFloat line) :
    parseLines toFloat params lines = Except.ok (lines.foldl (update toFloat) params) := by
  induction lines generalizing params with
  | nil => rfl
  | cons line rest ih =>
    unfold parseLines
    rw [if_neg (hne line (List.mem_cons_self _ _)),
      parseLine_of_not_bad toFloat params line (h line (List.mem_cons_self _ _))]
    exact ih _ (fun l hl => hne l (List.mem_cons_of_mem _ hl))
      (fun l hl => h l (List.mem_cons_of_mem _ hl))

theorem parseLines_of_bad (toFloat : List Char → Option FloatValue)
    (lines : List (List Char)) (params : Parameters)
    (hne : ∀ line ∈ lines, line ≠ []) (h : ∃ line ∈ lines, BadLine toFloat line) :
    ∃ e, parseLines toFloat params lines = Except.error e := by
  induction lines generalizing params with
  | nil => simp at h
  | cons line rest ih =>
    unfold parseLines
    rw [if_neg (hne line (List.mem_cons_self _ _))]
    by_cases hb : BadLine toFloat line
    · obtain ⟨e, he⟩ := parseLine_of_bad toFloat params line hb
      rw [he]
      exact ⟨e, rfl⟩
    · rw [parseLine_of_not_bad toFloat params line hb]
      obtain ⟨l, hl, hbl⟩ := h
      rcases List.mem_cons.1 hl with e | e
      · subst e
        exact absurd hbl hb
      · exact ih _ (fun l hl => hne l (List.mem_cons_of_mem _ hl)) ⟨l, e, hbl⟩

theorem update_count (toFloat : List Char → Option FloatValue) (params : Parameters)
    (line : List Char) :
    (update toFloat params line).wavelengthSetCount =
      if isEntry "wavelengths" line then (split ',' (value line)).length / 4
      else params.wavelengthSetCount := by
  unfold update isEntry
  by_cases hn : line = "\n".data
  · simp [hn]
  · by_cases hw : key line = "wavelengths".data
    · simp [hn, hw]
    · by_cases ha : key line = "atmosphere height".data <;> simp [hn, hw, ha]

theorem update_height (toFloat : List Char → Option FloatValue) (params : Parameters)
    (line : List Char) :
    (update toFloat params line).atmosphereHeight =
      if isEntry "atmosphere height" line then
        (toFloat (value line)).getD params.atmosphereHeight
      else params.atmosphereHeight := by
  unfold update isEntry
  by_cases hn : line = "\n".data
  · simp [hn]
  · by_cases hw : key line = "wavelengths".data
    · have : ¬ key line = "atmosphere height".data := by
        rw [hw]
        decide
      simp [hn, hw, this]
    · by_cases ha : key line = "atmosphere height".data <;> simp [hn, hw, ha]

theorem foldl_update_count (toFloat : List Char → Option FloatValue)
    (lines : List (List Char)) (params : Parameters) :
    (lines.foldl (update toFloat) params).wavelengthSetCount =
      (((lines.filter (isEntry "wavelengths")).getLast?).map
        fun line => (split ',' (value line)).length / 4).getD params.wavelengthSetCount := by
  induction lines using List.reverseRecOn with
  | nil => rfl
  | append_singleton lines line ih =>
    rw [List.foldl_append, List.filter_append, List.foldl_cons, List.foldl_nil, update_count]
    cases he : isEntry "wavelengths" line
    · rw [List.filter_cons_of_neg (by simp [he]), List.filter_nil, List.append_nil, ih]
      simp
    · rw [List.filter_cons_of_pos he, List.filter_nil, List.getLast?_append]
      simp

theorem foldl_update_height (toFloat : List Char → Option FloatValue)
    (lines : List (List Char)) (params : Parameters)
    (h : ∀ line ∈ lines, ¬ BadLine toFloat line) :
    (lines.foldl (update toFloat) params).atmosphereHeight =
      (((lines.filter (isEntry "atmosphere height")).getLast?).bind
        fun line => toFloat (value line)).getD params.atmosphereHeight := by
  induction lines using List.reverseRecOn with
  | nil => rfl
  | append_singleton lines line ih =>
    have ih' := ih fun l hl => h l (List.mem_append_left _ hl)
    rw [List.foldl_append, List.filter_append, List.foldl_cons, List.foldl_nil, update_height]
    cases he : isEntry "atmosphere height" line
    · rw [List.filter_cons_of_neg (by simp [he]), List.filter_nil, List.append_nil, ih']
      simp
    · rw [List.filter_cons_of_pos he, List.filter_nil, List.getLast?_append]
      have hgood := h line (List.mem_append_right _ (List.mem_singleton_self _))
      unfold isEntry at he
      simp only [Bool.and_eq_true, decide_eq_true_eq] at he
      have hf : toFloat (value line) ≠ none := fun hnone =>
        hgood ⟨he.1, Or.inr (Or.inr (Or.inr ⟨he.2, Or.inl hnone⟩))⟩
      cases hv : toFloat (value line) with
      | none => exact absurd hv hf
      | some height => simp [hv]

theorem parseLines_cons (toFloat : List Char → Option FloatValue) (params : Parameters)
    (line : List Char) (rest : List (List Char)) :
    parseLines toFloat params (line :: rest) =
      if line = [] then Except.ok params
      else
        match parseLine toFloat params line with
        | Except.error e => Except.error e
        | Except.ok next => parseLines toFloat next rest := rfl

theorem parseLines_filter (toFloat : List Char → Option FloatValue)
    (lines : List (List Char)) (params : Parameters) :
    parseLines toFloat params lines =
      parseLines toFloat params (lines.filter fun line => decide (line ≠ "\n".data)) := by
  induction lines generalizing params with
  | nil => rfl
  | cons line rest ih =>
    by_cases hn : line = "\n".data
    · rw [List.filter_cons_of_neg (by simp [hn])]
      subst hn
      rw [parseLines_cons, if_neg (by decide)]
      have : parseLine toFloat params "\n".data = Except.ok params := by
        unfold parseLine
        rw [if_pos rfl]
      rw [this]
      exact ih params
    · rw [List.filter_cons_of_pos (by simp [hn]), parseLines_cons, parseLines_cons]
      by_cases he : line = []
      · rw [if_pos he, if_pos he]
      · rw [if_neg he, if_neg he]
        cases parseLine toFloat params line with
        | error e => rfl
        | ok next => exact ih next

theorem parseParams_of_bad (toFloat : List Char → Option FloatValue) (content : List Char)
    (h : ∃ line ∈ readLines [] content, BadLine toFloat line) :
    ∃ e, parseParams toFloat content = Except.error e := by
  obtain ⟨e, he⟩ := parseLines_of_bad toFloat _ Parameters.fresh (readLines_ne_nil [] content) h
  exact ⟨e, by rw [parseParams, he]; rfl⟩

theorem parseParams_of_not_bad (toFloat : List Char → Option FloatValue) (content : List Char)
    (h : ¬ ∃ line ∈ readLines [] content, BadLine toFloat line) :
    parseParams toFloat content =
      checkFound ⟨(((entries "wavelengths" content).getLast?).map
          fun line => (split ',' (value line)).length / 4).getD 0,
        (((entries "atmosphere height" content).getLast?).bind
          fun line => toFloat (value line)).getD FloatValue.nan⟩ := by
  have h' : ∀ line ∈ readLines [] content, ¬ BadLine toFloat line :=
    fun line hl hb => h ⟨line, hl, hb⟩
  rw [parseParams, parseLines_of_not_bad toFloat _ _ (readLines_ne_nil [] content) h']
  have hc := foldl_update_count toFloat (readLines [] content) Parameters.fresh
  have hh := foldl_update_height toFloat (readLines [] content) Parameters.fresh h'
  show checkFound _ = _
  congr 1
  cases hp : List.foldl (update toFloat) Parameters.fresh (readLines [] content) with
  | mk count height =>
    rw [hp] at hc hh
    simp only at hc hh
    rw [hc, hh]
    rfl

theorem entry_count_pos (toFloat : List Char → Option FloatValue) (content : List Char)
    (h : ¬ ∃ line ∈ readLines [] content, BadLine toFloat line) (line : List Char)
    (hl : (entries "wavelengths" content).getLast? = some line) :
    1 ≤ (split ',' (value line)).length / 4 := by
  have hmem : line ∈ entries "wavelengths" content := List.mem_of_getLast?_eq_some hl
  obtain ⟨hmem, he⟩ := List.mem_filter.1 hmem
  unfold isEntry at he
  simp only [Bool.and_eq_true, decide_eq_true_eq] at he
  have h3 : 0 < (split ',' (value line)).length ∧ (split ',' (value line)).length % 4 = 0 :=
    not_not.1 fun a => h ⟨line, hmem, he.1, Or.inr (Or.inr (Or.inl ⟨he.2, a⟩))⟩
  omega

theorem entry_height (toFloat : List Char → Option FloatValue) (content : List Char)
    (h : ¬ ∃ line ∈ readLines [] content, BadLine toFloat line) (line : List Char)
    (hl : (entries "atmosphere height" content).getLast? = some line) :
    ∃ height, toFloat (value line) = some height ∧ height.leZero = false := by
  have hmem : line ∈ entries "atmosphere height" content := List.mem_of_getLast?_eq_some hl
  obtain ⟨hmem, he⟩ := List.mem_filter.1 hmem
  unfold isEntry at he
  simp only [Bool.and_eq_true, decide_eq_true_eq] at he
  have h4 : ¬ (toFloat (value line) = none ∨
      (toFloat (value line)).any FloatValue.leZero = true) :=
    fun a => h ⟨line, hmem, he.1, Or.inr (Or.inr (Or.inr ⟨he.2, a⟩))⟩
  cases hf : toFloat (value line) with
  | none => exact absurd (Or.inl hf) h4
  | some height =>
    rw [hf] at h4
    refine ⟨height, rfl, ?_⟩
    cases hz : height.leZero
    · rfl
    · exact absurd (Or.inr (by simpa using hz)) h4

theorem FloatValue.pos_of_not_leZero (x : FloatValue) (h1 : x.leZero = false)
    (h2 : x.isnan = false) : x.pos = true := by
  cases x with
  | nan => simp [FloatValue.isnan] at h2
  | negInf => simp [FloatValue.leZero] at h1
  | finite x =>
    simp only [FloatValue.leZero, decide_eq_false_iff_not, not_le] at h1
    simpa [FloatValue.pos] using h1
  | posInf => rfl

theorem FloatValue.eq_nan_of_isnan (x : FloatValue) (h : x.isnan = true) :
    x = FloatValue.nan := by
  cases x <;> simp_all [FloatValue.isnan]

/-- C27, as the code has it: `parseParams` fails exactly when one of the listed conditions
holds (a line other than a bare newline that does not split on `:` into two parts, has an
unknown key, is a wavelengths entry without a positive multiple of 4 fields, or is an
atmosphere height entry whose value does not parse or is `<= 0`; no wavelengths entry; no
atmosphere height entry), or when the value of the last atmosphere height entry parses to a
value that is not a number; in every other case it succeeds. -/
theorem C27_parseParams_fails_iff (toFloat : List Char → Option FloatValue)
    (content : List Char) :
    ((∃ e, parseParams toFloat content = Except.error e) ↔
      (ListedFailure toFloat content ∨ LastHeightIsNaN toFloat content)) ∧
    ((∃ params, parseParams toFloat content = Except.ok params) ↔
      ¬ (ListedFailure toFloat content ∨ LastHeightIsNaN toFloat content)) := by
  have key : (∃ e, parseParams toFloat content = Except.error e) ↔
      (ListedFailure toFloat content ∨ LastHeightIsNaN toFloat content) := by
    by_cases hb : ∃ line ∈ readLines [] content, BadLine toFloat line
    · exact ⟨fun _ => Or.inl (Or.inl hb), fun _ => parseParams_of_bad toFloat content hb⟩
    · rw [parseParams_of_not_bad toFloat content hb]
      unfold ListedFailure LastHeightIsNaN checkFound
      cases hw : (entries "wavelengths" content).getLast? with
      | none =>
        have : entries "wavelengths" content = [] := List.getLast?_eq_none_iff.1 hw
        exact ⟨fun _ => Or.inl (Or.inr (Or.inl this)), fun _ => ⟨_, rfl⟩⟩
      | some wl =>
        have hpos := entry_count_pos toFloat content hb wl hw
        have hwne : entries "wavelengths" content ≠ [] := by
          intro hnil
          rw [hnil] at hw
          cases hw
        have hcount : ¬ (split ',' (value wl)).length / 4 = 0 := by omega
        simp only [Option.map_some', Option.getD_some, hcount, if_false]
        cases ha : (entries "atmosphere height" content).getLast? with
        | none =>
          have : entries "atmosphere height" content = [] := List.getLast?_eq_none_iff.1 ha
          exact ⟨fun _ => Or.inl (Or.inr (Or.inr this)), fun _ => ⟨_, rfl⟩⟩
        | some ah =>
          obtain ⟨height, hf, hz⟩ := entry_height toFloat content hb ah ha
          have hane : entries "atmosphere height" content ≠ [] := by
            intro hnil
            rw [hnil] at ha
            cases ha
          simp only [Option.some_bind, hf, Option.getD_some]
          cases hnan : height.isnan
          · simp only [Bool.false_eq_true, if_false]
            constructor
            · rintro ⟨e, he⟩
              cases he
            · rintro (h | ⟨line, hline, hval⟩)
              · rcases h with h | h | h
                · exact absurd h hb
                · exact absurd h hwne
                · exact absurd h hane
              · cases hline
                rw [hf] at hval
                cases hval
                cases hnan
          · simp only [if_true]
            refine ⟨fun _ => Or.inr ⟨ah, rfl, ?_⟩, fun _ => ⟨_, rfl⟩⟩
            rw [hf, FloatValue.eq_nan_of_isnan height hnan]
  refine ⟨key, ?_⟩
  rw [← key]
  cases parseParams toFloat content with
  | error e => simp
  | ok params => simp

/-- C27, counterexample: a file whose last atmosphere height entry has the value `nan`, with
a conversion that parses `nan` as Qt does. None of the listed conditions holds (the value
parses as a float, and a value that is not a number is not `<= 0`), yet `parseParams` fails,
with the message for a missing atmosphere height. -/
theorem C27_counterexample :
    ¬ ListedFailure sampleToFloat nanParams ∧
    parseParams sampleToFloat nanParams = Except.error DataLoadError.noAtmosphereHeight :=
  ⟨by decide, rfl⟩

/-- C27, witness: a file with one wavelengths entry of four fields and a height of 120000
is parsed with success, and none of the conditions of failure holds for it. -/
theorem C27_parseParams_fails_iff_witness :
    ¬ (ListedFailure sampleToFloat sampleParams ∨ LastHeightIsNaN sampleToFloat sampleParams) ∧
    ∃ params, parseParams sampleToFloat sampleParams = Except.ok params :=
  ⟨(fun h => by
      obtain ⟨e, he⟩ := (C27_parseParams_fails_iff sampleToFloat sampleParams).1.2 h
      have hok : parseParams sampleToFloat sampleParams =
          Except.ok ⟨1, FloatValue.finite 120000⟩ := rfl
      rw [hok] at he
      cases he),
    ⟨⟨1, FloatValue.finite 120000⟩, rfl⟩⟩

/-- C28: whenever `parseParams` returns normally, the file has a last wavelengths entry and a
last atmosphere height entry; `wavelengthSetCount` is the number of comma-separated fields of
the former divided by 4 and is at least 1; `atmosphereHeight` is the value of the latter and
is greater than 0. Lines that are a bare newline are ignored: the loop gives the same result
on the lines without them. The wavelength fields are only counted: the count does not depend
on the conversion of numbers. -/
theorem C28_parseParams_result (toFloat : List Char → Option FloatValue)
    (content : List Char) (params : Parameters)
    (h : parseParams toFloat content = Except.ok params) :
    (∃ wl, (entries "wavelengths" content).getLast? = some wl ∧
      params.wavelengthSetCount = (split ',' (value wl)).length / 4) ∧
    1 ≤ params.wavelengthSetCount ∧
    (∃ ah, (entries "atmosphere height" content).getLast? = some ah ∧
      toFloat (value ah) = some params.atmosphereHeight) ∧
    params.atmosphereHeight.pos = true ∧
    parseParams toFloat content =
      (parseLines toFloat Parameters.fresh
        ((readLines [] content).filter fun line => decide (line ≠ "\n".data))).bind
        checkFound ∧
    (∀ (otherToFloat : List Char → Option FloatValue) (other : Parameters),
      parseParams otherToFloat content = Except.ok other →
      other.wavelengthSetCount = params.wavelengthSetCount) := by
  have main : ∀ (toFloat : List Char → Option FloatValue) (params : Parameters),
      parseParams toFloat content = Except.ok params →
      (∃ wl, (entries "wavelengths" content).getLast? = some wl ∧
        params.wavelengthSetCount = (split ',' (value wl)).length / 4 ∧
        1 ≤ params.wavelengthSetCount) ∧
      (∃ ah, (entries "atmosphere height" content).getLast? = some ah ∧
        toFloat (value ah) = some params.atmosphereHeight) ∧
      params.atmosphereHeight.pos = true := by
    intro toFloat params h
    have hb : ¬ ∃ line ∈ readLines [] content, BadLine toFloat line := by
      intro hb
      obtain ⟨e, he⟩ := parseParams_of_bad toFloat content hb
      rw [he] at h
      cases h
    rw [parseParams_of_not_bad toFloat content hb] at h
    unfold checkFound at h
    cases hw : (entries "wavelengths" content).getLast? with
    | none =>
      rw [hw] at h
      cases h
    | some wl =>
      have hpos := entry_count_pos toFloat content hb wl hw
      have hcount : ¬ (split ',' (value wl)).length / 4 = 0 := by omega
      rw [hw] at h
      simp only [Option.map_some', Option.getD_some, hcount, if_false] at h
      cases ha : (entries "atmosphere height" content).getLast? with
      | none =>
        rw [ha] at h
        cases h
      | some ah =>
        obtain ⟨height, hf, hz⟩ := entry_height toFloat content hb ah ha
        rw [ha] at h
        simp only [Option.some_bind, hf, Option.getD_some] at h
        cases hnan : height.isnan
        · rw [hnan] at h
          simp only [Bool.false_eq_true, if_false, Except.ok.injEq] at h
          subst h
          exact ⟨⟨wl, rfl, rfl, hpos⟩, ⟨ah, rfl, hf⟩,
            FloatValue.pos_of_not_leZero height hz hnan⟩
        · rw [hnan] at h
          cases h
  obtain ⟨⟨wl, hwl, hcount, hpos⟩, hah, hheight⟩ := main toFloat params h
  refine ⟨⟨wl, hwl, hcount⟩, hpos, hah, hheight, ?_, ?_⟩
  · rw [parseParams, parseLines_filter]
  · intro otherToFloat other hother
    obtain ⟨⟨wl2, hwl2, hcount2, _⟩, _, _⟩ := main otherToFloat other hother
    rw [hwl] at hwl2
    cases hwl2
    rw [hcount2, hcount]

/-- C28, witness: the file with the fields `400,500,600,700`, an empty line and the height
120000 gives one set of wavelengths and the height 120000, although the conversion used
converts none of the four fields. -/
theorem C28_parseParams_result_witness :
    parseParams sampleToFloat sampleParams = Except.ok ⟨1, FloatValue.finite 120000⟩ ∧
    sampleToFloat "400".data = none ∧
    (1 ≤ (1 : Nat) ∧ (FloatValue.finite 120000).pos = true) :=
  ⟨rfl, by decide,
    have h := C28_parseParams_result sampleToFloat sampleParams ⟨1, FloatValue.finite 120000⟩
      rfl
    ⟨h.2.1, h.2.2.2.1⟩⟩

end Previewer

theorem tokens_nonword (isWord : Char → Bool) (c : Char) (rest : List Char)
    (h : isWord c = false) : tokens isWord (c :: rest) = [c] :: tokens isWord rest := by
  simp [tokens, h]

theorem tokens_run (isWord : Char → Bool) (w rest : List Char) (hne : w ≠ [])
    (hw : ∀ c ∈ w, isWord c = true) (hr : isWordAt isWord rest.head? = false) :
    tokens isWord (w ++ rest) = w :: tokens isWord rest := by
  induction w with
  | nil => exact absurd rfl hne
  | cons c w ih =>
    have hc := hw c (List.mem_cons_self _ _)
    cases w with
    | nil =>
      cases rest with
      | nil => simp [tokens, hc]
      | cons d r =>
        have hd : isWord d = false := hr
        simp [tokens, hc, hd]
    | cons c2 w2 =>
      have ih' := ih (by simp) (fun x hx => hw x (List.mem_cons_of_mem _ hx))
      have hc2 := hw c2 (by simp)
      show tokens isWord (c :: (c2 :: w2 ++ rest)) = _
      rw [tokens, if_pos hc, ih']
      simp [hc2]

theorem tokens_flatten (isWord : Char → Bool) (text : List Char) :
    (tokens isWord text).flatten = text := by
  induction text with
  | nil => rfl
  | cons c rest ih =>
    unfold tokens
    split_ifs with hc
    · split
      · rename_i d word others heq
        rw [heq] at ih
        split_ifs <;> simp_all
      · simp [ih]
    · simp [ih]

theorem run_split (isWord : Char → Bool) (c : Char) (rest : List Char)
    (hc : isWord c = true) :
    ∃ w r, c :: rest = w ++ r ∧ w ≠ [] ∧ (∀ x ∈ w, isWord x = true) ∧
      isWordAt isWord r.head? = false ∧ r.length ≤ rest.length := by
  induction rest generalizing c with
  | nil => exact ⟨[c], [], rfl, by simp, by simpa using hc, rfl, le_refl _⟩
  | cons d rest ih =>
    by_cases hd : isWord d = true
    · obtain ⟨w, r, he, _, hw, hr, hl⟩ := ih d hd
      refine ⟨c :: w, r, by rw [he]; rfl, by simp, ?_, hr, ?_⟩
      · intro x hx
        rcases List.mem_cons.1 hx with e | e
        · rw [e]
          exact hc
        · exact hw x e
      · simp only [List.length_cons]
        omega
    · refine ⟨[c], d :: rest, rfl, by simp, by simpa using hc, ?_, le_refl _⟩
      simpa [isWordAt] using hd

theorem replaceFrom_skip (isWord : Char → Bool) (pattern : Pattern) (after : List Char)
    (skip : Nat) (prev : Option Char) (text : List Char) :
    replaceFrom isWord pattern after skip prev text =
      replaceFrom isWord pattern after 0 prev (text.drop skip) := by
  induction skip generalizing text with
  | zero => rfl
  | succ k ih =>
    cases text with
    | nil => rfl
    | cons c rest => exact ih rest

theorem replaceFrom_nil (isWord : Char → Bool) (pattern : Pattern) (after : List Char)
    (skip : Nat) (prev : Option Char) :
    replaceFrom isWord pattern after skip prev [] = [] := by
  cases skip <;> rfl

theorem replaceFrom_no_match (isWord : Char → Bool) (pattern : Pattern) (after : List Char)
    (prev : Option Char) (c : Char) (rest : List Char)
    (h : matchesAt isWord pattern prev (c :: rest) = false) :
    replaceFrom isWord pattern after 0 prev (c :: rest) =
      c :: replaceFrom isWord pattern after 0 (some c) rest := by
  rw [replaceFrom, if_neg (by simp [h])]

theorem replaceFrom_match (isWord : Char → Bool) (pattern : Pattern) (after : List Char)
    (prev : Option Char) (text : List Char) (hne : text ≠ []) (hl : pattern.literal ≠ [])
    (h : matchesAt isWord pattern prev text = true) :
    replaceFrom isWord pattern after 0 prev text =
      after ++ replaceFrom isWord pattern after 0 (resumeAfter pattern after prev)
        (text.drop pattern.literal.length) := by
  cases text with
  | nil => exact absurd rfl hne
  | cons c rest =>
    rw [replaceFrom, if_pos h, replaceFrom_skip]
    cases hlen : pattern.literal.length with
    | zero => exact absurd (List.length_eq_zero.1 hlen) hl
    | succ k => rfl

theorem literal_head (pattern : Pattern) (hne : pattern.name ≠ []) :
    ∃ m tail, pattern.literal = m :: tail ∧ m ∈ pattern.name := by
  unfold Pattern.literal
  cases hn : pattern.name with
  | nil => exact absurd hn hne
  | cons m tail => exact ⟨m, tail ++ pattern.suffix, rfl, List.mem_cons_self _ _⟩

theorem matchesAt_nonword (isWord : Char → Bool) (pattern : Pattern) (prev : Option Char)
    (c : Char) (rest : List Char) (hne : pattern.name ≠ [])
    (hM : ∀ x ∈ pattern.name, isWord x = true) (hc : isWord c = false) :
    matchesAt isWord pattern prev (c :: rest) = false := by
  obtain ⟨m, tail, hlit, hm⟩ := literal_head pattern hne
  have hmc : m ≠ c := by
    intro e
    rw [← e, hM m hm] at hc
    cases hc
  unfold matchesAt
  rw [hlit]
  simp [List.isPrefixOf, hmc]

theorem matchesAt_midword (isWord : Char → Bool) (pattern : Pattern) (prev : Option Char)
    (c : Char) (rest : List Char) (hp : isWordAt isWord prev = true)
    (hc : isWord c = true) :
    matchesAt isWord pattern prev (c :: rest) = false := by
  have hb : atBoundary isWord prev (c :: rest).head? = false := by
    unfold atBoundary
    rw [hp]
    show (true != isWord c) = false
    rw [hc]
    rfl
  unfold matchesAt
  rw [hb]
  rfl

/-- At a character that is not of a word the search does not depend on what came before. -/
theorem replaceFrom_boundary (isWord : Char → Bool) (pattern : Pattern) (after : List Char)
    (prev : Option Char) (rest : List Char) (hne : pattern.name ≠ [])
    (hM : ∀ x ∈ pattern.name, isWord x = true) (hr : isWordAt isWord rest.head? = false) :
    replaceFrom isWord pattern after 0 prev rest =
      replaceFrom isWord pattern after 0 none rest := by
  cases rest with
  | nil => rfl
  | cons d r =>
    have hd : isWord d = false := hr
    rw [replaceFrom_no_match _ _ _ _ _ _ (matchesAt_nonword isWord pattern prev d r hne hM hd),
      replaceFrom_no_match _ _ _ _ _ _ (matchesAt_nonword isWord pattern none d r hne hM hd)]

/-- Inside a word nothing is replaced. -/
theorem replaceFrom_midword (isWord : Char → Bool) (pattern : Pattern) (after : List Char)
    (prev : Option Char) (w rest : List Char) (hne : pattern.name ≠ [])
    (hM : ∀ x ∈ pattern.name, isWord x = true) (hp : isWordAt isWord prev = true)
    (hw : ∀ x ∈ w, isWord x = true) (hr : isWordAt isWord rest.head? = false) :
    replaceFrom isWord pattern after 0 prev (w ++ rest) =
      w ++ replaceFrom isWord pattern after 0 none rest := by
  induction w generalizing prev with
  | nil => exact replaceFrom_boundary isWord pattern after prev rest hne hM hr
  | cons c w ih =>
    have hc := hw c (List.mem_cons_self _ _)
    show replaceFrom isWord pattern after 0 prev (c :: (w ++ rest)) = _
    rw [replaceFrom_no_match _ _ _ _ _ _ (matchesAt_midword isWord pattern prev c _ hp hc),
      ih (some c) hc (fun x hx => hw x (List.mem_cons_of_mem _ hx))]
    rfl

/-- A word of a text that is not replaced at its start is kept. -/
theorem replaceFrom_kept (isWord : Char → Bool) (pattern : Pattern) (after : List Char)
    (prev : Option Char) (w rest : List Char) (hne : pattern.name ≠ [])
    (hM : ∀ x ∈ pattern.name, isWord x = true) (hwne : w ≠ [])
    (hw : ∀ x ∈ w, isWord x = true) (hr : isWordAt isWord rest.head? = false)
    (h : matchesAt isWord pattern prev (w ++ rest) = false) :
    replaceFrom isWord pattern after 0 prev (w ++ rest) =
      w ++ replaceFrom isWord pattern after 0 none rest := by
  cases w with
  | nil => exact absurd rfl hwne
  | cons c w =>
    have hc := hw c (List.mem_cons_self _ _)
    have h' : matchesAt isWord pattern prev (c :: (w ++ rest)) = false := h
    show replaceFrom isWord pattern after 0 prev (c :: (w ++ rest)) = _
    rw [replaceFrom_no_match _ _ _ _ _ _ h',
      replaceFrom_midword isWord pattern after (some c) w rest hne hM hc
        (fun x hx => hw x (List.mem_cons_of_mem _ hx)) hr]
    rfl

/-- A run of characters of a word that starts a text in which a word ends after `w`. -/
theorem prefix_run (isWord : Char → Bool) (name w rest : List Char)
    (hM : ∀ x ∈ name, isWord x = true) (hr : isWordAt isWord rest.head? = false)
    (h : name <+: w ++ rest) : name <+: w := by
  rcases Nat.le_total name.length w.length with hle | hle
  · exact List.prefix_of_prefix_length_le h (List.prefix_append w rest) hle
  · obtain ⟨t, ht⟩ := List.prefix_of_prefix_length_le (List.prefix_append w rest) h hle
    obtain ⟨u, hu⟩ := h
    cases t with
    | nil =>
      rw [List.append_nil] at ht
      rw [ht]
    | cons d t =>
      exfalso
      have hd : isWord d = true := hM d (by rw [← ht]; simp)
      rw [← ht, List.append_assoc] at hu
      have := List.append_cancel_left hu
      rw [← this] at hr
      simp [isWordAt, hd] at hr

theorem getLast?_word (isWord : Char → Bool) (name : List Char) (hne : name ≠ [])
    (hM : ∀ x ∈ name, isWord x = true) : isWordAt isWord name.getLast? = true := by
  rw [List.getLast?_eq_getLast _ hne]
  exact hM _ (List.getLast_mem hne)

theorem atBoundary_enter (isWord : Char → Bool) (prev : Option Char) (w rest : List Char)
    (hp : isWordAt isWord prev = false) (hwne : w ≠ []) (hw : ∀ x ∈ w, isWord x = true) :
    atBoundary isWord prev (w ++ rest).head? = true := by
  cases w with
  | nil => exact absurd rfl hwne
  | cons c w =>
    unfold atBoundary
    rw [hp]
    show (false != isWord c) = true
    rw [hw c (List.mem_cons_self _ _)]
    rfl

theorem atBoundary_leave (isWord : Char → Bool) (w : List Char) (next : Option Char)
    (hwne : w ≠ []) (hw : ∀ x ∈ w, isWord x = true) :
    atBoundary isWord w.getLast? next = !isWordAt isWord next := by
  unfold atBoundary
  rw [getLast?_word isWord w hwne hw]
  cases isWordAt isWord next <;> rfl

theorem matchesAt_word (isWord : Char → Bool) (name : List Char) (captures : Bool)
    (prev : Option Char) (w rest : List Char) (hne : name ≠ [])
    (hM : ∀ x ∈ name, isWord x = true) (hp : isWordAt isWord prev = false) (hwne : w ≠ [])
    (hw : ∀ x ∈ w, isWord x = true) (hr : isWordAt isWord rest.head? = false) :
    matchesAt isWord ⟨name, [], true, captures⟩ prev (w ++ rest) = decide (w = name) := by
  have hlit : (Pattern.mk name [] true captures).literal = name := List.append_nil name
  unfold matchesAt
  rw [hlit, atBoundary_enter isWord prev w rest hp hwne hw,
    atBoundary_leave isWord name _ hne hM]
  by_cases he : w = name
  · subst he
    have hpre : w.isPrefixOf (w ++ rest) = true :=
      List.isPrefixOf_iff_prefix.2 (List.prefix_append w rest)
    rw [hpre, List.drop_left, hr, decide_eq_true rfl]
    rfl
  · rw [decide_eq_false he]
    cases hpre : name.isPrefixOf (w ++ rest) with
    | false => rfl
    | true =>
      obtain ⟨t, ht⟩ := prefix_run isWord name w rest hM hr (List.isPrefixOf_iff_prefix.1 hpre)
      cases t with
      | nil =>
        rw [List.append_nil] at ht
        exact absurd ht.symm he
      | cons d t =>
        have hd : isWord d = true := hw d (by rw [← ht]; simp)
        rw [← ht, List.append_assoc, List.drop_left]
        show (true && true && (!true || !isWord d)) = false
        rw [hd]
        rfl

theorem matchesAt_followed (isWord : Char → Bool) (name : List Char) (next : Char)
    (prev : Option Char) (w rest : List Char) (hne : name ≠ [])
    (hM : ∀ x ∈ name, isWord x = true) (hnext : isWord next = false)
    (hp : isWordAt isWord prev = false) (hwne : w ≠ [])
    (hw : ∀ x ∈ w, isWord x = true) (hr : isWordAt isWord rest.head? = false) :
    matchesAt isWord ⟨name, [next], false, false⟩ prev (w ++ rest) =
      decide (w = name ∧ rest.head? = some next) := by
  have hlit : (Pattern.mk name [next] false false).literal = name ++ [next] := rfl
  unfold matchesAt
  rw [hlit, atBoundary_enter isWord prev w rest hp hwne hw]
  show (true && (name ++ [next]).isPrefixOf (w ++ rest) && true) = _
  rw [Bool.and_true, Bool.true_and]
  by_cases he : w = name ∧ rest.head? = some next
  · rw [decide_eq_true he]
    obtain ⟨he, hn⟩ := he
    subst he
    cases rest with
    | nil => cases hn
    | cons d r =>
      simp only [List.head?_cons, Option.some.injEq] at hn
      subst hn
      exact List.isPrefixOf_iff_prefix.2 ⟨r, by simp⟩
  · rw [decide_eq_false he]
    cases hpre : (name ++ [next]).isPrefixOf (w ++ rest) with
    | false => rfl
    | true =>
      exfalso
      have hpre := List.isPrefixOf_iff_prefix.1 hpre
      obtain ⟨t, ht⟩ := prefix_run isWord name w rest hM hr
        ((List.prefix_append name [next]).trans hpre)
      obtain ⟨u, hu⟩ := hpre
      rw [← ht, List.append_assoc, List.append_assoc] at hu
      have hu := List.append_cancel_left hu
      cases t with
      | nil =>
        rw [List.append_nil] at ht
        apply he
        refine ⟨ht.symm, ?_⟩
        rw [List.nil_append] at hu
        rw [← hu]
        rfl
      | cons d t =>
        have hd : isWord d = true := hw d (by rw [← ht]; simp)
        simp only [List.singleton_append, List.cons_append, List.cons.injEq] at hu
        rw [← hu.1, hnext] at hd
        cases hd

theorem replaceFrom_word_run (isWord : Char → Bool) (name after : List Char)
    (captures : Bool) (prev : Option Char) (w rest : List Char) (hne : name ≠ [])
    (hM : ∀ x ∈ name, isWord x = true) (hp : isWordAt isWord prev = false) (hwne : w ≠ [])
    (hw : ∀ x ∈ w, isWord x = true) (hr : isWordAt isWord rest.head? = false) :
    replaceFrom isWord ⟨name, [], true, captures⟩ after 0 prev (w ++ rest) =
      (if w = name then after else w) ++
        replaceFrom isWord ⟨name, [], true, captures⟩ after 0 none rest := by
  have hm := matchesAt_word isWord name captures prev w rest hne hM hp hwne hw hr
  have hlit : (Pattern.mk name [] true captures).literal = name := List.append_nil name
  by_cases he : w = name
  · rw [decide_eq_true he] at hm
    rw [if_pos he, replaceFrom_match _ _ _ _ _ (by simp [hwne]) (by rw [hlit]; exact hne) hm,
      hlit, he, List.drop_left]
    rw [replaceFrom_boundary isWord _ after _ rest hne hM hr]
  · rw [decide_eq_false he] at hm
    rw [if_neg he]
    exact replaceFrom_kept isWord _ after prev w rest hne hM hwne hw hr hm

theorem substituteWords_cons (name after word : List Char) (words : List (List Char)) :
    substituteWords name after (word :: words) =
      (if word = name then after else word) ++ substituteWords name after words := by
  simp [substituteWords]

/-- For a pattern `\bNAME\b`, with or without a capturing group, the loop of the
replacement is the whole-word substitution, wherever it starts after a character that is not
of a word. -/
theorem replaceFrom_word (isWord : Char → Bool) (name after : List Char) (captures : Bool)
    (hne : name ≠ []) (hM : ∀ x ∈ name, isWord x = true) (n : Nat) :
    ∀ (text : List Char) (prev : Option Char), text.length ≤ n →
      isWordAt isWord prev = false →
      replaceFrom isWord ⟨name, [], true, captures⟩ after 0 prev text =
        substituteWords name after (tokens isWord text) := by
  induction n with
  | zero =>
    intro text prev hlen _
    rw [List.length_eq_zero.1 (Nat.le_zero.1 hlen)]
    rfl
  | succ n ih =>
    intro text prev hlen hp
    cases text with
    | nil => rfl
    | cons c rest =>
      have hlen' : rest.length ≤ n := by
        simp only [List.length_cons] at hlen
        omega
      cases hc : isWord c with
      | true =>
        obtain ⟨w, r, he, hwne, hw, hr, hl⟩ := run_split isWord c rest hc
        rw [he, replaceFrom_word_run isWord name after captures prev w r hne hM hp hwne hw hr,
          tokens_run isWord w r hwne hw hr, substituteWords_cons,
          ih r none (hl.trans hlen') rfl]
      | false =>
        have hcne : [c] ≠ name := by
          intro e
          have hword := hM c (by rw [← e]; simp)
          rw [hc] at hword
          cases hword
        rw [replaceFrom_no_match _ _ _ _ _ _
            (matchesAt_nonword isWord _ prev c rest hne hM hc),
          tokens_nonword isWord c rest hc, substituteWords_cons, if_neg hcne,
          ih rest (some c) hlen' hc]
        rfl

theorem tokens_head_singleton (isWord : Char → Bool) (rest : List Char) (next : Char)
    (hr : isWordAt isWord rest.head? = false) :
    (tokens isWord rest).head? = some [next] ↔ rest.head? = some next := by
  cases rest with
  | nil => simp [tokens]
  | cons d r =>
    have hd : isWord d = false := hr
    rw [tokens_nonword isWord d r hd]
    simp

theorem replaceFrom_followed_run (isWord : Char → Bool) (name after : List Char)
    (next : Char) (prev : Option Char) (w rest : List Char) (hne : name ≠ [])
    (hM : ∀ x ∈ name, isWord x = true) (hnext : isWord next = false)
    (hp : isWordAt isWord prev = false) (hwne : w ≠ [])
    (hw : ∀ x ∈ w, isWord x = true) (hr : isWordAt isWord rest.head? = false) :
    replaceFrom isWord ⟨name, [next], false, false⟩ after 0 prev (w ++ rest) =
      if w = name ∧ rest.head? = some next then
        after ++ replaceFrom isWord ⟨name, [next], false, false⟩ after 0 (some next) rest.tail
      else w ++ replaceFrom isWord ⟨name, [next], false, false⟩ after 0 none rest := by
  have hm := matchesAt_followed isWord name next prev w rest hne hM hnext hp hwne hw hr
  have hlit : (Pattern.mk name [next] false false).literal = name ++ [next] := rfl
  by_cases he : w = name ∧ rest.head? = some next
  · rw [decide_eq_true he] at hm
    rw [if_pos he, replaceFrom_match _ _ _ _ _ (by simp [hwne]) (by rw [hlit]; simp) hm, hlit]
    obtain ⟨he, hn⟩ := he
    subst he
    cases rest with
    | nil => cases hn
    | cons d r =>
      simp only [List.head?_cons, Option.some.injEq] at hn
      subst hn
      have hdrop : List.drop (w ++ [d]).length (w ++ d :: r) = r := by
        have : w ++ d :: r = (w ++ [d]) ++ r := by simp
        rw [this, List.drop_left]
      have hres : resumeAfter ⟨w, [d], false, false⟩ after prev = some d := by
        simp [resumeAfter, Pattern.literal]
      rw [hdrop, hres]
      rfl
  · rw [decide_eq_false he] at hm
    rw [if_neg he]
    exact replaceFrom_kept isWord _ after prev w rest hne hM hwne hw hr hm

/-- For the pattern `\bNAME;` the loop of the replacement substitutes the words `NAME` that
a `;` follows, together with the `;`. -/
theorem replaceFrom_followed (isWord : Char → Bool) (name after : List Char) (next : Char)
    (hne : name ≠ []) (hM : ∀ x ∈ name, isWord x = true) (hnext : isWord next = false)
    (n : Nat) :
    ∀ (text : List Char) (prev : Option Char), text.length ≤ n →
      isWordAt isWord prev = false →
      replaceFrom isWord ⟨name, [next], false, false⟩ after 0 prev text =
        substituteFollowed name next after false (tokens isWord text) := by
  induction n with
  | zero =>
    intro text prev hlen _
    rw [List.length_eq_zero.1 (Nat.le_zero.1 hlen)]
    rfl
  | succ n ih =>
    intro text prev hlen hp
    cases text with
    | nil => rfl
    | cons c rest =>
      have hlen' : rest.length ≤ n := by
        simp only [List.length_cons] at hlen
        omega
      cases hc : isWord c with
      | true =>
        obtain ⟨w, r, he, hwne, hw, hr, hl⟩ := run_split isWord c rest hc
        rw [he, replaceFrom_followed_run isWord name after next prev w r hne hM hnext hp hwne
          hw hr, tokens_run isWord w r hwne hw hr]
        by_cases hcase : w = name ∧ r.head? = some next
        · rw [if_pos hcase]
          cases r with
          | nil => cases hcase.2
          | cons d r =>
            have hd : d = next := by simpa using hcase.2
            subst hd
            have hlr : r.length ≤ n := by
              simp only [List.length_cons] at hl
              omega
            rw [tokens_nonword isWord d r hnext, substituteFollowed,
              if_pos ⟨hcase.1, rfl⟩, substituteFollowed, ← ih r (some d) hlr hnext]
            rfl
        · rw [if_neg hcase, substituteFollowed, if_neg, ih r none (hl.trans hlen') rfl]
          rw [tokens_head_singleton isWord r next hr]
          exact hcase
      | false =>
        have hcne : [c] ≠ name := by
          intro e
          have hword := hM c (by rw [← e]; simp)
          rw [hc] at hword
          cases hword
        rw [replaceFrom_no_match _ _ _ _ _ _
            (matchesAt_nonword isWord _ prev c rest hne hM hc),
          tokens_nonword isWord c rest hc, substituteFollowed, if_neg (fun h => hcne h.1),
          ih rest (some c) hlen' hc]
        rfl

/-- C22, as the code has it: for every test `isWord` of the characters of a word, every macro
name that is a run of such characters and is not empty, every replacement and every template
text, the substitution through `\bNAME\b` or `\b(NAME)\b` is the whole-word substitution:
the text is cut into its words (maximal runs of characters of a word) and its other
characters, every word that is the name is replaced and everything else is kept, so that an
identifier that contains the name as a proper part is unchanged. The substitution through
`\bNAME;` (the pattern of `COMPUTE_TOTAL_SCATTERING_COEFFICIENT`) replaces the words that are
the name and that a `;` follows directly, together with the `;`, and keeps everything else.
The macros of `render.frag` and of the scattering density shader are substituted in the
first way. -/
theorem C22_whole_word_substitution (isWord : Char → Bool) (name after text : List Char)
    (hne : name ≠ []) (hname : ∀ c ∈ name, isWord c = true) :
    (∀ captures : Bool,
      replace isWord ⟨name, [], true, captures⟩ after text =
        substituteWords name after (tokens isWord text)) ∧
    (isWord ';' = false →
      replace isWord ⟨name, [';'], false, false⟩ after text =
        substituteFollowed name ';' after false (tokens isWord text)) ∧
    (tokens isWord text).flatten = text ∧
    (∀ macroName value : String, macroName.data = name →
      defineMacro isWord macroName text =
          substituteWords name (commentedOut macroName) (tokens isWord text) ∧
        setMacro isWord macroName value text =
          substituteWords name value.data (tokens isWord text)) := by
  refine ⟨fun captures => ?_, fun hnext => ?_, tokens_flatten isWord text, ?_⟩
  · exact replaceFrom_word isWord name after captures hne hname _ text none (le_refl _) rfl
  · exact replaceFrom_followed isWord name after ';' hne hname hnext _ text none (le_refl _) rfl
  · intro macroName value hdata
    constructor
    · rw [defineMacro, hdata]
      exact replaceFrom_word isWord name _ true hne hname _ text none (le_refl _) rfl
    · rw [setMacro, hdata]
      exact replaceFrom_word isWord name _ false hne hname _ text none (le_refl _) rfl

set_option maxRecDepth 100000 in
/-- C22, witness: in a line that tests `RENDERING_ZERO_SCATTERING` and
`RENDERING_ECLIPSED_ZERO_SCATTERING` the substitutions of
`saveZeroOrderScatteringRenderingShader` replace the former and keep the latter. -/
theorem C22_whole_word_substitution_witness :
    ("RENDERING_ZERO_SCATTERING".data ≠ [] ∧
      ∀ c ∈ "RENDERING_ZERO_SCATTERING".data, asciiWord c = true) ∧
    defineMacro asciiWord "RENDERING_ZERO_SCATTERING" zeroOrderTemplate =
      substituteWords "RENDERING_ZERO_SCATTERING".data
        (commentedOut "RENDERING_ZERO_SCATTERING") (tokens asciiWord zeroOrderTemplate) ∧
    zeroOrderRenderSource asciiWord zeroOrderTemplate =
      "#if 1 /*RENDERING_ZERO_SCATTERING*/ || RENDERING_ECLIPSED_ZERO_SCATTERING\n".data :=
  ⟨⟨by decide, by decide⟩,
    ((C22_whole_word_substitution asciiWord "RENDERING_ZERO_SCATTERING".data [] zeroOrderTemplate
      (by decide) (by decide)).2.2.2 "RENDERING_ZERO_SCATTERING" "" rfl).1,
    by decide⟩

set_option maxRecDepth 100000 in
/-- C22, counterexample: the pattern of `saveEclipsedDoubleScatteringComputationShader` for
`COMPUTE_TOTAL_SCATTERING_COEFFICIENT` ends in `;` and has no closing word boundary. In a
template that names the macro in a comment and then uses it, both occurrences are whole
words, and only the one that a `;` follows is replaced. -/
theorem C22_counterexample :
    (tokens asciiWord coefficientTemplate).count "COMPUTE_TOTAL_SCATTERING_COEFFICIENT".data
      = 2 ∧
    replace asciiWord totalScatteringCoefficientPattern (scatCoefDef []).data
        coefficientTemplate =
      ("// COMPUTE_TOTAL_SCATTERING_COEFFICIENT\n" ++
        "vec4 totalScatteringCoefficient=vec4(0);\n" ++ "\n").data ∧
    replace asciiWord totalScatteringCoefficientPattern (scatCoefDef []).data
        coefficientTemplate ≠
      substituteWords "COMPUTE_TOTAL_SCATTERING_COEFFICIENT".data (scatCoefDef []).data
        (tokens asciiWord coefficientTemplate) := by
  decide

namespace Files

open SingleScatteringRenderMode

/-- The paths of `saveZeroOrderScatteringRenderingShader` for an output directory without `%`:
the calls of `arg` put each argument where the pattern has its place marker. -/
theorem saveZeroOrderScatteringRenderingShader_plain (qt : Qt) (atmo : AtmosphereParameters)
    (sourcesToSave : List (String × String)) (texIndex : Nat)
    (hdir : '%' ∉ atmo.textureOutputDir.data) :
    saveZeroOrderScatteringRenderingShader qt atmo sourcesToSave texIndex =
      (sourcesToSave.filter fun source => source.1 ≠ Eclipsed.viewDirFuncFileName).map fun source =>
        atmo.textureOutputDir ++ "/shaders/zero-order-scattering/" ++ toString texIndex ++ "/" ++
          source.1 := by
  unfold saveZeroOrderScatteringRenderingShader
  simp only [QString.zeroOrder_path qt _ _ _ hdir]

/-- The paths of `saveEclipsedZeroOrderScatteringRenderingShader` for an output directory
without `%`: the calls of `arg` put each argument where the pattern has its place marker. -/
theorem saveEclipsedZeroOrderScatteringRenderingShader_plain (qt : Qt)
    (atmo : AtmosphereParameters) (sourcesToSave : List (String × String)) (texIndex : Nat)
    (hdir : '%' ∉ atmo.textureOutputDir.data) :
    saveEclipsedZeroOrderScatteringRenderingShader qt atmo sourcesToSave texIndex =
      (sourcesToSave.filter fun source => source.1 ≠ Eclipsed.viewDirFuncFileName).map fun source =>
        atmo.textureOutputDir ++ "/shaders/eclipsed-zero-order-scattering/" ++ toString texIndex ++
          "/" ++ source.1 := by
  unfold saveEclipsedZeroOrderScatteringRenderingShader
  simp only [QString.eclipsedZeroOrder_path qt _ _ _ hdir]

/-- The paths of `saveMultipleScatteringRenderingShader` for an output directory without `%`:
the calls of `arg` put each argument where the pattern has its place marker. -/
theorem saveMultipleScatteringRenderingShader_plain (qt : Qt) (opts : Options)
    (atmo : AtmosphereParameters) (sourcesToSave : List (String × String)) (texIndex : Nat)
    (hdir : '%' ∉ atmo.textureOutputDir.data) :
    saveMultipleScatteringRenderingShader qt opts atmo sourcesToSave texIndex =
      (sourcesToSave.filter fun source => source.1 ≠ Eclipsed.viewDirFuncFileName).map fun source =>
        if opts.saveResultAsRadiance then
          atmo.textureOutputDir ++ "/shaders/multiple-scattering/" ++ toString texIndex ++ "/" ++
            source.1
        else atmo.textureOutputDir ++ "/shaders/multiple-scattering/" ++ source.1 := by
  unfold saveMultipleScatteringRenderingShader
  simp only [QString.multipleRadiance_path qt _ _ _ hdir,
    QString.multipleLuminance_path qt _ _ hdir]

/-- The paths of `saveSingleScatteringRenderingShader` for an output directory, render mode
names and a scatterer name without `%`: the calls of `arg` put each argument where the pattern
has its place marker. -/
theorem saveSingleScatteringRenderingShader_plain (qt : Qt) (atmo : AtmosphereParameters)
    (toStringMode : SingleScatteringRenderMode → String) (sourcesToSave : List (String × String))
    (texIndex : Nat) (scatterer : Scatterer) (renderMode : SingleScatteringRenderMode)
    (hdir : '%' ∉ atmo.textureOutputDir.data) (hmode : ∀ mode, '%' ∉ (toStringMode mode).data)
    (hname : '%' ∉ scatterer.name.data) :
    saveSingleScatteringRenderingShader qt atmo toStringMode sourcesToSave texIndex scatterer
      renderMode =
      if scatterer.phaseFunctionType = PhaseFunctionType.Smooth then []
      else
        (sourcesToSave.filter fun source => source.1 ≠ Eclipsed.viewDirFuncFileName).map fun source =>
          if scatterer.phaseFunctionType = PhaseFunctionType.General ∨
              renderMode = SSRM_ON_THE_FLY then
            atmo.textureOutputDir ++ "/shaders/single-scattering/" ++ toStringMode renderMode ++
              "/" ++ toString texIndex ++ "/" ++ scatterer.name ++ "/" ++ source.1
          else
            atmo.textureOutputDir ++ "/shaders/single-scattering/" ++ toStringMode renderMode ++
              "/" ++ scatterer.name ++ "/" ++ source.1 := by
  unfold saveSingleScatteringRenderingShader
  simp only [QString.singleSubset_path qt _ _ _ _ _ hdir (hmode _) hname,
    QString.singleWhole_path qt _ _ _ _ hdir (hmode _) hname]

/-- The paths of `saveEclipsedSingleScatteringRenderingShader` for an output directory, render
mode names and a scatterer name without `%`: the calls of `arg` put each argument where the
pattern has its place marker. -/
theorem saveEclipsedSingleScatteringRenderingShader_plain (qt : Qt) (atmo : AtmosphereParameters)
    (toStringMode : SingleScatteringRenderMode → String) (sourcesToSave : List (String × String))
    (texIndex : Nat) (scatterer : Scatterer) (renderMode : SingleScatteringRenderMode)
    (hdir : '%' ∉ atmo.textureOutputDir.data) (hmode : ∀ mode, '%' ∉ (toStringMode mode).data)
    (hname : '%' ∉ scatterer.name.data) :
    saveEclipsedSingleScatteringRenderingShader qt atmo toStringMode sourcesToSave texIndex
      scatterer renderMode =
      (sourcesToSave.filter fun source => source.1 ≠ Eclipsed.viewDirFuncFileName).map fun source =>
        if scatterer.phaseFunctionType = PhaseFunctionType.General ∨
            renderMode = SSRM_ON_THE_FLY then
          atmo.textureOutputDir ++ "/shaders/single-scattering-eclipsed/" ++
            toStringMode renderMode ++ "/" ++ toString texIndex ++ "/" ++ scatterer.name ++ "/" ++
            source.1
        else
          atmo.textureOutputDir ++ "/shaders/single-scattering-eclipsed/" ++
            toStringMode renderMode ++ "/" ++ scatterer.name ++ "/" ++ source.1 := by
  unfold saveEclipsedSingleScatteringRenderingShader
  simp only [QString.eclipsedSingleSubset_path qt _ _ _ _ _ hdir (hmode _) hname,
    QString.eclipsedSingleWhole_path qt _ _ _ _ hdir (hmode _) hname]

/-- The paths of `saveEclipsedSingleScatteringComputationShader` for an output directory and a
scatterer name without `%`: the calls of `arg` put each argument where the pattern has its place
marker. -/
theorem saveEclipsedSingleScatteringComputationShader_plain (qt : Qt)
    (atmo : AtmosphereParameters) (sourcesToSave : List (String × String)) (texIndex : Nat)
    (scatterer : Scatterer) (hdir : '%' ∉ atmo.textureOutputDir.data)
    (hname : '%' ∉ scatterer.name.data) :
    saveEclipsedSingleScatteringComputationShader qt atmo sourcesToSave texIndex scatterer =
      (sourcesToSave.filter fun source => source.1 ≠ Eclipsed.viewDirFuncFileName).map fun source =>
        atmo.textureOutputDir ++ "/shaders/single-scattering-eclipsed/precomputation/" ++
          toString texIndex ++ "/" ++ scatterer.name ++ "/" ++ source.1 := by
  unfold saveEclipsedSingleScatteringComputationShader
  simp only [QString.eclipsedSingleComputation_path qt _ _ _ _ hdir hname]

/-- The paths of `saveEclipsedDoubleScatteringRenderingShader` for an output directory without
`%`: the calls of `arg` put each argument where the pattern has its place marker. -/
theorem saveEclipsedDoubleScatteringRenderingShader_plain (qt : Qt) (atmo : AtmosphereParameters)
    (sourcesToSave : List (String × String)) (texIndex : Nat)
    (hdir : '%' ∉ atmo.textureOutputDir.data) :
    saveEclipsedDoubleScatteringRenderingShader qt atmo sourcesToSave texIndex =
      (sourcesToSave.filter fun source => source.1 ≠ Eclipsed.viewDirFuncFileName).map fun source =>
        atmo.textureOutputDir ++ "/shaders/double-scattering-eclipsed/precomputed/" ++
          toString texIndex ++ "/" ++ source.1 := by
  unfold saveEclipsedDoubleScatteringRenderingShader
  simp only [QString.eclipsedDoubleRendering_path qt _ _ _ hdir]

theorem toDigitsCore_no_slash (fuel n : Nat) (ds : List Char) (h : '/' ∉ ds) :
    '/' ∉ Nat.toDigitsCore 10 fuel n ds := by
  induction fuel generalizing n ds with
  | zero => exact h
  | succ fuel ih =>
    have hd : Nat.digitChar (n % 10) ≠ '/' := by
      have : n % 10 < 10 := Nat.mod_lt _ (by decide)
      interval_cases n % 10 <;> decide
    unfold Nat.toDigitsCore
    simp only
    split_ifs
    · simp [hd.symm, h]
    · apply ih
      simp [hd.symm, h]

theorem toString_no_slash (n : Nat) : '/' ∉ (toString n).data := by
  show '/' ∉ (Nat.repr n).data
  unfold Nat.repr Nat.toDigits
  exact toDigitsCore_no_slash _ _ _ (by simp)

theorem parentDir_eq (dir file path : String) (hfile : '/' ∉ file.data)
    (hpath : path = dir ++ "/" ++ file) : parentDir path = dir.data := by
  subst hpath
  unfold parentDir
  have h1 : (dir ++ "/" ++ file).data.reverse = file.data.reverse ++ '/' :: dir.data.reverse := by
    simp [String.data_append]
  have h2 : ∀ c ∈ file.data.reverse, (decide (c ≠ '/')) = true := by
    intro c hc
    simp only [ne_eq, decide_not, Bool.not_eq_eq_eq_not, Bool.not_true, decide_eq_false_iff_not]
    intro e
    rw [e] at hc
    exact hfile (List.mem_reverse.1 hc)
  rw [h1, List.dropWhile_append_of_pos h2]
  simp [List.dropWhile]

end Files

namespace Files

open SingleScatteringRenderMode

theorem parentDir_data (path : String) (d f : List Char) (hf : '/' ∉ f)
    (hpath : path.data = d ++ '/' :: f) : parentDir path = d := by
  unfold parentDir
  have h1 : path.data.reverse = f.reverse ++ '/' :: d.reverse := by
    rw [hpath]
    simp
  have h2 : ∀ c ∈ f.reverse, (decide (c ≠ '/')) = true := by
    intro c hc
    simp only [ne_eq, decide_not, Bool.not_eq_eq_eq_not, Bool.not_true, decide_eq_false_iff_not]
    intro e
    rw [e] at hc
    exact hf (List.mem_reverse.1 hc)
  rw [h1, List.dropWhile_append_of_pos h2]
  simp [List.dropWhile]

theorem parentDir_file (dir file : String) (hfile : '/' ∉ file.data) :
    parentDir (dir ++ "/" ++ file) = dir.data :=
  parentDir_data _ _ file.data hfile (by simp [String.data_append])

theorem parentDir_irradianceWlset (dir : String) (n : Nat) :
    parentDir (dir ++ "/irradiance-wlset" ++ toString n ++ ".f32") = dir.data := by
  apply parentDir_data _ _ ("irradiance-wlset".data ++ (toString n).data ++ ".f32".data)
  · simp [toString_no_slash]
  · simp [String.data_append]

theorem parentDir_transmittanceWlset (dir : String) (n : Nat) :
    parentDir (dir ++ "/transmittance-wlset" ++ toString n ++ ".f32") = dir.data := by
  apply parentDir_data _ _ ("transmittance-wlset".data ++ (toString n).data ++ ".f32".data)
  · simp [toString_no_slash]
  · simp [String.data_append]

theorem parentDir_fromGroundWlset (dir : String) (n : Nat) :
    parentDir (dir ++ "/scattering-density2-from-ground-wlset" ++ toString n ++ ".f32") = dir.data := by
  apply parentDir_data _ _ ("scattering-density2-from-ground-wlset".data ++ (toString n).data ++ ".f32".data)
  · simp [toString_no_slash]
  · simp [String.data_append]

theorem parentDir_multipleWlset (dir : String) (n : Nat) :
    parentDir (dir ++ "/multiple-scattering-wlset" ++ toString n ++ ".f32") = dir.data := by
  apply parentDir_data _ _ ("multiple-scattering-wlset".data ++ (toString n).data ++ ".f32".data)
  · simp [toString_no_slash]
  · simp [String.data_append]

theorem parentDir_eclipsedWlset (dir : String) (n : Nat) :
    parentDir (dir ++ "/eclipsed-double-scattering-wlset" ++ toString n ++ ".f32") = dir.data := by
  apply parentDir_data _ _ ("eclipsed-double-scattering-wlset".data ++ (toString n).data ++ ".f32".data)
  · simp [toString_no_slash]
  · simp [String.data_append]

theorem parentDir_irradianceDelta (dir : String) (k n : Nat) :
    parentDir (dir ++ "/irradiance-delta-order" ++ toString k ++ "-wlset" ++ toString n ++ ".f32") =
      dir.data := by
  apply parentDir_data _ _
    ("irradiance-delta-order".data ++ (toString k).data ++ "-wlset".data ++ (toString n).data ++
      ".f32".data)
  · simp [toString_no_slash]
  · simp [String.data_append]

theorem parentDir_irradianceAccum (dir : String) (k n : Nat) :
    parentDir (dir ++ "/irradiance-accum-order" ++ toString k ++ "-wlset" ++ toString n ++ ".f32") =
      dir.data := by
  apply parentDir_data _ _
    ("irradiance-accum-order".data ++ (toString k).data ++ "-wlset".data ++ (toString n).data ++
      ".f32".data)
  · simp [toString_no_slash]
  · simp [String.data_append]

theorem parentDir_scatteringDensity (dir : String) (k n : Nat) :
    parentDir (dir ++ "/scattering-density" ++ toString k ++ "-wlset" ++ toString n ++ ".f32") =
      dir.data := by
  apply parentDir_data _ _
    ("scattering-density".data ++ (toString k).data ++ "-wlset".data ++ (toString n).data ++
      ".f32".data)
  · simp [toString_no_slash]
  · simp [String.data_append]

theorem parentDir_multipleToOrder (dir : String) (k n : Nat) :
    parentDir (dir ++ "/multiple-scattering-to-order" ++ toString k ++ "-wlset" ++ toString n ++ ".f32") =
      dir.data := by
  apply parentDir_data _ _
    ("multiple-scattering-to-order".data ++ (toString k).data ++ "-wlset".data ++ (toString n).data ++
      ".f32".data)
  · simp [toString_no_slash]
  · simp [String.data_append]

theorem parentDir_deltaScattering (dir : String) (k n : Nat) :
    parentDir (dir ++ "/delta-scattering-order" ++ toString k ++ "-wlset" ++ toString n ++ ".f32") =
      dir.data := by
  apply parentDir_data _ _
    ("delta-scattering-order".data ++ (toString k).data ++ "-wlset".data ++ (toString n).data ++
      ".f32".data)
  · simp [toString_no_slash]
  · simp [String.data_append]

theorem parentDir_multipleXYZW (dir : String) :
    parentDir (dir ++ "/multiple-scattering-xyzw.f32") = dir.data := by
  apply parentDir_data _ _ "multiple-scattering-xyzw.f32".data
  · simp
  · simp [String.data_append]

theorem parentDir_singleXYZW (dir name : String) (h : '/' ∉ name.data) :
    parentDir (dir ++ "/single-scattering/" ++ name ++ "-xyzw.f32") =
      (dir ++ "/single-scattering").data := by
  apply parentDir_data _ _ (name.data ++ "-xyzw.f32".data)
  · simp [h]
  · simp [String.data_append]

theorem parentDir_singleSubset (dir name : String) (n : Nat) (h : '/' ∉ name.data) :
    parentDir (dir ++ "/single-scattering/" ++ toString n ++ "/" ++ name ++ ".f32") =
      (dir ++ "/single-scattering/" ++ toString n).data := by
  apply parentDir_data _ _ (name.data ++ ".f32".data)
  · simp [h]
  · simp [String.data_append]

theorem writesCovered_nil (created : List String) : WritesCovered created [] := by
  intro event h
  cases h

theorem writesCovered_append (created : List String) (l l' : List Event) :
    WritesCovered created (l ++ l') ↔ WritesCovered created l ∧ WritesCovered created l' := by
  unfold WritesCovered
  simp only [List.mem_append]
  constructor
  · exact fun h => ⟨fun e he => h e (Or.inl he), fun e he => h e (Or.inr he)⟩
  · rintro ⟨h1, h2⟩ e (he | he)
    · exact h1 e he
    · exact h2 e he

theorem writesCovered_cons (created : List String) (event : Event) (l : List Event) :
    WritesCovered created (event :: l) ↔
      (∀ path, writtenPath event = some path → Covered created (parentDir path)) ∧
        WritesCovered created l := by
  unfold WritesCovered
  simp only [List.mem_cons, forall_eq_or_imp]

theorem writesCovered_ite (created : List String) (c : Prop) [Decidable c]
    (l l' : List Event) :
    WritesCovered created (if c then l else l') ↔
      (c → WritesCovered created l) ∧ (¬ c → WritesCovered created l') := by
  split_ifs with h <;> simp [h]

theorem writesCovered_flatMap {α : Type} (created : List String) (l : List α)
    (f : α → List Event) :
    WritesCovered created (l.flatMap f) ↔ ∀ a ∈ l, WritesCovered created (f a) := by
  unfold WritesCovered
  simp only [List.mem_flatMap]
  constructor
  · exact fun h a ha e he => h e ⟨a, ha, he⟩
  · rintro h e ⟨a, ha, he⟩
    exact h a ha e he

theorem writesCovered_rendered (created : List String) (opts : Options) (pass : Pass) :
    WritesCovered created (rendered opts pass) := by
  unfold rendered
  split_ifs <;>
  simp [writesCovered_cons, writesCovered_nil, drawn, writtenPath]

theorem saveIrradianceEvents_covered (created : List String) (opts : Options)
    (atmo : AtmosphereParameters) (scatteringOrder texIndex : Nat)
    (hroot : Covered created atmo.textureOutputDir.data) :
    WritesCovered created (saveIrradianceEvents opts atmo scatteringOrder texIndex) := by
  simp [saveIrradianceEvents, writesCovered_append, writesCovered_ite, writesCovered_cons,
    writesCovered_nil, writtenPath, parentDir_irradianceWlset, parentDir_irradianceDelta,
    parentDir_irradianceAccum, hroot]

theorem saveScatteringDensityEvents_covered (created : List String) (opts : Options)
    (atmo : AtmosphereParameters) (scatteringOrder texIndex : Nat)
    (hroot : Covered created atmo.textureOutputDir.data) :
    WritesCovered created (saveScatteringDensityEvents opts atmo scatteringOrder texIndex) := by
  simp [saveScatteringDensityEvents, writesCovered_ite, writesCovered_cons,
    writesCovered_nil, writtenPath, parentDir_scatteringDensity, hroot]

theorem computeTransmittanceEvents_covered (created : List String)
    (atmo : AtmosphereParameters) (texIndex : Nat)
    (hroot : Covered created atmo.textureOutputDir.data) :
    WritesCovered created (computeTransmittanceEvents atmo texIndex) := by
  simp [computeTransmittanceEvents, writesCovered_cons, writesCovered_nil, writtenPath, drawn,
    parentDir_transmittanceWlset, hroot]

theorem computeDirectGroundIrradianceEvents_covered (created : List String) (opts : Options)
    (atmo : AtmosphereParameters) (texIndex : Nat)
    (hroot : Covered created atmo.textureOutputDir.data) :
    WritesCovered created (computeDirectGroundIrradianceEvents opts atmo texIndex) := by
  unfold computeDirectGroundIrradianceEvents
  rw [writesCovered_append]
  refine ⟨?_, saveIrradianceEvents_covered created opts atmo _ texIndex hroot⟩
  simp [writesCovered_cons, writesCovered_nil, writtenPath, drawn]

theorem order2FromGroundEvents_covered (created : List String) (opts : Options)
    (atmo : AtmosphereParameters) (texIndex : Nat)
    (hroot : Covered created atmo.textureOutputDir.data) :
    WritesCovered created (order2FromGroundEvents opts atmo texIndex) := by
  unfold order2FromGroundEvents
  rw [writesCovered_append, writesCovered_append]
  refine ⟨⟨?_, writesCovered_rendered _ _ _⟩, ?_⟩
  · simp [writesCovered_cons, writesCovered_nil, writtenPath]
  · simp [writesCovered_ite, writesCovered_cons, writesCovered_nil, writtenPath,
      parentDir_fromGroundWlset, hroot]

theorem accumulateSingleScatteringEvents_covered (created : List String) (opts : Options)
    (atmo : AtmosphereParameters) (texIndex : Nat) (scatterer : Scatterer)
    (hsingle : Covered created (atmo.textureOutputDir ++ "/single-scattering").data)
    (hname : '/' ∉ scatterer.name.data) :
    WritesCovered created (accumulateSingleScatteringEvents opts atmo texIndex scatterer) := by
  unfold accumulateSingleScatteringEvents
  rw [writesCovered_append, writesCovered_append]
  refine ⟨⟨?_, writesCovered_rendered _ _ _⟩, ?_⟩
  · simp [writesCovered_cons, writesCovered_nil, writtenPath]
  · rw [writesCovered_ite]
    refine ⟨fun _ => ?_, fun _ => writesCovered_nil _⟩
    rw [writesCovered_cons]
    refine ⟨?_, writesCovered_nil _⟩
    intro path hpath
    cases hpath
    rw [parentDir_singleXYZW _ _ hname]
    exact hsingle

theorem computeSingleScatteringEvents_covered (created : List String) (opts : Options)
    (atmo : AtmosphereParameters) (texIndex : Nat) (scatterer : Scatterer)
    (hsingle : Covered created (atmo.textureOutputDir ++ "/single-scattering").data)
    (hsubset : Covered created
      (atmo.textureOutputDir ++ "/single-scattering/" ++ toString texIndex).data)
    (hname : '/' ∉ scatterer.name.data) :
    WritesCovered created (computeSingleScatteringEvents opts atmo texIndex scatterer) := by
  unfold computeSingleScatteringEvents
  rw [writesCovered_append, writesCovered_append]
  refine ⟨⟨?_, writesCovered_rendered _ _ _⟩, ?_⟩
  · simp [writesCovered_cons, writesCovered_nil, writtenPath]
  · cases scatterer.phaseFunctionType
    · rw [writesCovered_cons]
      refine ⟨?_, writesCovered_nil _⟩
      intro path hpath
      cases hpath
      rw [parentDir_singleSubset _ _ _ hname]
      exact hsubset
    · exact accumulateSingleScatteringEvents_covered created opts atmo texIndex scatterer
        hsingle hname
    · exact accumulateSingleScatteringEvents_covered created opts atmo texIndex scatterer
        hsingle hname

/-- The texture files of the steps of a scatterer in `computeScatteringDensityOrder2` lie in
the output directory, in `single-scattering` or in `single-scattering/{i}`. -/
theorem order2ScattererEvents_covered (created : List String) (opts : Options)
    (atmo : AtmosphereParameters) (texIndex : Nat) (scatterer : Scatterer)
    (hroot : Covered created atmo.textureOutputDir.data)
    (hsingle : Covered created (atmo.textureOutputDir ++ "/single-scattering").data)
    (hsubset : Covered created
      (atmo.textureOutputDir ++ "/single-scattering/" ++ toString texIndex).data)
    (hname : '/' ∉ scatterer.name.data) :
    WritesCovered created (order2ScattererEvents opts atmo texIndex scatterer) := by
  unfold order2ScattererEvents
  rw [writesCovered_append, writesCovered_append]
  refine ⟨⟨computeSingleScatteringEvents_covered created opts atmo texIndex scatterer hsingle
    hsubset hname, writesCovered_rendered _ _ _⟩, ?_⟩
  unfold computeIndirectIrradianceOrder1Events
  rw [writesCovered_cons]
  refine ⟨?_, saveIrradianceEvents_covered created opts atmo _ texIndex hroot⟩
  simp [writtenPath, drawn]

theorem accumulateMultipleScatteringEvents_covered (created : List String) (opts : Options)
    (atmo : AtmosphereParameters) (scatteringOrder texIndex : Nat)
    (hroot : Covered created atmo.textureOutputDir.data) :
    WritesCovered created
      (accumulateMultipleScatteringEvents opts atmo scatteringOrder texIndex) := by
  unfold accumulateMultipleScatteringEvents
  rw [writesCovered_append, writesCovered_append, writesCovered_append]
  refine ⟨⟨⟨?_, writesCovered_rendered _ _ _⟩, ?_⟩, ?_⟩
  · simp [writesCovered_cons, writesCovered_nil, writtenPath]
  · simp [writesCovered_ite, writesCovered_cons, writesCovered_nil, writtenPath,
      parentDir_multipleToOrder, hroot]
  · rw [writesCovered_ite]
    refine ⟨fun _ => ?_, fun _ => writesCovered_nil _⟩
    rw [writesCovered_append]
    constructor
    · unfold mergeSmoothSingleScatteringTextureEvents
      rw [writesCovered_flatMap]
      intro scatterer _
      rw [writesCovered_ite]
      exact ⟨fun _ => writesCovered_nil _, fun _ => writesCovered_rendered _ _ _⟩
    · rw [writesCovered_cons]
      refine ⟨?_, writesCovered_nil _⟩
      intro path hpath
      cases hpath
      split_ifs
      · rw [parentDir_multipleWlset]
        exact hroot
      · rw [parentDir_multipleXYZW]
        exact hroot

theorem computeMultipleScatteringFromDensityEvents_covered (created : List String)
    (opts : Options) (atmo : AtmosphereParameters) (scatteringOrder texIndex : Nat)
    (hroot : Covered created atmo.textureOutputDir.data) :
    WritesCovered created
      (computeMultipleScatteringFromDensityEvents opts atmo scatteringOrder texIndex) := by
  unfold computeMultipleScatteringFromDensityEvents
  rw [writesCovered_append, writesCovered_append, writesCovered_append]
  refine ⟨⟨⟨?_, writesCovered_rendered _ _ _⟩, ?_⟩,
    accumulateMultipleScatteringEvents_covered created opts atmo _ _ hroot⟩
  · simp [writesCovered_cons, writesCovered_nil, writtenPath]
  · simp [writesCovered_ite, writesCovered_cons, writesCovered_nil, writtenPath,
      parentDir_deltaScattering, hroot]

theorem higherOrderEvents_covered (created : List String) (opts : Options)
    (atmo : AtmosphereParameters) (texIndex scatteringOrder : Nat)
    (hroot : Covered created atmo.textureOutputDir.data) :
    WritesCovered created (higherOrderEvents opts atmo texIndex scatteringOrder) := by
  unfold higherOrderEvents computeScatteringDensityEvents computeIndirectIrradianceEvents
  simp only [writesCovered_append]
  refine ⟨⟨⟨⟨?_, writesCovered_rendered _ _ _⟩,
    saveScatteringDensityEvents_covered created opts atmo _ _ hroot⟩,
    (writesCovered_cons _ _ _).2 ⟨?_,
      saveIrradianceEvents_covered created opts atmo _ _ hroot⟩⟩,
    computeMultipleScatteringFromDensityEvents_covered created opts atmo _ _ hroot⟩
  · simp [writesCovered_cons, writesCovered_nil, writtenPath]
  · simp [writtenPath, drawn]

/-- The texture files of one turn of the loop of `main` lie in the output directory, in
`single-scattering` or in `single-scattering/{i}`. -/
theorem mainLoopBodyEvents_covered (created : List String) (opts : Options)
    (atmo : AtmosphereParameters) (texIndex : Nat)
    (hroot : Covered created atmo.textureOutputDir.data)
    (hsingle : Covered created (atmo.textureOutputDir ++ "/single-scattering").data)
    (hsubset : Covered created
      (atmo.textureOutputDir ++ "/single-scattering/" ++ toString texIndex).data)
    (hname : ∀ scatterer ∈ atmo.scatterers, '/' ∉ scatterer.name.data) :
    WritesCovered created (mainLoopBodyEvents opts atmo texIndex) := by
  unfold mainLoopBodyEvents computeMultipleScatteringEvents computeScatteringDensityOrder2Events
    computeEclipsedDoubleScatteringEvents
  simp only [writesCovered_append, writesCovered_flatMap]
  refine ⟨⟨⟨computeTransmittanceEvents_covered created atmo texIndex hroot,
    computeDirectGroundIrradianceEvents_covered created opts atmo texIndex hroot⟩,
    ⟨⟨⟨order2FromGroundEvents_covered created opts atmo texIndex hroot, ?_⟩,
      saveScatteringDensityEvents_covered created opts atmo _ _ hroot⟩,
      computeMultipleScatteringFromDensityEvents_covered created opts atmo _ _ hroot⟩,
    fun k _ => higherOrderEvents_covered created opts atmo texIndex k hroot⟩, ?_⟩
  · exact fun scatterer hmem => order2ScattererEvents_covered created opts atmo texIndex
      scatterer hroot hsingle hsubset (hname scatterer hmem)
  · simp [writesCovered_ite, writesCovered_cons, writesCovered_nil, writtenPath,
      parentDir_eclipsedWlset, hroot]

end Files

namespace Files

open SingleScatteringRenderMode

theorem covered_mem (created : List String) (dir : String) (h : dir ∈ created) :
    Covered created dir.data :=
  ⟨dir, h, Or.inl rfl⟩

theorem covered_ancestor (created : List String) (dir child : String) (rest : List Char)
    (h : child ∈ created) (hdata : child.data = dir.data ++ '/' :: rest) :
    Covered created dir.data :=
  ⟨child, h, Or.inr ⟨rest, by rw [hdata]; simp⟩⟩

theorem mem_createdDirs_multiple (opts : Options) (atmo : AtmosphereParameters)
    (names : SingleScatteringRenderMode → String) :
    atmo.textureOutputDir ++ "/shaders/multiple-scattering/" ∈
      createdDirs opts atmo names := by
  unfold createdDirs
  exact List.mem_append_left _ (List.mem_append_right _ (List.mem_singleton_self _))

theorem mem_createdDirs_subset (opts : Options) (atmo : AtmosphereParameters)
    (names : SingleScatteringRenderMode → String) (texIndex : Nat)
    (h : texIndex < atmo.allWavelengths.length) (dir : String)
    (hdir : dir ∈
      [atmo.textureOutputDir ++ "/shaders/zero-order-scattering/" ++ toString texIndex,
       atmo.textureOutputDir ++ "/shaders/eclipsed-zero-order-scattering/" ++
        toString texIndex,
       atmo.textureOutputDir ++ "/shaders/double-scattering-eclipsed/precomputed/" ++
        toString texIndex,
       atmo.textureOutputDir ++ "/shaders/double-scattering-eclipsed/precomputation/" ++
        toString texIndex,
       atmo.textureOutputDir ++ "/single-scattering/" ++ toString texIndex]) :
    dir ∈ createdDirs opts atmo names := by
  unfold createdDirs
  exact List.mem_append_left _ (List.mem_append_left _ (List.mem_append_right _
    (List.mem_flatMap.2 ⟨texIndex, List.mem_range.2 h, hdir⟩)))

theorem mem_createdDirs_radiance (opts : Options) (atmo : AtmosphereParameters)
    (names : SingleScatteringRenderMode → String) (texIndex : Nat)
    (h : texIndex < atmo.allWavelengths.length) (hr : opts.saveResultAsRadiance = true) :
    atmo.textureOutputDir ++ "/shaders/multiple-scattering/" ++ toString texIndex ∈
      createdDirs opts atmo names := by
  unfold createdDirs
  rw [if_pos hr]
  exact List.mem_append_right _ (List.mem_map.2 ⟨texIndex, List.mem_range.2 h, rfl⟩)

theorem mem_createdDirs_scatterer (opts : Options) (atmo : AtmosphereParameters)
    (names : SingleScatteringRenderMode → String) (scatterer : Scatterer)
    (hs : scatterer ∈ atmo.scatterers) (texIndex : Nat)
    (h : texIndex < atmo.allWavelengths.length) (dir : String)
    (hdir : dir ∈
      [atmo.textureOutputDir ++ "/shaders/single-scattering-eclipsed/precomputation/" ++
          toString texIndex ++ "/" ++ scatterer.name,
       atmo.textureOutputDir ++ "/shaders/single-scattering-eclipsed/" ++
          names SSRM_ON_THE_FLY ++ "/" ++ toString texIndex ++ "/" ++ scatterer.name] ++
      (if scatterer.phaseFunctionType ≠ PhaseFunctionType.Smooth then
        [atmo.textureOutputDir ++ "/shaders/single-scattering/" ++ names SSRM_ON_THE_FLY ++
          "/" ++ toString texIndex ++ "/" ++ scatterer.name]
       else []) ++
      (if scatterer.phaseFunctionType = PhaseFunctionType.General then
        [atmo.textureOutputDir ++ "/shaders/single-scattering/" ++ names SSRM_PRECOMPUTED ++
          "/" ++ toString texIndex ++ "/" ++ scatterer.name,
         atmo.textureOutputDir ++ "/shaders/single-scattering-eclipsed/" ++
          names SSRM_PRECOMPUTED ++ "/" ++ toString texIndex ++ "/" ++ scatterer.name]
       else [])) :
    dir ∈ createdDirs opts atmo names := by
  unfold createdDirs
  refine List.mem_append_left _ (List.mem_append_left _ (List.mem_append_left _
    (List.mem_flatMap.2 ⟨scatterer, hs, ?_⟩)))
  exact List.mem_append_left _ (List.mem_append_left _
    (List.mem_flatMap.2 ⟨texIndex, List.mem_range.2 h, hdir⟩))

theorem mem_createdDirs_achromatic (opts : Options) (atmo : AtmosphereParameters)
    (names : SingleScatteringRenderMode → String) (scatterer : Scatterer)
    (hs : scatterer ∈ atmo.scatterers)
    (ht : scatterer.phaseFunctionType = PhaseFunctionType.Achromatic) :
    atmo.textureOutputDir ++ "/shaders/single-scattering/" ++ names SSRM_PRECOMPUTED ++
        "/" ++ scatterer.name ∈ createdDirs opts atmo names := by
  unfold createdDirs
  refine List.mem_append_left _ (List.mem_append_left _ (List.mem_append_left _
    (List.mem_flatMap.2 ⟨scatterer, hs, ?_⟩)))
  refine List.mem_append_left _ (List.mem_append_right _ ?_)
  rw [if_pos ht]
  exact List.mem_singleton_self _

theorem mem_createdDirs_not_general (opts : Options) (atmo : AtmosphereParameters)
    (names : SingleScatteringRenderMode → String) (scatterer : Scatterer)
    (hs : scatterer ∈ atmo.scatterers)
    (ht : scatterer.phaseFunctionType ≠ PhaseFunctionType.General) :
    atmo.textureOutputDir ++ "/shaders/single-scattering-eclipsed/" ++
        names SSRM_PRECOMPUTED ++ "/" ++ scatterer.name ∈ createdDirs opts atmo names := by
  unfold createdDirs
  refine List.mem_append_left _ (List.mem_append_left _ (List.mem_append_left _
    (List.mem_flatMap.2 ⟨scatterer, hs, ?_⟩)))
  refine List.mem_append_right _ ?_
  rw [if_pos ht]
  exact List.mem_singleton_self _

theorem covered_root (opts : Options) (atmo : AtmosphereParameters)
    (names : SingleScatteringRenderMode → String) :
    Covered (createdDirs opts atmo names) atmo.textureOutputDir.data :=
  covered_ancestor _ _ _ "shaders/multiple-scattering/".data
    (mem_createdDirs_multiple opts atmo names) (by simp [String.data_append])

theorem covered_multiple (opts : Options) (atmo : AtmosphereParameters)
    (names : SingleScatteringRenderMode → String) :
    Covered (createdDirs opts atmo names)
      (atmo.textureOutputDir ++ "/shaders/multiple-scattering").data :=
  covered_ancestor _ _ _ [] (mem_createdDirs_multiple opts atmo names)
    (by simp [String.data_append])

theorem covered_single (opts : Options) (atmo : AtmosphereParameters)
    (names : SingleScatteringRenderMode → String) (texIndex : Nat)
    (h : texIndex < atmo.allWavelengths.length) :
    Covered (createdDirs opts atmo names)
      (atmo.textureOutputDir ++ "/single-scattering").data :=
  covered_ancestor _ _ (atmo.textureOutputDir ++ "/single-scattering/" ++ toString texIndex)
    (toString texIndex).data
    (mem_createdDirs_subset opts atmo names texIndex h _ (by simp))
    (by simp [String.data_append])

/-- The files of a save function lie in the directory `dir` when their paths are `dir`, a
slash and a file name without a slash. -/
theorem saved_covered (created : List String) (sources : List (String × String))
    (p : String × String → Bool) (f : String × String → String) (dir : String)
    (hform : ∀ source, (f source).data = dir.data ++ '/' :: source.1.data)
    (hfiles : ∀ source ∈ sources, '/' ∉ source.1.data)
    (hdir : Covered created dir.data) :
    ∀ path ∈ (sources.filter p).map f, Covered created (parentDir path) := by
  intro path hpath
  obtain ⟨source, hsource, rfl⟩ := List.mem_map.1 hpath
  rw [parentDir_data _ _ _ (hfiles source (List.mem_filter.1 hsource).1) (hform source)]
  exact hdir

theorem computeSingleScattering_covered (qt : Qt) (opts : Options)
    (atmo : AtmosphereParameters) (names toStringMode : SingleScatteringRenderMode → String)
    (captured : ShaderSave → List (String × String)) (texIndex : Nat) (scatterer : Scatterer)
    (hdir : '%' ∉ atmo.textureOutputDir.data)
    (hmode : ∀ mode, toStringMode mode = names mode)
    (hmodes : ∀ mode, '%' ∉ (names mode).data)
    (hname : '%' ∉ scatterer.name.data)
    (hfiles : ∀ save, ∀ source ∈ captured save, '/' ∉ source.1.data)
    (hs : scatterer ∈ atmo.scatterers) (h : texIndex < atmo.allWavelengths.length) :
    ∀ path ∈ computeSingleScattering qt atmo toStringMode captured texIndex scatterer,
      Covered (createdDirs opts atmo names) (parentDir path) := by
  intro path hpath
  have hm : ∀ mode, '%' ∉ (toStringMode mode).data := fun mode => by
    rw [hmode mode]
    exact hmodes mode
  unfold computeSingleScattering at hpath
  simp only [List.mem_append] at hpath
  rcases hpath with (((hpath | hpath) | hpath) | hpath) | hpath
  · rw [saveSingleScatteringRenderingShader_plain qt _ _ _ _ _ _ hdir hm hname] at hpath
    by_cases ht : scatterer.phaseFunctionType = PhaseFunctionType.Smooth
    · rw [if_pos ht] at hpath
      cases hpath
    · rw [if_neg ht] at hpath
      simp only [or_true, if_true] at hpath
      refine saved_covered _ _ _ _ _ (fun _ => ?_) (hfiles _)
        (covered_mem _ _ (mem_createdDirs_scatterer opts atmo names scatterer hs texIndex h
          (atmo.textureOutputDir ++ "/shaders/single-scattering/" ++ names SSRM_ON_THE_FLY ++
            "/" ++ toString texIndex ++ "/" ++ scatterer.name) ?_)) path hpath
      · simp [String.data_append, hmode]
      · simp [ht]
  · rw [saveSingleScatteringRenderingShader_plain qt _ _ _ _ _ _ hdir hm hname] at hpath
    by_cases ht : scatterer.phaseFunctionType = PhaseFunctionType.Smooth
    · rw [if_pos ht] at hpath
      cases hpath
    · rw [if_neg ht] at hpath
      by_cases hg : scatterer.phaseFunctionType = PhaseFunctionType.General
      · simp only [hg, true_or, if_true] at hpath
        refine saved_covered _ _ _ _ _ (fun _ => ?_) (hfiles _)
          (covered_mem _ _ (mem_createdDirs_scatterer opts atmo names scatterer hs texIndex h
            (atmo.textureOutputDir ++ "/shaders/single-scattering/" ++
              names SSRM_PRECOMPUTED ++ "/" ++ toString texIndex ++ "/" ++ scatterer.name)
            ?_)) path hpath
        · simp [String.data_append, hmode]
        · simp [hg]
      · have ha : scatterer.phaseFunctionType = PhaseFunctionType.Achromatic := by
          cases hc : scatterer.phaseFunctionType
          · exact absurd hc hg
          · rfl
          · exact absurd hc ht
        simp only [hg, false_or, reduceCtorEq, if_false] at hpath
        refine saved_covered _ _ _ _ _ (fun _ => ?_) (hfiles _)
          (covered_mem _ _ (mem_createdDirs_achromatic opts atmo names scatterer hs ha))
          path hpath
        simp [String.data_append, hmode]
  · rw [saveEclipsedSingleScatteringRenderingShader_plain qt _ _ _ _ _ _ hdir hm hname] at hpath
    simp only [or_true, if_true] at hpath
    refine saved_covered _ _ _ _ _ (fun _ => ?_) (hfiles _)
      (covered_mem _ _ (mem_createdDirs_scatterer opts atmo names scatterer hs texIndex h
        (atmo.textureOutputDir ++ "/shaders/single-scattering-eclipsed/" ++
          names SSRM_ON_THE_FLY ++ "/" ++ toString texIndex ++ "/" ++ scatterer.name) ?_))
      path hpath
    · simp [String.data_append, hmode]
    · simp
  · rw [saveEclipsedSingleScatteringRenderingShader_plain qt _ _ _ _ _ _ hdir hm hname] at hpath
    by_cases hg : scatterer.phaseFunctionType = PhaseFunctionType.General
    · simp only [hg, true_or, if_true] at hpath
      refine saved_covered _ _ _ _ _ (fun _ => ?_) (hfiles _)
        (covered_mem _ _ (mem_createdDirs_scatterer opts atmo names scatterer hs texIndex h
          (atmo.textureOutputDir ++ "/shaders/single-scattering-eclipsed/" ++
            names SSRM_PRECOMPUTED ++ "/" ++ toString texIndex ++ "/" ++ scatterer.name)
          ?_)) path hpath
      · simp [String.data_append, hmode]
      · simp [hg]
    · simp only [hg, false_or, reduceCtorEq, if_false] at hpath
      refine saved_covered _ _ _ _ _ (fun _ => ?_) (hfiles _)
        (covered_mem _ _ (mem_createdDirs_not_general opts atmo names scatterer hs hg))
        path hpath
      simp [String.data_append, hmode]
  · rw [saveEclipsedSingleScatteringComputationShader_plain qt _ _ _ _ hdir hname] at hpath
    refine saved_covered _ _ _ _ _ (fun _ => ?_) (hfiles _)
      (covered_mem _ _ (mem_createdDirs_scatterer opts atmo names scatterer hs texIndex h
        (atmo.textureOutputDir ++ "/shaders/single-scattering-eclipsed/precomputation/" ++
          toString texIndex ++ "/" ++ scatterer.name) ?_)) path hpath
    · simp [String.data_append]
    · simp

theorem saveMultipleScatteringRenderingShader_covered (qt : Qt) (opts : Options)
    (atmo : AtmosphereParameters) (names : SingleScatteringRenderMode → String)
    (sources : List (String × String)) (texIndex : Nat)
    (hdir : '%' ∉ atmo.textureOutputDir.data)
    (hfiles : ∀ source ∈ sources, '/' ∉ source.1.data)
    (h : opts.saveResultAsRadiance = true → texIndex < atmo.allWavelengths.length) :
    ∀ path ∈ saveMultipleScatteringRenderingShader qt opts atmo sources texIndex,
      Covered (createdDirs opts atmo names) (parentDir path) := by
  rw [saveMultipleScatteringRenderingShader_plain qt _ _ _ _ hdir]
  cases hr : opts.saveResultAsRadiance
  · simp only [Bool.false_eq_true, if_false]
    exact saved_covered _ _ _ _ (atmo.textureOutputDir ++ "/shaders/multiple-scattering")
      (fun _ => by simp [String.data_append]) hfiles (covered_multiple opts atmo names)
  · simp only [if_true]
    exact saved_covered _ _ _ _
      (atmo.textureOutputDir ++ "/shaders/multiple-scattering/" ++ toString texIndex)
      (fun _ => by simp [String.data_append]) hfiles
      (covered_mem _ _ (mem_createdDirs_radiance opts atmo names texIndex (h hr) hr))

theorem mainLoopBody_covered (qt : Qt) (opts : Options) (atmo : AtmosphereParameters)
    (names toStringMode : SingleScatteringRenderMode → String)
    (captured : ShaderSave → List (String × String)) (texIndex : Nat)
    (hdir : '%' ∉ atmo.textureOutputDir.data)
    (hmode : ∀ mode, toStringMode mode = names mode)
    (hmodes : ∀ mode, '%' ∉ (names mode).data)
    (hnames : ∀ scatterer ∈ atmo.scatterers, '%' ∉ scatterer.name.data)
    (hfiles : ∀ save, ∀ source ∈ captured save, '/' ∉ source.1.data)
    (h : texIndex < atmo.allWavelengths.length) :
    ∀ path ∈ mainLoopBody qt opts atmo toStringMode captured texIndex,
      Covered (createdDirs opts atmo names) (parentDir path) := by
  intro path hpath
  unfold mainLoopBody at hpath
  simp only [List.mem_append] at hpath
  rcases hpath with ((((hpath | hpath) | hpath) | hpath) | hpath) | hpath
  · rw [saveZeroOrderScatteringRenderingShader_plain qt _ _ _ hdir] at hpath
    exact saved_covered _ _ _ _
      (atmo.textureOutputDir ++ "/shaders/zero-order-scattering/" ++ toString texIndex)
      (fun _ => by simp [String.data_append]) (hfiles _)
      (covered_mem _ _ (mem_createdDirs_subset opts atmo names texIndex h _ (by simp)))
      path hpath
  · rw [saveEclipsedZeroOrderScatteringRenderingShader_plain qt _ _ _ hdir] at hpath
    exact saved_covered _ _ _ _
      (atmo.textureOutputDir ++ "/shaders/eclipsed-zero-order-scattering/" ++ toString texIndex)
      (fun _ => by simp [String.data_append]) (hfiles _)
      (covered_mem _ _ (mem_createdDirs_subset opts atmo names texIndex h _ (by simp)))
      path hpath
  · obtain ⟨scatterer, hs, hpath⟩ := List.mem_flatMap.1 hpath
    exact computeSingleScattering_covered qt opts atmo names toStringMode captured texIndex
      scatterer hdir hmode hmodes (hnames scatterer hs) hfiles hs h path hpath
  · rw [saveEclipsedDoubleScatteringRenderingShader_plain qt _ _ _ hdir] at hpath
    exact saved_covered _ _ _ _
      (atmo.textureOutputDir ++ "/shaders/double-scattering-eclipsed/precomputed/" ++ toString texIndex)
      (fun _ => by simp [String.data_append]) (hfiles _)
      (covered_mem _ _ (mem_createdDirs_subset opts atmo names texIndex h _ (by simp)))
      path hpath
  · by_cases hr : opts.saveResultAsRadiance = true
    · rw [if_pos hr] at hpath
      exact saveMultipleScatteringRenderingShader_covered qt opts atmo names _ texIndex hdir
        (hfiles _) (fun _ => h) path hpath
    · rw [if_neg hr] at hpath
      cases hpath
  · rw [Eclipsed.saveEclipsedDoubleScatteringComputationShader_plain qt _ _ _ hdir] at hpath
    rw [List.map_map] at hpath
    exact saved_covered _ _ _ _
      (atmo.textureOutputDir ++ "/shaders/double-scattering-eclipsed/precomputation/" ++
        toString texIndex)
      (fun _ => by simp [String.data_append]) (hfiles _)
      (covered_mem _ _ (mem_createdDirs_subset opts atmo names texIndex h _ (by simp)))
      path hpath

theorem startup_names (opts : Options) (atmo : AtmosphereParameters)
    (hnames : ∀ scatterer ∈ atmo.scatterers, '/' ∉ scatterer.name.data) :
    ∀ scatterer ∈ (startup opts atmo).scatterers, '/' ∉ scatterer.name.data := by
  intro scatterer hs
  unfold startup at hs
  simp only at hs
  split_ifs at hs
  · obtain ⟨original, horiginal, rfl⟩ := List.mem_map.1 hs
    exact hnames original horiginal
  · exact hnames scatterer hs

theorem startup_names_percent (opts : Options) (atmo : AtmosphereParameters)
    (hnames : ∀ scatterer ∈ atmo.scatterers, '%' ∉ scatterer.name.data) :
    ∀ scatterer ∈ (startup opts atmo).scatterers, '%' ∉ scatterer.name.data := by
  intro scatterer hs
  unfold startup at hs
  simp only at hs
  split_ifs at hs
  · obtain ⟨original, horiginal, rfl⟩ := List.mem_map.1 hs
    exact hnames original horiginal
  · exact hnames scatterer hs

theorem mem_outline_of_written {T : Type} (s : State T) (event : Event) (path : String)
    (hmem : event ∈ s.log) (hpath : writtenPath event = some path) : event ∈ s.outline := by
  unfold State.outline
  refine List.mem_filterMap.2 ⟨event, hmem, ?_⟩
  cases event <;> first | rfl | cases hpath

end Files

/-- C29: on a run that goes on, for every list of scatterers of any phase-function types,
every number of wavelength subsets and both output modes. When the name of the output
directory, the names of the render modes and the names of the scatterers hold no `%`, the
parent directory of every shader file that the save functions write is one of the
directories named in the calls of `createDirs` at the start of `main`, or an ancestor of one;
so is the parent directory of every texture file that the run writes, whatever the name of
the output directory. (The names of the scatterers and the file names of the captured sources
hold no slash, and `toString` of a render mode is its entry of
`singleScatteringRenderModeNames`.) For the output directory `out%2` the claim fails: the
directories are created under `out%2`, as `out%2/shaders/zero-order-scattering/0`, while the
calls of `arg` fill the marker `%2` of the directory name too, so that the first shader file
is `out0/shaders/zero-order-scattering/0/render.frag`, and no shader file of the run lies in
a directory that was created or in an ancestor of one. -/
theorem C29_output_directories {T : Type} [AddCommMonoid T] (qt : Qt) (sh : Shaders T)
    (opts : Options) (atmo : AtmosphereParameters) (image : Texture → T)
    (names toStringMode : SingleScatteringRenderMode → String)
    (captured : Files.ShaderSave → List (String × String))
    (hdir : '%' ∉ (startup opts atmo).textureOutputDir.data)
    (hmode : ∀ mode, toStringMode mode = names mode)
    (hmodes : ∀ mode, '%' ∉ (names mode).data)
    (hnames : ∀ scatterer ∈ atmo.scatterers,
      '/' ∉ scatterer.name.data ∧ '%' ∉ scatterer.name.data)
    (hfiles : ∀ save, ∀ source ∈ captured save, '/' ∉ source.1.data) :
    (∀ path ∈ Files.main qt opts atmo toStringMode captured,
      Files.Covered (Files.createdDirs opts (startup opts atmo) names)
        (Files.parentDir path)) ∧
    Files.WritesCovered (Files.createdDirs opts (startup opts atmo) names)
      (main sh opts atmo image).log ∧
    ((Files.main plainQt plainOptions percentPlanet sampleModeNames sampleCaptured).head? =
        some "out0/shaders/zero-order-scattering/0/render.frag" ∧
      "out%2/shaders/zero-order-scattering/0" ∈
        Files.createdDirs plainOptions (startup plainOptions percentPlanet) sampleModeNames ∧
      ∀ path ∈ Files.main plainQt plainOptions percentPlanet sampleModeNames sampleCaptured,
        ¬ Files.Covered
          (Files.createdDirs plainOptions (startup plainOptions percentPlanet) sampleModeNames)
          (Files.parentDir path)) := by
  refine ⟨?_, ?_, by decide, by decide, by decide⟩
  · intro path hpath
    unfold Files.main at hpath
    rcases List.mem_append.1 hpath with hpath | hpath
    · obtain ⟨texIndex, hrange, hpath⟩ := List.mem_flatMap.1 hpath
      exact Files.mainLoopBody_covered qt opts (startup opts atmo) names toStringMode captured
        texIndex hdir hmode hmodes
        (Files.startup_names_percent opts atmo fun scatterer hs => (hnames scatterer hs).2)
        hfiles (List.mem_range.1 hrange) path hpath
    · by_cases hr : opts.saveResultAsRadiance = true
      · rw [if_pos hr] at hpath
        cases hpath
      · rw [if_neg hr] at hpath
        exact Files.saveMultipleScatteringRenderingShader_covered qt opts (startup opts atmo)
          names _ _ hdir (hfiles _) (fun h => absurd h hr) path hpath
  · intro event hmem path hpath
    have hout := Files.mem_outline_of_written _ event path hmem hpath
    rw [main_outline, mainEvents] at hout
    obtain ⟨texIndex, hrange, hevent⟩ := List.mem_flatMap.1 hout
    have hlt : texIndex < (startup opts atmo).allWavelengths.length := List.mem_range.1 hrange
    exact Files.mainLoopBodyEvents_covered _ opts (startup opts atmo) texIndex
      (Files.covered_root opts _ names) (Files.covered_single opts _ names texIndex hlt)
      (Files.covered_mem _ _
        (Files.mem_createdDirs_subset opts _ names texIndex hlt _ (by simp)))
      (Files.startup_names opts atmo fun scatterer hs => (hnames scatterer hs).1) event hevent
      path hpath

/-- C29, witness: the small planet with a General, an Achromatic and a Smooth scatterer and
the output directory `out`, in luminance mode, with the render mode names `on-the-fly` and
`precomputed` and programs of two files. -/
theorem C29_output_directories_witness :
    '%' ∉ (startup plainOptions mistyPlanet).textureOutputDir.data ∧
    (∀ mode, '%' ∉ (sampleModeNames mode).data) ∧
    (∀ scatterer ∈ mistyPlanet.scatterers,
      '/' ∉ scatterer.name.data ∧ '%' ∉ scatterer.name.data) ∧
    (∀ save, ∀ source ∈ sampleCaptured save, '/' ∉ source.1.data) ∧
    (∀ path ∈ Files.main plainQt plainOptions mistyPlanet sampleModeNames sampleCaptured,
      Files.Covered (Files.createdDirs plainOptions (startup plainOptions mistyPlanet)
        sampleModeNames) (Files.parentDir path)) ∧
    Files.WritesCovered
      (Files.createdDirs plainOptions (startup plainOptions mistyPlanet) sampleModeNames)
      (main unitShaders plainOptions mistyPlanet fun _ => 0).log :=
  have h := C29_output_directories plainQt unitShaders plainOptions mistyPlanet (fun _ => 0)
    sampleModeNames sampleModeNames sampleCaptured (by decide) (fun _ => rfl)
    (fun mode => by cases mode <;> decide) (by decide) (fun _ => by simp [sampleCaptured])
  ⟨by decide, fun mode => by cases mode <;> decide, by decide,
    fun _ => by simp [sampleCaptured], h.1, h.2.1⟩

theorem kept_weaken {T : Type} {detached : Bool} {v : T} {s : State T}
    (h : Kept detached v s) : Kept false v s :=
  ⟨h.1, h.2.1, fun hatt => ⟨(h.2.2 hatt).1, rfl⟩⟩

theorem kept_blendFunc {T : Type} {detached : Bool} {v : T} {s : State T}
    (src dst : BlendFactor) (h : Kept detached v s) :
    Kept detached v (glBlendFunc src dst s) := h

theorem kept_enable {T : Type} {detached : Bool} {v : T} {s : State T}
    (h : Kept detached v s) : Kept detached v (glEnableBlend s) := h

theorem kept_disable {T : Type} {detached : Bool} {v : T} {s : State T}
    (h : Kept detached v s) : Kept detached v (glDisableBlend s) := h

theorem kept_enablei {T : Type} {detached : Bool} {v : T} {s : State T} (i : Nat)
    (h : Kept detached v s) : Kept detached v (glEnableiBlend i s) := by
  unfold glEnableiBlend
  split_ifs <;> exact h

theorem kept_disablei {T : Type} {detached : Bool} {v : T} {s : State T} (i : Nat)
    (h : Kept detached v s) : Kept detached v (glDisableiBlend i s) := by
  unfold glDisableiBlend
  split_ifs <;> exact h

theorem kept_check {T : Type} {detached : Bool} {v : T} {s : State T}
    (h : Kept detached v s) : Kept detached v (checkFramebufferStatus s) := h

theorem kept_save {T : Type} {detached : Bool} {v : T} {s : State T}
    (texture : Texture) (path : String) (h : Kept detached v s) :
    Kept detached v (saveTexture texture path s) := h

theorem kept_gen {T : Type} {detached : Bool} {v : T} {s : State T}
    (name : String) (h : Kept detached v s) : Kept detached v (glGenTextures name s) := h

theorem kept_drawBuffers {T : Type} {detached : Bool} {v : T} {s : State T}
    (h : Kept detached v s) : Kept detached v (setDrawBuffers01 s) := by
  unfold setDrawBuffers01
  split <;> exact h

theorem kept_ite {T : Type} {detached : Bool} {v : T} {a b : State T} (c : Prop)
    [Decidable c] (ha : Kept detached v a) (hb : Kept detached v b) :
    Kept detached v (if c then a else b) := by
  split_ifs
  · exact ha
  · exact hb

theorem kept_bind {T : Type} {detached : Bool} {v : T} {s : State T}
    (fbo : Option FboId) (hfbo : fbo ≠ some FBO_MULTIPLE_SCATTERING ∨ detached = true)
    (h : Kept detached v s) : Kept detached v (glBindFramebuffer fbo s) := by
  refine ⟨h.1, h.2.1, fun hatt => ?_⟩
  obtain ⟨-, hd⟩ := h.2.2 hatt
  rcases hfbo with hfbo | hfbo
  · exact ⟨hfbo, hd⟩
  · rw [hd] at hfbo
    cases hfbo

theorem kept_attach {T : Type} {detached : Bool} {v : T} {s : State T}
    (i : Nat) (texture : Texture) (ht : texture ≠ Texture.fixed TEX_MULTIPLE_SCATTERING)
    (h : Kept detached v s) : Kept detached v (glFramebufferTexture i texture s) := by
  obtain ⟨hv, ⟨h1, h0⟩, hg⟩ := h
  unfold glFramebufferTexture
  cases hfb : s.framebuffer with
  | none => exact ⟨hv, ⟨h1, h0⟩, fun hatt => by simpa [hfb] using hg hatt⟩
  | some fbo =>
    have hne : (some texture : Option Texture) ≠ some (Texture.fixed TEX_MULTIPLE_SCATTERING) :=
      fun e => ht (Option.some.inj e)
    by_cases hi : i = 0
    · simp only [hi, if_true]
      have hupd : ∀ f, Function.update s.attachment0 fbo (some texture) f =
          some (Texture.fixed TEX_MULTIPLE_SCATTERING) →
          s.attachment0 f = some (Texture.fixed TEX_MULTIPLE_SCATTERING) := by
        intro f hf
        by_cases e : f = fbo
        · subst e
          rw [Function.update_same] at hf
          exact absurd hf hne
        · rwa [Function.update_noteq e] at hf
      exact ⟨hv, ⟨h1, fun f hf => h0 f (hupd f hf)⟩,
        fun hatt => by simpa [hfb] using hg (hupd _ hatt)⟩
    · simp only [hi, if_false]
      refine ⟨hv, ⟨fun f hf => ?_, h0⟩, fun hatt => by simpa [hfb] using hg hatt⟩
      have hf' : Function.update s.attachment1 fbo (some texture) f =
          some (Texture.fixed TEX_MULTIPLE_SCATTERING) := hf
      by_cases e : f = fbo
      · subst e
        rw [Function.update_same] at hf'
        exact hne hf'
      · rw [Function.update_noteq e] at hf'
        exact h1 f hf'

/-- Binding `FBO_MULTIPLE_SCATTERING` and attaching another texture to it detaches the
accumulator. -/
theorem kept_reattach {T : Type} {detached : Bool} {v : T} {s : State T}
    (texture : Texture) (ht : texture ≠ Texture.fixed TEX_MULTIPLE_SCATTERING)
    (h : Kept detached v s) :
    Kept true v
      (glFramebufferTexture 0 texture (glBindFramebuffer (some FBO_MULTIPLE_SCATTERING) s)) := by
  obtain ⟨hv, ⟨h1, h0⟩, -⟩ := h
  have hne : (some texture : Option Texture) ≠ some (Texture.fixed TEX_MULTIPLE_SCATTERING) :=
    fun e => ht (Option.some.inj e)
  have hupd : ∀ f, Function.update s.attachment0 FBO_MULTIPLE_SCATTERING (some texture) f ≠
      some (Texture.fixed TEX_MULTIPLE_SCATTERING) := by
    intro f hf
    by_cases e : f = FBO_MULTIPLE_SCATTERING
    · subst e
      rw [Function.update_same] at hf
      exact hne hf
    · rw [Function.update_noteq e] at hf
      exact e (h0 f hf)
  exact ⟨hv, ⟨h1, fun f hf => absurd hf (hupd f)⟩,
    fun hatt => absurd hatt (hupd FBO_MULTIPLE_SCATTERING)⟩

theorem writeAttachment_kept {T : Type} [AddCommMonoid T] (enabled : Bool)
    (target : Option Texture) (out : T) (s : State T)
    (ht : target ≠ some (Texture.fixed TEX_MULTIPLE_SCATTERING)) :
    (writeAttachment enabled target out s).image (Texture.fixed TEX_MULTIPLE_SCATTERING) =
        s.image (Texture.fixed TEX_MULTIPLE_SCATTERING) ∧
      (writeAttachment enabled target out s).attachment0 = s.attachment0 ∧
      (writeAttachment enabled target out s).attachment1 = s.attachment1 ∧
      (writeAttachment enabled target out s).framebuffer = s.framebuffer := by
  cases target with
  | none => exact ⟨rfl, rfl, rfl, rfl⟩
  | some t =>
    refine ⟨?_, rfl, rfl, rfl⟩
    have : Texture.fixed TEX_MULTIPLE_SCATTERING ≠ t := fun e => ht (by rw [e])
    exact Function.update_noteq this _ _

theorem kept_quad {T : Type} [AddCommMonoid T] {detached : Bool} {v : T} {s : State T}
    (pass : Pass) (out : T) (h : Kept detached v s) :
    Kept detached v (renderQuad pass out s) := by
  obtain ⟨hv, ⟨h1, h0⟩, hg⟩ := h
  unfold renderQuad
  cases hfb : s.framebuffer with
  | none => exact ⟨hv, ⟨h1, h0⟩, fun hatt => by simpa [hfb] using hg hatt⟩
  | some fbo =>
    have ht0 : s.attachment0 fbo ≠ some (Texture.fixed TEX_MULTIPLE_SCATTERING) := by
      intro hatt
      have := h0 fbo hatt
      subst this
      exact (hg hatt).1 hfb
    obtain ⟨a1, a2, a3, a4⟩ := writeAttachment_kept s.blend0 (s.attachment0 fbo) out s ht0
    by_cases hdb : s.drawBuffer1 fbo = true
    · obtain ⟨b1, b2, b3, b4⟩ := writeAttachment_kept s.blend1 (s.attachment1 fbo) out
        (writeAttachment s.blend0 (s.attachment0 fbo) out s) (h1 fbo)
      simp only [hdb, if_true]
      refine ⟨(b1.trans a1).trans hv, ⟨fun f => ?_, fun f hf => ?_⟩, fun hatt => ?_⟩
      · show (writeAttachment _ _ _ _).attachment1 f ≠ _
        rw [b3, a3]
        exact h1 f
      · apply h0 f
        have : (writeAttachment s.blend1 (s.attachment1 fbo) out
          (writeAttachment s.blend0 (s.attachment0 fbo) out s)).attachment0 f = _ := hf
        rwa [b2, a2] at this
      · have : (writeAttachment s.blend1 (s.attachment1 fbo) out
          (writeAttachment s.blend0 (s.attachment0 fbo) out s)).attachment0
            FBO_MULTIPLE_SCATTERING = _ := hatt
        rw [b2, a2] at this
        show (writeAttachment _ _ _ _).framebuffer ≠ _ ∧ _
        rw [b4, a4]
        exact hg this
    · simp only [hdb, Bool.false_eq_true, if_false]
      refine ⟨a1.trans hv, ⟨fun f => ?_, fun f hf => ?_⟩, fun hatt => ?_⟩
      · show (writeAttachment _ _ _ _).attachment1 f ≠ _
        rw [a3]
        exact h1 f
      · apply h0 f
        have : (writeAttachment s.blend0 (s.attachment0 fbo) out s).attachment0 f = _ := hf
        rwa [a2] at this
      · have : (writeAttachment s.blend0 (s.attachment0 fbo) out s).attachment0
            FBO_MULTIPLE_SCATTERING = _ := hatt
        rw [a2] at this
        show (writeAttachment _ _ _ _).framebuffer ≠ _ ∧ _
        rw [a4]
        exact hg this

theorem kept_layers {T : Type} [AddCommMonoid T] {detached : Bool} {v : T}
    {s : State T} (opts : Options) (pass : Pass) (out : T) (h : Kept detached v s) :
    Kept detached v (render3DTexLayers opts pass out s) := by
  unfold render3DTexLayers
  exact kept_ite _ h (kept_quad pass out h)

theorem kept_precomputer {T : Type} [AddCommMonoid T] {detached : Bool} {v : T}
    {s : State T} (sh : Shaders T) (texIndex : Nat) (h : Kept detached v s) :
    Kept detached v (precomputerCompute sh texIndex s) := by
  refine ⟨?_, h.2⟩
  have : Texture.fixed TEX_MULTIPLE_SCATTERING ≠ Texture.fixed TEX_ECLIPSED_DOUBLE_SCATTERING := by
    decide
  have e : (precomputerCompute sh texIndex s).image (Texture.fixed TEX_MULTIPLE_SCATTERING) =
      s.image (Texture.fixed TEX_MULTIPLE_SCATTERING) :=
    Function.update_noteq this (sh.compute (Pass.computeEclipsedDoubleScattering texIndex))
      s.image
  exact e.trans h.1

theorem saveIrradiance_kept {T : Type} {detached : Bool} {v : T} {s : State T}
    (opts : Options) (atmo : AtmosphereParameters) (scatteringOrder texIndex : Nat)
    (h : Kept detached v s) :
    Kept detached v (saveIrradiance opts atmo scatteringOrder texIndex s) := by
  unfold saveIrradiance
  exact kept_ite _ (kept_ite _ (kept_save _ _ h) h)
    (kept_save _ _ (kept_save _ _ (kept_ite _ (kept_save _ _ h) h)))

theorem saveScatteringDensity_kept {T : Type} {detached : Bool} {v : T} {s : State T}
    (opts : Options) (atmo : AtmosphereParameters) (scatteringOrder texIndex : Nat)
    (h : Kept detached v s) :
    Kept detached v (saveScatteringDensity opts atmo scatteringOrder texIndex s) := by
  unfold saveScatteringDensity
  exact kept_ite _ h (kept_save _ _ h)

theorem computeTransmittance_kept {T : Type} [AddCommMonoid T] {detached : Bool} {v : T}
    {s : State T} (sh : Shaders T) (atmo : AtmosphereParameters) (texIndex : Nat)
    (h : Kept detached v s) : Kept detached v (computeTransmittance sh atmo texIndex s) := by
  unfold computeTransmittance
  exact kept_bind none (Or.inl (by decide)) (kept_save _ _ (kept_quad _ _ (kept_check
    (kept_attach 0 _ (by decide) (kept_bind _ (Or.inl (by decide)) h)))))

theorem computeDirectGroundIrradiance_kept {T : Type} [AddCommMonoid T] {detached : Bool}
    {v : T} {s : State T} (sh : Shaders T) (opts : Options) (atmo : AtmosphereParameters)
    (texIndex : Nat) (h : Kept detached v s) :
    Kept detached v (computeDirectGroundIrradiance sh opts atmo texIndex s) := by
  unfold computeDirectGroundIrradiance
  exact kept_bind none (Or.inl (by decide)) (saveIrradiance_kept _ _ _ _ (kept_quad _ _
    (kept_drawBuffers (kept_check (kept_attach 1 _ (by decide) (kept_attach 0 _ (by decide)
      (kept_bind _ (Or.inl (by decide)) h)))))))

theorem accumulateSingleScattering_kept {T : Type} [AddCommMonoid T] {detached : Bool}
    {v : T} {s : State T} (sh : Shaders T) (opts : Options) (atmo : AtmosphereParameters)
    (texIndex : Nat) (scatterer : Scatterer) (h : Kept detached v s) :
    Kept detached v (accumulateSingleScattering sh opts atmo texIndex scatterer s) := by
  unfold accumulateSingleScattering
  have h3 := kept_ite (scatterer.name ∈
      (glEnableBlend (glBlendFunc GL_ONE GL_ONE s)).accumulatedSingleScatteringTextures)
    (kept_enable (kept_blendFunc GL_ONE GL_ONE h))
    (kept_disable (kept_gen scatterer.name (kept_enable (kept_blendFunc GL_ONE GL_ONE h))))
  have h6 := (kept_check (kept_attach 0 (Texture.accumulated scatterer.name) (by simp)
      (kept_bind (some FBO_SINGLE_SCATTERING) (Or.inl (by decide)) h3)))
  have h9 := kept_bind none (Or.inl (by decide)) (kept_disable (kept_layers opts
    (Pass.accumulateSingleScattering texIndex scatterer)
    (sh.copyScatteringTexture
      (some (radianceToLuminance sh.wavelengthToXYZW atmo.allWavelengths texIndex))
      ((checkFramebufferStatus (glFramebufferTexture 0 (Texture.accumulated scatterer.name)
        (glBindFramebuffer (some FBO_SINGLE_SCATTERING)
          (if scatterer.name ∈
              (glEnableBlend (glBlendFunc GL_ONE GL_ONE s)).accumulatedSingleScatteringTextures
           then glEnableBlend (glBlendFunc GL_ONE GL_ONE s)
           else glDisableBlend (glGenTextures scatterer.name
            (glEnableBlend (glBlendFunc GL_ONE GL_ONE s))))))).image
          (Texture.fixed TEX_DELTA_SCATTERING))) h6))
  exact kept_ite _ (kept_save _ _ h9) h9

theorem computeSingleScattering_kept {T : Type} [AddCommMonoid T] {detached : Bool}
    {v : T} {s : State T} (sh : Shaders T) (opts : Options) (atmo : AtmosphereParameters)
    (texIndex : Nat) (scatterer : Scatterer) (h : Kept detached v s) :
    Kept detached v (computeSingleScattering sh opts atmo texIndex scatterer s) := by
  have h5 := kept_bind none (Or.inl (by decide)) (kept_layers opts
    (Pass.computeSingleScattering texIndex scatterer)
    (sh.compute (Pass.computeSingleScattering texIndex scatterer))
    (kept_check (kept_attach 0 (Texture.fixed TEX_DELTA_SCATTERING) (by decide)
      (kept_bind (some FBO_DELTA_SCATTERING) (Or.inl (by decide)) h))))
  unfold computeSingleScattering
  cases scatterer.phaseFunctionType
  · exact kept_save _ _ h5
  · exact accumulateSingleScattering_kept sh opts atmo texIndex scatterer h5
  · exact accumulateSingleScattering_kept sh opts atmo texIndex scatterer h5

theorem computeIndirectIrradianceOrder1_kept {T : Type} [AddCommMonoid T] {detached : Bool}
    {v : T} {s : State T} (sh : Shaders T) (opts : Options) (atmo : AtmosphereParameters)
    (texIndex scattererIndex : Nat) (h : Kept detached v s) :
    Kept detached v (computeIndirectIrradianceOrder1 sh opts atmo texIndex scattererIndex s) := by
  have h4 := kept_enablei 1 (kept_ite (scattererIndex = 0)
    (kept_disablei 0 (kept_blendFunc GL_ONE GL_ONE
      (kept_bind (some FBO_IRRADIANCE) (Or.inl (by decide)) h)))
    (kept_enablei 0 (kept_blendFunc GL_ONE GL_ONE
      (kept_bind (some FBO_IRRADIANCE) (Or.inl (by decide)) h))))
  unfold computeIndirectIrradianceOrder1
  cases atmo.scatterers[scattererIndex]? with
  | none => exact h4
  | some scatterer =>
    exact kept_bind none (Or.inl (by decide)) (saveIrradiance_kept _ _ _ _
      (kept_disable (kept_quad _ _ h4)))

theorem order2Scatterer_kept {T : Type} [AddCommMonoid T] {v : T} {s : State T}
    (sh : Shaders T) (opts : Options) (atmo : AtmosphereParameters)
    (texIndex scattererIndex : Nat) (h : Kept true v s) :
    Kept true v (order2Scatterer sh opts atmo texIndex s scattererIndex) := by
  unfold order2Scatterer
  cases atmo.scatterers[scattererIndex]? with
  | none => exact h
  | some scatterer =>
    exact computeIndirectIrradianceOrder1_kept sh opts atmo texIndex scattererIndex
      (kept_layers opts _ _ (kept_enable (kept_bind _ (Or.inr rfl)
        (computeSingleScattering_kept sh opts atmo texIndex scatterer h))))

theorem order2Loop_kept {T : Type} [AddCommMonoid T] {v : T} (sh : Shaders T)
    (opts : Options) (atmo : AtmosphereParameters) (texIndex : Nat) (indices : List Nat)
    (s : State T) (h : Kept true v s) :
    Kept true v (indices.foldl (order2Scatterer sh opts atmo texIndex) s) := by
  induction indices generalizing s with
  | nil => exact h
  | cons j rest ih => exact ih _ (order2Scatterer_kept sh opts atmo texIndex j h)

theorem order2FromGround_kept {T : Type} [AddCommMonoid T] {detached : Bool} {v : T}
    {s : State T} (sh : Shaders T) (opts : Options) (atmo : AtmosphereParameters)
    (texIndex : Nat) (h : Kept detached v s) :
    Kept true v (order2FromGround sh opts atmo texIndex s) := by
  unfold order2FromGround
  have h4 := kept_layers opts (Pass.scatteringDensityFromGround texIndex)
    (sh.compute (Pass.scatteringDensityFromGround texIndex))
    (kept_check (kept_reattach (Texture.fixed TEX_DELTA_SCATTERING_DENSITY) (by decide) h))
  exact kept_blendFunc _ _ (kept_ite _ (kept_save _ _ h4) h4)

theorem computeScatteringDensityOrder2_kept {T : Type} [AddCommMonoid T] {detached : Bool}
    {v : T} {s : State T} (sh : Shaders T) (opts : Options) (atmo : AtmosphereParameters)
    (texIndex : Nat) (h : Kept detached v s) :
    Kept true v (computeScatteringDensityOrder2 sh opts atmo texIndex s) := by
  unfold computeScatteringDensityOrder2
  exact kept_bind none (Or.inl (by decide)) (saveScatteringDensity_kept _ _ _ _ (kept_disable
    (order2Loop_kept sh opts atmo texIndex _ _ (order2FromGround_kept sh opts atmo texIndex h))))

theorem computeScatteringDensity_kept {T : Type} [AddCommMonoid T] {detached : Bool}
    {v : T} {s : State T} (sh : Shaders T) (opts : Options) (atmo : AtmosphereParameters)
    (scatteringOrder texIndex : Nat) (h : Kept detached v s) :
    Kept true v (computeScatteringDensity sh opts atmo scatteringOrder texIndex s) := by
  unfold computeScatteringDensity
  exact kept_bind none (Or.inl (by decide)) (saveScatteringDensity_kept _ _ _ _
    (kept_layers opts _ _
      (kept_reattach (Texture.fixed TEX_DELTA_SCATTERING_DENSITY) (by decide) h)))

theorem computeIndirectIrradiance_kept {T : Type} [AddCommMonoid T] {detached : Bool}
    {v : T} {s : State T} (sh : Shaders T) (opts : Options) (atmo : AtmosphereParameters)
    (scatteringOrder texIndex : Nat) (h : Kept detached v s) :
    Kept detached v (computeIndirectIrradiance sh opts atmo scatteringOrder texIndex s) := by
  unfold computeIndirectIrradiance
  exact kept_bind none (Or.inl (by decide)) (saveIrradiance_kept _ _ _ _ (kept_disable
    (kept_quad _ _ (kept_enablei 1 (kept_disablei 0 (kept_blendFunc _ _
      (kept_bind _ (Or.inl (by decide)) h)))))))

theorem computeEclipsedDoubleScattering_kept {T : Type} [AddCommMonoid T] {detached : Bool}
    {v : T} {s : State T} (sh : Shaders T) (opts : Options) (atmo : AtmosphereParameters)
    (texIndex : Nat) (h : Kept detached v s) :
    Kept detached v (computeEclipsedDoubleScattering sh opts atmo texIndex s) := by
  unfold computeEclipsedDoubleScattering
  have h4 := kept_precomputer sh texIndex (kept_check
    (kept_attach 0 (Texture.fixed TEX_ECLIPSED_DOUBLE_SCATTERING) (by decide)
      (kept_bind (some FBO_ECLIPSED_DOUBLE_SCATTERING) (Or.inl (by decide)) h)))
  exact kept_ite _ h h4

theorem sealed_ite {T : Type} {a b : State T} (c : Prop) [Decidable c] (ha : Sealed a)
    (hb : Sealed b) : Sealed (if c then a else b) := by
  split_ifs
  · exact ha
  · exact hb

theorem sealed_attachAccumulator {T : Type} {s : State T} (h : Sealed s) :
    Sealed (glFramebufferTexture 0 (Texture.fixed TEX_MULTIPLE_SCATTERING)
      (glBindFramebuffer (some FBO_MULTIPLE_SCATTERING) s)) := by
  refine ⟨h.1, fun f hf => ?_⟩
  have hf' : Function.update s.attachment0 FBO_MULTIPLE_SCATTERING
      (some (Texture.fixed TEX_MULTIPLE_SCATTERING)) f =
        some (Texture.fixed TEX_MULTIPLE_SCATTERING) := hf
  by_cases e : f = FBO_MULTIPLE_SCATTERING
  · exact e
  · rw [Function.update_noteq e] at hf'
    exact h.2 f hf'

theorem writeAttachment_attachments {T : Type} [AddCommMonoid T] (enabled : Bool)
    (target : Option Texture) (out : T) (s : State T) :
    (writeAttachment enabled target out s).attachment0 = s.attachment0 ∧
      (writeAttachment enabled target out s).attachment1 = s.attachment1 := by
  cases target <;> exact ⟨rfl, rfl⟩

theorem sealed_quad {T : Type} [AddCommMonoid T] {s : State T} (pass : Pass) (out : T)
    (h : Sealed s) : Sealed (renderQuad pass out s) := by
  unfold renderQuad
  cases s.framebuffer with
  | none => exact h
  | some fbo =>
    obtain ⟨a0, a1⟩ := writeAttachment_attachments s.blend0 (s.attachment0 fbo) out s
    by_cases hdb : s.drawBuffer1 fbo = true
    · obtain ⟨b0, b1⟩ := writeAttachment_attachments s.blend1 (s.attachment1 fbo) out
        (writeAttachment s.blend0 (s.attachment0 fbo) out s)
      simp only [hdb, if_true]
      refine ⟨fun f => ?_, fun f hf => ?_⟩
      · show (writeAttachment _ _ _ _).attachment1 f ≠ _
        rw [b1, a1]
        exact h.1 f
      · apply h.2 f
        have : (writeAttachment s.blend1 (s.attachment1 fbo) out
          (writeAttachment s.blend0 (s.attachment0 fbo) out s)).attachment0 f = _ := hf
        rwa [b0, a0] at this
    · simp only [hdb, Bool.false_eq_true, if_false]
      refine ⟨fun f => ?_, fun f hf => ?_⟩
      · show (writeAttachment _ _ _ _).attachment1 f ≠ _
        rw [a1]
        exact h.1 f
      · apply h.2 f
        have : (writeAttachment s.blend0 (s.attachment0 fbo) out s).attachment0 f = _ := hf
        rwa [a0] at this

theorem sealed_layers {T : Type} [AddCommMonoid T] {s : State T} (opts : Options)
    (pass : Pass) (out : T) (h : Sealed s) : Sealed (render3DTexLayers opts pass out s) := by
  unfold render3DTexLayers
  exact sealed_ite _ h (sealed_quad pass out h)

theorem guarded_unbound {T : Type} {s : State T} (h : Sealed s) :
    Guarded false (glBindFramebuffer none s) :=
  ⟨h, fun _ => ⟨by simp [glBindFramebuffer], rfl⟩⟩

theorem guarded_ite {T : Type} {detached : Bool} {a b : State T} (c : Prop) [Decidable c]
    (ha : Guarded detached a) (hb : Guarded detached b) :
    Guarded detached (if c then a else b) := by
  split_ifs
  · exact ha
  · exact hb

theorem guarded_save {T : Type} {detached : Bool} {s : State T} (texture : Texture)
    (path : String) (h : Guarded detached s) : Guarded detached (saveTexture texture path s) :=
  h

/-- After the draw of `accumulateMultipleScattering` the accumulator is attached to
`FBO_MULTIPLE_SCATTERING` alone, and no framebuffer is bound. -/
theorem accumulateMultipleScattering_guarded {T : Type} [AddCommMonoid T] (sh : Shaders T)
    (opts : Options) (atmo : AtmosphereParameters) (scatteringOrder texIndex : Nat)
    (s : State T) (h : Sealed s) (x : State T)
    (hx : x =
      let s := glBlendFunc GL_ONE GL_ONE s
      let s := if scatteringOrder > 2 ∨ (texIndex > 0 ∧ opts.saveResultAsRadiance = false) then
          glEnableBlend s
        else glDisableBlend s
      let s := glBindFramebuffer (some FBO_MULTIPLE_SCATTERING) s
      let s := glFramebufferTexture 0 (Texture.fixed TEX_MULTIPLE_SCATTERING) s
      let s := checkFramebufferStatus s
      let s := render3DTexLayers opts (Pass.accumulateMultipleScattering scatteringOrder texIndex)
        (sh.copyScatteringTexture
          (if opts.saveResultAsRadiance = false then
            some (radianceToLuminance sh.wavelengthToXYZW atmo.allWavelengths texIndex)
           else none)
          (s.image (Texture.fixed TEX_DELTA_SCATTERING))) s
      let s := glDisableBlend s
      let s := glBindFramebuffer none s
      if opts.dbgSaveAccumScattering then
        saveTexture (Texture.fixed TEX_MULTIPLE_SCATTERING)
          (atmo.textureOutputDir ++ "/multiple-scattering-to-order" ++
            toString scatteringOrder ++ "-wlset" ++ toString texIndex ++ ".f32") s
      else s) :
    Guarded false x := by
  subst hx
  have h2 : Sealed (if scatteringOrder > 2 ∨ (texIndex > 0 ∧ opts.saveResultAsRadiance = false)
      then glEnableBlend (glBlendFunc GL_ONE GL_ONE s)
      else glDisableBlend (glBlendFunc GL_ONE GL_ONE s)) := sealed_ite _ h h
  have h5 : Sealed (checkFramebufferStatus (glFramebufferTexture 0
      (Texture.fixed TEX_MULTIPLE_SCATTERING)
      (glBindFramebuffer (some FBO_MULTIPLE_SCATTERING) _))) := sealed_attachAccumulator h2
  have h6 := sealed_layers opts (Pass.accumulateMultipleScattering scatteringOrder texIndex)
    (sh.copyScatteringTexture
      (if opts.saveResultAsRadiance = false then
        some (radianceToLuminance sh.wavelengthToXYZW atmo.allWavelengths texIndex)
       else none)
      ((checkFramebufferStatus (glFramebufferTexture 0
        (Texture.fixed TEX_MULTIPLE_SCATTERING)
        (glBindFramebuffer (some FBO_MULTIPLE_SCATTERING)
          (if scatteringOrder > 2 ∨ (texIndex > 0 ∧ opts.saveResultAsRadiance = false)
            then glEnableBlend (glBlendFunc GL_ONE GL_ONE s)
            else glDisableBlend (glBlendFunc GL_ONE GL_ONE s))))).image
        (Texture.fixed TEX_DELTA_SCATTERING))) h5
  have h7 : Sealed (glDisableBlend _) := h6
  have h8 := guarded_unbound h7
  exact guarded_ite _ (guarded_save _ _ h8) h8

theorem mergeSmoothScatterer_sealed {T : Type} [AddCommMonoid T] (sh : Shaders T)
    (opts : Options) (s : State T) (scatterer : Scatterer) (h : Sealed s) :
    Sealed (mergeSmoothScatterer sh opts s scatterer) := by
  unfold mergeSmoothScatterer
  refine sealed_ite _ h ?_
  have h2 : Sealed (glEnableBlend (glBlendFunc GL_ONE GL_ONE s)) := h
  exact sealed_layers opts _ _ h2

theorem mergeLoop_sealed {T : Type} [AddCommMonoid T] (sh : Shaders T)
    (opts : Options) (scatterers : List Scatterer) (s : State T) (h : Sealed s) :
    Sealed (scatterers.foldl (mergeSmoothScatterer sh opts) s) := by
  induction scatterers generalizing s with
  | nil => exact h
  | cons scatterer rest ih => exact ih _ (mergeSmoothScatterer_sealed sh opts s scatterer h)

theorem mergeAndSave_guarded {T : Type} [AddCommMonoid T] (sh : Shaders T)
    (opts : Options) (atmo : AtmosphereParameters) (texIndex : Nat) (s : State T)
    (h : Sealed s) : Guarded false (mergeAndSave sh opts atmo texIndex s) := by
  unfold mergeAndSave mergeSmoothSingleScatteringTexture
  have h1 : Sealed (glBindFramebuffer (some FBO_MULTIPLE_SCATTERING) s) := h
  have h2 := mergeLoop_sealed sh opts atmo.scatterers _ h1
  have h3 : Sealed (glDisableBlend _) := h2
  exact guarded_save _ _ (guarded_unbound h3)

theorem blendResult_one_one {T : Type} [AddCommMonoid T] (enabled : Bool) (src dst : T) :
    blendResult enabled GL_ONE GL_ONE src dst = (if enabled then dst else 0) + src := by
  cases enabled
  · simp [blendResult]
  · simp [blendResult, BlendFactor.apply, add_comm]

/-- One step of the accumulation: `computeMultipleScatteringFromDensity` leaves, before the
merge and the save of the last order, the accumulator with the copy of the delta radiance
written or added. -/
theorem computeMultipleScatteringFromDensity_kept {T : Type} [AddCommMonoid T]
    (sh : Shaders T) (opts : Options) (atmo : AtmosphereParameters)
    (scatteringOrder texIndex : Nat) (detached : Bool) (v : T) (s : State T)
    (hflag : opts.dbgNoSaveTextures = false) (hb : BetweenStages s) (hk : Kept detached v s) :
    ∃ x : State T,
      computeMultipleScatteringFromDensity sh opts atmo scatteringOrder texIndex s =
        (if scatteringOrder = atmo.scatteringOrdersToCompute ∧
            ((texIndex + 1) % 2 ^ 32 = atmo.allWavelengths.length ∨ opts.saveResultAsRadiance)
         then mergeAndSave sh opts atmo texIndex x else x) ∧
      BetweenStages x ∧ MergeReady x ∧
      Kept false
        ((if scatteringOrder > 2 ∨ (texIndex > 0 ∧ opts.saveResultAsRadiance = false) then v
          else 0) + accumulatedRadiance sh opts atmo scatteringOrder texIndex) x := by
  have hx1 : ∃ x1 : State T,
      (BetweenStages x1 ∧
        x1.accumulatedSingleScatteringTextures = s.accumulatedSingleScatteringTextures ∧
        (∀ t, t ≠ Texture.fixed TEX_DELTA_SCATTERING → x1.image t = s.image t) ∧
        x1.image (Texture.fixed TEX_DELTA_SCATTERING) =
          (if opts.dbgNoSaveTextures then s.image (Texture.fixed TEX_DELTA_SCATTERING)
           else sh.compute (Pass.computeMultipleScatteringFromDensity scatteringOrder texIndex)) ∧
        x1.trace = s.trace) ∧
      Kept true v x1 ∧
      computeMultipleScatteringFromDensity sh opts atmo scatteringOrder texIndex s =
        accumulateMultipleScattering sh opts atmo scatteringOrder texIndex x1 := by
    refine ⟨_, computeMultipleScatteringFromDensity_draw sh opts atmo scatteringOrder texIndex
      s hb _ rfl, ?_, rfl⟩
    have h4 := kept_layers opts
      (Pass.computeMultipleScatteringFromDensity scatteringOrder texIndex)
      (sh.compute (Pass.computeMultipleScatteringFromDensity scatteringOrder texIndex))
      (kept_check (kept_reattach (Texture.fixed TEX_DELTA_SCATTERING) (by decide) hk))
    exact kept_bind none (Or.inl (by decide)) (kept_ite _ (kept_save _ _ h4) h4)
  obtain ⟨x1, ⟨b1, -, -, d1, -⟩, k1, e1⟩ := hx1
  rw [hflag] at d1
  have hx2 : ∃ x2 : State T,
      (BetweenStages x2 ∧ MergeReady x2 ∧
        x2.accumulatedSingleScatteringTextures = x1.accumulatedSingleScatteringTextures ∧
        (∀ t, t ≠ Texture.fixed TEX_MULTIPLE_SCATTERING → x2.image t = x1.image t) ∧
        x2.image (Texture.fixed TEX_MULTIPLE_SCATTERING) = _ ∧
        x2.log.filter Event.tracked = x1.log.filter Event.tracked ++ _ ∧
        x2.log = _) ∧
      Guarded false x2 ∧
      accumulateMultipleScattering sh opts atmo scatteringOrder texIndex x1 =
        (if scatteringOrder = atmo.scatteringOrdersToCompute ∧
            ((texIndex + 1) % 2 ^ 32 = atmo.allWavelengths.length ∨ opts.saveResultAsRadiance)
         then mergeAndSave sh opts atmo texIndex x2 else x2) :=
    ⟨_, accumulateMultipleScattering_draw sh opts atmo scatteringOrder texIndex x1 b1 _ rfl,
      accumulateMultipleScattering_guarded sh opts atmo scatteringOrder texIndex x1 k1.2.1 _ rfl,
      rfl⟩
  obtain ⟨x2, ⟨b2, m2, -, -, v2, -, -⟩, g2, e2⟩ := hx2
  refine ⟨x2, e1.trans e2, b2, m2, ?_, g2⟩
  rw [v2, hflag, d1, k1.1, blendResult_one_one]
  simp only [Bool.false_eq_true, if_false, decide_eq_true_eq]
  rfl

theorem higherOrder_kept {T : Type} [AddCommMonoid T]
    (sh : Shaders T) (opts : Options) (atmo : AtmosphereParameters)
    (scatteringOrder texIndex : Nat) (detached : Bool) (v : T) (s : State T)
    (hflag : opts.dbgNoSaveTextures = false) (hb : BetweenStages s) (hk : Kept detached v s) :
    ∃ x : State T,
      higherOrder sh opts atmo texIndex s scatteringOrder =
        (if scatteringOrder = atmo.scatteringOrdersToCompute ∧
            ((texIndex + 1) % 2 ^ 32 = atmo.allWavelengths.length ∨ opts.saveResultAsRadiance)
         then mergeAndSave sh opts atmo texIndex x else x) ∧
      BetweenStages x ∧ MergeReady x ∧
      Kept false
        ((if scatteringOrder > 2 ∨ (texIndex > 0 ∧ opts.saveResultAsRadiance = false) then v
          else 0) + accumulatedRadiance sh opts atmo scatteringOrder texIndex) x := by
  obtain ⟨a1, -⟩ := computeScatteringDensity_quiet sh opts atmo scatteringOrder texIndex s hb
  obtain ⟨b1, -⟩ := computeIndirectIrradiance_quiet sh opts atmo scatteringOrder texIndex _ a1
  exact computeMultipleScatteringFromDensity_kept sh opts atmo scatteringOrder texIndex true v
    _ hflag b1 (computeIndirectIrradiance_kept sh opts atmo scatteringOrder texIndex
      (computeScatteringDensity_kept sh opts atmo scatteringOrder texIndex hk))

/-- The orders above 2 and below the last one add their copies to the accumulator. -/
theorem higherOrders_kept {T : Type} [AddCommMonoid T]
    (sh : Shaders T) (opts : Options) (atmo : AtmosphereParameters) (texIndex : Nat)
    (hflag : opts.dbgNoSaveTextures = false) (orders : List Nat)
    (hord : ∀ k ∈ orders, 2 < k ∧ k ≠ atmo.scatteringOrdersToCompute)
    (detached : Bool) (v : T) (s : State T) (hb : BetweenStages s) (hk : Kept detached v s) :
    BetweenStages (orders.foldl (higherOrder sh opts atmo texIndex) s) ∧
    Kept false
      (v + (orders.map fun k => accumulatedRadiance sh opts atmo k texIndex).sum)
      (orders.foldl (higherOrder sh opts atmo texIndex) s) := by
  induction orders generalizing detached v s with
  | nil =>
    refine ⟨hb, ?_⟩
    rw [List.map_nil, List.sum_nil, add_zero]
    exact kept_weaken hk
  | cons k rest ih =>
    obtain ⟨hk2, hkN⟩ := hord k (List.mem_cons_self _ _)
    obtain ⟨x, e, b, -, kx⟩ := higherOrder_kept sh opts atmo k texIndex detached v s hflag hb hk
    rw [if_neg (fun h => hkN h.1)] at e
    rw [if_pos (Or.inl hk2)] at kx
    rw [List.foldl_cons, e, List.map_cons, List.sum_cons, ← add_assoc]
    exact ih (fun j hj => hord j (List.mem_cons_of_mem _ hj)) false _ x b kx

theorem range'_orders (n : Nat) (h : 3 ≤ n) :
    List.range' 3 (n - 2) = List.range' 3 (n - 3) ++ [n] ∧
    List.range' 2 (n - 1) = 2 :: (List.range' 3 (n - 3) ++ [n]) := by
  obtain ⟨m, rfl⟩ : ∃ m, n = m + 3 := ⟨n - 3, by omega⟩
  have e1 : m + 3 - 2 = m + 1 := by omega
  have e2 : m + 3 - 3 = m := by omega
  have e3 : m + 3 - 1 = (m + 1) + 1 := by omega
  rw [e1, e2, e3, List.range'_succ 2 (m + 1), List.range'_concat]
  simp [add_comm]

/-- The accumulation of `computeMultipleScattering` for a wavelength subset: before the merge
and the save, the accumulator holds what it held (when the draw of order 2 blends) plus the
copies of the delta radiances of the orders `2, ..., scatteringOrdersToCompute`. -/
theorem computeMultipleScattering_kept {T : Type} [AddCommMonoid T]
    (sh : Shaders T) (opts : Options) (atmo : AtmosphereParameters) (texIndex : Nat)
    (detached : Bool) (v : T) (s : State T)
    (hN : 2 ≤ atmo.scatteringOrdersToCompute)
    (hflag : opts.dbgNoSaveTextures = false) (hb : BetweenStages s) (hk : Kept detached v s) :
    ∃ x : State T,
      computeMultipleScattering sh opts atmo texIndex s =
        (if (texIndex + 1) % 2 ^ 32 = atmo.allWavelengths.length ∨ opts.saveResultAsRadiance
         then mergeAndSave sh opts atmo texIndex x else x) ∧
      BetweenStages x ∧ MergeReady x ∧
      Kept false
        ((if texIndex > 0 ∧ opts.saveResultAsRadiance = false then v else 0) +
          accumulatedOrders sh opts atmo texIndex) x := by
  obtain ⟨a1, -⟩ := computeScatteringDensityOrder2_multiple sh opts atmo texIndex s hb
  have ak := computeScatteringDensityOrder2_kept sh opts atmo texIndex hk
  obtain ⟨x2, e2, b2, m2, k2⟩ := computeMultipleScatteringFromDensity_kept sh opts atmo 2
    texIndex true v _ hflag a1 ak
  have hbase : (if 2 > 2 ∨ (texIndex > 0 ∧ opts.saveResultAsRadiance = false) then v else 0) =
      (if texIndex > 0 ∧ opts.saveResultAsRadiance = false then v else 0) := by
    simp
  rw [hbase] at k2
  unfold computeMultipleScattering accumulatedOrders
  rcases Nat.eq_or_lt_of_le hN with h2 | h3
  · refine ⟨x2, ?_, b2, m2, ?_⟩
    · rw [← h2]
      rw [← h2] at e2
      simp only [true_and] at e2
      exact e2
    · rw [← h2]
      simpa using k2
  · have h3' : 3 ≤ atmo.scatteringOrdersToCompute := h3
    obtain ⟨r1, r2⟩ := range'_orders atmo.scatteringOrdersToCompute h3'
    rw [if_neg (fun h => absurd h.1 (by omega))] at e2
    have hord : ∀ k ∈ List.range' 3 (atmo.scatteringOrdersToCompute - 3),
        2 < k ∧ k ≠ atmo.scatteringOrdersToCompute := by
      intro k hk
      rw [List.mem_range'_1] at hk
      omega
    obtain ⟨b3, k3⟩ := higherOrders_kept sh opts atmo texIndex hflag _ hord false _ x2 b2 k2
    obtain ⟨x, e, b, m, kx⟩ := higherOrder_kept sh opts atmo atmo.scatteringOrdersToCompute
      texIndex false _ _ hflag b3 k3
    refine ⟨x, ?_, b, m, ?_⟩
    · simp only [true_and] at e
      simp only [r1, List.foldl_append, List.foldl_cons, List.foldl_nil, e2]
      exact e
    · rw [if_pos (Or.inl h3)] at kx
      rw [r2, List.map_cons, List.sum_cons, List.map_append, List.sum_append, List.map_cons,
        List.map_nil, List.sum_cons, List.sum_nil, add_zero]
      rw [add_assoc, add_assoc] at kx
      exact kx

/-- One turn of the loop of `main`: before the merge and the save of the accumulator. -/
theorem mainLoopBody_kept {T : Type} [AddCommMonoid T]
    (sh : Shaders T) (opts : Options) (atmo : AtmosphereParameters) (texIndex : Nat)
    (detached : Bool) (v : T) (s : State T)
    (hN : 2 ≤ atmo.scatteringOrdersToCompute)
    (hflag : opts.dbgNoSaveTextures = false) (hb : BetweenStages s) (hk : Kept detached v s) :
    ∃ x : State T,
      mainLoopBody sh opts atmo s texIndex =
        computeEclipsedDoubleScattering sh opts atmo texIndex
          (if (texIndex + 1) % 2 ^ 32 = atmo.allWavelengths.length ∨ opts.saveResultAsRadiance
           then mergeAndSave sh opts atmo texIndex x else x) ∧
      BetweenStages x ∧
      Kept false
        ((if texIndex > 0 ∧ opts.saveResultAsRadiance = false then v else 0) +
          accumulatedOrders sh opts atmo texIndex) x := by
  obtain ⟨a1, -⟩ := computeTransmittance_quiet sh atmo texIndex s hb
  obtain ⟨b1, -⟩ := computeDirectGroundIrradiance_quiet sh opts atmo texIndex _ a1
  obtain ⟨x, e, b, -, kx⟩ := computeMultipleScattering_kept sh opts atmo texIndex detached v _
    hN hflag b1 (computeDirectGroundIrradiance_kept sh opts atmo texIndex
      (computeTransmittance_kept sh atmo texIndex hk))
  refine ⟨x, ?_, b, kx⟩
  unfold mainLoopBody
  simp only [e]

theorem mainLoopBody_guarded {T : Type} [AddCommMonoid T]
    (sh : Shaders T) (opts : Options) (atmo : AtmosphereParameters) (texIndex : Nat)
    (detached : Bool) (v : T) (s : State T)
    (hN : 2 ≤ atmo.scatteringOrdersToCompute)
    (hflag : opts.dbgNoSaveTextures = false) (hb : BetweenStages s) (hk : Kept detached v s) :
    ∃ w, Kept false w (mainLoopBody sh opts atmo s texIndex) := by
  obtain ⟨x, e, -, kx⟩ := mainLoopBody_kept sh opts atmo texIndex detached v s hN hflag hb hk
  rw [e]
  split_ifs
  · exact ⟨_, computeEclipsedDoubleScattering_kept sh opts atmo texIndex
      ⟨rfl, mergeAndSave_guarded sh opts atmo texIndex x kx.2.1⟩⟩
  · exact ⟨_, computeEclipsedDoubleScattering_kept sh opts atmo texIndex kx⟩

theorem initialState_kept {T : Type} (image : Texture → T) :
    Kept true (image (Texture.fixed TEX_MULTIPLE_SCATTERING)) (initialState image) :=
  ⟨rfl, ⟨fun _ => by simp [initialState], fun _ h => by simp [initialState] at h⟩,
    fun h => by simp [initialState] at h⟩

/-- In luminance mode the accumulator holds, after the subsets before the last one, the sum
over the subsets processed of the sums over the orders. -/
theorem mainLoop_kept {T : Type} [AddCommMonoid T]
    (sh : Shaders T) (opts : Options) (atmo : AtmosphereParameters) (image : Texture → T)
    (hN : 2 ≤ atmo.scatteringOrdersToCompute)
    (hrange : atmo.allWavelengths.length < 2 ^ 32)
    (hflag : opts.dbgNoSaveTextures = false) (hr : opts.saveResultAsRadiance = false)
    (m : Nat) (hm : m < atmo.allWavelengths.length) :
    BetweenStages ((List.range m).foldl (mainLoopBody sh opts atmo) (initialState image)) ∧
    Kept false
      (if m = 0 then image (Texture.fixed TEX_MULTIPLE_SCATTERING)
       else ((List.range m).map (accumulatedOrders sh opts atmo)).sum)
      ((List.range m).foldl (mainLoopBody sh opts atmo) (initialState image)) := by
  induction m with
  | zero => exact ⟨initialState_betweenStages image, kept_weaken (initialState_kept image)⟩
  | succ m ih =>
    obtain ⟨b, k⟩ := ih (by omega)
    obtain ⟨x, e, bx, kx⟩ := mainLoopBody_kept sh opts atmo m false _ _ hN hflag b k
    have hcond : ¬ ((m + 1) % 2 ^ 32 = atmo.allWavelengths.length ∨
        opts.saveResultAsRadiance = true) := by
      rw [hr, Nat.mod_eq_of_lt (by omega)]
      simp only [Bool.false_eq_true, or_false]
      omega
    rw [if_neg hcond] at e
    rw [List.range_succ, List.foldl_append, List.foldl_cons, List.foldl_nil, e]
    refine ⟨(computeEclipsedDoubleScattering_quiet sh opts atmo m x bx).1, ?_⟩
    apply computeEclipsedDoubleScattering_kept
    rw [if_neg (Nat.succ_ne_zero m), List.map_append, List.sum_append, List.map_cons,
      List.map_nil, List.sum_cons, List.sum_nil, add_zero]
    by_cases h0 : m = 0
    · subst h0
      simpa using kx
    · rw [if_neg h0] at kx
      rw [if_pos ⟨Nat.pos_of_ne_zero h0, hr⟩] at kx
      exact kx

theorem mainLoop_guarded {T : Type} [AddCommMonoid T]
    (sh : Shaders T) (opts : Options) (atmo : AtmosphereParameters) (image : Texture → T)
    (hN : 2 ≤ atmo.scatteringOrdersToCompute)
    (hflag : opts.dbgNoSaveTextures = false) (m : Nat) :
    BetweenStages ((List.range m).foldl (mainLoopBody sh opts atmo) (initialState image)) ∧
    ∃ w, Kept false w
      ((List.range m).foldl (mainLoopBody sh opts atmo) (initialState image)) := by
  induction m with
  | zero => exact ⟨initialState_betweenStages image, _, kept_weaken (initialState_kept image)⟩
  | succ m ih =>
    obtain ⟨b, w, k⟩ := ih
    rw [List.range_succ, List.foldl_append, List.foldl_cons, List.foldl_nil]
    exact ⟨(mainLoopBody_multiple sh opts atmo m _ b).1,
      mainLoopBody_guarded sh opts atmo m false w _ hN hflag b k⟩

/-- C24, as the code has it, for a run with `dbgNoSaveTextures` not set, at least two orders
and at least one and fewer than `2^32` wavelength subsets. `computeMultipleScattering` goes
through the orders in increasing order: `computeScatteringDensityOrder2` and the delta
radiance and accumulation of order 2, then for each order `k = 3, ..., N` the scattering
density, the indirect irradiance, and the delta radiance with its accumulation; the run has
exactly one accumulation draw for each subset and each order `2, ..., N`, in this order.
Modelling textures as values: in luminance mode the accumulator holds after each subset
before the last one, and in the last subset before the merge of the Smooth scatterers, the
sum over the subsets processed and the orders `2, ..., N` of the copy of the delta radiance
through `radianceToLuminance(i)`; in radiance mode it holds in each subset, before the merge
and the save, the sum over the orders of the copy of the delta radiance of that subset. -/
theorem C24_accumulated_orders {T : Type} [AddCommMonoid T] (sh : Shaders T) (opts : Options)
    (atmo : AtmosphereParameters) (image : Texture → T)
    (hN : 2 ≤ atmo.scatteringOrdersToCompute)
    (hn : 1 ≤ atmo.allWavelengths.length)
    (hrange : atmo.allWavelengths.length < 2 ^ 32)
    (hflag : opts.dbgNoSaveTextures = false) :
    (∀ (texIndex : Nat) (s : State T),
      (computeMultipleScattering sh opts (startup opts atmo) texIndex s).outline =
        s.outline ++
          (computeScatteringDensityOrder2Events opts (startup opts atmo) texIndex ++
           computeMultipleScatteringFromDensityEvents opts (startup opts atmo) 2 texIndex ++
           (List.range' 3 (atmo.scatteringOrdersToCompute - 2)).flatMap fun scatteringOrder =>
            computeScatteringDensityEvents opts (startup opts atmo) scatteringOrder texIndex ++
            computeIndirectIrradianceEvents opts (startup opts atmo) scatteringOrder texIndex ++
            computeMultipleScatteringFromDensityEvents opts (startup opts atmo) scatteringOrder
              texIndex)) ∧
    (main sh opts atmo image).log.filter Event.accumulates =
      ((List.range atmo.allWavelengths.length).flatMap fun texIndex =>
        (List.range' 2 (atmo.scatteringOrdersToCompute - 1)).map fun scatteringOrder =>
          Event.draw (Pass.accumulateMultipleScattering scatteringOrder texIndex)
            (some (Texture.fixed TEX_MULTIPLE_SCATTERING))
            (decide (scatteringOrder > 2 ∨ (texIndex > 0 ∧ opts.saveResultAsRadiance = false)))
            GL_ONE GL_ONE) ∧
    (opts.saveResultAsRadiance = false →
      (∀ j, j + 1 < atmo.allWavelengths.length →
        ((List.range (j + 1)).foldl (mainLoopBody sh opts (startup opts atmo))
            (initialState image)).image (Texture.fixed TEX_MULTIPLE_SCATTERING) =
          ((List.range (j + 1)).map (accumulatedOrders sh opts (startup opts atmo))).sum) ∧
      ∃ x : State T,
        main sh opts atmo image =
          computeEclipsedDoubleScattering sh opts (startup opts atmo)
            (atmo.allWavelengths.length - 1)
            (mergeAndSave sh opts (startup opts atmo) (atmo.allWavelengths.length - 1) x) ∧
        x.image (Texture.fixed TEX_MULTIPLE_SCATTERING) =
          ((List.range atmo.allWavelengths.length).map
            (accumulatedOrders sh opts (startup opts atmo))).sum) ∧
    (opts.saveResultAsRadiance = true →
      ∀ j, j < atmo.allWavelengths.length →
        ∃ x : State T,
          (List.range (j + 1)).foldl (mainLoopBody sh opts (startup opts atmo))
              (initialState image) =
            computeEclipsedDoubleScattering sh opts (startup opts atmo) j
              (mergeAndSave sh opts (startup opts atmo) j x) ∧
          x.image (Texture.fixed TEX_MULTIPLE_SCATTERING) =
            accumulatedOrders sh opts (startup opts atmo) j) := by
  have hN' : 2 ≤ (startup opts atmo).scatteringOrdersToCompute := hN
  have hrange' : (startup opts atmo).allWavelengths.length < 2 ^ 32 := hrange
  refine ⟨fun texIndex s => ?_, ?_, fun hr => ⟨fun j hj => ?_, ?_⟩, fun hr j hj => ?_⟩
  · rw [computeMultipleScattering_outline]
    rfl
  · rw [main_accumulates, hflag]
    simp only [Bool.false_eq_true, if_false]
    have e : atmo.scatteringOrdersToCompute - 1 = (atmo.scatteringOrdersToCompute - 2) + 1 := by
      omega
    rw [e, List.range'_succ]
  · have h := (mainLoop_kept sh opts (startup opts atmo) image hN' hrange' hflag hr (j + 1)
      hj).2.1
    rw [if_neg (Nat.succ_ne_zero j)] at h
    exact h
  · obtain ⟨m, hm⟩ : ∃ m, atmo.allWavelengths.length = m + 1 := ⟨_, (Nat.sub_add_cancel hn).symm⟩
    have hm' : (startup opts atmo).allWavelengths.length = m + 1 := hm
    obtain ⟨b, k⟩ := mainLoop_kept sh opts (startup opts atmo) image hN' hrange' hflag hr m
      (by omega)
    obtain ⟨x, e, -, kx⟩ := mainLoopBody_kept sh opts (startup opts atmo) m false _ _ hN' hflag
      b k
    have hcond : (m + 1) % 2 ^ 32 = (startup opts atmo).allWavelengths.length ∨
        opts.saveResultAsRadiance = true := by
      left
      rw [hm', Nat.mod_eq_of_lt (by omega)]
    rw [if_pos hcond] at e
    refine ⟨x, ?_, ?_⟩
    · unfold main
      rw [hm, hm', Nat.add_sub_cancel, List.range_succ, List.foldl_append, List.foldl_cons,
        List.foldl_nil]
      exact e
    · rw [kx.1, hm, List.range_succ, List.map_append, List.sum_append, List.map_cons,
        List.map_nil, List.sum_cons, List.sum_nil, add_zero]
      by_cases h0 : m = 0
      · subst h0
        simp
      · rw [if_neg h0, if_pos ⟨Nat.pos_of_ne_zero h0, hr⟩]
  · obtain ⟨b, w, k⟩ := mainLoop_guarded sh opts (startup opts atmo) image hN' hflag j
    obtain ⟨x, e, -, kx⟩ := mainLoopBody_kept sh opts (startup opts atmo) j false w _ hN' hflag
      b k
    rw [if_pos (Or.inr hr)] at e
    refine ⟨x, ?_, ?_⟩
    · rw [List.range_succ, List.foldl_append, List.foldl_cons, List.foldl_nil]
      exact e
    · rw [kx.1, if_neg (fun h => by rw [hr] at h; exact absurd h.2 (by decide)), zero_add]

set_option maxRecDepth 100000 in
/-- C24, witness: a luminance-mode run over the three subsets of the small planet with the
scatterers `air`, `haze` and `mist` and four orders. In the last subset, before the merge of
`mist`, the accumulator holds the sum of the nine copies of delta radiances, which is 9. -/
theorem C24_accumulated_orders_witness :
    (2 ≤ mistyPlanet.scatteringOrdersToCompute ∧ 1 ≤ mistyPlanet.allWavelengths.length ∧
      mistyPlanet.allWavelengths.length < 2 ^ 32 ∧ plainOptions.dbgNoSaveTextures = false) ∧
    (∃ x : State ℚ,
      main unitShaders plainOptions mistyPlanet (fun _ => 7) =
        computeEclipsedDoubleScattering unitShaders plainOptions
          (startup plainOptions mistyPlanet) (mistyPlanet.allWavelengths.length - 1)
          (mergeAndSave unitShaders plainOptions (startup plainOptions mistyPlanet)
            (mistyPlanet.allWavelengths.length - 1) x) ∧
      x.image (Texture.fixed TEX_MULTIPLE_SCATTERING) =
        ((List.range mistyPlanet.allWavelengths.length).map
          (accumulatedOrders unitShaders plainOptions (startup plainOptions mistyPlanet))).sum) ∧
    ((List.range mistyPlanet.allWavelengths.length).map
      (accumulatedOrders unitShaders plainOptions (startup plainOptions mistyPlanet))).sum = 9 :=
  ⟨⟨by decide, by decide, by decide, rfl⟩,
    ((C24_accumulated_orders unitShaders plainOptions mistyPlanet (fun _ => 7) (by decide)
      (by decide) (by decide) rfl).2.2.1 rfl).2,
    by norm_num [accumulatedOrders, accumulatedRadiance, deltaRadiance, unitShaders, mistyPlanet,
      smallPlanet, threeGroups, startup, plainOptions, List.range_succ, List.range']⟩

set_option maxRecDepth 100000 in
/-- C24, counterexample: with `dbgNoSaveTextures` set, `render3DTexLayers` returns at once. In
a luminance-mode run with one subset, two orders and the scatterer `haze`, from textures that
hold 7, there is no accumulation draw; the accumulator is saved with the 7 that it held,
while the copy of the delta radiance of order 2 is 1. -/
theorem C24_counterexample :
    2 ≤ hazyPlanet.scatteringOrdersToCompute ∧ noSaveOptions.saveResultAsRadiance = false ∧
    (main unitShaders noSaveOptions hazyPlanet fun _ => 7).log.filter Event.accumulates = [] ∧
    (main unitShaders noSaveOptions hazyPlanet fun _ => 7).files.getLast? =
      some ("out/multiple-scattering-xyzw.f32", 7) ∧
    ((List.range hazyPlanet.allWavelengths.length).map
      (accumulatedOrders unitShaders noSaveOptions (startup noSaveOptions hazyPlanet))).sum =
        1 := by
  refine ⟨by decide, rfl, rfl, rfl, ?_⟩
  norm_num [accumulatedOrders, accumulatedRadiance, deltaRadiance, unitShaders, hazyPlanet,
    smallPlanet, startup, noSaveOptions, plainOptions, List.range_succ, List.range']

namespace Ieee
open Value

theorem div_nan_right (round : ℚ → Value) (x : Value) : div round x nan = nan := by
  cases x <;> rfl

/-- Where a divisor is zero the two functions differ: for the small planet and the texture
coordinate -1/2 the divisor `1 + A*texCoord` is zero, the local `a` is an infinity on floats,
`std::min(a, A)` is `A`, and the value is -2/5, while the quotient by zero of the rationals
is 0 and gives 1. -/
theorem unitRangeTexCoordToCosSZA_divisor_zero :
    unitRangeTexCoordToCosSZA exact (ofRational smallPlanet) (exact (-1/2)) = exact (-2/5) ∧
    CalcMySky.unitRangeTexCoordToCosSZA smallPlanet (-1/2) = 1 := by
  constructor
  · norm_num [unitRangeTexCoordToCosSZA, distFromGroundToTopAtmoBorder, cosSZAQuotient,
      ofRational, smallPlanet, exact, sub, add, neg, div, mul, min, lt, isZero, clampCosine,
      sqr, Value.sign]
  · norm_num [CalcMySky.unitRangeTexCoordToCosSZA, CalcMySky.distFromGroundToTopAtmoBorder,
      CalcMySky.cosSZAQuotient, CalcMySky.clampCosine, CalcMySky.sqr, smallPlanet]

end Ieee

namespace Util

theorem toUint16_three_halves : toUint16 (3/2) = some 1 := by
  have hfloor : ⌊(3/2 : ℚ)⌋ = 1 := by
    rw [Int.floor_eq_iff]
    norm_num
  unfold toUint16
  rw [if_pos (by norm_num), hfloor]
  rfl

theorem toUint16_two : toUint16 2 = some 2 :=
  toUint16_natCast 2 (by decide)

end Util

/-- C14 fails for sizes that are not whole numbers: a texture of 3 by 1 texels that fits the
buffer, saved with the sizes `(1.5, 2)`. Both entries are in `[0, 65535]` and their product is
`3 = w*h*d`, but the conversion to `uint16_t` truncates 1.5 to 1: the header values are 1 and
2, and their product times 4 times 4 is 32, while the file has 48 bytes after its header. -/
theorem C14_counterexample :
    (∀ x ∈ ([3/2, 2] : List ℚ), 0 ≤ x ∧ x ≤ 65535) ∧
    ([3/2, 2] : List ℚ).prod =
      ((Util.texWidth whiteRow * Util.texHeight Util.TextureTarget.GL_TEXTURE_2D whiteRow *
        Util.texDepth Util.TextureTarget.GL_TEXTURE_2D whiteRow : Nat) : ℚ) ∧
    whiteRow.pixels.length ≤ smallBuffer.length ∧
    Util.sizesHeader [3/2, 2] = some [1, 2] ∧
    ∃ file, Util.saveTexture Util.TextureTarget.GL_TEXTURE_2D whiteRow [3/2, 2] smallBuffer =
        some file ∧
      file = ([1, 2] : List Nat).flatMap Util.bytes16 ++
        whiteRow.pixels.flatMap Util.GLfloat.bytes ∧
      ([1, 2] : List Nat).prod * 4 * 4 = 32 ∧ file.length - 2 * 2 = 48 ∧
      ([1, 2] : List Nat).prod * 4 * 4 ≠ file.length - 2 * ([1, 2] : List Nat).length := by
  have hheader : Util.sizesHeader [3/2, 2] = some [1, 2] := by
    simp [Util.sizesHeader, Util.toUint16_three_halves, Util.toUint16_two]
  refine ⟨?_, ?_, by decide, hheader, _, ?_, rfl, by decide, by decide, by decide⟩
  · intro x hx
    simp only [List.mem_cons, List.mem_singleton, List.not_mem_nil, or_false] at hx
    rcases hx with rfl | rfl <;> norm_num
  · norm_num [Util.texWidth, Util.texHeight, Util.texDepth, whiteRow]
  · rw [Util.saveTexture_eq _ _ _ _ (by decide) (by decide) (by decide), hheader]
    rfl

end CalcMySky
